import Mathlib

/-!
# ReplCoreServer: the terminal server (`setupDockerRustWebSocketShell.js`)

A shallow embedding of the WebSocket terminal server.  The server is a
single-threaded event loop: every handler runs until it returns or reaches an
`await`, where it is suspended and other handlers may run.  The embedding is a
step function on an explicit state.  The state holds the three module-level
maps (`clients`, `terminals`, `pendingCleanups`), the session objects they
point to, the variables captured by each connection's closures, the armed
timers, the suspended handlers and the trace of external calls issued so far.
The environment (message arrival, results of the container runtime and of the
file system, process output, timers expiring) is the event argument.

Conventions of the embedding:
* an awaited call is one external call (recorded in the trace when it is
  issued) and one later event that carries its result; `createContainer` and
  `checkContainerReadiness` are awaited as a whole;
* time is not measured: an armed timer may fire at any turn, a cleared or
  fired timer never fires again;
* `console.log` and `console.error` are left out;
* `fs.mkdirSync`, `pty.spawn`, `spawn` and `ws.send` are taken not to throw;
* a message field that holds JSON `null` is not distinguished from an absent
  field where the handler treats the two alike: `uuid`, `cols`, `rows` and
  `command` are read with `||`, and `fs.writeFileSync` refuses the `cargoToml`
  or `mainRs` of executeCommand when it is `null` as when it is absent (the
  text of its TypeError then ends in `null`, not in `undefined`).  The fields
  `mainRs` and `cargoToml` of updateFile, which the handler tests with
  `!== undefined`, are a `Field`, with `null` apart from absent.
-/

namespace TerminalServer

/-! ## Identifiers -/

abbrev ClientId := String
/-- A connection (`ws`).  `terminalId = uuidv4()` is created once per
connection and is unique, so it is identified with the connection. -/
abbrev Ws := Nat
/-- Reference to a session object (the value stored in `clients`). -/
abbrev Ref := Nat
abbrev Pid := Nat
abbrev PtyId := Nat
abbrev TimerId := Nat
abbrev TaskId := Nat
abbrev ReqId := Nat

/-! ## JavaScript `Map` and `Set`

A `Map` is an association list in insertion order; `set` on a present key
replaces the value in place, as in JavaScript. -/

section JSMap
variable {κ : Type} {ν : Type} [DecidableEq κ]

def mapGet : List (κ × ν) → κ → Option ν
  | [], _ => none
  | (k', v) :: m, k => if k' = k then some v else mapGet m k

def mapHas (m : List (κ × ν)) (k : κ) : Bool := (mapGet m k).isSome

def mapSet : List (κ × ν) → κ → ν → List (κ × ν)
  | [], k, v => [(k, v)]
  | (k', v') :: m, k, v => if k' = k then (k, v) :: m else (k', v') :: mapSet m k v

def mapDelete : List (κ × ν) → κ → List (κ × ν)
  | [], _ => []
  | (k', v') :: m, k => if k' = k then mapDelete m k else (k', v') :: mapDelete m k

end JSMap

/-- A JavaScript `Set` of connections: insertion ordered, without repetition. -/
structure JSSet where
  elems : List Ws
  nodup : elems.Nodup

instance : DecidableEq JSSet := fun a b =>
  match a, b with
  | ⟨l₁, _⟩, ⟨l₂, _⟩ =>
    if h : l₁ = l₂ then isTrue (by subst h; rfl)
    else isFalse (fun h' => h (by cases h'; rfl))

namespace JSSet

def empty : JSSet := ⟨[], List.nodup_nil⟩

def add (s : JSSet) (w : Ws) : JSSet :=
  if h : w ∈ s.elems then s
  else ⟨s.elems ++ [w], by
    apply List.Nodup.append s.nodup (List.nodup_singleton w)
    intro a ha hb
    simp at hb
    subst hb
    exact h ha⟩

def delete (s : JSSet) (w : Ws) : JSSet :=
  ⟨s.elems.filter (fun x => x ≠ w), s.nodup.filter _⟩

def size (s : JSSet) : Nat := s.elems.length

def has (s : JSSet) (w : Ws) : Bool := decide (w ∈ s.elems)

end JSSet

/-! ## Strings -/

/-- The method `String.prototype.toLowerCase` on text whose cased letters are
ASCII: the letters A-Z are lower-cased and every other character is kept.
The method also lower-cases the cased letters outside ASCII, which this
function keeps; the two agree on the ids that are UUIDs or otherwise ASCII,
and the concrete ids of this development are ASCII. -/
def toLowerCase (s : String) : String := ⟨s.data.map Char.toLower⟩

/-- JavaScript truthiness of an optional string: `undefined` and `""` are falsy. -/
def truthy : Option String → Bool
  | none => false
  | some s => s ≠ ""

def WORKSPACE_BASE : String := "./docker_workspaces"

/-- The container name derived from a tenant id (lines 31, 223, 292). -/
def containerNameOf (clientId : ClientId) : String :=
  "rust-workspace-" ++ toLowerCase clientId

/-- The workspace path derived from a tenant id (line 291). -/
def workspaceOf (clientId : ClientId) : String :=
  WORKSPACE_BASE ++ "/" ++ clientId

/-- A field of an updateFile message, whose presence the handler tests with
`!== undefined` (lines 607, 617, 630, 637): absent, JSON `null`, or a string. -/
inductive Field
  | absent
  | null
  | text (s : String)
  deriving DecidableEq, Repr

/-! ## Messages and external calls -/

/-- The status carried by a `runStatus` message. -/
inductive RunStatus
  /-- The text 'Command sent to terminal' (line 513). -/
  | commandSent
  /-- The text 'Exited with code ' followed by the exit code (line 549). -/
  | exited (code : Option Int)
  /-- The text 'Process stopped' (lines 565, 575). -/
  | stopped
  deriving DecidableEq, Repr

/-- The payloads handed to `ws.send`, by their `type` field. -/
inductive Msg
  | status (status : String) (message : String)
  | statusDetails (ready : Bool) (details : String)
  | error (message : String) (details : Option String)
  | connected (dockerCreated : Bool) (isExistingContainer : Bool)
      (terminalId : Ws) (clientId : Option ClientId)
  | output (data : String)
  | runOutput (output : String)
  | runError (error : String)
  | runStatus (status : RunStatus)
  | fileUpdated (file : String)
  /-- The content `none` is `null`. -/
  | fileChanged (file : String) (content : Option String)
  deriving DecidableEq, Repr

/-- The body of an HTTP response of the one-shot endpoint. -/
inductive ResBody
  | error (text : String)
  | result (success : Bool) (stdout stderr : String) (exitCode : Option Int)
  deriving DecidableEq, Repr

/-- Calls that leave the process: socket sends, timers, file system, container
runtime, child processes, pseudo-terminals, HTTP responses. -/
inductive Effect
  | send (ws : Ws) (m : Msg)
  | setTimeout (t : TimerId) (delayMs : Nat)
  | clearTimeout (t : TimerId)
  | mkdir (path : String)
  | writeFile (path : String) (content : Option String)
  | rmSync (path : String)
  | dockerExecStatus (containerName : String)
  | createContainer (clientId : ClientId) (workspacePath : String)
  | checkReadiness (containerName : String)
  | dockerCp (containerName source dest : String)
  | dockerStop (containerName : String)
  | spawn (pid : Pid) (containerName : String) (command : String)
  | procKill (pid : Pid) (signal : Option String)
  | ptySpawn (pty : PtyId) (containerName : String) (cols rows : Nat)
  | ptyWrite (pty : PtyId) (data : String)
  | ptyResize (pty : PtyId) (cols rows : Nat)
  | ptyKill (pty : PtyId)
  | respond (req : ReqId) (code : Nat) (body : ResBody)
  /-- An exception that no handler catches: `res.json` after the headers were sent. -/
  | uncaught (req : ReqId) (message : String)
  deriving DecidableEq, Repr

/-! ## State -/

/-- A session object: the value stored in `clients` (lines 363-368). -/
structure Client where
  containerName : String
  workspace : String
  connections : JSSet
  process : Option Pid
  deriving DecidableEq

/-- An entry of `terminals` (lines 384-389). -/
structure Terminal where
  ws : Ws
  ptyProcess : Option PtyId
  containerName : Option String
  clientId : Option ClientId
  deriving DecidableEq, Repr

/-- The variables of one connection's closure (lines 277-281), with the state
of its socket. -/
structure Conn where
  containerName : Option String
  clientId : Option ClientId
  ptyProcess : Option PtyId
  clientWorkspace : Option String
  /-- Whether `ws.readyState === WebSocket.OPEN`. -/
  readyOpen : Bool
  /-- The `close` event has been delivered. -/
  closed : Bool
  deriving DecidableEq, Repr

/-- Who listens to a spawned child process. -/
inductive ProcOwner
  /-- The `client.process` of a session: handlers of lines 528-553, which capture `client`. -/
  | session (client : Ref)
  /-- The `commandProcess` of a one-shot request (line 148). -/
  | oneShot (req : ReqId)
  /-- The process of line 361, which nobody listens to. -/
  | detached
  deriving DecidableEq, Repr

structure Proc where
  owner : ProcOwner
  /-- A signal has been sent with `kill`. -/
  signalled : Bool
  /-- The `close` event has been delivered. -/
  exited : Bool
  deriving DecidableEq, Repr

/-- What an armed timer will run. -/
inductive TimerAction
  /-- The callback of `scheduleCleanup` (lines 211-234). -/
  | cleanup (clientId : ClientId) (workspacePath : Option String)
  /-- The 500 ms callback of lines 508-517, which captures `client`. -/
  | commandSent (client : Ref)
  /-- The 30 s callback of lines 171-176. -/
  | oneShotTimeout (req : ReqId) (pid : Pid)
  deriving DecidableEq, Repr

/-- A handler suspended at an `await`, with the constants it captured.  The
connection's closure variables are not captured: they are read again from the
connection when the handler resumes. -/
inductive Task
  /-- Line 314: `await getContainerStatus(containerName)` in connect. -/
  | connectStatus (ws : Ws) (cols rows : Option Nat)
  /-- Line 324: `await checkContainerReadiness(containerName)` in connect. -/
  | connectReadiness (ws : Ws) (cols rows : Option Nat)
  /-- Line 352: `await createContainer(clientId, clientWorkspace)` in connect. -/
  | connectCreate (ws : Ws) (cols rows : Option Nat)
  /-- Line 442: `await getContainerStatus(containerName)` in checkContainerStatus. -/
  | checkStatus (ws : Ws)
  /-- Line 477: `await getContainerStatus(client.containerName)` in executeCommand. -/
  | execStatus (ws : Ws) (client : Ref) (cargoToml mainRs command : Option String)
  /-- Line 492: first `await copyToContainer` in executeCommand. -/
  | execCopyCargo (ws : Ws) (client : Ref) (command : Option String)
  /-- Line 493: second `await copyToContainer` in executeCommand. -/
  | execCopyMain (ws : Ws) (client : Ref) (command : Option String)
  /-- Line 597: `await getContainerStatus(client.containerName)` in updateFile. -/
  | updateStatus (ws : Ws) (client : Ref) (mainRs cargoToml : Field)
  /-- Line 609: `await copyToContainer` of src/main.rs in updateFile. -/
  | updateCopyMain (ws : Ws) (client : Ref) (mainRs cargoToml : Field)
  /-- Line 619: `await copyToContainer` of Cargo.toml in updateFile. -/
  | updateCopyCargo (ws : Ws) (client : Ref) (mainRs cargoToml : Field)
  /-- Line 223: `await removeContainer(...)` in the cleanup timer callback. -/
  | cleanupStop (clientId : ClientId) (workspacePath : Option String)
  /-- Line 139: `await getContainerStatus(containerName)` in the one-shot endpoint. -/
  | oneShotStatus (req : ReqId) (containerName : String) (command : String)
  deriving DecidableEq, Repr

/-- A one-shot HTTP request: the accumulated output and `res.headersSent`. -/
structure Request where
  stdout : String
  stderr : String
  headersSent : Bool
  deriving DecidableEq, Repr

structure State where
  /-- The map `clients`: tenant id to session object; the key `none` is `null`. -/
  clients : List (Option ClientId × Ref)
  /-- The session objects ever created, by reference. -/
  heap : List Client
  /-- The map `terminals`: terminal id to terminal record. -/
  terminals : List (Ws × Terminal)
  /-- The map `pendingCleanups`: tenant id to timer. -/
  pendingCleanups : List (ClientId × TimerId)
  /-- The connections accepted so far, by index. -/
  conns : List Conn
  /-- The child processes spawned so far, by index. -/
  procs : List Proc
  /-- The pseudo-terminals spawned so far: the owning connection, by index. -/
  ptys : List Ws
  /-- The timers armed and neither fired nor cleared. -/
  timers : List (TimerId × TimerAction)
  nextTimer : TimerId
  /-- The suspended handlers. -/
  tasks : List (TaskId × Task)
  nextTask : TaskId
  /-- The one-shot requests received so far, by index. -/
  requests : List Request
  /-- Every external call issued so far, oldest first. -/
  trace : List Effect
  deriving DecidableEq

def init : State :=
  { clients := [], heap := [], terminals := [], pendingCleanups := [], conns := [],
    procs := [], ptys := [], timers := [], nextTimer := 0, tasks := [], nextTask := 0,
    requests := [], trace := [] }

/-! ## Environment -/

/-- Results of the synchronous file-system calls made while a handler runs. -/
structure SyncEnv where
  /-- Result of `fs.existsSync(clientWorkspace)` (line 296). -/
  wsDirExists : Bool
  /-- Result of `fs.existsSync(clientWorkspace + "/src")` (line 299). -/
  srcDirExists : Bool
  /-- Error thrown by `fs.writeFileSync` of src/main.rs, if any. -/
  writeMainErr : Option String
  /-- Error thrown by `fs.writeFileSync` of Cargo.toml, if any. -/
  writeCargoErr : Option String
  /-- Error thrown by `fs.rmSync`, if any. -/
  rmErr : Option String

/-- The file system answers without error and the directories exist. -/
def SyncEnv.ok : SyncEnv := ⟨true, true, none, none, none⟩

/-- How an awaited promise settles. -/
inductive Outcome
  /-- The promise of `getContainerStatus` resolves (it never rejects, lines 254-275). -/
  | status (ready : Bool) (details : String)
  /-- Any other promise: resolved (`none`) or rejected with an error message. -/
  | settled (err : Option String)

/-- A parsed message, by its `type` field. -/
inductive Data
  | connect (uuid : Option String) (cols rows : Option Nat)
  | input (data : String)
  | resize (cols rows : Nat)
  | checkContainerStatus
  /-- A field that is `none` is absent from the message (`undefined`) or `null`. -/
  | executeCommand (cargoToml mainRs command : Option String)
  | stopCommand
  | updateFile (mainRs cargoToml : Field)
  /-- Any other `type`: no branch of the handler applies. -/
  | other
  /-- Text for which `JSON.parse` throws. -/
  | malformed (err : String)

inductive Event
  /-- A client opens a socket: `terminalWss.on("connection")` (line 276). -/
  | connection
  /-- The event `ws.on("message")` (line 283). -/
  | message (ws : Ws) (data : Data) (env : SyncEnv)
  /-- The socket leaves the OPEN state; its `close` event is not yet delivered. -/
  | wsDrop (ws : Ws)
  /-- The event `ws.on("close")` (line 664). -/
  | close (ws : Ws)
  /-- The promise a suspended handler awaits settles and the handler resumes. -/
  | resume (t : TaskId) (o : Outcome) (env : SyncEnv)
  /-- An armed timer expires. -/
  | timerFire (t : TimerId)
  | procStdout (pid : Pid) (chunk : String)
  | procStderr (pid : Pid) (chunk : String)
  | procClose (pid : Pid) (code : Option Int)
  /-- The event `ptyProcess.onData` (line 391). -/
  | ptyData (pty : PtyId) (data : String)
  /-- A request `POST /api/run-command` (line 115). -/
  | request (clientId command : Option String)

/-! ## Primitive state changes -/

def CLEANUP_DELAY : Nat := 5 * 60 * 1000

def emit (s : State) (e : Effect) : State := { s with trace := s.trace ++ [e] }

def emits (s : State) (es : List Effect) : State := { s with trace := s.trace ++ es }

def send (s : State) (ws : Ws) (m : Msg) : State := emit s (.send ws m)

def nullConn : Conn :=
  { containerName := none, clientId := none, ptyProcess := none, clientWorkspace := none,
    readyOpen := false, closed := true }

def getConn (s : State) (ws : Ws) : Conn := (s.conns[ws]?).getD nullConn

/-- Assign closure variables of a connection. -/
def updConn (s : State) (ws : Ws) (f : Conn → Conn) : State :=
  { s with conns := match s.conns[ws]? with
      | some c => s.conns.set ws (f c)
      | none => s.conns }

/-- Assign fields of a session object. -/
def updClient (s : State) (r : Ref) (f : Client → Client) : State :=
  { s with heap := match s.heap[r]? with
      | some c => s.heap.set r (f c)
      | none => s.heap }

def updProc (s : State) (pid : Pid) (f : Proc → Proc) : State :=
  { s with procs := match s.procs[pid]? with
      | some p => s.procs.set pid (f p)
      | none => s.procs }

/-- A signal has been sent to the process. -/
def markSignalled (s : State) (pid : Pid) : State :=
  updProc s pid (fun p => { p with signalled := true })

/-- The process has exited and its `close` event is delivered. -/
def markExited (s : State) (pid : Pid) : State :=
  updProc s pid (fun p => { p with exited := true })

def updRequest (s : State) (req : ReqId) (f : Request → Request) : State :=
  { s with requests := match s.requests[req]? with
      | some p => s.requests.set req (f p)
      | none => s.requests }

/-- The session object `clients.get(clientId)`; the key `none` is JavaScript `null`. -/
def getClient (s : State) (clientId : Option ClientId) : Option (Ref × Client) :=
  match mapGet s.clients clientId with
  | some r => (s.heap[r]?).map (fun c => (r, c))
  | none => none

/-- The test `connection.readyState === WebSocket.OPEN`. -/
def isOpen (s : State) (ws : Ws) : Bool := (getConn s ws).readyOpen

/-- The sends of the loop `client.connections.forEach(c => if (c.readyState === OPEN) c.send(m))`
(lines 530-534, 539-543, 547-551, 563-567, 573-577, 509-516). -/
def broadcastEffects (s : State) (r : Ref) (m : Msg) : List Effect :=
  match s.heap[r]? with
  | some c => (c.connections.elems.filter (isOpen s)).map (fun w => Effect.send w m)
  | none => []

def broadcast (s : State) (r : Ref) (m : Msg) : State := emits s (broadcastEffects s r m)

/-- The statement `pendingCleanups.delete(clientId)`. -/
def delPending (s : State) (clientId : ClientId) : State :=
  { s with pendingCleanups := mapDelete s.pendingCleanups clientId }

/-- The statement `pendingCleanups.set(clientId, timerId)`. -/
def setPending (s : State) (clientId : ClientId) (t : TimerId) : State :=
  { s with pendingCleanups := mapSet s.pendingCleanups clientId t }

/-- The statement `clients.delete(clientId)`. -/
def delClient (s : State) (clientId : Option ClientId) : State :=
  { s with clients := mapDelete s.clients clientId }

/-- The statement `clients.set(clientId, client)` with a new session object. -/
def registerClient (s : State) (clientId : Option ClientId) (client : Client) : State :=
  { s with heap := s.heap ++ [client], clients := mapSet s.clients clientId s.heap.length }

/-- The statement `terminals.set(terminalId, terminal)`. -/
def setTerminal (s : State) (ws : Ws) (terminal : Terminal) : State :=
  { s with terminals := mapSet s.terminals ws terminal }

/-- The statement `terminals.delete(terminalId)`. -/
def delTerminal (s : State) (ws : Ws) : State :=
  { s with terminals := mapDelete s.terminals ws }

/-- A child process starts; its handle is its index. -/
def addProc (s : State) (p : Proc) : State := { s with procs := s.procs ++ [p] }

/-- A pseudo-terminal starts for a connection; its handle is its index. -/
def addPty (s : State) (ws : Ws) : State := { s with ptys := s.ptys ++ [ws] }

def addRequest (s : State) (q : Request) : State := { s with requests := s.requests ++ [q] }

def addConn (s : State) (c : Conn) : State := { s with conns := s.conns ++ [c] }

/-- A suspended handler leaves the list when it resumes. -/
def takeTask (s : State) (t : TaskId) : State := { s with tasks := mapDelete s.tasks t }

/-- A timer leaves the armed timers: it fires or is cleared. -/
def dropTimer (s : State) (t : TimerId) : State := { s with timers := mapDelete s.timers t }

/-- Suspend the running handler at an `await`. -/
def suspend (s : State) (t : Task) : State :=
  { s with tasks := s.tasks ++ [(s.nextTask, t)], nextTask := s.nextTask + 1 }

/-- The call `setTimeout(callback, delay)`. -/
def setTimeout (s : State) (a : TimerAction) (delayMs : Nat) : State :=
  emit { s with timers := s.timers ++ [(s.nextTimer, a)], nextTimer := s.nextTimer + 1 }
    (.setTimeout s.nextTimer delayMs)

/-- The call `clearTimeout(t)`: a timer that is not armed is left alone. -/
def clearTimeout (s : State) (t : TimerId) : State :=
  emit (dropTimer s t) (.clearTimeout t)

/-- The function `cancelCleanup` (lines 239-245). -/
def cancelCleanup (s : State) (clientId : ClientId) : State :=
  match mapGet s.pendingCleanups clientId with
  | some t => delPending (clearTimeout s t) clientId
  | none => s

/-- The function `scheduleCleanup` (lines 206-237); the callback is `cleanupFire`. -/
def scheduleCleanup (s : State) (clientId : ClientId) (workspacePath : Option String) :
    State :=
  let s := cancelCleanup s clientId
  let timerId := s.nextTimer
  let s := setTimeout s (.cleanup clientId workspacePath) CLEANUP_DELAY
  setPending s clientId timerId

/-- The statement `if (client.process) { client.process.kill("SIGTERM"); client.process = null }`
(lines 218-221, 498-501, 520-523). -/
def killProcess (s : State) (r : Ref) : State :=
  match (s.heap[r]?).bind (fun c => c.process) with
  | some pid =>
    let s := emit s (.procKill pid (some "SIGTERM"))
    let s := markSignalled s pid
    updClient s r (fun c => { c with process := none })
  | none => s

/-- JavaScript `x || d` on an optional number. -/
def orDefault (x : Option Nat) (d : Nat) : Nat :=
  match x with
  | some 0 => d
  | some n => n
  | none => d

/-- JavaScript `command || 'run'` (lines 504, 525). -/
def cargoCommand (command : Option String) : String :=
  if truthy command then command.getD "" else "run"

/-- Message of the TypeError thrown by `client.connections` when `client` is undefined. -/
def undefinedClientError : String :=
  "Cannot read properties of undefined (reading 'connections')"

/-! ## The message handler (lines 283-662) -/

/-- Lines 371-404 of connect: attach the connection to the session and open
its interactive shell.  A missing session makes `client.connections` throw,
which the `catch` of line 405 reports. -/
def attach (s : State) (ws : Ws) (cols rows : Option Nat) (isExisting : Bool) : State :=
  let c := getConn s ws
  match mapGet s.clients c.clientId with
  | none => send s ws (.error "Failed to create or connect to workspace" (some undefinedClientError))
  | some r =>
    let s := updClient s r (fun cl => { cl with connections := cl.connections.add ws })
    let pty := s.ptys.length
    let s := emit (addPty s ws)
      (.ptySpawn pty (c.containerName.getD "null") (orDefault cols 80) (orDefault rows 24))
    let s := updConn s ws (fun c => { c with ptyProcess := some pty })
    let terminal : Terminal :=
      { ws := ws, ptyProcess := some pty, containerName := c.containerName, clientId := c.clientId }
    let s := setTerminal s ws terminal
    send s ws (.connected true isExisting ws c.clientId)

/-- Lines 296-302 of connect: the workspace directories are created when missing. -/
def mkdirEffects (env : SyncEnv) (clientId : ClientId) : List Effect :=
  if env.wsDirExists then []
  else if env.srcDirExists then [.mkdir (workspaceOf clientId)]
  else [.mkdir (workspaceOf clientId), .mkdir (workspaceOf clientId ++ "/src")]

/-- Lines 287-353 and 413-420 of connect, up to the first `await`. -/
def connectStart (s : State) (ws : Ws) (uuid : Option String) (cols rows : Option Nat)
    (env : SyncEnv) : State :=
  if truthy uuid then
    let clientId := uuid.getD ""
    let s := updConn s ws (fun c => { c with
      clientId := some clientId, clientWorkspace := some (workspaceOf clientId),
      containerName := some (containerNameOf clientId) })
    let s := cancelCleanup s clientId
    let s := emits s (mkdirEffects env clientId)
    match getClient s (some clientId) with
    | some (_, existingClient) =>
      let s := updConn s ws (fun c => { c with
        containerName := some existingClient.containerName,
        clientWorkspace := some existingClient.workspace })
      suspend (emit s (.dockerExecStatus existingClient.containerName)) (.connectStatus ws cols rows)
    | none =>
      let s := send s ws (.status "container_creating"
        "Creating new Docker container and installing dependencies...")
      suspend (emit s (.createContainer clientId (workspaceOf clientId))) (.connectCreate ws cols rows)
  else
    let s := updConn s ws (fun c => { c with clientId := none })
    send s ws (.connected false false ws none)

/-- Lines 316-344 of connect: after `getContainerStatus` has answered. -/
def connectAfterStatus (s : State) (ws : Ws) (cols rows : Option Nat) (ready : Bool) : State :=
  if ready then
    let s := send s ws (.status "container_ready"
      "Container is ready with all dependencies installed")
    attach s ws cols rows true
  else
    let s := send s ws (.status "container_initializing"
      "Container exists but dependencies are still being installed...")
    suspend (emit s (.checkReadiness ((getConn s ws).containerName.getD "null")))
      (.connectReadiness ws cols rows)

/-- Lines 325-337 of connect: after `checkContainerReadiness` has settled. -/
def connectAfterReadiness (s : State) (ws : Ws) (cols rows : Option Nat)
    (err : Option String) : State :=
  match err with
  | none =>
    let s := send s ws (.status "container_ready"
      "Container is now ready with all dependencies installed")
    attach s ws cols rows true
  | some e => send s ws (.error "Failed to initialize container" (some e))

/-- Lines 354-368 of connect: after `createContainer` has settled.  The
`await` of line 361 is on a value that is not a promise: the handler continues
in the same turn of the event loop. -/
def connectAfterCreate (s : State) (ws : Ws) (cols rows : Option Nat)
    (err : Option String) : State :=
  match err with
  | some e => send s ws (.error "Failed to create or connect to workspace" (some e))
  | none =>
    let s := send s ws (.status "container_ready"
      "Container is ready with all dependencies installed")
    let c := getConn s ws
    let s := emit (addProc s ⟨.detached, false, false⟩)
      (.spawn s.procs.length (c.containerName.getD "null") "cd /usr/src/app")
    let client : Client :=
      { containerName := c.containerName.getD "null", workspace := c.clientWorkspace.getD "null",
        connections := JSSet.empty, process := none }
    let s := registerClient s c.clientId client
    attach s ws cols rows false

/-- Lines 421-434: input. -/
def onInput (s : State) (ws : Ws) (data : String) : State :=
  let c := getConn s ws
  let s := match c.clientId with
    | some clientId => cancelCleanup s clientId
    | none => s
  match c.ptyProcess with
  | some pty => emit s (.ptyWrite pty data)
  | none => send s ws
      (.error "No terminal process available, Docker container was not created" none)

/-- Lines 435-438: resize. -/
def onResize (s : State) (ws : Ws) (cols rows : Nat) : State :=
  match (getConn s ws).ptyProcess with
  | some pty => emit s (.ptyResize pty cols rows)
  | none => s

/-- Lines 439-461: checkContainerStatus, up to the `await`. -/
def checkStatusStart (s : State) (ws : Ws) : State :=
  let c := getConn s ws
  match c.clientId, c.containerName with
  | some _, some containerName =>
    suspend (emit s (.dockerExecStatus containerName)) (.checkStatus ws)
  | _, _ => send s ws (.error "No container available to check status" none)

def invalidClientError : Msg :=
  .error "Invalid client ID, Docker container was not created, or session expired" none

/-- Lines 462-477: executeCommand, up to the first `await`. -/
def execStart (s : State) (ws : Ws) (cargoToml mainRs command : Option String) : State :=
  let c := getConn s ws
  let s := match c.clientId with
    | some clientId => cancelCleanup s clientId
    | none => s
  if c.clientId.isSome && mapHas s.clients c.clientId then
    match getClient s c.clientId with
    | some (r, client) =>
      suspend (emit s (.dockerExecStatus client.containerName))
        (.execStatus ws r cargoToml mainRs command)
    | none => s
  else send s ws invalidClientError

/-- The error reported by the `catch` of lines 655-661. -/
def processingError (e : String) : Msg :=
  .error "Error processing terminal request" (some e)

/-- Message of the TypeError thrown by `fs.writeFileSync(path, undefined)`. -/
def undefinedDataError : String :=
  "The \"data\" argument must be of type string or an instance of Buffer, TypedArray, or DataView. Received undefined"

/-- Message of the TypeError thrown by `fs.writeFileSync(path, null)`. -/
def nullDataError : String :=
  "The \"data\" argument must be of type string or an instance of Buffer, TypedArray, or DataView. Received null"

/-- The call `fs.writeFileSync(path, content)`: content that is `undefined`
or `null` is refused before the file is touched (Node 14 and later). -/
def writeFileSync (s : State) (path : String) (content : Option String) : State :=
  match content with
  | none => s
  | some text => emit s (.writeFile path (some text))

/-- The error `fs.writeFileSync(path, content)` throws, if any. -/
def writeFileError (content : Option String) (envErr : Option String) : Option String :=
  match content with
  | none => some undefinedDataError
  | some _ => envErr

/-- Lines 478-492 of executeCommand: after `getContainerStatus` has answered. -/
def execAfterStatus (s : State) (ws : Ws) (r : Ref) (cargoToml mainRs command : Option String)
    (ready : Bool) (env : SyncEnv) : State :=
  match s.heap[r]? with
  | none => s
  | some client =>
    if ready then
      let s := writeFileSync s (client.workspace ++ "/Cargo.toml") cargoToml
      match writeFileError cargoToml env.writeCargoErr with
      | some e => send s ws (processingError e)
      | none =>
        let s := writeFileSync s (client.workspace ++ "/src/main.rs") mainRs
        match writeFileError mainRs env.writeMainErr with
        | some e => send s ws (processingError e)
        | none =>
          suspend (emit s (.dockerCp client.containerName (client.workspace ++ "/Cargo.toml")
            "/usr/src/app/Cargo.toml")) (.execCopyCargo ws r command)
    else
      send s ws (.status "container_initializing"
        "Container is still initializing, please wait...")

/-- Line 493 of executeCommand: after the first copy has settled. -/
def execAfterCopyCargo (s : State) (ws : Ws) (r : Ref) (command : Option String)
    (err : Option String) : State :=
  match s.heap[r]? with
  | none => s
  | some client =>
    match err with
    | some e => send s ws (processingError e)
    | none =>
      suspend (emit s (.dockerCp client.containerName (client.workspace ++ "/src/main.rs")
        "/usr/src/app/src/main.rs")) (.execCopyMain ws r command)

/-- Lines 495-554 of executeCommand: the command goes to the connection's
interactive shell if it has one, otherwise to a spawned process. -/
def execDispatch (s : State) (ws : Ws) (r : Ref) (command : Option String) : State :=
  match s.heap[r]? with
  | none => s
  | some client =>
    match (getConn s ws).ptyProcess with
    | some pty =>
      let s := killProcess s r
      let s := emit s (.ptyWrite pty ("cargo " ++ cargoCommand command ++ "\r"))
      setTimeout s (.commandSent r) 500
    | none =>
      let s := killProcess s r
      let pid := s.procs.length
      let s := emit (addProc s ⟨.session r, false, false⟩)
        (.spawn pid client.containerName ("cd /usr/src/app && cargo " ++ cargoCommand command))
      updClient s r (fun cl => { cl with process := some pid })

/-- Lines 495-554 of executeCommand: after the second copy has settled. -/
def execAfterCopyMain (s : State) (ws : Ws) (r : Ref) (command : Option String)
    (err : Option String) : State :=
  match err with
  | some e => send s ws (processingError e)
  | none => execDispatch s ws r command

/-- Lines 555-579: stopCommand. -/
def onStop (s : State) (ws : Ws) : State :=
  let c := getConn s ws
  if c.clientId.isSome && mapHas s.clients c.clientId then
    match getClient s c.clientId with
    | some (r, client) =>
      match c.ptyProcess with
      | some pty =>
        let s := emit s (.ptyWrite pty "\x03")
        broadcast s r (.runStatus .stopped)
      | none =>
        match client.process with
        | some _ =>
          let s := killProcess s r
          broadcast s r (.runStatus .stopped)
        | none => s
    | none => s
  else s

/-- The error reported by the `catch` of lines 647-653. -/
def updateError (e : String) : Msg := .error "Failed to update file" (some e)

/-- Lines 580-597: updateFile, up to the first `await`. -/
def updateStart (s : State) (ws : Ws) (mainRs cargoToml : Field) : State :=
  let c := getConn s ws
  let s := match c.clientId with
    | some clientId => cancelCleanup s clientId
    | none => s
  if c.clientId.isSome && mapHas s.clients c.clientId then
    match getClient s c.clientId with
    | some (r, client) =>
      suspend (emit s (.dockerExecStatus client.containerName))
        (.updateStatus ws r mainRs cargoToml)
    | none => s
  else send s ws invalidClientError

/-- Lines 627-645 of updateFile: notify the other open connections.  The
content of a field that is `null` is `null`. -/
def updateNotify (s : State) (ws : Ws) (r : Ref) (mainRs cargoToml : Field) : State :=
  match s.heap[r]? with
  | none => s
  | some client =>
    emits s ((client.connections.elems.filter (fun w => w ≠ ws && isOpen s w)).flatMap (fun w =>
      (match mainRs with
        | .text text => [Effect.send w (.fileChanged "src/main.rs" (some text))]
        | .null => [Effect.send w (.fileChanged "src/main.rs" none)]
        | .absent => []) ++
      (match cargoToml with
        | .text text => [Effect.send w (.fileChanged "Cargo.toml" (some text))]
        | .null => [Effect.send w (.fileChanged "Cargo.toml" none)]
        | .absent => [])))

/-- Lines 617-645 of updateFile: the Cargo.toml part, up to its `await`. -/
def updateCargo (s : State) (ws : Ws) (r : Ref) (mainRs cargoToml : Field)
    (env : SyncEnv) : State :=
  match s.heap[r]? with
  | none => s
  | some client =>
    match cargoToml with
    | .text text =>
      let s := emit s (.writeFile (client.workspace ++ "/Cargo.toml") (some text))
      match env.writeCargoErr with
      | some e => send s ws (updateError e)
      | none =>
        suspend (emit s (.dockerCp client.containerName (client.workspace ++ "/Cargo.toml")
          "/usr/src/app/Cargo.toml")) (.updateCopyCargo ws r mainRs cargoToml)
    | .null => send s ws (updateError nullDataError)
    | .absent => updateNotify s ws r mainRs cargoToml

/-- Lines 598-609 of updateFile: after `getContainerStatus` has answered. -/
def updateAfterStatus (s : State) (ws : Ws) (r : Ref) (mainRs cargoToml : Field)
    (ready : Bool) (env : SyncEnv) : State :=
  match s.heap[r]? with
  | none => s
  | some client =>
    let s := if ready then s else
      send s ws (.status "container_initializing"
        "Container is still initializing, file update queued...")
    match mainRs with
    | .text text =>
      let s := emit s (.writeFile (client.workspace ++ "/src/main.rs") (some text))
      match env.writeMainErr with
      | some e => send s ws (updateError e)
      | none =>
        suspend (emit s (.dockerCp client.containerName (client.workspace ++ "/src/main.rs")
          "/usr/src/app/src/main.rs")) (.updateCopyMain ws r mainRs cargoToml)
    | .null => send s ws (updateError nullDataError)
    | .absent => updateCargo s ws r mainRs cargoToml env

/-- Lines 610-619 of updateFile: after the copy of src/main.rs has settled. -/
def updateAfterCopyMain (s : State) (ws : Ws) (r : Ref) (mainRs cargoToml : Field)
    (err : Option String) (env : SyncEnv) : State :=
  match err with
  | some e => send s ws (updateError e)
  | none =>
    let s := send s ws (.fileUpdated "src/main.rs")
    updateCargo s ws r mainRs cargoToml env

/-- Lines 620-645 of updateFile: after the copy of Cargo.toml has settled. -/
def updateAfterCopyCargo (s : State) (ws : Ws) (r : Ref) (mainRs cargoToml : Field)
    (err : Option String) : State :=
  match err with
  | some e => send s ws (updateError e)
  | none =>
    let s := send s ws (.fileUpdated "Cargo.toml")
    updateNotify s ws r mainRs cargoToml

/-- The handler `ws.on("message")`, up to its first `await`. -/
def onMessage (s : State) (ws : Ws) (data : Data) (env : SyncEnv) : State :=
  match data with
  | .connect uuid cols rows => connectStart s ws uuid cols rows env
  | .input text => onInput s ws text
  | .resize cols rows => onResize s ws cols rows
  | .checkContainerStatus => checkStatusStart s ws
  | .executeCommand cargoToml mainRs command => execStart s ws cargoToml mainRs command
  | .stopCommand => onStop s ws
  | .updateFile mainRs cargoToml => updateStart s ws mainRs cargoToml
  | .other => s
  | .malformed e => send s ws (processingError e)

/-! ## Close, timers, child processes, the one-shot endpoint -/

/-- The handler `ws.on("close")` (lines 664-681). -/
def onClose (s : State) (ws : Ws) : State :=
  let c := getConn s ws
  match mapGet s.terminals ws with
  | none => s
  | some terminal =>
    let s := emits s (match terminal.ptyProcess with
      | some pty => [.ptyKill pty]
      | none => [])
    let s := delTerminal s ws
    match c.clientId with
    | none => s
    | some clientId =>
      match getClient s (some clientId) with
      | none => s
      | some (r, client) =>
        let s := updClient s r (fun cl => { cl with connections := cl.connections.delete ws })
        if (client.connections.delete ws).size = 0 then
          scheduleCleanup s clientId c.clientWorkspace
        else s

/-- Lines 212-223 and 233: the cleanup timer callback, up to its `await`. -/
def cleanupFire (s : State) (clientId : ClientId) (workspacePath : Option String) : State :=
  match mapGet s.clients (some clientId) with
  | some r =>
    let s := killProcess s r
    suspend (emit s (.dockerStop (containerNameOf clientId))) (.cleanupStop clientId workspacePath)
  | none => delPending s clientId

/-- Lines 224-233: the cleanup timer callback after `removeContainer` has
settled.  An error of `removeContainer` or of `fs.rmSync` leaves the `try`
block at once.  The promise of `removeContainer` (lines 197-204) is rejected
when `exec` reports an error for `docker stop <name> || true`, that is when
the command cannot be run; a `docker stop` that fails leaves it resolved. -/
def cleanupAfterStop (s : State) (clientId : ClientId) (workspacePath : Option String)
    (err : Option String) (env : SyncEnv) : State :=
  let s := match err with
    | some _ => s
    | none =>
      match workspacePath with
      | none => s
      | some path =>
        let s := emit s (.rmSync path)
        match env.rmErr with
        | some _ => s
        | none => delClient s (some clientId)
  delPending s clientId

/-- Lines 171-176: the timeout of a one-shot request. -/
def oneShotTimeout (s : State) (req : ReqId) (pid : Pid) : State :=
  match s.requests[req]? with
  | none => s
  | some request =>
    if request.headersSent then s
    else
      let s := emit s (.procKill pid none)
      let s := markSignalled s pid
      let s := emit s (.respond req 504 (.error "Command execution timed out"))
      updRequest s req (fun q => { q with headersSent := true })

def onTimer (s : State) (a : TimerAction) : State :=
  match a with
  | .cleanup clientId workspacePath => cleanupFire s clientId workspacePath
  | .commandSent r => broadcast s r (.runStatus .commandSent)
  | .oneShotTimeout req pid => oneShotTimeout s req pid

/-- The `stdout` data handler of a child process (lines 528-535, 153-155). -/
def onProcStdout (s : State) (pid : Pid) (chunk : String) : State :=
  match s.procs[pid]? with
  | none => s
  | some p =>
    if p.exited then s
    else match p.owner with
      | .session r => broadcast s r (.runOutput chunk)
      | .oneShot req => updRequest s req (fun q => { q with stdout := q.stdout ++ chunk })
      | .detached => s

/-- The `stderr` data handler of a child process (lines 537-544, 157-159). -/
def onProcStderr (s : State) (pid : Pid) (chunk : String) : State :=
  match s.procs[pid]? with
  | none => s
  | some p =>
    if p.exited then s
    else match p.owner with
      | .session r => broadcast s r (.runError chunk)
      | .oneShot req => updRequest s req (fun q => { q with stderr := q.stderr ++ chunk })
      | .detached => s

/-- The `close` handler of a child process (lines 546-553, 161-168).  When the
headers of the one-shot response were already sent, `res.json` throws inside
the event handler. -/
def onProcClose (s : State) (pid : Pid) (code : Option Int) : State :=
  match s.procs[pid]? with
  | none => s
  | some p =>
    if p.exited then s
    else
      let s := markExited s pid
      match p.owner with
      | .session r =>
        let s := broadcast s r (.runStatus (.exited code))
        updClient s r (fun cl => { cl with process := none })
      | .oneShot req =>
        match s.requests[req]? with
        | none => s
        | some request =>
          if request.headersSent then
            emit s (.uncaught req "Cannot set headers after they are sent to the client")
          else
            let s := emit s (.respond req 200
              (.result (decide (code = some 0)) request.stdout request.stderr code))
            updRequest s req (fun q => { q with headersSent := true })
      | .detached => s

/-- The handler `ptyProcess.onData` (lines 391-395) of the connection that owns the shell. -/
def onPtyData (s : State) (pty : PtyId) (data : String) : State :=
  match s.ptys[pty]? with
  | none => s
  | some ws => if isOpen s ws then send s ws (.output data) else s

/-- The endpoint `POST /api/run-command` (lines 115-139), up to its `await`. -/
def onRequest (s : State) (clientId command : Option String) : State :=
  let req := s.requests.length
  let s := addRequest s ⟨"", "", false⟩
  let reply (s : State) (code : Nat) (text : String) : State :=
    updRequest (emit s (.respond req code (.error text))) req
      (fun q => { q with headersSent := true })
  if !truthy clientId then reply s 400 "Client ID is required"
  else if !truthy command then reply s 400 "Command is required"
  else
    let s := cancelCleanup s (clientId.getD "")
    match getClient s clientId with
    | none => reply s 404 "Client workspace not found"
    | some (_, client) =>
      suspend (emit s (.dockerExecStatus client.containerName))
        (.oneShotStatus req client.containerName (command.getD ""))

/-- Lines 140-176 of the endpoint: after `getContainerStatus` has answered. -/
def oneShotAfterStatus (s : State) (req : ReqId) (containerName command : String)
    (ready : Bool) : State :=
  if ready then
    let pid := s.procs.length
    let s := emit (addProc s ⟨.oneShot req, false, false⟩)
      (.spawn pid containerName ("cd /usr/src/app && " ++ command))
    setTimeout s (.oneShotTimeout req pid) 30000
  else
    updRequest (emit s (.respond req 503 (.error "Container is still initializing"))) req
      (fun q => { q with headersSent := true })

/-! ## The event loop -/

/-- Resume a suspended handler with the outcome of the promise it awaits;
`none` when the outcome is not one that promise can have. -/
def resumeTask (s : State) (task : Task) (o : Outcome) (env : SyncEnv) : Option State :=
  match task, o with
  | .connectStatus ws cols rows, .status ready _ => some (connectAfterStatus s ws cols rows ready)
  | .connectReadiness ws cols rows, .settled err => some (connectAfterReadiness s ws cols rows err)
  | .connectCreate ws cols rows, .settled err => some (connectAfterCreate s ws cols rows err)
  | .checkStatus ws, .status ready details => some (send s ws (.statusDetails ready details))
  | .execStatus ws r cargoToml mainRs command, .status ready _ =>
    some (execAfterStatus s ws r cargoToml mainRs command ready env)
  | .execCopyCargo ws r command, .settled err => some (execAfterCopyCargo s ws r command err)
  | .execCopyMain ws r command, .settled err => some (execAfterCopyMain s ws r command err)
  | .updateStatus ws r mainRs cargoToml, .status ready _ =>
    some (updateAfterStatus s ws r mainRs cargoToml ready env)
  | .updateCopyMain ws r mainRs cargoToml, .settled err =>
    some (updateAfterCopyMain s ws r mainRs cargoToml err env)
  | .updateCopyCargo ws r mainRs cargoToml, .settled err =>
    some (updateAfterCopyCargo s ws r mainRs cargoToml err)
  | .cleanupStop clientId workspacePath, .settled err =>
    some (cleanupAfterStop s clientId workspacePath err env)
  | .oneShotStatus req containerName command, .status ready _ =>
    some (oneShotAfterStatus s req containerName command ready)
  | _, _ => none

/-- A freshly accepted connection: every closure variable is `null`. -/
def newConn : Conn :=
  { containerName := none, clientId := none, ptyProcess := none, clientWorkspace := none,
    readyOpen := true, closed := false }

/-- One turn of the event loop.  An event that cannot occur in the state
(a message on a closed socket, a timer that is not armed, a handler that is
not suspended, output of a process that has exited) leaves the state as it is. -/
def step (s : State) (e : Event) : State :=
  match e with
  | .connection => addConn s newConn
  | .message ws data env =>
    match s.conns[ws]? with
    | some c => if c.readyOpen && !c.closed then onMessage s ws data env else s
    | none => s
  | .wsDrop ws => updConn s ws (fun c => { c with readyOpen := false })
  | .close ws =>
    match s.conns[ws]? with
    | some c =>
      if c.closed then s
      else onClose (updConn s ws (fun c => { c with readyOpen := false, closed := true })) ws
    | none => s
  | .resume t o env =>
    match mapGet s.tasks t with
    | some task => (resumeTask (takeTask s t) task o env).getD s
    | none => s
  | .timerFire t =>
    match mapGet s.timers t with
    | some a => onTimer (dropTimer s t) a
    | none => s
  | .procStdout pid chunk => onProcStdout s pid chunk
  | .procStderr pid chunk => onProcStderr s pid chunk
  | .procClose pid code => onProcClose s pid code
  | .ptyData pty data => onPtyData s pty data
  | .request clientId command => onRequest s clientId command

/-- The state after a sequence of events. -/
def run (s : State) (es : List Event) : State := es.foldl step s

/-- The states the server can be in. -/
def Reachable (s : State) : Prop := ∃ es : List Event, run init es = s

/-- The connection set of the session registered for a tenant (empty when
the tenant is not registered). -/
def connectionsOf (s : State) (clientId : ClientId) : List Ws :=
  match getClient s (some clientId) with
  | some (_, client) => client.connections.elems
  | none => []

/-! ## Vocabulary of the properties -/

/-- The relation `Grow s s'` says that `s'` has the armed timers and suspended handlers of `s`
or fewer, and new ones whose identifiers `s` had not handed out yet; and that
every process of `s` is a process of `s'` with the same owner. -/
def Grow (s s' : State) : Prop :=
  s.nextTimer ≤ s'.nextTimer ∧ s.nextTask ≤ s'.nextTask ∧
  (∀ p ∈ s'.timers, p ∈ s.timers ∨ (s.nextTimer ≤ p.1 ∧ p.1 < s'.nextTimer)) ∧
  (∀ p ∈ s'.tasks, p ∈ s.tasks ∨ (s.nextTask ≤ p.1 ∧ p.1 < s'.nextTask)) ∧
  (∀ p ∈ s'.pendingCleanups,
    p ∈ s.pendingCleanups ∨ (s.nextTimer ≤ p.2 ∧ p.2 < s'.nextTimer)) ∧
  (∀ (pid : Pid) (p : Proc), s.procs[pid]? = some p →
    ∃ p' : Proc, s'.procs[pid]? = some p' ∧ p'.owner = p.owner)


/-- Identifiers of armed timers and suspended handlers have been handed out. -/
def Fresh (s : State) : Prop :=
  (∀ p ∈ s.timers, p.1 < s.nextTimer) ∧ (∀ p ∈ s.tasks, p.1 < s.nextTask) ∧
  (∀ p ∈ s.pendingCleanups, p.2 < s.nextTimer)


/-- The paths derived from a tenant id are the ones in use: a connection bound
to a tenant holds that tenant's workspace path and container name, a session
registered under a tenant id exists and holds them too, and a cleanup timer or
a suspended cleanup callback of a tenant carries that tenant's workspace path. -/
def PathsOk (s : State) : Prop :=
  (∀ (ws : Ws) (c : Conn), s.conns[ws]? = some c → ∀ id, c.clientId = some id →
    c.clientWorkspace = some (workspaceOf id) ∧ c.containerName = some (containerNameOf id)) ∧
  (∀ (id : ClientId) (r : Ref), mapGet s.clients (some id) = some r →
    ∃ cl : Client, s.heap[r]? = some cl ∧ cl.workspace = workspaceOf id ∧
      cl.containerName = containerNameOf id) ∧
  (∀ (k : Option ClientId) (r : Ref), mapGet s.clients k = some r → r < s.heap.length) ∧
  (∀ p ∈ s.timers, ∀ id w, p.2 = TimerAction.cleanup id w → w = some (workspaceOf id)) ∧
  (∀ p ∈ s.tasks, ∀ id w, p.2 = Task.cleanupStop id w → w = some (workspaceOf id))

/-- The calls issued between state `s` and a later state `s'`. -/
def newEffects (s s' : State) : List Effect := s'.trace.drop s.trace.length

/-- Calls that tear a sandbox down: a signal to a process, a container stop,
a workspace removal. -/
def isTeardown : Effect → Bool
  | .procKill _ _ => true
  | .dockerStop _ => true
  | .rmSync _ => true
  | _ => false

/-- No tenant has both a non-empty connection set in `clients` and an entry
in `pendingCleanups`. -/
def NoTimerWhileAttached (s : State) : Prop :=
  ∀ clientId : ClientId,
    connectionsOf s clientId ≠ [] → mapGet s.pendingCleanups clientId = none

/-- A message can be delivered on the connection: its socket is open. -/
def CanReceive (s : State) (ws : Ws) : Prop :=
  (s.conns[ws]?).map (fun c => c.readyOpen && !c.closed) = some true

instance (s : State) (ws : Ws) : Decidable (CanReceive s ws) :=
  inferInstanceAs (Decidable ((s.conns[ws]?).map (fun c => c.readyOpen && !c.closed) = some true))

/-- The file system answers without error and the workspace directories exist. -/
def ok : SyncEnv := SyncEnv.ok

/-- The file system answers without error and the workspace directories do
not exist yet. -/
def noDirs : SyncEnv := ⟨false, false, none, none, none⟩

/-- Two connections of one tenant: the second connects while the first, the
only one attached, closes.
1. Connection 0 opens, connects as tenant t1; the container is created.
2. Connection 1 opens and connects as t1; its handler awaits `getContainerStatus`.
3. Connection 0 closes: the connection set is empty, the cleanup timer is armed.
4. The status arrives: connection 1 is attached. -/
def raceTrace : List Event :=
  [ .connection,
    .message 0 (.connect (some "t1") none none) noDirs,
    .resume 0 (.settled none) ok,
    .connection,
    .message 1 (.connect (some "t1") none none) ok,
    .close 0,
    .resume 1 (.status true "") ok ]

/-- Tenant t1 is registered and idle: its only connection has closed and timer
0 is armed to reclaim it; connection 1 has just been accepted. -/
def idleState : State :=
  run init [.connection, .message 0 (.connect (some "t1") none none) noDirs,
    .resume 0 (.settled none) ok, .close 0, .connection]

/-- Connection 0 connects as tenant t1, then as tenant t2; both containers are created. -/
def doubleTrace : List Event :=
  [ .connection,
    .message 0 (.connect (some "t1") none none) noDirs,
    .resume 0 (.settled none) ok,
    .message 0 (.connect (some "t2") none none) noDirs,
    .resume 1 (.settled none) ok ]

/-- The armed cleanup timers of a tenant. -/
def armedFor (s : State) (clientId : ClientId) : List TimerId :=
  (s.timers.filter (fun p =>
    match p.2 with
    | .cleanup c _ => decide (c = clientId)
    | _ => false)).map (fun p => p.1)

/-- A timer fires while tenant t1 is being reclaimed and reconnects.
1. Connection 0 connects as t1 and closes: timer 0 is armed.
2. Timer 0 fires; its callback awaits `removeContainer`.
3. Connection 1 connects as t1 (the session is still registered) and closes:
   timer 1 is armed and registered.
4. The callback of timer 0 resumes: it deletes the session and the
   `pendingCleanups` entry, which is now the entry of timer 1.
5. Connection 2 connects as t1: a new session is created; timer 1 is still armed. -/
def orphanTrace : List Event :=
  [ .connection,
    .message 0 (.connect (some "t1") none none) noDirs,
    .resume 0 (.settled none) ok,
    .close 0,
    .timerFire 0,
    .connection,
    .message 1 (.connect (some "t1") none none) ok,
    .resume 2 (.status true "") ok,
    .close 1,
    .resume 1 (.settled none) ok,
    .connection,
    .message 2 (.connect (some "t1") none none) noDirs,
    .resume 3 (.settled none) ok ]

/-- Connection 0 is attached to tenant t1 and owns an interactive shell. -/
def attachedState : State :=
  run init [.connection, .message 0 (.connect (some "t1") none none) noDirs,
    .resume 0 (.settled none) ok]

/-- The closure variables of connection 0 in `attachedState`. -/
def attachedConn : Conn :=
  { containerName := some "rust-workspace-t1", clientId := some "t1", ptyProcess := some 0,
    clientWorkspace := some "./docker_workspaces/t1", readyOpen := true, closed := false }

/-- The session object of tenant t1 in `attachedState`. -/
def attachedClient : Client :=
  { containerName := "rust-workspace-t1", workspace := "./docker_workspaces/t1",
    connections := JSSet.empty.add 0, process := none }

/-- The spawned processes of session `r` that have neither been signalled nor exited. -/
def liveProcs (s : State) (r : Ref) : List Pid :=
  (List.range s.procs.length).filter (fun pid =>
    match s.procs[pid]? with
    | some p => decide (p.owner = .session r) && !p.signalled && !p.exited
    | none => false)

/-- The slot `client.process` of session `r`. -/
def processSlot (s : State) (r : Ref) : Option Pid := (s.heap[r]?).bind (fun c => c.process)

/-- An executeCommand message with both files and no command. -/
def execData : Data := .executeCommand (some "[package]") (some "fn main()") none

/-- Connection 1 is bound to tenant t1 and has no interactive shell: its connect
found the container not ready and the readiness check timed out.  It then
runs two commands; the first process closes after the second has started.
1. Connection 0 connects as t1; the container is created (process 0 is the
   `cd` of line 361).
2. Connection 1 connects as t1; the readiness check fails.
3. Connection 1 sends executeCommand: process 1 is spawned.
4. Connection 1 sends executeCommand: process 1 is signalled, process 2 is spawned.
5. Process 1 closes. -/
def clobberTrace : List Event :=
  [ .connection,
    .message 0 (.connect (some "t1") none none) noDirs,
    .resume 0 (.settled none) ok,
    .connection,
    .message 1 (.connect (some "t1") none none) ok,
    .resume 1 (.status false "") ok,
    .resume 2 (.settled (some "Container setup timed out. Dependencies not installed properly.")) ok,
    .message 1 execData ok,
    .resume 3 (.status true "") ok,
    .resume 4 (.settled none) ok,
    .resume 5 (.settled none) ok,
    .message 1 execData ok,
    .resume 6 (.status true "") ok,
    .resume 7 (.settled none) ok,
    .resume 8 (.settled none) ok,
    .procClose 1 none ]

/-- After `clobberTrace`, connection 1 sends executeCommand once more. -/
def clobberTrace2 : List Event :=
  clobberTrace ++
  [ .message 1 execData ok,
    .resume 9 (.status true "") ok,
    .resume 10 (.settled none) ok,
    .resume 11 (.settled none) ok ]

/-- The cleanup timer of tenant t1 fires and `removeContainer` rejects: `exec`
cannot run the stop command.  (A `docker stop` that fails does not reject:
the command of line 199 ends in `|| true`.) -/
def stopFailTrace : List Event :=
  [ .connection,
    .message 0 (.connect (some "t1") none none) noDirs,
    .resume 0 (.settled none) ok,
    .close 0,
    .timerFire 0,
    .resume 1 (.settled (some "spawn /bin/sh EAGAIN")) ok ]

/-- The cleanup timer of tenant t1 fires, the container stops and `fs.rmSync` throws. -/
def rmFailTrace : List Event :=
  [ .connection,
    .message 0 (.connect (some "t1") none none) noDirs,
    .resume 0 (.settled none) ok,
    .close 0,
    .timerFire 0,
    .resume 1 (.settled none)
      ⟨true, true, none, none, some "EACCES: permission denied, rmdir"⟩ ]

/-- The signal sent by `killProcess` to the process in the slot of session `r`, if any. -/
def killEffects (s : State) (r : Ref) : List Effect :=
  match processSlot s r with
  | some pid => [.procKill pid (some "SIGTERM")]
  | none => []

/-- The `clearTimeout` issued by `cancelCleanup`, if a timer is registered. -/
def cancelEffects (s : State) (clientId : ClientId) : List Effect :=
  match mapGet s.pendingCleanups clientId with
  | some t => [.clearTimeout t]
  | none => []

/-- The write of a file, when the content is defined. -/
def writeEffects (path : String) (content : Option String) : List Effect :=
  match content with
  | some text => [.writeFile path (some text)]
  | none => []

/-- Connection 0 of tenant t1 owns an interactive shell; connection 1 is bound
to t1 without a shell (its readiness check failed) and has run a command:
process 1 is in the slot of the session. -/
def spawnedTrace : List Event :=
  [ .connection,
    .message 0 (.connect (some "t1") none none) noDirs,
    .resume 0 (.settled none) ok,
    .connection,
    .message 1 (.connect (some "t1") none none) ok,
    .resume 1 (.status false "") ok,
    .resume 2 (.settled (some "Container setup timed out. Dependencies not installed properly.")) ok,
    .message 1 execData ok,
    .resume 3 (.status true "") ok,
    .resume 4 (.settled none) ok,
    .resume 5 (.settled none) ok ]

/-- The state after `spawnedTrace`. -/
def spawnedState : State := run init spawnedTrace

/-- The closure variables of connection 1 in `spawnedState`. -/
def spawnedConn : Conn :=
  { containerName := some "rust-workspace-t1", clientId := some "t1", ptyProcess := none,
    clientWorkspace := some "./docker_workspaces/t1", readyOpen := true, closed := false }

/-- The session object of tenant t1 in `spawnedState`. -/
def spawnedClient : Client :=
  { containerName := "rust-workspace-t1", workspace := "./docker_workspaces/t1",
    connections := JSSet.empty.add 0, process := some 1 }

/-- The state before the last step of `spawnedTrace`: the executeCommand of
connection 1 awaits its second copy as suspended handler 5. -/
def preDispatchState : State := run init (spawnedTrace.take 10)



/-! ## Vocabulary of the timer that no map entry names -/

/-- After `orphanTrace` the last connection of tenant t1 closes, which arms
timer 2, and connection 3 is accepted: timers 1 and 2 of t1 are armed and
`pendingCleanups` names timer 2. -/
def doubleTimerState : State := run init (orphanTrace ++ [.close 2, .connection])

/-- In `doubleTimerState` connection 3 connects as t1 and, the container
being ready, is attached. -/
def orphanAttachedState : State :=
  run doubleTimerState
    [.message 3 (.connect (some "t1") none none) ok, .resume 4 (.status true "") ok]

/-- In `orphanAttachedState` timer 1 fires and the stop of the container succeeds. -/
def orphanFiredState : State :=
  run orphanAttachedState [.timerFire 1, .resume 5 (.settled none) ok]

/-! ## Vocabulary of the session object replaced during a wait -/

/-- Connections 0 and 1 send connect for the fresh tenant t1 at the same
time (as in `concurrentTrace` of the acquisition).
1. The handler of connection 0 resumes: session object 0 is registered and
   connection 0 attached to it.
2. Connection 2 connects as t1; its readiness check fails: it is bound to t1
   and owns no shell.
3. Connection 2 sends executeCommand: the handler takes `clients.get('t1')`,
   object 0, and awaits the container status.
4. The handler of connection 1 resumes: `clients.set('t1', ...)` registers
   session object 1, with connection 1 attached to it.
5. The executeCommand passes its status check and its first copy and awaits
   the second copy as suspended handler 6. -/
def staleAwaitTrace : List Event :=
  [ .connection,
    .message 0 (.connect (some "t1") none none) noDirs,
    .connection,
    .message 1 (.connect (some "t1") none none) ok,
    .resume 0 (.settled none) ok,
    .connection,
    .message 2 (.connect (some "t1") none none) ok,
    .resume 2 (.status false "") ok,
    .resume 3 (.settled (some "Container setup timed out. Dependencies not installed properly.")) ok,
    .message 2 execData ok,
    .resume 1 (.settled none) ok,
    .resume 4 (.status true "") ok,
    .resume 5 (.settled none) ok ]

/-- After `staleAwaitTrace` the second copy succeeds and the handler dispatches. -/
def staleExecState : State := run init (staleAwaitTrace ++ [.resume 6 (.settled none) ok])

/-! ## Vocabulary of the properties of updateFile -/

/-- The notifications of the loop of lines 628-645 when only `mainRs` is
defined: one `fileChanged` for src/main.rs, carrying the new content, to every
open connection of the session other than the originating one. -/
def mainChangedEffects (s : State) (ws : Ws) (client : Client) (text : String) : List Effect :=
  (client.connections.elems.filter (fun w => w ≠ ws && isOpen s w)).map
    (fun w => Effect.send w (.fileChanged "src/main.rs" (some text)))

/-- The status message of lines 598-604, sent when the container is not ready. -/
def queuedEffects (ws : Ws) (ready : Bool) : List Effect :=
  if ready then []
  else [.send ws (.status "container_initializing"
    "Container is still initializing, file update queued...")]

/-- Connections 0 and 1 are attached to tenant t1; connection 0 has sent
updateFile with only `mainRs`, the file is written and the handler awaits the
copy into the container as suspended handler 3. -/
def updatingState : State :=
  run init [.connection, .message 0 (.connect (some "t1") none none) noDirs,
    .resume 0 (.settled none) ok, .connection,
    .message 1 (.connect (some "t1") none none) ok, .resume 1 (.status true "") ok,
    .message 0 (.updateFile (.text "fn main()") .absent) ok, .resume 2 (.status true "") ok]

/-- The session object of tenant t1 in `updatingState`. -/
def updatingClient : Client :=
  { containerName := "rust-workspace-t1", workspace := "./docker_workspaces/t1",
    connections := (JSSet.empty.add 0).add 1, process := none }

/-- The messages a connection has been sent, in order. -/
def received (ws : Ws) : List Effect → List Msg
  | [] => []
  | .send w m :: es => if w = ws then m :: received ws es else received ws es
  | _ :: es => received ws es

/-- Connections 0 and 1 send connect for the fresh tenant t1 at the same time.
1. The handler of connection 0 resumes: session object 0 is registered and
   connection 0 attached to it.
2. Connection 2 connects as t1 and is attached to object 0.
3. Connection 0 sends updateFile with only `mainRs`: the handler takes
   `clients.get('t1')`, object 0, and awaits the container status.
4. The handler of connection 1 resumes: `clients.set('t1', ...)` registers
   session object 1, with connection 1 attached to it. -/
def staleUpdateTrace : List Event :=
  [ .connection,
    .message 0 (.connect (some "t1") none none) noDirs,
    .connection,
    .message 1 (.connect (some "t1") none none) ok,
    .resume 0 (.settled none) ok,
    .connection,
    .message 2 (.connect (some "t1") none none) ok,
    .resume 2 (.status true "") ok,
    .message 0 (.updateFile (.text "fn main() {}") .absent) ok,
    .resume 1 (.settled none) ok ]

/-- After `staleUpdateTrace` the container is reported ready, src/main.rs is
written and its copy succeeds. -/
def staleUpdateState : State :=
  run (run init staleUpdateTrace) [.resume 3 (.status true "") ok, .resume 4 (.settled none) ok]

/-! ## Container acquisition (lines 29-112)

`createContainer` and `checkContainerReadiness` talk to the container runtime
through `exec` callbacks.  Each callback issues at most one further call, so a
run of either function is the list of its calls, in order, and the way its
promise settles; the answers of the runtime are given by a `Runtime`. -/

/-- A call issued by `createContainer` or `checkContainerReadiness`. -/
inductive Call
  /-- The listing `docker ps -a --filter name=<name>` of container names (line 33). -/
  | listContainers (containerName : String)
  /-- The inspection `docker container inspect <name>` of the running state (line 37). -/
  | inspectRunning (containerName : String)
  /-- The command `docker start <name>` (line 49). -/
  | start (containerName : String)
  /-- The call `securityScripts.createSecureDockerfile(workspacePath)` (line 62). -/
  | writeImageDefinition (workspacePath : String)
  /-- The command `docker build -t <name> <path> && docker run -d --name <name> --rm <name>`
  (line 64). -/
  | buildAndRun (containerName workspacePath : String)
  /-- The readiness probe `docker exec <name> bash -c <toolchain check>` (line 87). -/
  | probe (containerName : String)
  /-- The process listing `docker exec <name> bash -c <ps aux ...>` (line 100). -/
  | listProcesses (containerName : String)
  /-- The call `setTimeout(checkReady, RETRY_INTERVAL)` (line 93). -/
  | retryTimer (delayMs : Nat)
  deriving DecidableEq, Repr

/-- The answers of the container runtime and of the file system to the calls
of one acquisition. -/
structure Runtime where
  /-- Answer to the listing: an error, or the standard output. -/
  listing : Except String String
  /-- Answer to the inspection: an error, or the standard output. -/
  inspect : Except String String
  /-- Error of `docker start`, if it fails. -/
  start : Option String
  /-- Exception thrown by `createSecureDockerfile`, if it fails. -/
  imageDefinition : Option String
  /-- Error of the build and run command, if it fails. -/
  buildRun : Option String
  /-- Error of the readiness probe number `n` (counted from 0), if it fails. -/
  probe : Nat → Option String
  /-- Error of the process listing that follows a successful probe, if it fails. -/
  processes : Option String

/-- How a promise ends. -/
inductive Settled (α : Type)
  | resolved (value : α)
  | rejected (message : String)
  /-- An exception escaped from a callback: the promise is never settled. -/
  | thrown (message : String)
  deriving DecidableEq, Repr

/-- JavaScript white space and line terminators, the characters removed by `trim`. -/
def isJsSpace (c : Char) : Bool :=
  decide (c.toNat ∈ [0x09, 0x0A, 0x0B, 0x0C, 0x0D, 0x20, 0xA0, 0x1680, 0x2028, 0x2029,
    0x202F, 0x205F, 0x3000, 0xFEFF]) || (decide (0x2000 ≤ c.toNat) && decide (c.toNat ≤ 0x200A))

/-- JavaScript `String.prototype.trim`. -/
def jsTrim (s : String) : String :=
  ⟨((s.data.dropWhile isJsSpace).reverse.dropWhile isJsSpace).reverse⟩

def MAX_RETRIES : Nat := 30

def RETRY_INTERVAL : Nat := 2000

/-- The message of the rejection of line 95. -/
def setupTimedOut : String := "Container setup timed out. Dependencies not installed properly."

/-- The function `checkReady` (lines 86-108) with the counter `retries`; the
probe it issues is probe number `retries`, as every failed probe before it
has incremented the counter. -/
def checkReady (rt : Runtime) (containerName : String) (retries : Nat) :
    List Call × Settled Unit :=
  match rt.probe retries with
  | some _ =>
    if retries < MAX_RETRIES then
      (Call.probe containerName :: Call.retryTimer RETRY_INTERVAL ::
          (checkReady rt containerName (retries + 1)).1,
        (checkReady rt containerName (retries + 1)).2)
    else ([Call.probe containerName], .rejected setupTimedOut)
  | none => ([Call.probe containerName, Call.listProcesses containerName], .resolved ())
termination_by MAX_RETRIES - retries

/-- The function `checkContainerReadiness` (lines 80-112). -/
def checkContainerReadiness (rt : Runtime) (containerName : String) : List Call × Settled Unit :=
  checkReady rt containerName 0

/-- The statement `checkContainerReadiness(containerName).then(() => resolve(containerName))
.catch(err => reject(err))` (lines 42-46, 51-55, 69-73), after the calls `calls`. -/
def thenReadiness (rt : Runtime) (containerName : String) (calls : List Call) :
    List Call × Settled String :=
  (calls ++ (checkContainerReadiness rt containerName).1,
    match (checkContainerReadiness rt containerName).2 with
    | .resolved _ => .resolved containerName
    | .rejected e => .rejected e
    | .thrown e => .thrown e)

/-- The function `createContainer` (lines 29-78). -/
def createContainer (rt : Runtime) (clientId workspacePath : String) :
    List Call × Settled String :=
  let containerName := "rust-workspace-" ++ toLowerCase clientId
  match rt.listing with
  | .error e => ([.listContainers containerName], .rejected e)
  | .ok stdout =>
    if jsTrim stdout = containerName then
      match rt.inspect with
      | .error e => ([.listContainers containerName, .inspectRunning containerName], .rejected e)
      | .ok runningOutput =>
        if jsTrim runningOutput = "true" then
          thenReadiness rt containerName
            [.listContainers containerName, .inspectRunning containerName]
        else
          match rt.start with
          | some e =>
            ([.listContainers containerName, .inspectRunning containerName,
              .start containerName], .rejected e)
          | none =>
            thenReadiness rt containerName
              [.listContainers containerName, .inspectRunning containerName,
                .start containerName]
    else
      match rt.imageDefinition with
      | some e =>
        ([.listContainers containerName, .writeImageDefinition workspacePath], .thrown e)
      | none =>
        match rt.buildRun with
        | some e =>
          ([.listContainers containerName, .writeImageDefinition workspacePath,
            .buildAndRun containerName workspacePath], .rejected e)
        | none =>
          thenReadiness rt containerName
            [.listContainers containerName, .writeImageDefinition workspacePath,
              .buildAndRun containerName workspacePath]

/-- The probes of the runtime `rt` fail before probe number `n` and succeed from it on. -/
def readyAt (n : Nat) : Nat → Option String :=
  fun i => if i < n then some "Error: No such container" else none

/-- A runtime without containers in which every call succeeds and the
container is ready at the third probe. -/
def freshRuntime : Runtime :=
  { listing := .ok "", inspect := .error "Error: No such container", start := none,
    imageDefinition := none, buildRun := none, probe := readyAt 2, processes := none }

/-- A runtime in which the container of tenant t1 exists and is stopped, and
no probe succeeds. -/
def stuckRuntime : Runtime :=
  { listing := .ok "rust-workspace-t1\n", inspect := .ok "false\n", start := none,
    imageDefinition := none, buildRun := none,
    probe := fun _ => some "Error: container is not running", processes := none }

/-- The calls of `n` failed probes, each followed by the arming of the retry timer. -/
def failedProbes (containerName : String) (n : Nat) : List Call :=
  (List.replicate n [Call.probe containerName, Call.retryTimer RETRY_INTERVAL]).flatten

/-! ## Vocabulary of the properties of the one-shot endpoint -/

/-- The request a suspended handler belongs to, for the handlers of the
one-shot endpoint. -/
def taskReq : Task → Option ReqId
  | .oneShotStatus req _ _ => some req
  | _ => none

/-- The request a timer belongs to, for the timeouts of the one-shot endpoint. -/
def timerReq : TimerAction → Option ReqId
  | .oneShotTimeout req _ => some req
  | _ => none

/-- The request a process belongs to, for the processes of the one-shot endpoint. -/
def ownerReq : ProcOwner → Option ReqId
  | .oneShot req => some req
  | _ => none

/-- What belongs to one request of the one-shot endpoint: its record (`none`
before the request arrives), its suspended handler, its timeout and its
process, each when it exists. -/
structure Tracked where
  req : ReqId
  record : Option Request
  task : Option (TaskId × Task)
  timer : Option TimerId
  proc : Option Pid
  /-- A number of requests that have arrived. -/
  floor : Nat

/-- The state holds for request `τ.req` the record, the suspended handler, the
timeout and the process listed in `τ`, and nothing else that refers to the
request; the process has not exited; at least `τ.floor` requests have arrived. -/
def Track (τ : Tracked) (s : State) : Prop :=
  s.requests[τ.req]? = τ.record ∧
  (∀ p ∈ s.tasks, taskReq p.2 = some τ.req → some p = τ.task) ∧
  (∀ p ∈ s.timers, timerReq p.2 = some τ.req → some p.1 = τ.timer) ∧
  (∀ (pid : Pid) (p : Proc), s.procs[pid]? = some p → ownerReq p.owner = some τ.req →
    some pid = τ.proc) ∧
  (∀ kt : TaskId × Task, τ.task = some kt → mapGet s.tasks kt.1 = some kt.2) ∧
  (∀ pid : Pid, τ.proc = some pid →
    ∃ p : Proc, s.procs[pid]? = some p ∧ p.owner = .oneShot τ.req ∧ p.exited = false) ∧
  τ.floor ≤ s.requests.length

/-- The chunks that the `stdout` events of process `pid` deliver, in order. -/
def stdoutChunks (pid : Pid) : List Event → List String
  | [] => []
  | .procStdout p chunk :: es =>
    if p = pid then chunk :: stdoutChunks pid es else stdoutChunks pid es
  | _ :: es => stdoutChunks pid es

/-- The chunks that the `stderr` events of process `pid` deliver, in order. -/
def stderrChunks (pid : Pid) : List Event → List String
  | [] => []
  | .procStderr p chunk :: es =>
    if p = pid then chunk :: stderrChunks pid es else stderrChunks pid es
  | _ :: es => stderrChunks pid es

/-- The event is the firing of timer `t` or the close of process `pid`. -/
def isCloseOrTimeout (t : TimerId) (pid : Pid) : Event → Bool
  | .timerFire t' => decide (t' = t)
  | .procClose p _ => decide (p = pid)
  | _ => false

/-- The event resumes suspended handler `k`. -/
def isResumeOf (k : TaskId) : Event → Bool
  | .resume k' _ _ => decide (k' = k)
  | _ => false

/-- The event is the resumption of the suspended handler, the firing of the
timeout, or an event of the process listed in `τ`. -/
def touches (τ : Tracked) : Event → Bool
  | .resume k _ _ => decide (τ.task.map (fun kt => kt.1) = some k)
  | .timerFire t => decide (τ.timer = some t)
  | .procStdout pid _ => decide (τ.proc = some pid)
  | .procStderr pid _ => decide (τ.proc = some pid)
  | .procClose pid _ => decide (τ.proc = some pid)
  | _ => false

/-- The concatenation of chunks, in order. -/
def concatChunks : List String → String
  | [] => ""
  | chunk :: chunks => chunk ++ concatChunks chunks

/-- A request that has not arrived: nothing belongs to it. -/
def unborn (req : ReqId) (floor : Nat) : Tracked :=
  { req := req, record := none, task := none, timer := none, proc := none, floor := floor }

/-- The request whose handler `k` awaits the container status. -/
def pendingRequest (req : ReqId) (k : TaskId) (containerName command : String) : Tracked :=
  { req := req, record := some ⟨"", "", false⟩,
    task := some (k, .oneShotStatus req containerName command),
    timer := none, proc := none, floor := 0 }

/-- The request whose process `pid` runs under timeout `t`, with record `q`. -/
def runningRequest (req : ReqId) (q : Request) (t : TimerId) (pid : Pid) : Tracked :=
  { req := req, record := some q, task := none, timer := some t, proc := some pid, floor := 0 }

/-- A one-shot request for tenant t1 in `attachedState`: the container is
ready, process 1 is spawned, writes `a` and `b` to its standard output and
`e` to its standard error. -/
def oneShotTrace : List Event :=
  [ .request (some "t1") (some "ls"),
    .resume 1 (.status true "") ok,
    .procStdout 1 "a", .procStderr 1 "e", .procStdout 1 "b" ]

/-- A one-shot request for tenant t1 in `attachedState` whose process 1 is
still running when the 30 second timeout, timer 0, fires; the killed process
then closes. -/
def timeoutTrace : List Event :=
  [ .request (some "t1") (some "sleep 60"),
    .resume 1 (.status true "") ok,
    .timerFire 0,
    .procClose 1 none ]

/-- The same request when its process closes before the timeout fires. -/
def closeFirstTrace : List Event :=
  [ .request (some "t1") (some "sleep 60"),
    .resume 1 (.status true "") ok,
    .procClose 1 (some 0),
    .timerFire 0 ]

/-- Two connections send connect for the fresh tenant t1 one after the other,
before any container exists; both acquisitions succeed. -/
def concurrentTrace : List Event :=
  [ .connection, .connection,
    .message 0 (.connect (some "t1") none none) noDirs,
    .message 1 (.connect (some "t1") none none) ok,
    .resume 0 (.settled none) ok,
    .resume 1 (.settled none) ok ]

/-- The same two connects when the second acquisition fails because the name
of the container is taken. -/
def conflictTrace : List Event :=
  [ .connection, .connection,
    .message 0 (.connect (some "t1") none none) noDirs,
    .message 1 (.connect (some "t1") none none) ok,
    .resume 0 (.settled none) ok,
    .resume 1 (.settled (some "Conflict. The container name is already in use")) ok ]

/-! ## Vocabulary of the properties of sandbox ownership and reclamation -/

/-- Any two distinct entries of `clients` hold session objects with distinct
container names and distinct workspace paths. -/
def OneOwner (s : State) : Prop :=
  ∀ (k1 k2 : Option ClientId) (r1 r2 : Ref) (c1 c2 : Client),
    getClient s k1 = some (r1, c1) → getClient s k2 = some (r2, c2) → k1 ≠ k2 →
    c1.containerName ≠ c2.containerName ∧ c1.workspace ≠ c2.workspace

/-- Two tenants whose ids differ only in letter case: connection 0 connects
as T1, connection 1 connects as t1; both find no session and both containers
are reported as created. -/
def caseTrace : List Event :=
  [ .connection,
    .message 0 (.connect (some "T1") none none) noDirs,
    .resume 0 (.settled none) ok,
    .connection,
    .message 1 (.connect (some "t1") none none) noDirs,
    .resume 1 (.settled none) ok ]

/-- After `caseTrace`, connection 0 closes and the cleanup timer of tenant T1 fires. -/
def caseReclaimTrace : List Event :=
  caseTrace ++ [.close 0, .timerFire 0]

/-- Connection 0 sends connect for tenant t1 and, while `createContainer` is
awaited, a connect without uuid, which sets its `clientId` to `null`.  The
first handler resumes and registers the session under the key `null`.
Connection 1 then connects as t1: no session is registered under t1, a second
one is created. -/
def nullKeyTrace : List Event :=
  [ .connection,
    .message 0 (.connect (some "t1") none none) noDirs,
    .message 0 (.connect none none none) ok,
    .resume 0 (.settled none) ok,
    .connection,
    .message 1 (.connect (some "t1") none none) ok,
    .resume 1 (.settled none) ok ]

/-- The lines of a text, as lists of characters: the pieces between line feeds. -/
def splitLines : List Char → List (List Char)
  | [] => [[]]
  | c :: cs =>
    if c.toNat = 0x0A then [] :: splitLines cs
    else
      match splitLines cs with
      | l :: ls => (c :: l) :: ls
      | [] => [[c]]

/-- The lines of a container listing. -/
def listingLines (out : String) : List String := (splitLines out.data).map String.mk

/-- The message of the container runtime when `docker run --name` names an existing container. -/
def nameConflict : String :=
  "Conflict. The container name /rust-workspace-t1 is already in use"

/-- A runtime in which the containers of tenants t1 and t10 exist and run:
the listing filtered by the name of t1 shows both names, and `docker run`
with the name of t1 fails. -/
def sharedPrefixRuntime : Runtime :=
  { listing := .ok "rust-workspace-t1\nrust-workspace-t10\n", inspect := .ok "true\n",
    start := none, imageDefinition := none, buildRun := some nameConflict,
    probe := fun _ => none, processes := none }

/-- Every tenant registered in `clients` whose connection set is empty has an
entry in `pendingCleanups`. -/
def IdleReclaimable (s : State) : Prop :=
  ∀ clientId : ClientId, mapHas s.clients (some clientId) = true →
    connectionsOf s clientId = [] → mapHas s.pendingCleanups clientId = true

/-- The events of the connect, input, executeCommand, updateFile, close,
one-shot request and timer handlers, with the arrival of connections and the
resumption of suspended handlers. -/
def isSessionEvent : Event → Bool
  | .connection => true
  | .message _ (.connect _ _ _) _ => true
  | .message _ (.input _) _ => true
  | .message _ (.executeCommand _ _ _) _ => true
  | .message _ (.updateFile _ _) _ => true
  | .close _ => true
  | .resume _ _ _ => true
  | .timerFire _ => true
  | .request _ _ => true
  | _ => false

/-- Tenant t1 is idle, its cleanup timer armed, when a one-shot request for
it arrives: the request cancels the timer. -/
def idleRequestTrace : List Event :=
  [ .connection,
    .message 0 (.connect (some "t1") none none) noDirs,
    .resume 0 (.settled none) ok,
    .close 0,
    .request (some "t1") (some "ls") ]

/-- Tenant t1 is idle, its cleanup timer armed, when connection 1 connects as
t1: the connect cancels the timer, the container is reported as not ready and
the readiness check fails; connection 1 then closes. -/
def failedReconnectTrace : List Event :=
  [ .connection,
    .message 0 (.connect (some "t1") none none) noDirs,
    .resume 0 (.settled none) ok,
    .close 0,
    .connection,
    .message 1 (.connect (some "t1") none none) ok,
    .resume 1 (.status false "") ok,
    .resume 2 (.settled (some setupTimedOut)) ok,
    .close 1 ]

/-! ## Vocabulary of the property of updateFile with both files -/

/-- Connections 0 and 1 are attached to tenant t1; connection 0 has sent
updateFile with `mainRs` and `cargoToml`, src/main.rs is written and the
handler awaits its copy into the container as suspended handler 3. -/
def bothFilesState : State :=
  run init [.connection, .message 0 (.connect (some "t1") none none) noDirs,
    .resume 0 (.settled none) ok, .connection,
    .message 1 (.connect (some "t1") none none) ok, .resume 1 (.status true "") ok,
    .message 0 (.updateFile (.text "fn main() {}") (.text "[package]")) ok,
    .resume 2 (.status true "") ok]

/-- The file system in which `fs.writeFileSync` of Cargo.toml throws. -/
def cargoWriteFails : SyncEnv := ⟨true, true, none, some "ENOSPC: no space left on device", none⟩

/-- The notifications of the loop of lines 628-645 when both fields are
defined: to every open connection of the session other than the originating
one, a `fileChanged` for src/main.rs and one for Cargo.toml, with the new contents. -/
def bothChangedEffects (s : State) (ws : Ws) (client : Client) (mainRs cargoToml : String) :
    List Effect :=
  (client.connections.elems.filter (fun w => w ≠ ws && isOpen s w)).flatMap
    (fun w => [Effect.send w (.fileChanged "src/main.rs" (some mainRs)),
      Effect.send w (.fileChanged "Cargo.toml" (some cargoToml))])

/-- The session object of tenant t1 in `bothFilesState`. -/
def bothFilesClient : Client :=
  { containerName := "rust-workspace-t1", workspace := "./docker_workspaces/t1",
    connections := (JSSet.empty.add 0).add 1, process := none }
end TerminalServer

/-!
# ReplCoreServer: the code runner (`server.js`)

A shallow embedding of the WebSocket part of `server.js` (lines 136-375), in
the same style as the terminal server: a step function on an explicit state
that holds the map `clients`, the client records it points to, the constants
and the socket state of each connection, the spawned processes, the suspended
asynchronous functions and the trace of external calls.

Conventions of the embedding:
* `uuidv4()` is an answer of the environment, carried by the connection event;
* a handler registered with `ws.on` after an `await` sees only the events that
  are emitted after it was registered;
* an exception of `fs.rmSync` is caught where it is thrown and changes
  nothing but the log, so it is not an input of the embedding;
* `console.log` and `console.error` are left out; `spawn`, `ws.send` and
  `fs.mkdirSync` are taken not to throw.
-/

namespace CodeRunner

open TerminalServer (mapGet mapSet mapDelete truthy SyncEnv writeFileError)

/-! ## State of `server.js` -/

abbrev ClientId := String
/-- A connection (`ws`), numbered in order of arrival. -/
abbrev Ws := Nat
/-- Reference to a client record (the value stored in `clients`). -/
abbrev Ref := Nat
abbrev Pid := Nat
abbrev TaskId := Nat

def WORKSPACE_BASE : String := "./docker_workspaces"

/-- A message sent to a browser. -/
inductive Msg
  /-- The object with the field `clientId` only (line 225). -/
  | welcome (clientId : String)
  /-- An object with the field `error`, and `details` and `clientId` when given. -/
  | failure (error : String) (details : Option String) (clientId : Option String)
  /-- An object with the fields `status` and `clientId`. -/
  | status (status : String) (clientId : String)
  /-- An object with the fields `output` and `clientId`. -/
  | output (output : String) (clientId : String)
  deriving DecidableEq, Repr

/-- A call to the outside. -/
inductive Effect
  | send (ws : Ws) (msg : Msg)
  /-- The call `ws.close()` (line 233). -/
  | wsClose (ws : Ws)
  | mkdir (path : String)
  /-- The write of the Dockerfile into the workspace (line 147). -/
  | writeDockerfile (workspacePath : String)
  /-- The command `docker build -t <name> <path> && docker run ...` (line 149). -/
  | buildAndRun (containerName workspacePath : String)
  | writeFile (path content : String)
  /-- The call `runCommandInContainer(containerName, command)`; `pid` is the new process. -/
  | spawn (pid : Pid) (containerName command : String)
  | procKill (pid : Pid) (signal : String)
  /-- The call `copyToContainer(containerName, source, dest)`. -/
  | dockerCp (containerName source dest : String)
  /-- The call `removeContainer(containerName)`. -/
  | dockerStop (containerName : String)
  | rmSync (path : String)
  /-- The promise of an asynchronous callback is rejected and nothing awaits it. -/
  | unhandled (message : String)
  deriving DecidableEq, Repr

/-- A client record, the value of `clients` (lines 217-222). -/
structure Client where
  ws : Ws
  containerName : String
  workspace : String
  process : Option Pid
  deriving DecidableEq, Repr

/-- The constant `clientId` of a connection and the state of its socket. -/
structure Conn where
  clientId : ClientId
  /-- The test `ws.readyState === WebSocket.OPEN`. -/
  readyOpen : Bool
  /-- The `close` event has been emitted. -/
  closed : Bool
  /-- The `message` and `close` handlers are registered (lines 237, 330). -/
  listening : Bool
  deriving DecidableEq, Repr

/-- What a spawned process is, with the variables its handlers captured. -/
inductive ProcKind
  /-- The `mkdir -p` of line 275; its `exit` callback captured `client` and `activeClientId`. -/
  | mkdir (r : Ref) (activeClientId : String)
  /-- The `cargo run` of line 283. -/
  | cargoRun (r : Ref) (activeClientId : String)
  deriving DecidableEq, Repr

structure Proc where
  kind : ProcKind
  /-- The `exit` event (of `mkdir`) or the `close` event (of `cargo run`) has been delivered. -/
  exited : Bool
  deriving DecidableEq, Repr

/-- An asynchronous function suspended at an `await`. -/
inductive Task
  /-- The connection handler awaits `createContainer` (line 215). -/
  | create (ws : Ws)
  /-- The `exit` callback awaits the copy of Cargo.toml (line 276). -/
  | copyCargo (r : Ref) (activeClientId : String)
  /-- The `exit` callback awaits the copy of src/main.rs (line 277). -/
  | copyMain (r : Ref) (activeClientId : String)
  /-- The close handler awaits `removeContainer` (line 338). -/
  | closeStop (ws : Ws) (r : Ref)
  /-- A callback of the sweep awaits `removeContainer` (line 362). -/
  | sweepStop (id : ClientId) (r : Ref)
  deriving DecidableEq, Repr

structure State where
  /-- The map `clients`, in insertion order. -/
  clients : List (ClientId × Ref)
  heap : List Client
  conns : List Conn
  procs : List Proc
  tasks : List (TaskId × Task)
  nextTask : TaskId
  trace : List Effect

def init : State :=
  { clients := [], heap := [], conns := [], procs := [], tasks := [], nextTask := 0, trace := [] }

/-- A parsed message (line 240): the four fields the handler reads, or the
error of `JSON.parse`. -/
inductive Data
  | malformed (err : String)
  | fields (cargoToml mainRs action receivedClientId : Option String)

inductive Event
  /-- A browser connects; `uuid` is the result of `uuidv4()`, `dockerfileErr`
  the exception of the write of the Dockerfile, if any. -/
  | connection (uuid : String) (env : SyncEnv) (dockerfileErr : Option String)
  | message (ws : Ws) (data : Data) (env : SyncEnv)
  /-- The socket leaves the state OPEN; its `close` event comes later. -/
  | wsDrop (ws : Ws)
  /-- The `close` event of the socket. -/
  | close (ws : Ws)
  /-- The promise awaited by suspended function `k` settles: `none` is success. -/
  | resume (k : TaskId) (err : Option String)
  /-- The `exit` event of a process. -/
  | procExit (pid : Pid)
  | procStdout (pid : Pid) (chunk : String)
  | procStderr (pid : Pid) (chunk : String)
  | procClose (pid : Pid) (code : Option Int)
  /-- The interval of line 353 expires. -/
  | sweepTick

/-! ## Primitive changes of the state -/

def emit (s : State) (e : Effect) : State := { s with trace := s.trace ++ [e] }

def emits (s : State) (es : List Effect) : State := { s with trace := s.trace ++ es }

def send (s : State) (ws : Ws) (m : Msg) : State := emit s (.send ws m)

def addConn (s : State) (c : Conn) : State := { s with conns := s.conns ++ [c] }

def updConn (s : State) (ws : Ws) (f : Conn → Conn) : State :=
  { s with conns := match s.conns[ws]? with
      | some c => s.conns.set ws (f c)
      | none => s.conns }

/-- Assign fields of a client record. -/
def updClient (s : State) (r : Ref) (f : Client → Client) : State :=
  { s with heap := match s.heap[r]? with
      | some c => s.heap.set r (f c)
      | none => s.heap }

def addProc (s : State) (p : Proc) : State := { s with procs := s.procs ++ [p] }

def markExited (s : State) (pid : Pid) : State :=
  { s with procs := match s.procs[pid]? with
      | some p => s.procs.set pid { p with exited := true }
      | none => s.procs }

/-- Suspend the running function at an `await`. -/
def suspend (s : State) (t : Task) : State :=
  { s with tasks := s.tasks ++ [(s.nextTask, t)], nextTask := s.nextTask + 1 }

def takeTask (s : State) (k : TaskId) : State := { s with tasks := mapDelete s.tasks k }

/-- The statement `clients.set(clientId, client)` with a new record. -/
def registerClient (s : State) (clientId : ClientId) (client : Client) : State :=
  { s with heap := s.heap ++ [client], clients := mapSet s.clients clientId s.heap.length }

/-- The statement `clients.delete(clientId)`. -/
def delClient (s : State) (clientId : ClientId) : State :=
  { s with clients := mapDelete s.clients clientId }

/-- The record `clients.get(clientId)`. -/
def getClient (s : State) (clientId : ClientId) : Option (Ref × Client) :=
  match mapGet s.clients clientId with
  | some r => (s.heap[r]?).map (fun c => (r, c))
  | none => none

/-- The test `ws.readyState === WebSocket.OPEN`. -/
def isOpen (s : State) (ws : Ws) : Bool :=
  match s.conns[ws]? with
  | some c => c.readyOpen
  | none => false

/-- The statement `if (client.process) client.process.kill("SIGTERM")`
(lines 279-281, 333-335, 357-359): the slot keeps the process. -/
def killEffects (client : Client) : List Effect :=
  match client.process with
  | some pid => [.procKill pid "SIGTERM"]
  | none => []

/-! ## The handlers -/

/-- Lines 207-212: the workspace directories are created when missing. -/
def mkdirEffects (env : SyncEnv) (workspace : String) : List Effect :=
  if env.wsDirExists then []
  else if env.srcDirExists then [.mkdir workspace]
  else [.mkdir workspace, .mkdir (workspace ++ "/src")]

/-- Lines 227-234: `createContainer` was rejected. -/
def createFailed (s : State) (ws : Ws) (e : String) : State :=
  let s := send s ws (.failure "Failed to create your workspace" (some e) none)
  updConn (emit s (.wsClose ws)) ws (fun c => { c with readyOpen := false })

/-- The handler `wss.on("connection")` up to its `await` (lines 202-215), with
`createContainer` (lines 136-163) up to its `exec`.  An exception of the write
of the Dockerfile rejects the promise before any command is issued. -/
def onConnection (s : State) (uuid : String) (env : SyncEnv) (dockerfileErr : Option String) :
    State :=
  let ws := s.conns.length
  let s := addConn s { clientId := uuid, readyOpen := true, closed := false, listening := false }
  let s := emits s (mkdirEffects env (WORKSPACE_BASE ++ "/" ++ uuid))
  let s := emit s (.writeDockerfile (WORKSPACE_BASE ++ "/" ++ uuid))
  match dockerfileErr with
  | some e => createFailed s ws e
  | none =>
    suspend (emit s (.buildAndRun ("rust-workspace-" ++ uuid) (WORKSPACE_BASE ++ "/" ++ uuid)))
      (.create ws)

/-- Lines 217-237 and 330: after `createContainer` has settled. -/
def createAfter (s : State) (ws : Ws) (err : Option String) : State :=
  match s.conns[ws]? with
  | none => s
  | some c =>
    match err with
    | some e => createFailed s ws e
    | none =>
      let client : Client :=
        { ws := ws, containerName := "rust-workspace-" ++ c.clientId,
          workspace := WORKSPACE_BASE ++ "/" ++ c.clientId, process := none }
      let s := registerClient s c.clientId client
      let s := send s ws (.welcome c.clientId)
      updConn s ws (fun c => { c with listening := true })

/-- The error reported by the `catch` of lines 321-327. -/
def processingError (e : String) : Msg :=
  .failure "Error processing your request" (some e) none

/-- The handler `ws.on("message")` (lines 237-328), up to the spawn of
`mkdir -p`; the `await` of line 275 is on a value that is not a promise and
nothing follows it. -/
def onMessage (s : State) (ws : Ws) (clientId : ClientId) (data : Data) (env : SyncEnv) :
    State :=
  match data with
  | .malformed e => send s ws (processingError e)
  | .fields cargoToml mainRs action receivedClientId =>
    let activeClientId := if truthy receivedClientId then receivedClientId.getD "" else clientId
    match getClient s activeClientId with
    | none => send s ws (.failure "Invalid client ID or session expired" none none)
    | some (r, client) =>
      if action = some "stop" then
        match client.process with
        | some pid =>
          let s := emit s (.procKill pid "SIGTERM")
          let s := updClient s r (fun c => { c with process := none })
          send s ws (.status "Rust process stopped" activeClientId)
        | none => send s ws (.status "No Rust process running" activeClientId)
      else
        match cargoToml, writeFileError cargoToml env.writeCargoErr with
        | some cargo, none =>
          let s := emit s (.writeFile (client.workspace ++ "/Cargo.toml") cargo)
          match mainRs, writeFileError mainRs env.writeMainErr with
          | some main, none =>
            let s := emit s (.writeFile (client.workspace ++ "/src/main.rs") main)
            emit (addProc s ⟨.mkdir r activeClientId, false⟩)
              (.spawn s.procs.length client.containerName "mkdir -p /usr/src/app/src")
          | some main, some e =>
            send (emit s (.writeFile (client.workspace ++ "/src/main.rs") main))
              ws (processingError e)
          | none, e => send s ws (processingError (e.getD ""))
        | some cargo, some e =>
          send (emit s (.writeFile (client.workspace ++ "/Cargo.toml") cargo))
            ws (processingError e)
        | none, e => send s ws (processingError (e.getD ""))

/-- The `exit` callback of `mkdir -p` up to its first `await` (lines 275-276). -/
def onProcExit (s : State) (pid : Pid) : State :=
  match s.procs[pid]? with
  | none => s
  | some p =>
    if p.exited then s
    else
      match p.kind with
      | .mkdir r activeClientId =>
        let s := markExited s pid
        match s.heap[r]? with
        | none => s
        | some client =>
          suspend (emit s (.dockerCp client.containerName (client.workspace ++ "/Cargo.toml")
            "/usr/src/app/Cargo.toml")) (.copyCargo r activeClientId)
      | .cargoRun _ _ => s

/-- The `exit` callback after the copy of Cargo.toml has settled (line 277). -/
def copyCargoAfter (s : State) (r : Ref) (activeClientId : String) (err : Option String) :
    State :=
  match err with
  | some e => emit s (.unhandled e)
  | none =>
    match s.heap[r]? with
    | none => s
    | some client =>
      suspend (emit s (.dockerCp client.containerName (client.workspace ++ "/src/main.rs")
        "/usr/src/app/src/main.rs")) (.copyMain r activeClientId)

/-- The `exit` callback after the copy of src/main.rs has settled (lines 279-311). -/
def copyMainAfter (s : State) (r : Ref) (activeClientId : String) (err : Option String) :
    State :=
  match err with
  | some e => emit s (.unhandled e)
  | none =>
    match s.heap[r]? with
    | none => s
    | some client =>
      let pid := s.procs.length
      let s := emits s (killEffects client)
      let s := emit (addProc s ⟨.cargoRun r activeClientId, false⟩)
        (.spawn pid client.containerName "cd /usr/src/app && cargo run")
      updClient s r (fun c => { c with process := some pid })

/-- The messages of a `cargo run` process go to `client.ws` when it is open. -/
def sendToOwner (s : State) (r : Ref) (m : Msg) : State :=
  match s.heap[r]? with
  | none => s
  | some client => if isOpen s client.ws then send s client.ws m else s

/-- The `stdout` handler of `cargo run` (lines 285-292). -/
def onProcStdout (s : State) (pid : Pid) (chunk : String) : State :=
  match s.procs[pid]? with
  | none => s
  | some p =>
    if p.exited then s
    else
      match p.kind with
      | .cargoRun r activeClientId => sendToOwner s r (.output chunk activeClientId)
      | .mkdir _ _ => s

/-- The `stderr` handler of `cargo run` (lines 294-301). -/
def onProcStderr (s : State) (pid : Pid) (chunk : String) : State :=
  match s.procs[pid]? with
  | none => s
  | some p =>
    if p.exited then s
    else
      match p.kind with
      | .cargoRun r activeClientId => sendToOwner s r (.failure chunk none (some activeClientId))
      | .mkdir _ _ => s

/-- The text of an exit code in a template string. -/
def codeText : Option Int → String
  | some c => toString c
  | none => "null"

/-- The `close` handler of `cargo run` (lines 303-311). -/
def onProcClose (s : State) (pid : Pid) (code : Option Int) : State :=
  match s.procs[pid]? with
  | none => s
  | some p =>
    if p.exited then s
    else
      match p.kind with
      | .cargoRun r activeClientId =>
        let s := markExited s pid
        let s := sendToOwner s r
          (.status ("Process exited with code " ++ codeText code) activeClientId)
        updClient s r (fun c => { c with process := none })
      | .mkdir _ _ => s

/-- The handler `ws.on("close")` up to its `await` (lines 330-338). -/
def onClose (s : State) (ws : Ws) (clientId : ClientId) : State :=
  match getClient s clientId with
  | none => s
  | some (r, client) =>
    let s := emits s (killEffects client)
    suspend (emit s (.dockerStop client.containerName)) (.closeStop ws r)

/-- How the command `docker stop <name> || true`, which `removeContainer`
hands to `exec` (line 185), ends. -/
inductive StopRun
  /-- The container is stopped: `docker stop` exits with code 0. -/
  | stopped
  /-- The stop fails: `docker stop` exits with another code and writes
  `stderr`; `|| true` then makes the command exit with code 0. -/
  | stopFailed (stderr : String)
  /-- The function `exec` cannot run the command, or the shell is killed: it
  reports an error to its callback. -/
  | execFailed (message : String)
  deriving DecidableEq, Repr

/-- The function `removeContainer` (lines 183-193): how its promise settles.
It is rejected with the error `exec` reports and resolved otherwise; `none`
is resolved. -/
def removeContainer : StopRun → Option String
  | .stopped => none
  | .stopFailed _ => none
  | .execFailed message => some message

/-- Lines 339-347 and 363-371: after `removeContainer` has settled, in the
close handler and in the sweep.  The workspace is removed when the promise
was resolved; the entry of `clients` is deleted in both cases. -/
def afterStop (s : State) (clientId : ClientId) (r : Ref) (err : Option String) : State :=
  let s := match err, s.heap[r]? with
    | none, some client => emit s (.rmSync client.workspace)
    | _, _ => s
  delClient s clientId

/-- The callback of the sweep for one entry of `clients`, up to its `await`
(lines 355-362). -/
def sweepVisit (s : State) (id : ClientId) (r : Ref) : State :=
  match s.heap[r]? with
  | none => s
  | some client =>
    if isOpen s client.ws then s
    else
      let s := emits s (killEffects client)
      suspend (emit s (.dockerStop client.containerName)) (.sweepStop id r)

/-- The callback of `setInterval` (lines 353-375): `clients.forEach` runs the
callback for every entry, in insertion order, each up to its `await`. -/
def sweep (s : State) : State :=
  s.clients.foldl (fun x p => sweepVisit x p.1 p.2) s

/-- Resume a suspended function with the outcome of the promise it awaits. -/
def resumeTask (s : State) (task : Task) (err : Option String) : State :=
  match task with
  | .create ws => createAfter s ws err
  | .copyCargo r activeClientId => copyCargoAfter s r activeClientId err
  | .copyMain r activeClientId => copyMainAfter s r activeClientId err
  | .closeStop ws r =>
    match s.conns[ws]? with
    | some c => afterStop s c.clientId r err
    | none => s
  | .sweepStop id r => afterStop s id r err

/-- One turn of the event loop.  An event that cannot occur in the state, or
that no handler listens to, leaves the state as it is. -/
def step (s : State) (e : Event) : State :=
  match e with
  | .connection uuid env dockerfileErr => onConnection s uuid env dockerfileErr
  | .message ws data env =>
    match s.conns[ws]? with
    | some c => if c.listening && !c.closed then onMessage s ws c.clientId data env else s
    | none => s
  | .wsDrop ws => updConn s ws (fun c => { c with readyOpen := false })
  | .close ws =>
    match s.conns[ws]? with
    | some c =>
      if c.closed then s
      else
        let s := updConn s ws (fun c => { c with readyOpen := false, closed := true })
        if c.listening then onClose s ws c.clientId else s
    | none => s
  | .resume k err =>
    match mapGet s.tasks k with
    | some task => resumeTask (takeTask s k) task err
    | none => s
  | .procExit pid => onProcExit s pid
  | .procStdout pid chunk => onProcStdout s pid chunk
  | .procStderr pid chunk => onProcStderr s pid chunk
  | .procClose pid code => onProcClose s pid code
  | .sweepTick => sweep s

/-- The state after a sequence of events. -/
def run (s : State) (es : List Event) : State := es.foldl step s

/-- The states the server can be in. -/
def Reachable (s : State) : Prop := ∃ es : List Event, run init es = s

/-- The calls issued between state `s` and a later state `s'`. -/
def newEffects (s s' : State) : List Effect := s'.trace.drop s.trace.length

/-! ## Vocabulary of the properties -/

/-- The file system answers without error and the workspace directories exist. -/
def fine : SyncEnv := ⟨true, true, none, none, none⟩

/-- The connection of the client record `r` is not open. -/
def isStale (s : State) (r : Ref) : Bool :=
  match s.heap[r]? with
  | some client => !isOpen s client.ws
  | none => false

/-- The calls of the sweep for the record `r`, up to its `await`: none when the
connection is open; otherwise the signal to the process in the slot, if any,
and the stop of the container. -/
def visitEffects (s : State) (r : Ref) : List Effect :=
  match s.heap[r]? with
  | some client =>
    if isOpen s client.ws then [] else killEffects client ++ [.dockerStop client.containerName]
  | none => []

/-- The suspended callbacks a sweep creates in state `s`: one for every entry
whose connection is not open, numbered from `n` in the order of `clients`. -/
def sweepTasksFrom (s : State) : TaskId → List (ClientId × Ref) → List (TaskId × Task)
  | _, [] => []
  | n, p :: ps =>
    if isStale s p.2 then (n, .sweepStop p.1 p.2) :: sweepTasksFrom s (n + 1) ps
    else sweepTasksFrom s n ps

/-- The suspended callbacks a sweep creates in state `s`. -/
def sweepTasks (s : State) : List (TaskId × Task) := sweepTasksFrom s s.nextTask s.clients

/-- The keys of `clients` are distinct and the identifiers of the suspended
functions have been handed out. -/
def WellFormed (s : State) : Prop :=
  (s.clients.map Prod.fst).Nodup ∧ (∀ p ∈ s.tasks, p.1 < s.nextTask)

/-- The call names only the connection `ws` and the workspace, the container
and the process slot of the record `client`. -/
def actsOn (ws : Ws) (client : Client) : Effect → Bool
  | .send w _ => decide (w = ws)
  | .writeFile path _ =>
    decide (path = client.workspace ++ "/Cargo.toml") ||
    decide (path = client.workspace ++ "/src/main.rs")
  | .spawn _ containerName _ => decide (containerName = client.containerName)
  | .procKill pid _ => decide (client.process = some pid)
  | .dockerCp containerName source _ =>
    decide (containerName = client.containerName) &&
    (decide (source = client.workspace ++ "/Cargo.toml") ||
      decide (source = client.workspace ++ "/src/main.rs"))
  | _ => false

/-- The client id a message acts on: `receivedClientId || clientId` (line 242). -/
def activeClientIdOf (receivedClientId : Option String) (clientId : ClientId) : String :=
  if truthy receivedClientId then receivedClientId.getD "" else clientId

/-- Client `a` connects on connection 0; its socket leaves the state OPEN
without a close event; the sweep runs. -/
def staleTrace : List Event :=
  [ .connection "a" fine none, .resume 0 none, .wsDrop 0, .sweepTick ]

/-- Clients `a` and `b` connect on connections 0 and 1; `b` runs its code:
process 1 is `cargo run`, in the slot of `b`. -/
def twoClientsTrace : List Event :=
  [ .connection "a" fine none, .resume 0 none,
    .connection "b" fine none, .resume 1 none,
    .message 1 (.fields (some "[package]") (some "fn main()") none none) fine,
    .procExit 0, .resume 2 none, .resume 3 none ]

/-- The state after `twoClientsTrace`. -/
def twoClients : State := run init twoClientsTrace

/-- The record of client `b` in `twoClients`. -/
def clientB : Client :=
  { ws := 1, containerName := "rust-workspace-b", workspace := "./docker_workspaces/b",
    process := some 1 }

/-- In `twoClients` the socket of `a` has left the state OPEN. -/
def twoClientsDropped : State := step twoClients (.wsDrop 0)

/-- The client a suspended callback of the sweep is to remove. -/
def sweepIdOf : Task → Option ClientId
  | .sweepStop id _ => some id
  | _ => none

/-- The resumption of suspended functions, each given with its number, its
kind and the error of the promise it awaits, if any. -/
def resumeAll (l : List (TaskId × Task × Option String)) : List Event :=
  l.map (fun j => Event.resume j.1 j.2.2)

/-- The suspended callbacks of a sweep, each given with its number, its kind
and the way its stop command ended, as `resumeAll` takes them: with the
promise of `removeContainer`. -/
def settleStops (l : List (TaskId × Task × StopRun)) : List (TaskId × Task × Option String) :=
  l.map (fun j => (j.1, j.2.1, removeContainer j.2.2))
end CodeRunner

/-! # The task store (src/galagaTaskAPI.js, src/server.js lines 23-44 and 100-134)

The endpoints read the tasks file of a user with `readTasksData`, which
returns the parsed content of the file; the content is a parameter of the
model.  Both source files define the endpoints with the same text. -/

namespace TaskStore

open TerminalServer (truthy)

/-- A task object of a tasks file: the fields the endpoints read; `rest`
stands for the other fields of the object.  The field `completed` is the
truthiness of the property. -/
structure Task where
  task_id : Int
  completed : Bool
  rest : String
  deriving DecidableEq, Repr

/-- The content of a tasks file; `none` is `null`. -/
structure TasksData where
  tasks : List Task
  last_completed_task_id : Option Int
  deriving DecidableEq, Repr

/-- The value `readTasksData` returns when the file cannot be parsed (line 22). -/
def unreadable : TasksData := { tasks := [], last_completed_task_id := none }

/-- The answers of the endpoints `complete` and `next_task`. -/
inductive Reply
  /-- Status 400 with the message 'UUID is required'. -/
  | uuidRequired
  /-- Status 404 with the message 'Task not found'. -/
  | notFound
  /-- The message 'Task marked as complete' with the task. -/
  | marked (task : Task)
  /-- A task object. -/
  | task (task : Task)
  /-- The message 'All tasks are completed'. -/
  | allCompleted
  deriving DecidableEq, Repr

/-- The expression `data.last_completed_task_id || 0`: `null` and `0` are falsy. -/
def orZero : Option Int → Int
  | some n => if n = 0 then 0 else n
  | none => 0

/-- The predicate handed to `find` by `next_task` (line 73):
`t.task_id > (data.last_completed_task_id || 0) && !t.completed`. -/
def isNext (data : TasksData) (t : Task) : Bool :=
  decide (t.task_id > orZero data.last_completed_task_id) && !t.completed

/-- The endpoint `GET /galaga/next_task` (lines 68-75) for the file content `data`. -/
def next_task (uuid : Option String) (data : TasksData) : Reply :=
  if !truthy uuid then .uuidRequired
  else
    match data.tasks.find? (isNext data) with
    | some nextTask => .task nextTask
    | none => .allCompleted

/-- The assignment `task.completed = true` on the object `find` returned: the
first task of the list with the id. -/
def markCompleted : List Task → Int → List Task
  | [], _ => []
  | t :: ts, id =>
    if t.task_id = id then { t with completed := true } :: ts
    else t :: markCompleted ts id

/-- The endpoint `POST /galaga/tasks/:id/complete` (lines 50-65) for the file
content `data`: the content of the file afterwards, and the answer.  The id
`none` is the `NaN` of `parseInt`, which equals no task id; `written` tells
whether `fs.writeFileSync` succeeds (its error is logged only). -/
def complete (uuid : Option String) (data : TasksData) (id : Option Int) (written : Bool) :
    TasksData × Reply :=
  if !truthy uuid then (data, .uuidRequired)
  else
    match id with
    | none => (data, .notFound)
    | some n =>
      match data.tasks.find? (fun t => decide (t.task_id = n)) with
      | some task =>
        (if written then
            { tasks := markCompleted data.tasks n, last_completed_task_id := some task.task_id }
          else data,
          .marked { task with completed := true })
      | none => (data, .notFound)

/-! ## Vocabulary of the property of next_task -/

/-- A tasks file with two tasks, none completed. -/
def twoTasks : TasksData :=
  { tasks := [⟨1, false, "move the ship"⟩, ⟨2, false, "shoot"⟩], last_completed_task_id := none }

/-- The file `twoTasks` after task 2 has been marked as complete. -/
def secondDone : TasksData :=
  { tasks := [⟨1, false, "move the ship"⟩, ⟨2, true, "shoot"⟩],
    last_completed_task_id := some 2 }

end TaskStore

namespace TerminalServer

/-! ## Lemmas on maps -/

section JSMapLemmas
variable {κ : Type} {ν : Type} [DecidableEq κ]

theorem mapGet_mapSet_self (m : List (κ × ν)) (k : κ) (v : ν) :
    mapGet (mapSet m k v) k = some v := by
  induction m with
  | nil => simp [mapSet, mapGet]
  | cons p m ih =>
    obtain ⟨k', v'⟩ := p
    by_cases h : k' = k
    · simp [mapSet, mapGet, h]
    · simp [mapSet, mapGet, h, ih]

theorem mapGet_mapSet_ne (m : List (κ × ν)) {k k' : κ} (v : ν) (h : k' ≠ k) :
    mapGet (mapSet m k v) k' = mapGet m k' := by
  induction m with
  | nil => simp [mapSet, mapGet, Ne.symm h]
  | cons p m ih =>
    obtain ⟨k₀, v₀⟩ := p
    by_cases h₀ : k₀ = k
    · subst h₀
      simp [mapSet, mapGet, Ne.symm h]
    · by_cases h₁ : k₀ = k'
      · subst h₁
        simp [mapSet, mapGet, h₀]
      · simp [mapSet, mapGet, h₀, h₁, ih]

theorem mapGet_mapDelete_self (m : List (κ × ν)) (k : κ) :
    mapGet (mapDelete m k) k = none := by
  induction m with
  | nil => simp [mapDelete, mapGet]
  | cons p m ih =>
    obtain ⟨k', v'⟩ := p
    by_cases h : k' = k
    · simp [mapDelete, h, ih]
    · simp [mapDelete, mapGet, h, ih]

theorem mapGet_mapDelete_ne (m : List (κ × ν)) {k k' : κ} (h : k' ≠ k) :
    mapGet (mapDelete m k) k' = mapGet m k' := by
  induction m with
  | nil => simp [mapDelete, mapGet]
  | cons p m ih =>
    obtain ⟨k₀, v₀⟩ := p
    by_cases h₀ : k₀ = k
    · subst h₀
      simp [mapDelete, mapGet, Ne.symm h, ih]
    · by_cases h₁ : k₀ = k'
      · subst h₁
        simp [mapDelete, mapGet, h₀]
      · simp [mapDelete, mapGet, h₀, h₁, ih]

theorem mem_of_mem_mapDelete {m : List (κ × ν)} {k : κ} {p : κ × ν}
    (h : p ∈ mapDelete m k) : p ∈ m ∧ p.1 ≠ k := by
  induction m with
  | nil => simp [mapDelete] at h
  | cons q m ih =>
    obtain ⟨k', v'⟩ := q
    by_cases h' : k' = k
    · simp [mapDelete, h'] at h
      exact ⟨List.mem_cons_of_mem _ (ih h).1, (ih h).2⟩
    · simp only [mapDelete, h', if_false, List.mem_cons] at h
      rcases h with h | h
      · subst h
        exact ⟨List.mem_cons_self _ _, h'⟩
      · exact ⟨List.mem_cons_of_mem _ (ih h).1, (ih h).2⟩

theorem mem_of_mem_mapSet {m : List (κ × ν)} {k : κ} {v : ν} {p : κ × ν}
    (h : p ∈ mapSet m k v) : p ∈ m ∨ p = (k, v) := by
  induction m with
  | nil => simpa [mapSet] using h
  | cons q m ih =>
    obtain ⟨k', v'⟩ := q
    by_cases h' : k' = k
    · simp only [mapSet, h', if_true, List.mem_cons] at h
      rcases h with h | h
      · exact Or.inr h
      · exact Or.inl (List.mem_cons_of_mem _ h)
    · simp only [mapSet, h', if_false, List.mem_cons] at h
      rcases h with h | h
      · subst h
        exact Or.inl (List.mem_cons_self _ _)
      · rcases ih h with h | h
        · exact Or.inl (List.mem_cons_of_mem _ h)
        · exact Or.inr h

theorem mapDelete_of_mapGet_none {m : List (κ × ν)} {k : κ} (h : mapGet m k = none) :
    mapDelete m k = m := by
  induction m with
  | nil => rfl
  | cons q m ih =>
    obtain ⟨k', v'⟩ := q
    by_cases h' : k' = k
    · simp [mapGet, h'] at h
    · simp only [mapGet, h', if_false] at h
      simp [mapDelete, h', ih h]

theorem mem_of_mapGet {m : List (κ × ν)} {k : κ} {v : ν} (h : mapGet m k = some v) :
    (k, v) ∈ m := by
  induction m with
  | nil => simp [mapGet] at h
  | cons q m ih =>
    obtain ⟨k', v'⟩ := q
    by_cases h' : k' = k
    · simp [mapGet, h'] at h
      subst h; subst h'
      exact List.mem_cons_self _ _
    · simp [mapGet, h'] at h
      exact List.mem_cons_of_mem _ (ih h)

theorem mapGet_eq_none_iff (m : List (κ × ν)) (k : κ) :
    mapGet m k = none ↔ ∀ p ∈ m, p.1 ≠ k := by
  induction m with
  | nil => simp [mapGet]
  | cons q m ih =>
    obtain ⟨k', v'⟩ := q
    by_cases h' : k' = k
    · simp [mapGet, h']
    · simp [mapGet, h', ih]

theorem mapGet_append (m l : List (κ × ν)) (k : κ) :
    mapGet (m ++ l) k = (mapGet m k).or (mapGet l k) := by
  induction m with
  | nil => simp [mapGet]
  | cons q m ih =>
    obtain ⟨k', v'⟩ := q
    by_cases h' : k' = k
    · simp [mapGet, h']
    · simp [mapGet, h', ih]

theorem mapHas_eq_true_iff (m : List (κ × ν)) (k : κ) :
    mapHas m k = true ↔ ∃ v, mapGet m k = some v := by
  simp [mapHas, Option.isSome_iff_exists]

end JSMapLemmas

/-! ## Fields of the state after each primitive change -/

@[simp] theorem emit_clients (s : State) (e : Effect) : (emit s e).clients = s.clients := rfl
@[simp] theorem emit_heap (s : State) (e : Effect) : (emit s e).heap = s.heap := rfl
@[simp] theorem emit_terminals (s : State) (e : Effect) : (emit s e).terminals = s.terminals := rfl
@[simp] theorem emit_pendingCleanups (s : State) (e : Effect) :
    (emit s e).pendingCleanups = s.pendingCleanups := rfl
@[simp] theorem emit_conns (s : State) (e : Effect) : (emit s e).conns = s.conns := rfl
@[simp] theorem emit_procs (s : State) (e : Effect) : (emit s e).procs = s.procs := rfl
@[simp] theorem emit_ptys (s : State) (e : Effect) : (emit s e).ptys = s.ptys := rfl
@[simp] theorem emit_timers (s : State) (e : Effect) : (emit s e).timers = s.timers := rfl
@[simp] theorem emit_nextTimer (s : State) (e : Effect) : (emit s e).nextTimer = s.nextTimer := rfl
@[simp] theorem emit_tasks (s : State) (e : Effect) : (emit s e).tasks = s.tasks := rfl
@[simp] theorem emit_nextTask (s : State) (e : Effect) : (emit s e).nextTask = s.nextTask := rfl
@[simp] theorem emit_requests (s : State) (e : Effect) : (emit s e).requests = s.requests := rfl
@[simp] theorem emit_trace (s : State) (e : Effect) : (emit s e).trace = s.trace ++ [e] := rfl

@[simp] theorem emits_clients (s : State) (es : List Effect) :
    (emits s es).clients = s.clients := rfl
@[simp] theorem emits_heap (s : State) (es : List Effect) : (emits s es).heap = s.heap := rfl
@[simp] theorem emits_terminals (s : State) (es : List Effect) :
    (emits s es).terminals = s.terminals := rfl
@[simp] theorem emits_pendingCleanups (s : State) (es : List Effect) :
    (emits s es).pendingCleanups = s.pendingCleanups := rfl
@[simp] theorem emits_conns (s : State) (es : List Effect) : (emits s es).conns = s.conns := rfl
@[simp] theorem emits_procs (s : State) (es : List Effect) : (emits s es).procs = s.procs := rfl
@[simp] theorem emits_ptys (s : State) (es : List Effect) : (emits s es).ptys = s.ptys := rfl
@[simp] theorem emits_timers (s : State) (es : List Effect) : (emits s es).timers = s.timers := rfl
@[simp] theorem emits_nextTimer (s : State) (es : List Effect) :
    (emits s es).nextTimer = s.nextTimer := rfl
@[simp] theorem emits_tasks (s : State) (es : List Effect) : (emits s es).tasks = s.tasks := rfl
@[simp] theorem emits_nextTask (s : State) (es : List Effect) :
    (emits s es).nextTask = s.nextTask := rfl
@[simp] theorem emits_requests (s : State) (es : List Effect) :
    (emits s es).requests = s.requests := rfl
@[simp] theorem emits_trace (s : State) (es : List Effect) :
    (emits s es).trace = s.trace ++ es := rfl

@[simp] theorem send_clients (s : State) (w : Ws) (m : Msg) :
    (send s w m).clients = s.clients := rfl
@[simp] theorem send_heap (s : State) (w : Ws) (m : Msg) : (send s w m).heap = s.heap := rfl
@[simp] theorem send_terminals (s : State) (w : Ws) (m : Msg) :
    (send s w m).terminals = s.terminals := rfl
@[simp] theorem send_pendingCleanups (s : State) (w : Ws) (m : Msg) :
    (send s w m).pendingCleanups = s.pendingCleanups := rfl
@[simp] theorem send_conns (s : State) (w : Ws) (m : Msg) : (send s w m).conns = s.conns := rfl
@[simp] theorem send_procs (s : State) (w : Ws) (m : Msg) : (send s w m).procs = s.procs := rfl
@[simp] theorem send_ptys (s : State) (w : Ws) (m : Msg) : (send s w m).ptys = s.ptys := rfl
@[simp] theorem send_timers (s : State) (w : Ws) (m : Msg) : (send s w m).timers = s.timers := rfl
@[simp] theorem send_nextTimer (s : State) (w : Ws) (m : Msg) :
    (send s w m).nextTimer = s.nextTimer := rfl
@[simp] theorem send_tasks (s : State) (w : Ws) (m : Msg) : (send s w m).tasks = s.tasks := rfl
@[simp] theorem send_nextTask (s : State) (w : Ws) (m : Msg) :
    (send s w m).nextTask = s.nextTask := rfl
@[simp] theorem send_requests (s : State) (w : Ws) (m : Msg) :
    (send s w m).requests = s.requests := rfl
@[simp] theorem send_trace (s : State) (w : Ws) (m : Msg) :
    (send s w m).trace = s.trace ++ [.send w m] := rfl

@[simp] theorem broadcast_clients (s : State) (r : Ref) (m : Msg) :
    (broadcast s r m).clients = s.clients := rfl
@[simp] theorem broadcast_heap (s : State) (r : Ref) (m : Msg) :
    (broadcast s r m).heap = s.heap := rfl
@[simp] theorem broadcast_terminals (s : State) (r : Ref) (m : Msg) :
    (broadcast s r m).terminals = s.terminals := rfl
@[simp] theorem broadcast_pendingCleanups (s : State) (r : Ref) (m : Msg) :
    (broadcast s r m).pendingCleanups = s.pendingCleanups := rfl
@[simp] theorem broadcast_conns (s : State) (r : Ref) (m : Msg) :
    (broadcast s r m).conns = s.conns := rfl
@[simp] theorem broadcast_procs (s : State) (r : Ref) (m : Msg) :
    (broadcast s r m).procs = s.procs := rfl
@[simp] theorem broadcast_ptys (s : State) (r : Ref) (m : Msg) :
    (broadcast s r m).ptys = s.ptys := rfl
@[simp] theorem broadcast_timers (s : State) (r : Ref) (m : Msg) :
    (broadcast s r m).timers = s.timers := rfl
@[simp] theorem broadcast_nextTimer (s : State) (r : Ref) (m : Msg) :
    (broadcast s r m).nextTimer = s.nextTimer := rfl
@[simp] theorem broadcast_tasks (s : State) (r : Ref) (m : Msg) :
    (broadcast s r m).tasks = s.tasks := rfl
@[simp] theorem broadcast_nextTask (s : State) (r : Ref) (m : Msg) :
    (broadcast s r m).nextTask = s.nextTask := rfl
@[simp] theorem broadcast_requests (s : State) (r : Ref) (m : Msg) :
    (broadcast s r m).requests = s.requests := rfl
@[simp] theorem broadcast_trace (s : State) (r : Ref) (m : Msg) :
    (broadcast s r m).trace = s.trace ++ broadcastEffects s r m := rfl

@[simp] theorem updConn_clients (s : State) (w : Ws) (f : Conn → Conn) :
    (updConn s w f).clients = s.clients := rfl
@[simp] theorem updConn_heap (s : State) (w : Ws) (f : Conn → Conn) :
    (updConn s w f).heap = s.heap := rfl
@[simp] theorem updConn_terminals (s : State) (w : Ws) (f : Conn → Conn) :
    (updConn s w f).terminals = s.terminals := rfl
@[simp] theorem updConn_pendingCleanups (s : State) (w : Ws) (f : Conn → Conn) :
    (updConn s w f).pendingCleanups = s.pendingCleanups := rfl
@[simp] theorem updConn_procs (s : State) (w : Ws) (f : Conn → Conn) :
    (updConn s w f).procs = s.procs := rfl
@[simp] theorem updConn_ptys (s : State) (w : Ws) (f : Conn → Conn) :
    (updConn s w f).ptys = s.ptys := rfl
@[simp] theorem updConn_timers (s : State) (w : Ws) (f : Conn → Conn) :
    (updConn s w f).timers = s.timers := rfl
@[simp] theorem updConn_nextTimer (s : State) (w : Ws) (f : Conn → Conn) :
    (updConn s w f).nextTimer = s.nextTimer := rfl
@[simp] theorem updConn_tasks (s : State) (w : Ws) (f : Conn → Conn) :
    (updConn s w f).tasks = s.tasks := rfl
@[simp] theorem updConn_nextTask (s : State) (w : Ws) (f : Conn → Conn) :
    (updConn s w f).nextTask = s.nextTask := rfl
@[simp] theorem updConn_requests (s : State) (w : Ws) (f : Conn → Conn) :
    (updConn s w f).requests = s.requests := rfl
@[simp] theorem updConn_trace (s : State) (w : Ws) (f : Conn → Conn) :
    (updConn s w f).trace = s.trace := rfl

@[simp] theorem updClient_clients (s : State) (r : Ref) (f : Client → Client) :
    (updClient s r f).clients = s.clients := rfl
@[simp] theorem updClient_terminals (s : State) (r : Ref) (f : Client → Client) :
    (updClient s r f).terminals = s.terminals := rfl
@[simp] theorem updClient_pendingCleanups (s : State) (r : Ref) (f : Client → Client) :
    (updClient s r f).pendingCleanups = s.pendingCleanups := rfl
@[simp] theorem updClient_conns (s : State) (r : Ref) (f : Client → Client) :
    (updClient s r f).conns = s.conns := rfl
@[simp] theorem updClient_procs (s : State) (r : Ref) (f : Client → Client) :
    (updClient s r f).procs = s.procs := rfl
@[simp] theorem updClient_ptys (s : State) (r : Ref) (f : Client → Client) :
    (updClient s r f).ptys = s.ptys := rfl
@[simp] theorem updClient_timers (s : State) (r : Ref) (f : Client → Client) :
    (updClient s r f).timers = s.timers := rfl
@[simp] theorem updClient_nextTimer (s : State) (r : Ref) (f : Client → Client) :
    (updClient s r f).nextTimer = s.nextTimer := rfl
@[simp] theorem updClient_tasks (s : State) (r : Ref) (f : Client → Client) :
    (updClient s r f).tasks = s.tasks := rfl
@[simp] theorem updClient_nextTask (s : State) (r : Ref) (f : Client → Client) :
    (updClient s r f).nextTask = s.nextTask := rfl
@[simp] theorem updClient_requests (s : State) (r : Ref) (f : Client → Client) :
    (updClient s r f).requests = s.requests := rfl
@[simp] theorem updClient_trace (s : State) (r : Ref) (f : Client → Client) :
    (updClient s r f).trace = s.trace := rfl

@[simp] theorem updProc_clients (s : State) (pid : Pid) (f : Proc → Proc) :
    (updProc s pid f).clients = s.clients := rfl
@[simp] theorem updProc_heap (s : State) (pid : Pid) (f : Proc → Proc) :
    (updProc s pid f).heap = s.heap := rfl
@[simp] theorem updProc_terminals (s : State) (pid : Pid) (f : Proc → Proc) :
    (updProc s pid f).terminals = s.terminals := rfl
@[simp] theorem updProc_pendingCleanups (s : State) (pid : Pid) (f : Proc → Proc) :
    (updProc s pid f).pendingCleanups = s.pendingCleanups := rfl
@[simp] theorem updProc_conns (s : State) (pid : Pid) (f : Proc → Proc) :
    (updProc s pid f).conns = s.conns := rfl
@[simp] theorem updProc_ptys (s : State) (pid : Pid) (f : Proc → Proc) :
    (updProc s pid f).ptys = s.ptys := rfl
@[simp] theorem updProc_timers (s : State) (pid : Pid) (f : Proc → Proc) :
    (updProc s pid f).timers = s.timers := rfl
@[simp] theorem updProc_nextTimer (s : State) (pid : Pid) (f : Proc → Proc) :
    (updProc s pid f).nextTimer = s.nextTimer := rfl
@[simp] theorem updProc_tasks (s : State) (pid : Pid) (f : Proc → Proc) :
    (updProc s pid f).tasks = s.tasks := rfl
@[simp] theorem updProc_nextTask (s : State) (pid : Pid) (f : Proc → Proc) :
    (updProc s pid f).nextTask = s.nextTask := rfl
@[simp] theorem updProc_requests (s : State) (pid : Pid) (f : Proc → Proc) :
    (updProc s pid f).requests = s.requests := rfl
@[simp] theorem updProc_trace (s : State) (pid : Pid) (f : Proc → Proc) :
    (updProc s pid f).trace = s.trace := rfl

@[simp] theorem updRequest_clients (s : State) (q : ReqId) (f : Request → Request) :
    (updRequest s q f).clients = s.clients := rfl
@[simp] theorem updRequest_heap (s : State) (q : ReqId) (f : Request → Request) :
    (updRequest s q f).heap = s.heap := rfl
@[simp] theorem updRequest_terminals (s : State) (q : ReqId) (f : Request → Request) :
    (updRequest s q f).terminals = s.terminals := rfl
@[simp] theorem updRequest_pendingCleanups (s : State) (q : ReqId) (f : Request → Request) :
    (updRequest s q f).pendingCleanups = s.pendingCleanups := rfl
@[simp] theorem updRequest_conns (s : State) (q : ReqId) (f : Request → Request) :
    (updRequest s q f).conns = s.conns := rfl
@[simp] theorem updRequest_procs (s : State) (q : ReqId) (f : Request → Request) :
    (updRequest s q f).procs = s.procs := rfl
@[simp] theorem updRequest_ptys (s : State) (q : ReqId) (f : Request → Request) :
    (updRequest s q f).ptys = s.ptys := rfl
@[simp] theorem updRequest_timers (s : State) (q : ReqId) (f : Request → Request) :
    (updRequest s q f).timers = s.timers := rfl
@[simp] theorem updRequest_nextTimer (s : State) (q : ReqId) (f : Request → Request) :
    (updRequest s q f).nextTimer = s.nextTimer := rfl
@[simp] theorem updRequest_tasks (s : State) (q : ReqId) (f : Request → Request) :
    (updRequest s q f).tasks = s.tasks := rfl
@[simp] theorem updRequest_nextTask (s : State) (q : ReqId) (f : Request → Request) :
    (updRequest s q f).nextTask = s.nextTask := rfl
@[simp] theorem updRequest_trace (s : State) (q : ReqId) (f : Request → Request) :
    (updRequest s q f).trace = s.trace := rfl

@[simp] theorem delPending_clients (s : State) (c : ClientId) :
    (delPending s c).clients = s.clients := rfl
@[simp] theorem delPending_heap (s : State) (c : ClientId) : (delPending s c).heap = s.heap := rfl
@[simp] theorem delPending_terminals (s : State) (c : ClientId) :
    (delPending s c).terminals = s.terminals := rfl
@[simp] theorem delPending_pendingCleanups (s : State) (c : ClientId) :
    (delPending s c).pendingCleanups = mapDelete s.pendingCleanups c := rfl
@[simp] theorem delPending_conns (s : State) (c : ClientId) :
    (delPending s c).conns = s.conns := rfl
@[simp] theorem delPending_procs (s : State) (c : ClientId) :
    (delPending s c).procs = s.procs := rfl
@[simp] theorem delPending_ptys (s : State) (c : ClientId) : (delPending s c).ptys = s.ptys := rfl
@[simp] theorem delPending_timers (s : State) (c : ClientId) :
    (delPending s c).timers = s.timers := rfl
@[simp] theorem delPending_nextTimer (s : State) (c : ClientId) :
    (delPending s c).nextTimer = s.nextTimer := rfl
@[simp] theorem delPending_tasks (s : State) (c : ClientId) :
    (delPending s c).tasks = s.tasks := rfl
@[simp] theorem delPending_nextTask (s : State) (c : ClientId) :
    (delPending s c).nextTask = s.nextTask := rfl
@[simp] theorem delPending_requests (s : State) (c : ClientId) :
    (delPending s c).requests = s.requests := rfl
@[simp] theorem delPending_trace (s : State) (c : ClientId) :
    (delPending s c).trace = s.trace := rfl

@[simp] theorem setPending_clients (s : State) (c : ClientId) (t : TimerId) :
    (setPending s c t).clients = s.clients := rfl
@[simp] theorem setPending_heap (s : State) (c : ClientId) (t : TimerId) :
    (setPending s c t).heap = s.heap := rfl
@[simp] theorem setPending_terminals (s : State) (c : ClientId) (t : TimerId) :
    (setPending s c t).terminals = s.terminals := rfl
@[simp] theorem setPending_pendingCleanups (s : State) (c : ClientId) (t : TimerId) :
    (setPending s c t).pendingCleanups = mapSet s.pendingCleanups c t := rfl
@[simp] theorem setPending_conns (s : State) (c : ClientId) (t : TimerId) :
    (setPending s c t).conns = s.conns := rfl
@[simp] theorem setPending_procs (s : State) (c : ClientId) (t : TimerId) :
    (setPending s c t).procs = s.procs := rfl
@[simp] theorem setPending_ptys (s : State) (c : ClientId) (t : TimerId) :
    (setPending s c t).ptys = s.ptys := rfl
@[simp] theorem setPending_timers (s : State) (c : ClientId) (t : TimerId) :
    (setPending s c t).timers = s.timers := rfl
@[simp] theorem setPending_nextTimer (s : State) (c : ClientId) (t : TimerId) :
    (setPending s c t).nextTimer = s.nextTimer := rfl
@[simp] theorem setPending_tasks (s : State) (c : ClientId) (t : TimerId) :
    (setPending s c t).tasks = s.tasks := rfl
@[simp] theorem setPending_nextTask (s : State) (c : ClientId) (t : TimerId) :
    (setPending s c t).nextTask = s.nextTask := rfl
@[simp] theorem setPending_requests (s : State) (c : ClientId) (t : TimerId) :
    (setPending s c t).requests = s.requests := rfl
@[simp] theorem setPending_trace (s : State) (c : ClientId) (t : TimerId) :
    (setPending s c t).trace = s.trace := rfl

@[simp] theorem delClient_clients (s : State) (c : Option ClientId) :
    (delClient s c).clients = mapDelete s.clients c := rfl
@[simp] theorem delClient_heap (s : State) (c : Option ClientId) :
    (delClient s c).heap = s.heap := rfl
@[simp] theorem delClient_terminals (s : State) (c : Option ClientId) :
    (delClient s c).terminals = s.terminals := rfl
@[simp] theorem delClient_pendingCleanups (s : State) (c : Option ClientId) :
    (delClient s c).pendingCleanups = s.pendingCleanups := rfl
@[simp] theorem delClient_conns (s : State) (c : Option ClientId) :
    (delClient s c).conns = s.conns := rfl
@[simp] theorem delClient_procs (s : State) (c : Option ClientId) :
    (delClient s c).procs = s.procs := rfl
@[simp] theorem delClient_ptys (s : State) (c : Option ClientId) :
    (delClient s c).ptys = s.ptys := rfl
@[simp] theorem delClient_timers (s : State) (c : Option ClientId) :
    (delClient s c).timers = s.timers := rfl
@[simp] theorem delClient_nextTimer (s : State) (c : Option ClientId) :
    (delClient s c).nextTimer = s.nextTimer := rfl
@[simp] theorem delClient_tasks (s : State) (c : Option ClientId) :
    (delClient s c).tasks = s.tasks := rfl
@[simp] theorem delClient_nextTask (s : State) (c : Option ClientId) :
    (delClient s c).nextTask = s.nextTask := rfl
@[simp] theorem delClient_requests (s : State) (c : Option ClientId) :
    (delClient s c).requests = s.requests := rfl
@[simp] theorem delClient_trace (s : State) (c : Option ClientId) :
    (delClient s c).trace = s.trace := rfl

@[simp] theorem registerClient_clients (s : State) (c : Option ClientId) (cl : Client) :
    (registerClient s c cl).clients = mapSet s.clients c s.heap.length := rfl
@[simp] theorem registerClient_heap (s : State) (c : Option ClientId) (cl : Client) :
    (registerClient s c cl).heap = s.heap ++ [cl] := rfl
@[simp] theorem registerClient_terminals (s : State) (c : Option ClientId) (cl : Client) :
    (registerClient s c cl).terminals = s.terminals := rfl
@[simp] theorem registerClient_pendingCleanups (s : State) (c : Option ClientId) (cl : Client) :
    (registerClient s c cl).pendingCleanups = s.pendingCleanups := rfl
@[simp] theorem registerClient_conns (s : State) (c : Option ClientId) (cl : Client) :
    (registerClient s c cl).conns = s.conns := rfl
@[simp] theorem registerClient_procs (s : State) (c : Option ClientId) (cl : Client) :
    (registerClient s c cl).procs = s.procs := rfl
@[simp] theorem registerClient_ptys (s : State) (c : Option ClientId) (cl : Client) :
    (registerClient s c cl).ptys = s.ptys := rfl
@[simp] theorem registerClient_timers (s : State) (c : Option ClientId) (cl : Client) :
    (registerClient s c cl).timers = s.timers := rfl
@[simp] theorem registerClient_nextTimer (s : State) (c : Option ClientId) (cl : Client) :
    (registerClient s c cl).nextTimer = s.nextTimer := rfl
@[simp] theorem registerClient_tasks (s : State) (c : Option ClientId) (cl : Client) :
    (registerClient s c cl).tasks = s.tasks := rfl
@[simp] theorem registerClient_nextTask (s : State) (c : Option ClientId) (cl : Client) :
    (registerClient s c cl).nextTask = s.nextTask := rfl
@[simp] theorem registerClient_requests (s : State) (c : Option ClientId) (cl : Client) :
    (registerClient s c cl).requests = s.requests := rfl
@[simp] theorem registerClient_trace (s : State) (c : Option ClientId) (cl : Client) :
    (registerClient s c cl).trace = s.trace := rfl

@[simp] theorem setTerminal_clients (s : State) (w : Ws) (t : Terminal) :
    (setTerminal s w t).clients = s.clients := rfl
@[simp] theorem setTerminal_heap (s : State) (w : Ws) (t : Terminal) :
    (setTerminal s w t).heap = s.heap := rfl
@[simp] theorem setTerminal_terminals (s : State) (w : Ws) (t : Terminal) :
    (setTerminal s w t).terminals = mapSet s.terminals w t := rfl
@[simp] theorem setTerminal_pendingCleanups (s : State) (w : Ws) (t : Terminal) :
    (setTerminal s w t).pendingCleanups = s.pendingCleanups := rfl
@[simp] theorem setTerminal_conns (s : State) (w : Ws) (t : Terminal) :
    (setTerminal s w t).conns = s.conns := rfl
@[simp] theorem setTerminal_procs (s : State) (w : Ws) (t : Terminal) :
    (setTerminal s w t).procs = s.procs := rfl
@[simp] theorem setTerminal_ptys (s : State) (w : Ws) (t : Terminal) :
    (setTerminal s w t).ptys = s.ptys := rfl
@[simp] theorem setTerminal_timers (s : State) (w : Ws) (t : Terminal) :
    (setTerminal s w t).timers = s.timers := rfl
@[simp] theorem setTerminal_nextTimer (s : State) (w : Ws) (t : Terminal) :
    (setTerminal s w t).nextTimer = s.nextTimer := rfl
@[simp] theorem setTerminal_tasks (s : State) (w : Ws) (t : Terminal) :
    (setTerminal s w t).tasks = s.tasks := rfl
@[simp] theorem setTerminal_nextTask (s : State) (w : Ws) (t : Terminal) :
    (setTerminal s w t).nextTask = s.nextTask := rfl
@[simp] theorem setTerminal_requests (s : State) (w : Ws) (t : Terminal) :
    (setTerminal s w t).requests = s.requests := rfl
@[simp] theorem setTerminal_trace (s : State) (w : Ws) (t : Terminal) :
    (setTerminal s w t).trace = s.trace := rfl

@[simp] theorem delTerminal_clients (s : State) (w : Ws) :
    (delTerminal s w).clients = s.clients := rfl
@[simp] theorem delTerminal_heap (s : State) (w : Ws) : (delTerminal s w).heap = s.heap := rfl
@[simp] theorem delTerminal_terminals (s : State) (w : Ws) :
    (delTerminal s w).terminals = mapDelete s.terminals w := rfl
@[simp] theorem delTerminal_pendingCleanups (s : State) (w : Ws) :
    (delTerminal s w).pendingCleanups = s.pendingCleanups := rfl
@[simp] theorem delTerminal_conns (s : State) (w : Ws) : (delTerminal s w).conns = s.conns := rfl
@[simp] theorem delTerminal_procs (s : State) (w : Ws) : (delTerminal s w).procs = s.procs := rfl
@[simp] theorem delTerminal_ptys (s : State) (w : Ws) : (delTerminal s w).ptys = s.ptys := rfl
@[simp] theorem delTerminal_timers (s : State) (w : Ws) : (delTerminal s w).timers = s.timers := rfl
@[simp] theorem delTerminal_nextTimer (s : State) (w : Ws) :
    (delTerminal s w).nextTimer = s.nextTimer := rfl
@[simp] theorem delTerminal_tasks (s : State) (w : Ws) : (delTerminal s w).tasks = s.tasks := rfl
@[simp] theorem delTerminal_nextTask (s : State) (w : Ws) :
    (delTerminal s w).nextTask = s.nextTask := rfl
@[simp] theorem delTerminal_requests (s : State) (w : Ws) :
    (delTerminal s w).requests = s.requests := rfl
@[simp] theorem delTerminal_trace (s : State) (w : Ws) : (delTerminal s w).trace = s.trace := rfl

@[simp] theorem addProc_clients (s : State) (p : Proc) : (addProc s p).clients = s.clients := rfl
@[simp] theorem addProc_heap (s : State) (p : Proc) : (addProc s p).heap = s.heap := rfl
@[simp] theorem addProc_terminals (s : State) (p : Proc) :
    (addProc s p).terminals = s.terminals := rfl
@[simp] theorem addProc_pendingCleanups (s : State) (p : Proc) :
    (addProc s p).pendingCleanups = s.pendingCleanups := rfl
@[simp] theorem addProc_conns (s : State) (p : Proc) : (addProc s p).conns = s.conns := rfl
@[simp] theorem addProc_procs (s : State) (p : Proc) : (addProc s p).procs = s.procs ++ [p] := rfl
@[simp] theorem addProc_ptys (s : State) (p : Proc) : (addProc s p).ptys = s.ptys := rfl
@[simp] theorem addProc_timers (s : State) (p : Proc) : (addProc s p).timers = s.timers := rfl
@[simp] theorem addProc_nextTimer (s : State) (p : Proc) :
    (addProc s p).nextTimer = s.nextTimer := rfl
@[simp] theorem addProc_tasks (s : State) (p : Proc) : (addProc s p).tasks = s.tasks := rfl
@[simp] theorem addProc_nextTask (s : State) (p : Proc) : (addProc s p).nextTask = s.nextTask := rfl
@[simp] theorem addProc_requests (s : State) (p : Proc) : (addProc s p).requests = s.requests := rfl
@[simp] theorem addProc_trace (s : State) (p : Proc) : (addProc s p).trace = s.trace := rfl

@[simp] theorem addPty_clients (s : State) (w : Ws) : (addPty s w).clients = s.clients := rfl
@[simp] theorem addPty_heap (s : State) (w : Ws) : (addPty s w).heap = s.heap := rfl
@[simp] theorem addPty_terminals (s : State) (w : Ws) : (addPty s w).terminals = s.terminals := rfl
@[simp] theorem addPty_pendingCleanups (s : State) (w : Ws) :
    (addPty s w).pendingCleanups = s.pendingCleanups := rfl
@[simp] theorem addPty_conns (s : State) (w : Ws) : (addPty s w).conns = s.conns := rfl
@[simp] theorem addPty_procs (s : State) (w : Ws) : (addPty s w).procs = s.procs := rfl
@[simp] theorem addPty_ptys (s : State) (w : Ws) : (addPty s w).ptys = s.ptys ++ [w] := rfl
@[simp] theorem addPty_timers (s : State) (w : Ws) : (addPty s w).timers = s.timers := rfl
@[simp] theorem addPty_nextTimer (s : State) (w : Ws) : (addPty s w).nextTimer = s.nextTimer := rfl
@[simp] theorem addPty_tasks (s : State) (w : Ws) : (addPty s w).tasks = s.tasks := rfl
@[simp] theorem addPty_nextTask (s : State) (w : Ws) : (addPty s w).nextTask = s.nextTask := rfl
@[simp] theorem addPty_requests (s : State) (w : Ws) : (addPty s w).requests = s.requests := rfl
@[simp] theorem addPty_trace (s : State) (w : Ws) : (addPty s w).trace = s.trace := rfl

@[simp] theorem addRequest_clients (s : State) (q : Request) :
    (addRequest s q).clients = s.clients := rfl
@[simp] theorem addRequest_heap (s : State) (q : Request) : (addRequest s q).heap = s.heap := rfl
@[simp] theorem addRequest_terminals (s : State) (q : Request) :
    (addRequest s q).terminals = s.terminals := rfl
@[simp] theorem addRequest_pendingCleanups (s : State) (q : Request) :
    (addRequest s q).pendingCleanups = s.pendingCleanups := rfl
@[simp] theorem addRequest_conns (s : State) (q : Request) : (addRequest s q).conns = s.conns := rfl
@[simp] theorem addRequest_procs (s : State) (q : Request) : (addRequest s q).procs = s.procs := rfl
@[simp] theorem addRequest_ptys (s : State) (q : Request) : (addRequest s q).ptys = s.ptys := rfl
@[simp] theorem addRequest_timers (s : State) (q : Request) :
    (addRequest s q).timers = s.timers := rfl
@[simp] theorem addRequest_nextTimer (s : State) (q : Request) :
    (addRequest s q).nextTimer = s.nextTimer := rfl
@[simp] theorem addRequest_tasks (s : State) (q : Request) : (addRequest s q).tasks = s.tasks := rfl
@[simp] theorem addRequest_nextTask (s : State) (q : Request) :
    (addRequest s q).nextTask = s.nextTask := rfl
@[simp] theorem addRequest_requests (s : State) (q : Request) :
    (addRequest s q).requests = s.requests ++ [q] := rfl
@[simp] theorem addRequest_trace (s : State) (q : Request) : (addRequest s q).trace = s.trace := rfl

@[simp] theorem addConn_clients (s : State) (c : Conn) : (addConn s c).clients = s.clients := rfl
@[simp] theorem addConn_heap (s : State) (c : Conn) : (addConn s c).heap = s.heap := rfl
@[simp] theorem addConn_terminals (s : State) (c : Conn) :
    (addConn s c).terminals = s.terminals := rfl
@[simp] theorem addConn_pendingCleanups (s : State) (c : Conn) :
    (addConn s c).pendingCleanups = s.pendingCleanups := rfl
@[simp] theorem addConn_conns (s : State) (c : Conn) : (addConn s c).conns = s.conns ++ [c] := rfl
@[simp] theorem addConn_procs (s : State) (c : Conn) : (addConn s c).procs = s.procs := rfl
@[simp] theorem addConn_ptys (s : State) (c : Conn) : (addConn s c).ptys = s.ptys := rfl
@[simp] theorem addConn_timers (s : State) (c : Conn) : (addConn s c).timers = s.timers := rfl
@[simp] theorem addConn_nextTimer (s : State) (c : Conn) :
    (addConn s c).nextTimer = s.nextTimer := rfl
@[simp] theorem addConn_tasks (s : State) (c : Conn) : (addConn s c).tasks = s.tasks := rfl
@[simp] theorem addConn_nextTask (s : State) (c : Conn) : (addConn s c).nextTask = s.nextTask := rfl
@[simp] theorem addConn_requests (s : State) (c : Conn) : (addConn s c).requests = s.requests := rfl
@[simp] theorem addConn_trace (s : State) (c : Conn) : (addConn s c).trace = s.trace := rfl

@[simp] theorem takeTask_clients (s : State) (t : TaskId) :
    (takeTask s t).clients = s.clients := rfl
@[simp] theorem takeTask_heap (s : State) (t : TaskId) : (takeTask s t).heap = s.heap := rfl
@[simp] theorem takeTask_terminals (s : State) (t : TaskId) :
    (takeTask s t).terminals = s.terminals := rfl
@[simp] theorem takeTask_pendingCleanups (s : State) (t : TaskId) :
    (takeTask s t).pendingCleanups = s.pendingCleanups := rfl
@[simp] theorem takeTask_conns (s : State) (t : TaskId) : (takeTask s t).conns = s.conns := rfl
@[simp] theorem takeTask_procs (s : State) (t : TaskId) : (takeTask s t).procs = s.procs := rfl
@[simp] theorem takeTask_ptys (s : State) (t : TaskId) : (takeTask s t).ptys = s.ptys := rfl
@[simp] theorem takeTask_timers (s : State) (t : TaskId) : (takeTask s t).timers = s.timers := rfl
@[simp] theorem takeTask_nextTimer (s : State) (t : TaskId) :
    (takeTask s t).nextTimer = s.nextTimer := rfl
@[simp] theorem takeTask_tasks (s : State) (t : TaskId) :
    (takeTask s t).tasks = mapDelete s.tasks t := rfl
@[simp] theorem takeTask_nextTask (s : State) (t : TaskId) :
    (takeTask s t).nextTask = s.nextTask := rfl
@[simp] theorem takeTask_requests (s : State) (t : TaskId) :
    (takeTask s t).requests = s.requests := rfl
@[simp] theorem takeTask_trace (s : State) (t : TaskId) : (takeTask s t).trace = s.trace := rfl

@[simp] theorem dropTimer_clients (s : State) (t : TimerId) :
    (dropTimer s t).clients = s.clients := rfl
@[simp] theorem dropTimer_heap (s : State) (t : TimerId) : (dropTimer s t).heap = s.heap := rfl
@[simp] theorem dropTimer_terminals (s : State) (t : TimerId) :
    (dropTimer s t).terminals = s.terminals := rfl
@[simp] theorem dropTimer_pendingCleanups (s : State) (t : TimerId) :
    (dropTimer s t).pendingCleanups = s.pendingCleanups := rfl
@[simp] theorem dropTimer_conns (s : State) (t : TimerId) : (dropTimer s t).conns = s.conns := rfl
@[simp] theorem dropTimer_procs (s : State) (t : TimerId) : (dropTimer s t).procs = s.procs := rfl
@[simp] theorem dropTimer_ptys (s : State) (t : TimerId) : (dropTimer s t).ptys = s.ptys := rfl
@[simp] theorem dropTimer_timers (s : State) (t : TimerId) :
    (dropTimer s t).timers = mapDelete s.timers t := rfl
@[simp] theorem dropTimer_nextTimer (s : State) (t : TimerId) :
    (dropTimer s t).nextTimer = s.nextTimer := rfl
@[simp] theorem dropTimer_tasks (s : State) (t : TimerId) : (dropTimer s t).tasks = s.tasks := rfl
@[simp] theorem dropTimer_nextTask (s : State) (t : TimerId) :
    (dropTimer s t).nextTask = s.nextTask := rfl
@[simp] theorem dropTimer_requests (s : State) (t : TimerId) :
    (dropTimer s t).requests = s.requests := rfl
@[simp] theorem dropTimer_trace (s : State) (t : TimerId) : (dropTimer s t).trace = s.trace := rfl

@[simp] theorem suspend_clients (s : State) (t : Task) : (suspend s t).clients = s.clients := rfl
@[simp] theorem suspend_heap (s : State) (t : Task) : (suspend s t).heap = s.heap := rfl
@[simp] theorem suspend_terminals (s : State) (t : Task) :
    (suspend s t).terminals = s.terminals := rfl
@[simp] theorem suspend_pendingCleanups (s : State) (t : Task) :
    (suspend s t).pendingCleanups = s.pendingCleanups := rfl
@[simp] theorem suspend_conns (s : State) (t : Task) : (suspend s t).conns = s.conns := rfl
@[simp] theorem suspend_procs (s : State) (t : Task) : (suspend s t).procs = s.procs := rfl
@[simp] theorem suspend_ptys (s : State) (t : Task) : (suspend s t).ptys = s.ptys := rfl
@[simp] theorem suspend_timers (s : State) (t : Task) : (suspend s t).timers = s.timers := rfl
@[simp] theorem suspend_nextTimer (s : State) (t : Task) :
    (suspend s t).nextTimer = s.nextTimer := rfl
@[simp] theorem suspend_tasks (s : State) (t : Task) :
    (suspend s t).tasks = s.tasks ++ [(s.nextTask, t)] := rfl
@[simp] theorem suspend_nextTask (s : State) (t : Task) :
    (suspend s t).nextTask = s.nextTask + 1 := rfl
@[simp] theorem suspend_requests (s : State) (t : Task) : (suspend s t).requests = s.requests := rfl
@[simp] theorem suspend_trace (s : State) (t : Task) : (suspend s t).trace = s.trace := rfl

@[simp] theorem setTimeout_clients (s : State) (a : TimerAction) (d : Nat) :
    (setTimeout s a d).clients = s.clients := rfl
@[simp] theorem setTimeout_heap (s : State) (a : TimerAction) (d : Nat) :
    (setTimeout s a d).heap = s.heap := rfl
@[simp] theorem setTimeout_terminals (s : State) (a : TimerAction) (d : Nat) :
    (setTimeout s a d).terminals = s.terminals := rfl
@[simp] theorem setTimeout_pendingCleanups (s : State) (a : TimerAction) (d : Nat) :
    (setTimeout s a d).pendingCleanups = s.pendingCleanups := rfl
@[simp] theorem setTimeout_conns (s : State) (a : TimerAction) (d : Nat) :
    (setTimeout s a d).conns = s.conns := rfl
@[simp] theorem setTimeout_procs (s : State) (a : TimerAction) (d : Nat) :
    (setTimeout s a d).procs = s.procs := rfl
@[simp] theorem setTimeout_ptys (s : State) (a : TimerAction) (d : Nat) :
    (setTimeout s a d).ptys = s.ptys := rfl
@[simp] theorem setTimeout_timers (s : State) (a : TimerAction) (d : Nat) :
    (setTimeout s a d).timers = s.timers ++ [(s.nextTimer, a)] := rfl
@[simp] theorem setTimeout_nextTimer (s : State) (a : TimerAction) (d : Nat) :
    (setTimeout s a d).nextTimer = s.nextTimer + 1 := rfl
@[simp] theorem setTimeout_tasks (s : State) (a : TimerAction) (d : Nat) :
    (setTimeout s a d).tasks = s.tasks := rfl
@[simp] theorem setTimeout_nextTask (s : State) (a : TimerAction) (d : Nat) :
    (setTimeout s a d).nextTask = s.nextTask := rfl
@[simp] theorem setTimeout_requests (s : State) (a : TimerAction) (d : Nat) :
    (setTimeout s a d).requests = s.requests := rfl
@[simp] theorem setTimeout_trace (s : State) (a : TimerAction) (d : Nat) :
    (setTimeout s a d).trace = s.trace ++ [.setTimeout s.nextTimer d] := rfl

@[simp] theorem clearTimeout_clients (s : State) (t : TimerId) :
    (clearTimeout s t).clients = s.clients := rfl
@[simp] theorem clearTimeout_heap (s : State) (t : TimerId) :
    (clearTimeout s t).heap = s.heap := rfl
@[simp] theorem clearTimeout_terminals (s : State) (t : TimerId) :
    (clearTimeout s t).terminals = s.terminals := rfl
@[simp] theorem clearTimeout_pendingCleanups (s : State) (t : TimerId) :
    (clearTimeout s t).pendingCleanups = s.pendingCleanups := rfl
@[simp] theorem clearTimeout_conns (s : State) (t : TimerId) :
    (clearTimeout s t).conns = s.conns := rfl
@[simp] theorem clearTimeout_procs (s : State) (t : TimerId) :
    (clearTimeout s t).procs = s.procs := rfl
@[simp] theorem clearTimeout_ptys (s : State) (t : TimerId) :
    (clearTimeout s t).ptys = s.ptys := rfl
@[simp] theorem clearTimeout_timers (s : State) (t : TimerId) :
    (clearTimeout s t).timers = mapDelete s.timers t := rfl
@[simp] theorem clearTimeout_nextTimer (s : State) (t : TimerId) :
    (clearTimeout s t).nextTimer = s.nextTimer := rfl
@[simp] theorem clearTimeout_tasks (s : State) (t : TimerId) :
    (clearTimeout s t).tasks = s.tasks := rfl
@[simp] theorem clearTimeout_nextTask (s : State) (t : TimerId) :
    (clearTimeout s t).nextTask = s.nextTask := rfl
@[simp] theorem clearTimeout_requests (s : State) (t : TimerId) :
    (clearTimeout s t).requests = s.requests := rfl
@[simp] theorem clearTimeout_trace (s : State) (t : TimerId) :
    (clearTimeout s t).trace = s.trace ++ [.clearTimeout t] := rfl

@[simp] theorem markSignalled_clients (s : State) (pid : Pid) : (markSignalled s pid).clients = s.clients := rfl
@[simp] theorem markSignalled_heap (s : State) (pid : Pid) : (markSignalled s pid).heap = s.heap := rfl
@[simp] theorem markSignalled_terminals (s : State) (pid : Pid) : (markSignalled s pid).terminals = s.terminals := rfl
@[simp] theorem markSignalled_pendingCleanups (s : State) (pid : Pid) : (markSignalled s pid).pendingCleanups = s.pendingCleanups := rfl
@[simp] theorem markSignalled_conns (s : State) (pid : Pid) : (markSignalled s pid).conns = s.conns := rfl
@[simp] theorem markSignalled_ptys (s : State) (pid : Pid) : (markSignalled s pid).ptys = s.ptys := rfl
@[simp] theorem markSignalled_timers (s : State) (pid : Pid) : (markSignalled s pid).timers = s.timers := rfl
@[simp] theorem markSignalled_nextTimer (s : State) (pid : Pid) : (markSignalled s pid).nextTimer = s.nextTimer := rfl
@[simp] theorem markSignalled_tasks (s : State) (pid : Pid) : (markSignalled s pid).tasks = s.tasks := rfl
@[simp] theorem markSignalled_nextTask (s : State) (pid : Pid) : (markSignalled s pid).nextTask = s.nextTask := rfl
@[simp] theorem markSignalled_requests (s : State) (pid : Pid) : (markSignalled s pid).requests = s.requests := rfl
@[simp] theorem markSignalled_trace (s : State) (pid : Pid) : (markSignalled s pid).trace = s.trace := rfl

@[simp] theorem markExited_clients (s : State) (pid : Pid) : (markExited s pid).clients = s.clients := rfl
@[simp] theorem markExited_heap (s : State) (pid : Pid) : (markExited s pid).heap = s.heap := rfl
@[simp] theorem markExited_terminals (s : State) (pid : Pid) : (markExited s pid).terminals = s.terminals := rfl
@[simp] theorem markExited_pendingCleanups (s : State) (pid : Pid) : (markExited s pid).pendingCleanups = s.pendingCleanups := rfl
@[simp] theorem markExited_conns (s : State) (pid : Pid) : (markExited s pid).conns = s.conns := rfl
@[simp] theorem markExited_ptys (s : State) (pid : Pid) : (markExited s pid).ptys = s.ptys := rfl
@[simp] theorem markExited_timers (s : State) (pid : Pid) : (markExited s pid).timers = s.timers := rfl
@[simp] theorem markExited_nextTimer (s : State) (pid : Pid) : (markExited s pid).nextTimer = s.nextTimer := rfl
@[simp] theorem markExited_tasks (s : State) (pid : Pid) : (markExited s pid).tasks = s.tasks := rfl
@[simp] theorem markExited_nextTask (s : State) (pid : Pid) : (markExited s pid).nextTask = s.nextTask := rfl
@[simp] theorem markExited_requests (s : State) (pid : Pid) : (markExited s pid).requests = s.requests := rfl
@[simp] theorem markExited_trace (s : State) (pid : Pid) : (markExited s pid).trace = s.trace := rfl

@[simp] theorem updConn_conns (s : State) (w : Ws) (f : Conn → Conn) :
    (updConn s w f).conns = match s.conns[w]? with
      | some c => s.conns.set w (f c)
      | none => s.conns := rfl

@[simp] theorem updClient_heap (s : State) (r : Ref) (f : Client → Client) :
    (updClient s r f).heap = match s.heap[r]? with
      | some c => s.heap.set r (f c)
      | none => s.heap := rfl

@[simp] theorem updProc_procs (s : State) (pid : Pid) (f : Proc → Proc) :
    (updProc s pid f).procs = match s.procs[pid]? with
      | some p => s.procs.set pid (f p)
      | none => s.procs := rfl

@[simp] theorem updRequest_requests (s : State) (q : ReqId) (f : Request → Request) :
    (updRequest s q f).requests = match s.requests[q]? with
      | some p => s.requests.set q (f p)
      | none => s.requests := rfl

@[simp] theorem cancelCleanup_clients (s : State) (c : ClientId) :
    (cancelCleanup s c).clients = s.clients := by
  unfold cancelCleanup; split <;> rfl
@[simp] theorem cancelCleanup_heap (s : State) (c : ClientId) :
    (cancelCleanup s c).heap = s.heap := by
  unfold cancelCleanup; split <;> rfl
@[simp] theorem cancelCleanup_terminals (s : State) (c : ClientId) :
    (cancelCleanup s c).terminals = s.terminals := by
  unfold cancelCleanup; split <;> rfl
@[simp] theorem cancelCleanup_conns (s : State) (c : ClientId) :
    (cancelCleanup s c).conns = s.conns := by
  unfold cancelCleanup; split <;> rfl
@[simp] theorem cancelCleanup_procs (s : State) (c : ClientId) :
    (cancelCleanup s c).procs = s.procs := by
  unfold cancelCleanup; split <;> rfl
@[simp] theorem cancelCleanup_ptys (s : State) (c : ClientId) :
    (cancelCleanup s c).ptys = s.ptys := by
  unfold cancelCleanup; split <;> rfl
@[simp] theorem cancelCleanup_nextTimer (s : State) (c : ClientId) :
    (cancelCleanup s c).nextTimer = s.nextTimer := by
  unfold cancelCleanup; split <;> rfl
@[simp] theorem cancelCleanup_tasks (s : State) (c : ClientId) :
    (cancelCleanup s c).tasks = s.tasks := by
  unfold cancelCleanup; split <;> rfl
@[simp] theorem cancelCleanup_nextTask (s : State) (c : ClientId) :
    (cancelCleanup s c).nextTask = s.nextTask := by
  unfold cancelCleanup; split <;> rfl
@[simp] theorem cancelCleanup_requests (s : State) (c : ClientId) :
    (cancelCleanup s c).requests = s.requests := by
  unfold cancelCleanup; split <;> rfl

@[simp] theorem killProcess_clients (s : State) (r : Ref) :
    (killProcess s r).clients = s.clients := by
  unfold killProcess; split <;> rfl
@[simp] theorem killProcess_terminals (s : State) (r : Ref) :
    (killProcess s r).terminals = s.terminals := by
  unfold killProcess; split <;> rfl
@[simp] theorem killProcess_pendingCleanups (s : State) (r : Ref) :
    (killProcess s r).pendingCleanups = s.pendingCleanups := by
  unfold killProcess; split <;> rfl
@[simp] theorem killProcess_conns (s : State) (r : Ref) :
    (killProcess s r).conns = s.conns := by
  unfold killProcess; split <;> rfl
@[simp] theorem killProcess_ptys (s : State) (r : Ref) :
    (killProcess s r).ptys = s.ptys := by
  unfold killProcess; split <;> rfl
@[simp] theorem killProcess_timers (s : State) (r : Ref) :
    (killProcess s r).timers = s.timers := by
  unfold killProcess; split <;> rfl
@[simp] theorem killProcess_nextTimer (s : State) (r : Ref) :
    (killProcess s r).nextTimer = s.nextTimer := by
  unfold killProcess; split <;> rfl
@[simp] theorem killProcess_tasks (s : State) (r : Ref) :
    (killProcess s r).tasks = s.tasks := by
  unfold killProcess; split <;> rfl
@[simp] theorem killProcess_nextTask (s : State) (r : Ref) :
    (killProcess s r).nextTask = s.nextTask := by
  unfold killProcess; split <;> rfl
@[simp] theorem killProcess_requests (s : State) (r : Ref) :
    (killProcess s r).requests = s.requests := by
  unfold killProcess; split <;> rfl

@[simp] theorem writeFileSync_clients (s : State) (path : String) (c : Option String) :
    (writeFileSync s path c).clients = s.clients := by
  unfold writeFileSync; split <;> rfl
@[simp] theorem writeFileSync_heap (s : State) (path : String) (c : Option String) :
    (writeFileSync s path c).heap = s.heap := by
  unfold writeFileSync; split <;> rfl
@[simp] theorem writeFileSync_terminals (s : State) (path : String) (c : Option String) :
    (writeFileSync s path c).terminals = s.terminals := by
  unfold writeFileSync; split <;> rfl
@[simp] theorem writeFileSync_pendingCleanups (s : State) (path : String) (c : Option String) :
    (writeFileSync s path c).pendingCleanups = s.pendingCleanups := by
  unfold writeFileSync; split <;> rfl
@[simp] theorem writeFileSync_conns (s : State) (path : String) (c : Option String) :
    (writeFileSync s path c).conns = s.conns := by
  unfold writeFileSync; split <;> rfl
@[simp] theorem writeFileSync_procs (s : State) (path : String) (c : Option String) :
    (writeFileSync s path c).procs = s.procs := by
  unfold writeFileSync; split <;> rfl
@[simp] theorem writeFileSync_ptys (s : State) (path : String) (c : Option String) :
    (writeFileSync s path c).ptys = s.ptys := by
  unfold writeFileSync; split <;> rfl
@[simp] theorem writeFileSync_timers (s : State) (path : String) (c : Option String) :
    (writeFileSync s path c).timers = s.timers := by
  unfold writeFileSync; split <;> rfl
@[simp] theorem writeFileSync_nextTimer (s : State) (path : String) (c : Option String) :
    (writeFileSync s path c).nextTimer = s.nextTimer := by
  unfold writeFileSync; split <;> rfl
@[simp] theorem writeFileSync_tasks (s : State) (path : String) (c : Option String) :
    (writeFileSync s path c).tasks = s.tasks := by
  unfold writeFileSync; split <;> rfl
@[simp] theorem writeFileSync_nextTask (s : State) (path : String) (c : Option String) :
    (writeFileSync s path c).nextTask = s.nextTask := by
  unfold writeFileSync; split <;> rfl
@[simp] theorem writeFileSync_requests (s : State) (path : String) (c : Option String) :
    (writeFileSync s path c).requests = s.requests := by
  unfold writeFileSync; split <;> rfl

@[simp] theorem scheduleCleanup_clients (s : State) (c : ClientId) (w : Option String) :
    (scheduleCleanup s c w).clients = s.clients := by
  simp [scheduleCleanup]
@[simp] theorem scheduleCleanup_heap (s : State) (c : ClientId) (w : Option String) :
    (scheduleCleanup s c w).heap = s.heap := by
  simp [scheduleCleanup]
@[simp] theorem scheduleCleanup_terminals (s : State) (c : ClientId) (w : Option String) :
    (scheduleCleanup s c w).terminals = s.terminals := by
  simp [scheduleCleanup]
@[simp] theorem scheduleCleanup_conns (s : State) (c : ClientId) (w : Option String) :
    (scheduleCleanup s c w).conns = s.conns := by
  simp [scheduleCleanup]
@[simp] theorem scheduleCleanup_procs (s : State) (c : ClientId) (w : Option String) :
    (scheduleCleanup s c w).procs = s.procs := by
  simp [scheduleCleanup]
@[simp] theorem scheduleCleanup_ptys (s : State) (c : ClientId) (w : Option String) :
    (scheduleCleanup s c w).ptys = s.ptys := by
  simp [scheduleCleanup]
@[simp] theorem scheduleCleanup_tasks (s : State) (c : ClientId) (w : Option String) :
    (scheduleCleanup s c w).tasks = s.tasks := by
  simp [scheduleCleanup]
@[simp] theorem scheduleCleanup_nextTask (s : State) (c : ClientId) (w : Option String) :
    (scheduleCleanup s c w).nextTask = s.nextTask := by
  simp [scheduleCleanup]
@[simp] theorem scheduleCleanup_requests (s : State) (c : ClientId) (w : Option String) :
    (scheduleCleanup s c w).requests = s.requests := by
  simp [scheduleCleanup]

/-! ## Timers and suspended handlers get fresh identifiers -/

theorem Grow.refl (s : State) : Grow s s :=
  ⟨le_refl _, le_refl _, fun _ h => Or.inl h, fun _ h => Or.inl h, fun _ h => Or.inl h,
    fun _ p h => ⟨p, h, rfl⟩⟩

theorem procs_owner_updProc {x : State} (pid' : Pid) {f : Proc → Proc}
    (hf : ∀ p, (f p).owner = p.owner) {pid : Pid} {p : Proc} (h : x.procs[pid]? = some p) :
    ∃ p', (updProc x pid' f).procs[pid]? = some p' ∧ p'.owner = p.owner := by
  simp only [updProc_procs]
  split
  · rename_i q hq
    by_cases hpid : pid' = pid
    · subst hpid
      have hlt : pid' < x.procs.length := (List.getElem?_eq_some_iff.mp h).1
      rw [h] at hq
      injection hq with hq
      subst hq
      exact ⟨f p, by simp [List.getElem?_set, hlt], hf p⟩
    · exact ⟨p, by simp [List.getElem?_set, hpid, h], rfl⟩
  · exact ⟨p, h, rfl⟩

theorem grow_emit {s x : State} (e : Effect) (h : Grow s x) : Grow s (emit x e) := h
theorem grow_emits {s x : State} (es : List Effect) (h : Grow s x) : Grow s (emits x es) := h
theorem grow_send {s x : State} (w : Ws) (m : Msg) (h : Grow s x) : Grow s (send x w m) := h
theorem grow_broadcast {s x : State} (r : Ref) (m : Msg) (h : Grow s x) :
    Grow s (broadcast x r m) := h
theorem grow_updConn {s x : State} (w : Ws) (f : Conn → Conn) (h : Grow s x) :
    Grow s (updConn x w f) := h
theorem grow_updClient {s x : State} (r : Ref) (f : Client → Client) (h : Grow s x) :
    Grow s (updClient x r f) := h
theorem grow_updProc {s x : State} (pid : Pid) (f : Proc → Proc)
    (hf : ∀ p, (f p).owner = p.owner) (h : Grow s x) : Grow s (updProc x pid f) := by
  refine ⟨h.1, h.2.1, h.2.2.1, h.2.2.2.1, h.2.2.2.2.1, fun pid' p hp => ?_⟩
  obtain ⟨p', hp', ho⟩ := h.2.2.2.2.2 pid' p hp
  obtain ⟨p'', hp'', ho'⟩ := procs_owner_updProc pid hf hp'
  exact ⟨p'', hp'', ho'.trans ho⟩

theorem grow_markSignalled {s x : State} (pid : Pid) (h : Grow s x) :
    Grow s (markSignalled x pid) := grow_updProc pid _ (fun _ => rfl) h

theorem grow_markExited {s x : State} (pid : Pid) (h : Grow s x) :
    Grow s (markExited x pid) := grow_updProc pid _ (fun _ => rfl) h
theorem grow_updRequest {s x : State} (q : ReqId) (f : Request → Request) (h : Grow s x) :
    Grow s (updRequest x q f) := h
theorem grow_delPending {s x : State} (c : ClientId) (h : Grow s x) :
    Grow s (delPending x c) :=
  ⟨h.1, h.2.1, h.2.2.1, h.2.2.2.1, fun p hp => h.2.2.2.2.1 p (mem_of_mem_mapDelete hp).1,
    h.2.2.2.2.2⟩
theorem grow_delClient {s x : State} (c : Option ClientId) (h : Grow s x) :
    Grow s (delClient x c) := h
theorem grow_registerClient {s x : State} (c : Option ClientId) (cl : Client) (h : Grow s x) :
    Grow s (registerClient x c cl) := h
theorem grow_setTerminal {s x : State} (w : Ws) (t : Terminal) (h : Grow s x) :
    Grow s (setTerminal x w t) := h
theorem grow_delTerminal {s x : State} (w : Ws) (h : Grow s x) : Grow s (delTerminal x w) := h
theorem grow_addProc {s x : State} (p : Proc) (h : Grow s x) : Grow s (addProc x p) := by
  refine ⟨h.1, h.2.1, h.2.2.1, h.2.2.2.1, h.2.2.2.2.1, fun pid q hq => ?_⟩
  obtain ⟨q', hq', ho⟩ := h.2.2.2.2.2 pid q hq
  have hlt : pid < x.procs.length := (List.getElem?_eq_some_iff.mp hq').1
  exact ⟨q', by simp [List.getElem?_append_left hlt, hq'], ho⟩
theorem grow_addPty {s x : State} (w : Ws) (h : Grow s x) : Grow s (addPty x w) := h
theorem grow_addRequest {s x : State} (q : Request) (h : Grow s x) : Grow s (addRequest x q) := h
theorem grow_addConn {s x : State} (c : Conn) (h : Grow s x) : Grow s (addConn x c) := h

theorem grow_dropTimer {s x : State} (t : TimerId) (h : Grow s x) : Grow s (dropTimer x t) :=
  ⟨h.1, h.2.1, fun p hp => h.2.2.1 p (mem_of_mem_mapDelete hp).1, h.2.2.2⟩

theorem grow_takeTask {s x : State} (t : TaskId) (h : Grow s x) : Grow s (takeTask x t) :=
  ⟨h.1, h.2.1, h.2.2.1, fun p hp => h.2.2.2.1 p (mem_of_mem_mapDelete hp).1, h.2.2.2.2⟩

theorem grow_suspend {s x : State} (t : Task) (h : Grow s x) : Grow s (suspend x t) := by
  refine ⟨h.1, Nat.le_succ_of_le h.2.1, h.2.2.1, fun p hp => ?_, h.2.2.2.2⟩
  simp only [suspend, List.mem_append, List.mem_singleton] at hp
  rcases hp with hp | hp
  · rcases h.2.2.2.1 p hp with h' | h'
    · exact Or.inl h'
    · exact Or.inr ⟨h'.1, Nat.lt_succ_of_lt h'.2⟩
  · subst hp
    exact Or.inr ⟨h.2.1, Nat.lt_succ_self _⟩

theorem grow_setTimeout {s x : State} (a : TimerAction) (d : Nat) (h : Grow s x) :
    Grow s (setTimeout x a d) := by
  refine ⟨Nat.le_succ_of_le h.1, h.2.1, fun p hp => ?_, h.2.2.2.1, fun p hp => ?_,
    h.2.2.2.2.2⟩
  · simp only [setTimeout, emit, List.mem_append, List.mem_singleton] at hp
    rcases hp with hp | hp
    · rcases h.2.2.1 p hp with h' | h'
      · exact Or.inl h'
      · exact Or.inr ⟨h'.1, Nat.lt_succ_of_lt h'.2⟩
    · subst hp
      exact Or.inr ⟨h.1, Nat.lt_succ_self _⟩
  · rcases h.2.2.2.2.1 p hp with h' | h'
    · exact Or.inl h'
    · exact Or.inr ⟨h'.1, Nat.lt_succ_of_lt h'.2⟩

theorem grow_clearTimeout {s x : State} (t : TimerId) (h : Grow s x) :
    Grow s (clearTimeout x t) := grow_emit _ (grow_dropTimer t h)

theorem grow_cancelCleanup {s x : State} (c : ClientId) (h : Grow s x) :
    Grow s (cancelCleanup x c) := by
  unfold cancelCleanup
  split
  · exact grow_delPending _ (grow_clearTimeout _ h)
  · exact h

theorem grow_scheduleCleanup {s x : State} (c : ClientId) (w : Option String) (h : Grow s x) :
    Grow s (scheduleCleanup x c w) := by
  have h1 := grow_setTimeout (.cleanup c w) CLEANUP_DELAY (grow_cancelCleanup c h)
  refine ⟨h1.1, h1.2.1, h1.2.2.1, h1.2.2.2.1, fun p hp => ?_, h1.2.2.2.2.2⟩
  simp only [scheduleCleanup, setPending_pendingCleanups, setTimeout_pendingCleanups] at hp
  rcases mem_of_mem_mapSet hp with hp | hp
  · rcases (grow_cancelCleanup c h).2.2.2.2.1 p hp with h' | h'
    · exact Or.inl h'
    · refine Or.inr ⟨h'.1, lt_of_lt_of_le h'.2 ?_⟩
      simp [scheduleCleanup]
  · subst hp
    refine Or.inr ⟨(grow_cancelCleanup c h).1, ?_⟩
    simp [scheduleCleanup]

theorem grow_killProcess {s x : State} (r : Ref) (h : Grow s x) : Grow s (killProcess x r) := by
  unfold killProcess
  split
  · exact grow_updClient _ _ (grow_markSignalled _ (grow_emit _ h))
  · exact h

theorem grow_writeFileSync {s x : State} (path : String) (c : Option String) (h : Grow s x) :
    Grow s (writeFileSync x path c) := by
  unfold writeFileSync
  split
  · exact h
  · exact h

theorem grow_attach {s x : State} (ws : Ws) (cols rows : Option Nat) (b : Bool) (h : Grow s x) :
    Grow s (attach x ws cols rows b) := by
  unfold attach
  try dsimp only
  repeat' first
    | with_reducible exact h | with_reducible apply grow_scheduleCleanup
    | with_reducible apply grow_cancelCleanup | with_reducible apply grow_killProcess
    | with_reducible apply grow_clearTimeout | with_reducible apply grow_setTimeout
    | with_reducible apply grow_suspend
    | with_reducible apply grow_takeTask | with_reducible apply grow_dropTimer
    | with_reducible apply grow_broadcast | with_reducible apply grow_send
    | with_reducible apply grow_emits | with_reducible apply grow_emit
    | with_reducible apply grow_updConn | with_reducible apply grow_updClient
    | with_reducible apply grow_markSignalled | with_reducible apply grow_markExited
    | with_reducible apply grow_updRequest
    | with_reducible apply grow_delPending
    | with_reducible apply grow_delClient
    | with_reducible apply grow_registerClient
    | with_reducible apply grow_setTerminal | with_reducible apply grow_delTerminal
    | with_reducible apply grow_addProc | with_reducible apply grow_addPty
    | with_reducible apply grow_addRequest | with_reducible apply grow_addConn | split

theorem grow_connectStart {s x : State} (ws : Ws) (uuid : Option String) (cols rows : Option Nat) (env : SyncEnv) (h : Grow s x) :
    Grow s (connectStart x ws uuid cols rows env) := by
  unfold connectStart
  try dsimp only
  repeat' first
    | with_reducible exact h | with_reducible apply grow_scheduleCleanup
    | with_reducible apply grow_cancelCleanup | with_reducible apply grow_killProcess
    | with_reducible apply grow_clearTimeout | with_reducible apply grow_setTimeout
    | with_reducible apply grow_suspend
    | with_reducible apply grow_takeTask | with_reducible apply grow_dropTimer
    | with_reducible apply grow_broadcast | with_reducible apply grow_send
    | with_reducible apply grow_emits | with_reducible apply grow_emit
    | with_reducible apply grow_updConn | with_reducible apply grow_updClient
    | with_reducible apply grow_markSignalled | with_reducible apply grow_markExited
    | with_reducible apply grow_updRequest
    | with_reducible apply grow_delPending
    | with_reducible apply grow_delClient
    | with_reducible apply grow_registerClient
    | with_reducible apply grow_setTerminal | with_reducible apply grow_delTerminal
    | with_reducible apply grow_addProc | with_reducible apply grow_addPty
    | with_reducible apply grow_addRequest | with_reducible apply grow_addConn | split

theorem grow_connectAfterStatus {s x : State} (ws : Ws) (cols rows : Option Nat) (b : Bool) (h : Grow s x) :
    Grow s (connectAfterStatus x ws cols rows b) := by
  unfold connectAfterStatus
  try dsimp only
  repeat' first
    | with_reducible exact h | with_reducible apply grow_attach
    | with_reducible apply grow_scheduleCleanup | with_reducible apply grow_cancelCleanup
    | with_reducible apply grow_killProcess | with_reducible apply grow_clearTimeout
    | with_reducible apply grow_setTimeout
    | with_reducible apply grow_suspend | with_reducible apply grow_takeTask
    | with_reducible apply grow_dropTimer | with_reducible apply grow_broadcast
    | with_reducible apply grow_send | with_reducible apply grow_emits
    | with_reducible apply grow_emit | with_reducible apply grow_updConn
    | with_reducible apply grow_updClient | with_reducible apply grow_markSignalled
    | with_reducible apply grow_markExited
    | with_reducible apply grow_updRequest | with_reducible apply grow_delPending
    | with_reducible apply grow_delClient
    | with_reducible apply grow_registerClient
    | with_reducible apply grow_setTerminal | with_reducible apply grow_delTerminal
    | with_reducible apply grow_addProc | with_reducible apply grow_addPty
    | with_reducible apply grow_addRequest | with_reducible apply grow_addConn | split

theorem grow_connectAfterReadiness {s x : State} (ws : Ws) (cols rows : Option Nat) (err : Option String) (h : Grow s x) :
    Grow s (connectAfterReadiness x ws cols rows err) := by
  unfold connectAfterReadiness
  try dsimp only
  repeat' first
    | with_reducible exact h | with_reducible apply grow_attach
    | with_reducible apply grow_scheduleCleanup | with_reducible apply grow_cancelCleanup
    | with_reducible apply grow_killProcess | with_reducible apply grow_clearTimeout
    | with_reducible apply grow_setTimeout
    | with_reducible apply grow_suspend | with_reducible apply grow_takeTask
    | with_reducible apply grow_dropTimer | with_reducible apply grow_broadcast
    | with_reducible apply grow_send | with_reducible apply grow_emits
    | with_reducible apply grow_emit | with_reducible apply grow_updConn
    | with_reducible apply grow_updClient | with_reducible apply grow_markSignalled
    | with_reducible apply grow_markExited
    | with_reducible apply grow_updRequest | with_reducible apply grow_delPending
    | with_reducible apply grow_delClient
    | with_reducible apply grow_registerClient
    | with_reducible apply grow_setTerminal | with_reducible apply grow_delTerminal
    | with_reducible apply grow_addProc | with_reducible apply grow_addPty
    | with_reducible apply grow_addRequest | with_reducible apply grow_addConn | split

theorem grow_connectAfterCreate {s x : State} (ws : Ws) (cols rows : Option Nat) (err : Option String) (h : Grow s x) :
    Grow s (connectAfterCreate x ws cols rows err) := by
  unfold connectAfterCreate
  try dsimp only
  repeat' first
    | with_reducible exact h | with_reducible apply grow_attach
    | with_reducible apply grow_scheduleCleanup | with_reducible apply grow_cancelCleanup
    | with_reducible apply grow_killProcess | with_reducible apply grow_clearTimeout
    | with_reducible apply grow_setTimeout
    | with_reducible apply grow_suspend | with_reducible apply grow_takeTask
    | with_reducible apply grow_dropTimer | with_reducible apply grow_broadcast
    | with_reducible apply grow_send | with_reducible apply grow_emits
    | with_reducible apply grow_emit | with_reducible apply grow_updConn
    | with_reducible apply grow_updClient | with_reducible apply grow_markSignalled
    | with_reducible apply grow_markExited
    | with_reducible apply grow_updRequest | with_reducible apply grow_delPending
    | with_reducible apply grow_delClient
    | with_reducible apply grow_registerClient
    | with_reducible apply grow_setTerminal | with_reducible apply grow_delTerminal
    | with_reducible apply grow_addProc | with_reducible apply grow_addPty
    | with_reducible apply grow_addRequest | with_reducible apply grow_addConn | split

theorem grow_onInput {s x : State} (ws : Ws) (d : String) (h : Grow s x) :
    Grow s (onInput x ws d) := by
  unfold onInput
  try dsimp only
  repeat' first
    | with_reducible exact h | with_reducible apply grow_scheduleCleanup
    | with_reducible apply grow_cancelCleanup | with_reducible apply grow_killProcess
    | with_reducible apply grow_clearTimeout | with_reducible apply grow_setTimeout
    | with_reducible apply grow_suspend
    | with_reducible apply grow_takeTask | with_reducible apply grow_dropTimer
    | with_reducible apply grow_broadcast | with_reducible apply grow_send
    | with_reducible apply grow_emits | with_reducible apply grow_emit
    | with_reducible apply grow_updConn | with_reducible apply grow_updClient
    | with_reducible apply grow_markSignalled | with_reducible apply grow_markExited
    | with_reducible apply grow_updRequest
    | with_reducible apply grow_delPending
    | with_reducible apply grow_delClient
    | with_reducible apply grow_registerClient
    | with_reducible apply grow_setTerminal | with_reducible apply grow_delTerminal
    | with_reducible apply grow_addProc | with_reducible apply grow_addPty
    | with_reducible apply grow_addRequest | with_reducible apply grow_addConn | split

theorem grow_onResize {s x : State} (ws : Ws) (c r : Nat) (h : Grow s x) :
    Grow s (onResize x ws c r) := by
  unfold onResize
  try dsimp only
  repeat' first
    | with_reducible exact h | with_reducible apply grow_scheduleCleanup
    | with_reducible apply grow_cancelCleanup | with_reducible apply grow_killProcess
    | with_reducible apply grow_clearTimeout | with_reducible apply grow_setTimeout
    | with_reducible apply grow_suspend
    | with_reducible apply grow_takeTask | with_reducible apply grow_dropTimer
    | with_reducible apply grow_broadcast | with_reducible apply grow_send
    | with_reducible apply grow_emits | with_reducible apply grow_emit
    | with_reducible apply grow_updConn | with_reducible apply grow_updClient
    | with_reducible apply grow_markSignalled | with_reducible apply grow_markExited
    | with_reducible apply grow_updRequest
    | with_reducible apply grow_delPending
    | with_reducible apply grow_delClient
    | with_reducible apply grow_registerClient
    | with_reducible apply grow_setTerminal | with_reducible apply grow_delTerminal
    | with_reducible apply grow_addProc | with_reducible apply grow_addPty
    | with_reducible apply grow_addRequest | with_reducible apply grow_addConn | split

theorem grow_checkStatusStart {s x : State} (ws : Ws) (h : Grow s x) :
    Grow s (checkStatusStart x ws) := by
  unfold checkStatusStart
  try dsimp only
  repeat' first
    | with_reducible exact h | with_reducible apply grow_scheduleCleanup
    | with_reducible apply grow_cancelCleanup | with_reducible apply grow_killProcess
    | with_reducible apply grow_clearTimeout | with_reducible apply grow_setTimeout
    | with_reducible apply grow_suspend
    | with_reducible apply grow_takeTask | with_reducible apply grow_dropTimer
    | with_reducible apply grow_broadcast | with_reducible apply grow_send
    | with_reducible apply grow_emits | with_reducible apply grow_emit
    | with_reducible apply grow_updConn | with_reducible apply grow_updClient
    | with_reducible apply grow_markSignalled | with_reducible apply grow_markExited
    | with_reducible apply grow_updRequest
    | with_reducible apply grow_delPending
    | with_reducible apply grow_delClient
    | with_reducible apply grow_registerClient
    | with_reducible apply grow_setTerminal | with_reducible apply grow_delTerminal
    | with_reducible apply grow_addProc | with_reducible apply grow_addPty
    | with_reducible apply grow_addRequest | with_reducible apply grow_addConn | split

theorem grow_execStart {s x : State} (ws : Ws) (a b c : Option String) (h : Grow s x) :
    Grow s (execStart x ws a b c) := by
  unfold execStart
  try dsimp only
  repeat' first
    | with_reducible exact h | with_reducible apply grow_scheduleCleanup
    | with_reducible apply grow_cancelCleanup | with_reducible apply grow_killProcess
    | with_reducible apply grow_clearTimeout | with_reducible apply grow_setTimeout
    | with_reducible apply grow_suspend
    | with_reducible apply grow_takeTask | with_reducible apply grow_dropTimer
    | with_reducible apply grow_broadcast | with_reducible apply grow_send
    | with_reducible apply grow_emits | with_reducible apply grow_emit
    | with_reducible apply grow_updConn | with_reducible apply grow_updClient
    | with_reducible apply grow_markSignalled | with_reducible apply grow_markExited
    | with_reducible apply grow_updRequest
    | with_reducible apply grow_delPending
    | with_reducible apply grow_delClient
    | with_reducible apply grow_registerClient
    | with_reducible apply grow_setTerminal | with_reducible apply grow_delTerminal
    | with_reducible apply grow_addProc | with_reducible apply grow_addPty
    | with_reducible apply grow_addRequest | with_reducible apply grow_addConn | split

theorem grow_execAfterStatus {s x : State} (ws : Ws) (r : Ref) (a b c : Option String) (ready : Bool) (env : SyncEnv) (h : Grow s x) :
    Grow s (execAfterStatus x ws r a b c ready env) := by
  unfold execAfterStatus
  try dsimp only
  repeat' first
    | with_reducible exact h | with_reducible apply grow_writeFileSync
    | with_reducible apply grow_scheduleCleanup
    | with_reducible apply grow_cancelCleanup | with_reducible apply grow_killProcess
    | with_reducible apply grow_clearTimeout | with_reducible apply grow_setTimeout
    | with_reducible apply grow_suspend
    | with_reducible apply grow_takeTask | with_reducible apply grow_dropTimer
    | with_reducible apply grow_broadcast | with_reducible apply grow_send
    | with_reducible apply grow_emits | with_reducible apply grow_emit
    | with_reducible apply grow_updConn | with_reducible apply grow_updClient
    | with_reducible apply grow_markSignalled | with_reducible apply grow_markExited
    | with_reducible apply grow_updRequest
    | with_reducible apply grow_delPending
    | with_reducible apply grow_delClient
    | with_reducible apply grow_registerClient
    | with_reducible apply grow_setTerminal | with_reducible apply grow_delTerminal
    | with_reducible apply grow_addProc | with_reducible apply grow_addPty
    | with_reducible apply grow_addRequest | with_reducible apply grow_addConn | split

theorem grow_execAfterCopyCargo {s x : State} (ws : Ws) (r : Ref) (c err : Option String) (h : Grow s x) :
    Grow s (execAfterCopyCargo x ws r c err) := by
  unfold execAfterCopyCargo
  try dsimp only
  repeat' first
    | with_reducible exact h | with_reducible apply grow_scheduleCleanup
    | with_reducible apply grow_cancelCleanup | with_reducible apply grow_killProcess
    | with_reducible apply grow_clearTimeout | with_reducible apply grow_setTimeout
    | with_reducible apply grow_suspend
    | with_reducible apply grow_takeTask | with_reducible apply grow_dropTimer
    | with_reducible apply grow_broadcast | with_reducible apply grow_send
    | with_reducible apply grow_emits | with_reducible apply grow_emit
    | with_reducible apply grow_updConn | with_reducible apply grow_updClient
    | with_reducible apply grow_markSignalled | with_reducible apply grow_markExited
    | with_reducible apply grow_updRequest
    | with_reducible apply grow_delPending
    | with_reducible apply grow_delClient
    | with_reducible apply grow_registerClient
    | with_reducible apply grow_setTerminal | with_reducible apply grow_delTerminal
    | with_reducible apply grow_addProc | with_reducible apply grow_addPty
    | with_reducible apply grow_addRequest | with_reducible apply grow_addConn | split

theorem grow_execDispatch {s x : State} (ws : Ws) (r : Ref) (c : Option String) (h : Grow s x) :
    Grow s (execDispatch x ws r c) := by
  unfold execDispatch
  try dsimp only
  repeat' first
    | with_reducible exact h | with_reducible apply grow_scheduleCleanup
    | with_reducible apply grow_cancelCleanup | with_reducible apply grow_killProcess
    | with_reducible apply grow_clearTimeout | with_reducible apply grow_setTimeout
    | with_reducible apply grow_suspend
    | with_reducible apply grow_takeTask | with_reducible apply grow_dropTimer
    | with_reducible apply grow_broadcast | with_reducible apply grow_send
    | with_reducible apply grow_emits | with_reducible apply grow_emit
    | with_reducible apply grow_updConn | with_reducible apply grow_updClient
    | with_reducible apply grow_markSignalled | with_reducible apply grow_markExited
    | with_reducible apply grow_updRequest
    | with_reducible apply grow_delPending
    | with_reducible apply grow_delClient
    | with_reducible apply grow_registerClient
    | with_reducible apply grow_setTerminal | with_reducible apply grow_delTerminal
    | with_reducible apply grow_addProc | with_reducible apply grow_addPty
    | with_reducible apply grow_addRequest | with_reducible apply grow_addConn | split

theorem grow_execAfterCopyMain {s x : State} (ws : Ws) (r : Ref) (c err : Option String) (h : Grow s x) :
    Grow s (execAfterCopyMain x ws r c err) := by
  unfold execAfterCopyMain
  try dsimp only
  repeat' first
    | with_reducible exact h | with_reducible apply grow_execDispatch
    | with_reducible apply grow_scheduleCleanup | with_reducible apply grow_cancelCleanup
    | with_reducible apply grow_killProcess | with_reducible apply grow_clearTimeout
    | with_reducible apply grow_setTimeout
    | with_reducible apply grow_suspend | with_reducible apply grow_takeTask
    | with_reducible apply grow_dropTimer | with_reducible apply grow_broadcast
    | with_reducible apply grow_send | with_reducible apply grow_emits
    | with_reducible apply grow_emit | with_reducible apply grow_updConn
    | with_reducible apply grow_updClient | with_reducible apply grow_markSignalled
    | with_reducible apply grow_markExited
    | with_reducible apply grow_updRequest | with_reducible apply grow_delPending
    | with_reducible apply grow_delClient
    | with_reducible apply grow_registerClient
    | with_reducible apply grow_setTerminal | with_reducible apply grow_delTerminal
    | with_reducible apply grow_addProc | with_reducible apply grow_addPty
    | with_reducible apply grow_addRequest | with_reducible apply grow_addConn | split

theorem grow_onStop {s x : State} (ws : Ws) (h : Grow s x) :
    Grow s (onStop x ws) := by
  unfold onStop
  try dsimp only
  repeat' first
    | with_reducible exact h | with_reducible apply grow_scheduleCleanup
    | with_reducible apply grow_cancelCleanup | with_reducible apply grow_killProcess
    | with_reducible apply grow_clearTimeout | with_reducible apply grow_setTimeout
    | with_reducible apply grow_suspend
    | with_reducible apply grow_takeTask | with_reducible apply grow_dropTimer
    | with_reducible apply grow_broadcast | with_reducible apply grow_send
    | with_reducible apply grow_emits | with_reducible apply grow_emit
    | with_reducible apply grow_updConn | with_reducible apply grow_updClient
    | with_reducible apply grow_markSignalled | with_reducible apply grow_markExited
    | with_reducible apply grow_updRequest
    | with_reducible apply grow_delPending
    | with_reducible apply grow_delClient
    | with_reducible apply grow_registerClient
    | with_reducible apply grow_setTerminal | with_reducible apply grow_delTerminal
    | with_reducible apply grow_addProc | with_reducible apply grow_addPty
    | with_reducible apply grow_addRequest | with_reducible apply grow_addConn | split

theorem grow_updateStart {s x : State} (ws : Ws) (a b : Field) (h : Grow s x) :
    Grow s (updateStart x ws a b) := by
  unfold updateStart
  try dsimp only
  repeat' first
    | with_reducible exact h | with_reducible apply grow_scheduleCleanup
    | with_reducible apply grow_cancelCleanup | with_reducible apply grow_killProcess
    | with_reducible apply grow_clearTimeout | with_reducible apply grow_setTimeout
    | with_reducible apply grow_suspend
    | with_reducible apply grow_takeTask | with_reducible apply grow_dropTimer
    | with_reducible apply grow_broadcast | with_reducible apply grow_send
    | with_reducible apply grow_emits | with_reducible apply grow_emit
    | with_reducible apply grow_updConn | with_reducible apply grow_updClient
    | with_reducible apply grow_markSignalled | with_reducible apply grow_markExited
    | with_reducible apply grow_updRequest
    | with_reducible apply grow_delPending
    | with_reducible apply grow_delClient
    | with_reducible apply grow_registerClient
    | with_reducible apply grow_setTerminal | with_reducible apply grow_delTerminal
    | with_reducible apply grow_addProc | with_reducible apply grow_addPty
    | with_reducible apply grow_addRequest | with_reducible apply grow_addConn | split

theorem grow_updateNotify {s x : State} (ws : Ws) (r : Ref) (a b : Field) (h : Grow s x) :
    Grow s (updateNotify x ws r a b) := by
  unfold updateNotify
  try dsimp only
  repeat' first
    | with_reducible exact h | with_reducible apply grow_scheduleCleanup
    | with_reducible apply grow_cancelCleanup | with_reducible apply grow_killProcess
    | with_reducible apply grow_clearTimeout | with_reducible apply grow_setTimeout
    | with_reducible apply grow_suspend
    | with_reducible apply grow_takeTask | with_reducible apply grow_dropTimer
    | with_reducible apply grow_broadcast | with_reducible apply grow_send
    | with_reducible apply grow_emits | with_reducible apply grow_emit
    | with_reducible apply grow_updConn | with_reducible apply grow_updClient
    | with_reducible apply grow_markSignalled | with_reducible apply grow_markExited
    | with_reducible apply grow_updRequest
    | with_reducible apply grow_delPending
    | with_reducible apply grow_delClient
    | with_reducible apply grow_registerClient
    | with_reducible apply grow_setTerminal | with_reducible apply grow_delTerminal
    | with_reducible apply grow_addProc | with_reducible apply grow_addPty
    | with_reducible apply grow_addRequest | with_reducible apply grow_addConn | split

theorem grow_updateCargo {s x : State} (ws : Ws) (r : Ref) (a b : Field) (env : SyncEnv) (h : Grow s x) :
    Grow s (updateCargo x ws r a b env) := by
  unfold updateCargo
  try dsimp only
  repeat' first
    | with_reducible exact h | with_reducible apply grow_updateNotify
    | with_reducible apply grow_scheduleCleanup | with_reducible apply grow_cancelCleanup
    | with_reducible apply grow_killProcess | with_reducible apply grow_clearTimeout
    | with_reducible apply grow_setTimeout
    | with_reducible apply grow_suspend | with_reducible apply grow_takeTask
    | with_reducible apply grow_dropTimer | with_reducible apply grow_broadcast
    | with_reducible apply grow_send | with_reducible apply grow_emits
    | with_reducible apply grow_emit | with_reducible apply grow_updConn
    | with_reducible apply grow_updClient | with_reducible apply grow_markSignalled
    | with_reducible apply grow_markExited
    | with_reducible apply grow_updRequest | with_reducible apply grow_delPending
    | with_reducible apply grow_delClient
    | with_reducible apply grow_registerClient
    | with_reducible apply grow_setTerminal | with_reducible apply grow_delTerminal
    | with_reducible apply grow_addProc | with_reducible apply grow_addPty
    | with_reducible apply grow_addRequest | with_reducible apply grow_addConn | split

theorem grow_updateAfterStatus {s x : State} (ws : Ws) (r : Ref) (a b : Field) (ready : Bool) (env : SyncEnv) (h : Grow s x) :
    Grow s (updateAfterStatus x ws r a b ready env) := by
  unfold updateAfterStatus
  try dsimp only
  repeat' first
    | with_reducible exact h | with_reducible apply grow_updateCargo
    | with_reducible apply grow_scheduleCleanup | with_reducible apply grow_cancelCleanup
    | with_reducible apply grow_killProcess | with_reducible apply grow_clearTimeout
    | with_reducible apply grow_setTimeout
    | with_reducible apply grow_suspend | with_reducible apply grow_takeTask
    | with_reducible apply grow_dropTimer | with_reducible apply grow_broadcast
    | with_reducible apply grow_send | with_reducible apply grow_emits
    | with_reducible apply grow_emit | with_reducible apply grow_updConn
    | with_reducible apply grow_updClient | with_reducible apply grow_markSignalled
    | with_reducible apply grow_markExited
    | with_reducible apply grow_updRequest | with_reducible apply grow_delPending
    | with_reducible apply grow_delClient
    | with_reducible apply grow_registerClient
    | with_reducible apply grow_setTerminal | with_reducible apply grow_delTerminal
    | with_reducible apply grow_addProc | with_reducible apply grow_addPty
    | with_reducible apply grow_addRequest | with_reducible apply grow_addConn | split

theorem grow_updateAfterCopyMain {s x : State} (ws : Ws) (r : Ref) (a b : Field) (err : Option String) (env : SyncEnv) (h : Grow s x) :
    Grow s (updateAfterCopyMain x ws r a b err env) := by
  unfold updateAfterCopyMain
  try dsimp only
  repeat' first
    | with_reducible exact h | with_reducible apply grow_updateCargo
    | with_reducible apply grow_scheduleCleanup | with_reducible apply grow_cancelCleanup
    | with_reducible apply grow_killProcess | with_reducible apply grow_clearTimeout
    | with_reducible apply grow_setTimeout
    | with_reducible apply grow_suspend | with_reducible apply grow_takeTask
    | with_reducible apply grow_dropTimer | with_reducible apply grow_broadcast
    | with_reducible apply grow_send | with_reducible apply grow_emits
    | with_reducible apply grow_emit | with_reducible apply grow_updConn
    | with_reducible apply grow_updClient | with_reducible apply grow_markSignalled
    | with_reducible apply grow_markExited
    | with_reducible apply grow_updRequest | with_reducible apply grow_delPending
    | with_reducible apply grow_delClient
    | with_reducible apply grow_registerClient
    | with_reducible apply grow_setTerminal | with_reducible apply grow_delTerminal
    | with_reducible apply grow_addProc | with_reducible apply grow_addPty
    | with_reducible apply grow_addRequest | with_reducible apply grow_addConn | split

theorem grow_updateAfterCopyCargo {s x : State} (ws : Ws) (r : Ref) (a b : Field) (err : Option String) (h : Grow s x) :
    Grow s (updateAfterCopyCargo x ws r a b err) := by
  unfold updateAfterCopyCargo
  try dsimp only
  repeat' first
    | with_reducible exact h | with_reducible apply grow_updateNotify
    | with_reducible apply grow_scheduleCleanup | with_reducible apply grow_cancelCleanup
    | with_reducible apply grow_killProcess | with_reducible apply grow_clearTimeout
    | with_reducible apply grow_setTimeout
    | with_reducible apply grow_suspend | with_reducible apply grow_takeTask
    | with_reducible apply grow_dropTimer | with_reducible apply grow_broadcast
    | with_reducible apply grow_send | with_reducible apply grow_emits
    | with_reducible apply grow_emit | with_reducible apply grow_updConn
    | with_reducible apply grow_updClient | with_reducible apply grow_markSignalled
    | with_reducible apply grow_markExited
    | with_reducible apply grow_updRequest | with_reducible apply grow_delPending
    | with_reducible apply grow_delClient
    | with_reducible apply grow_registerClient
    | with_reducible apply grow_setTerminal | with_reducible apply grow_delTerminal
    | with_reducible apply grow_addProc | with_reducible apply grow_addPty
    | with_reducible apply grow_addRequest | with_reducible apply grow_addConn | split

theorem grow_onMessage {s x : State} (ws : Ws) (d : Data) (env : SyncEnv) (h : Grow s x) :
    Grow s (onMessage x ws d env) := by
  unfold onMessage
  try dsimp only
  repeat' first
    | with_reducible exact h | with_reducible apply grow_connectStart
    | with_reducible apply grow_onInput | with_reducible apply grow_onResize
    | with_reducible apply grow_checkStatusStart | with_reducible apply grow_execStart
    | with_reducible apply grow_onStop
    | with_reducible apply grow_updateStart | with_reducible apply grow_scheduleCleanup
    | with_reducible apply grow_cancelCleanup
    | with_reducible apply grow_killProcess | with_reducible apply grow_clearTimeout
    | with_reducible apply grow_setTimeout
    | with_reducible apply grow_suspend | with_reducible apply grow_takeTask
    | with_reducible apply grow_dropTimer | with_reducible apply grow_broadcast
    | with_reducible apply grow_send | with_reducible apply grow_emits
    | with_reducible apply grow_emit | with_reducible apply grow_updConn
    | with_reducible apply grow_updClient | with_reducible apply grow_markSignalled
    | with_reducible apply grow_markExited
    | with_reducible apply grow_updRequest | with_reducible apply grow_delPending
    | with_reducible apply grow_delClient
    | with_reducible apply grow_registerClient
    | with_reducible apply grow_setTerminal | with_reducible apply grow_delTerminal
    | with_reducible apply grow_addProc | with_reducible apply grow_addPty
    | with_reducible apply grow_addRequest | with_reducible apply grow_addConn | split

theorem grow_onClose {s x : State} (ws : Ws) (h : Grow s x) :
    Grow s (onClose x ws) := by
  unfold onClose
  try dsimp only
  repeat' first
    | with_reducible exact h | with_reducible apply grow_scheduleCleanup
    | with_reducible apply grow_cancelCleanup | with_reducible apply grow_killProcess
    | with_reducible apply grow_clearTimeout | with_reducible apply grow_setTimeout
    | with_reducible apply grow_suspend
    | with_reducible apply grow_takeTask | with_reducible apply grow_dropTimer
    | with_reducible apply grow_broadcast | with_reducible apply grow_send
    | with_reducible apply grow_emits | with_reducible apply grow_emit
    | with_reducible apply grow_updConn | with_reducible apply grow_updClient
    | with_reducible apply grow_markSignalled | with_reducible apply grow_markExited
    | with_reducible apply grow_updRequest
    | with_reducible apply grow_delPending
    | with_reducible apply grow_delClient
    | with_reducible apply grow_registerClient
    | with_reducible apply grow_setTerminal | with_reducible apply grow_delTerminal
    | with_reducible apply grow_addProc | with_reducible apply grow_addPty
    | with_reducible apply grow_addRequest | with_reducible apply grow_addConn | split

theorem grow_cleanupFire {s x : State} (c : ClientId) (w : Option String) (h : Grow s x) :
    Grow s (cleanupFire x c w) := by
  unfold cleanupFire
  try dsimp only
  repeat' first
    | with_reducible exact h | with_reducible apply grow_scheduleCleanup
    | with_reducible apply grow_cancelCleanup | with_reducible apply grow_killProcess
    | with_reducible apply grow_clearTimeout | with_reducible apply grow_setTimeout
    | with_reducible apply grow_suspend
    | with_reducible apply grow_takeTask | with_reducible apply grow_dropTimer
    | with_reducible apply grow_broadcast | with_reducible apply grow_send
    | with_reducible apply grow_emits | with_reducible apply grow_emit
    | with_reducible apply grow_updConn | with_reducible apply grow_updClient
    | with_reducible apply grow_markSignalled | with_reducible apply grow_markExited
    | with_reducible apply grow_updRequest
    | with_reducible apply grow_delPending
    | with_reducible apply grow_delClient
    | with_reducible apply grow_registerClient
    | with_reducible apply grow_setTerminal | with_reducible apply grow_delTerminal
    | with_reducible apply grow_addProc | with_reducible apply grow_addPty
    | with_reducible apply grow_addRequest | with_reducible apply grow_addConn | split

theorem grow_cleanupAfterStop {s x : State} (c : ClientId) (w err : Option String) (env : SyncEnv) (h : Grow s x) :
    Grow s (cleanupAfterStop x c w err env) := by
  unfold cleanupAfterStop
  try dsimp only
  repeat' first
    | with_reducible exact h | with_reducible apply grow_scheduleCleanup
    | with_reducible apply grow_cancelCleanup | with_reducible apply grow_killProcess
    | with_reducible apply grow_clearTimeout | with_reducible apply grow_setTimeout
    | with_reducible apply grow_suspend
    | with_reducible apply grow_takeTask | with_reducible apply grow_dropTimer
    | with_reducible apply grow_broadcast | with_reducible apply grow_send
    | with_reducible apply grow_emits | with_reducible apply grow_emit
    | with_reducible apply grow_updConn | with_reducible apply grow_updClient
    | with_reducible apply grow_markSignalled | with_reducible apply grow_markExited
    | with_reducible apply grow_updRequest
    | with_reducible apply grow_delPending
    | with_reducible apply grow_delClient
    | with_reducible apply grow_registerClient
    | with_reducible apply grow_setTerminal | with_reducible apply grow_delTerminal
    | with_reducible apply grow_addProc | with_reducible apply grow_addPty
    | with_reducible apply grow_addRequest | with_reducible apply grow_addConn | split

theorem grow_oneShotTimeout {s x : State} (q : ReqId) (pid : Pid) (h : Grow s x) :
    Grow s (oneShotTimeout x q pid) := by
  unfold oneShotTimeout
  try dsimp only
  repeat' first
    | with_reducible exact h | with_reducible apply grow_scheduleCleanup
    | with_reducible apply grow_cancelCleanup | with_reducible apply grow_killProcess
    | with_reducible apply grow_clearTimeout | with_reducible apply grow_setTimeout
    | with_reducible apply grow_suspend
    | with_reducible apply grow_takeTask | with_reducible apply grow_dropTimer
    | with_reducible apply grow_broadcast | with_reducible apply grow_send
    | with_reducible apply grow_emits | with_reducible apply grow_emit
    | with_reducible apply grow_updConn | with_reducible apply grow_updClient
    | with_reducible apply grow_markSignalled | with_reducible apply grow_markExited
    | with_reducible apply grow_updRequest
    | with_reducible apply grow_delPending
    | with_reducible apply grow_delClient
    | with_reducible apply grow_registerClient
    | with_reducible apply grow_setTerminal | with_reducible apply grow_delTerminal
    | with_reducible apply grow_addProc | with_reducible apply grow_addPty
    | with_reducible apply grow_addRequest | with_reducible apply grow_addConn | split

theorem grow_onTimer {s x : State} (a : TimerAction) (h : Grow s x) :
    Grow s (onTimer x a) := by
  unfold onTimer
  try dsimp only
  repeat' first
    | with_reducible exact h | with_reducible apply grow_cleanupFire
    | with_reducible apply grow_oneShotTimeout | with_reducible apply grow_scheduleCleanup
    | with_reducible apply grow_cancelCleanup | with_reducible apply grow_killProcess
    | with_reducible apply grow_clearTimeout
    | with_reducible apply grow_setTimeout | with_reducible apply grow_suspend
    | with_reducible apply grow_takeTask | with_reducible apply grow_dropTimer
    | with_reducible apply grow_broadcast | with_reducible apply grow_send
    | with_reducible apply grow_emits | with_reducible apply grow_emit
    | with_reducible apply grow_updConn | with_reducible apply grow_updClient
    | with_reducible apply grow_markSignalled | with_reducible apply grow_markExited
    | with_reducible apply grow_updRequest
    | with_reducible apply grow_delPending
    | with_reducible apply grow_delClient
    | with_reducible apply grow_registerClient | with_reducible apply grow_setTerminal
    | with_reducible apply grow_delTerminal
    | with_reducible apply grow_addProc | with_reducible apply grow_addPty
    | with_reducible apply grow_addRequest | with_reducible apply grow_addConn
    | split

theorem grow_onProcStdout {s x : State} (pid : Pid) (c : String) (h : Grow s x) :
    Grow s (onProcStdout x pid c) := by
  unfold onProcStdout
  try dsimp only
  repeat' first
    | with_reducible exact h | with_reducible apply grow_scheduleCleanup
    | with_reducible apply grow_cancelCleanup | with_reducible apply grow_killProcess
    | with_reducible apply grow_clearTimeout | with_reducible apply grow_setTimeout
    | with_reducible apply grow_suspend
    | with_reducible apply grow_takeTask | with_reducible apply grow_dropTimer
    | with_reducible apply grow_broadcast | with_reducible apply grow_send
    | with_reducible apply grow_emits | with_reducible apply grow_emit
    | with_reducible apply grow_updConn | with_reducible apply grow_updClient
    | with_reducible apply grow_markSignalled | with_reducible apply grow_markExited
    | with_reducible apply grow_updRequest
    | with_reducible apply grow_delPending
    | with_reducible apply grow_delClient
    | with_reducible apply grow_registerClient
    | with_reducible apply grow_setTerminal | with_reducible apply grow_delTerminal
    | with_reducible apply grow_addProc | with_reducible apply grow_addPty
    | with_reducible apply grow_addRequest | with_reducible apply grow_addConn | split

theorem grow_onProcStderr {s x : State} (pid : Pid) (c : String) (h : Grow s x) :
    Grow s (onProcStderr x pid c) := by
  unfold onProcStderr
  try dsimp only
  repeat' first
    | with_reducible exact h | with_reducible apply grow_scheduleCleanup
    | with_reducible apply grow_cancelCleanup | with_reducible apply grow_killProcess
    | with_reducible apply grow_clearTimeout | with_reducible apply grow_setTimeout
    | with_reducible apply grow_suspend
    | with_reducible apply grow_takeTask | with_reducible apply grow_dropTimer
    | with_reducible apply grow_broadcast | with_reducible apply grow_send
    | with_reducible apply grow_emits | with_reducible apply grow_emit
    | with_reducible apply grow_updConn | with_reducible apply grow_updClient
    | with_reducible apply grow_markSignalled | with_reducible apply grow_markExited
    | with_reducible apply grow_updRequest
    | with_reducible apply grow_delPending
    | with_reducible apply grow_delClient
    | with_reducible apply grow_registerClient
    | with_reducible apply grow_setTerminal | with_reducible apply grow_delTerminal
    | with_reducible apply grow_addProc | with_reducible apply grow_addPty
    | with_reducible apply grow_addRequest | with_reducible apply grow_addConn | split

theorem grow_onProcClose {s x : State} (pid : Pid) (c : Option Int) (h : Grow s x) :
    Grow s (onProcClose x pid c) := by
  unfold onProcClose
  try dsimp only
  repeat' first
    | with_reducible exact h | with_reducible apply grow_scheduleCleanup
    | with_reducible apply grow_cancelCleanup | with_reducible apply grow_killProcess
    | with_reducible apply grow_clearTimeout | with_reducible apply grow_setTimeout
    | with_reducible apply grow_suspend
    | with_reducible apply grow_takeTask | with_reducible apply grow_dropTimer
    | with_reducible apply grow_broadcast | with_reducible apply grow_send
    | with_reducible apply grow_emits | with_reducible apply grow_emit
    | with_reducible apply grow_updConn | with_reducible apply grow_updClient
    | with_reducible apply grow_markSignalled | with_reducible apply grow_markExited
    | with_reducible apply grow_updRequest
    | with_reducible apply grow_delPending
    | with_reducible apply grow_delClient
    | with_reducible apply grow_registerClient
    | with_reducible apply grow_setTerminal | with_reducible apply grow_delTerminal
    | with_reducible apply grow_addProc | with_reducible apply grow_addPty
    | with_reducible apply grow_addRequest | with_reducible apply grow_addConn | split

theorem grow_onPtyData {s x : State} (pty : PtyId) (d : String) (h : Grow s x) :
    Grow s (onPtyData x pty d) := by
  unfold onPtyData
  try dsimp only
  repeat' first
    | with_reducible exact h | with_reducible apply grow_scheduleCleanup
    | with_reducible apply grow_cancelCleanup | with_reducible apply grow_killProcess
    | with_reducible apply grow_clearTimeout | with_reducible apply grow_setTimeout
    | with_reducible apply grow_suspend
    | with_reducible apply grow_takeTask | with_reducible apply grow_dropTimer
    | with_reducible apply grow_broadcast | with_reducible apply grow_send
    | with_reducible apply grow_emits | with_reducible apply grow_emit
    | with_reducible apply grow_updConn | with_reducible apply grow_updClient
    | with_reducible apply grow_markSignalled | with_reducible apply grow_markExited
    | with_reducible apply grow_updRequest
    | with_reducible apply grow_delPending
    | with_reducible apply grow_delClient
    | with_reducible apply grow_registerClient
    | with_reducible apply grow_setTerminal | with_reducible apply grow_delTerminal
    | with_reducible apply grow_addProc | with_reducible apply grow_addPty
    | with_reducible apply grow_addRequest | with_reducible apply grow_addConn | split

theorem grow_onRequest {s x : State} (a b : Option String) (h : Grow s x) :
    Grow s (onRequest x a b) := by
  unfold onRequest
  try dsimp only
  repeat' first
    | with_reducible exact h | with_reducible apply grow_scheduleCleanup
    | with_reducible apply grow_cancelCleanup | with_reducible apply grow_killProcess
    | with_reducible apply grow_clearTimeout | with_reducible apply grow_setTimeout
    | with_reducible apply grow_suspend
    | with_reducible apply grow_takeTask | with_reducible apply grow_dropTimer
    | with_reducible apply grow_broadcast | with_reducible apply grow_send
    | with_reducible apply grow_emits | with_reducible apply grow_emit
    | with_reducible apply grow_updConn | with_reducible apply grow_updClient
    | with_reducible apply grow_markSignalled | with_reducible apply grow_markExited
    | with_reducible apply grow_updRequest
    | with_reducible apply grow_delPending
    | with_reducible apply grow_delClient
    | with_reducible apply grow_registerClient
    | with_reducible apply grow_setTerminal | with_reducible apply grow_delTerminal
    | with_reducible apply grow_addProc | with_reducible apply grow_addPty
    | with_reducible apply grow_addRequest | with_reducible apply grow_addConn | split

theorem grow_oneShotAfterStatus {s x : State} (q : ReqId) (a b : String) (ready : Bool) (h : Grow s x) :
    Grow s (oneShotAfterStatus x q a b ready) := by
  unfold oneShotAfterStatus
  try dsimp only
  repeat' first
    | with_reducible exact h | with_reducible apply grow_scheduleCleanup
    | with_reducible apply grow_cancelCleanup | with_reducible apply grow_killProcess
    | with_reducible apply grow_clearTimeout | with_reducible apply grow_setTimeout
    | with_reducible apply grow_suspend
    | with_reducible apply grow_takeTask | with_reducible apply grow_dropTimer
    | with_reducible apply grow_broadcast | with_reducible apply grow_send
    | with_reducible apply grow_emits | with_reducible apply grow_emit
    | with_reducible apply grow_updConn | with_reducible apply grow_updClient
    | with_reducible apply grow_markSignalled | with_reducible apply grow_markExited
    | with_reducible apply grow_updRequest
    | with_reducible apply grow_delPending
    | with_reducible apply grow_delClient
    | with_reducible apply grow_registerClient
    | with_reducible apply grow_setTerminal | with_reducible apply grow_delTerminal
    | with_reducible apply grow_addProc | with_reducible apply grow_addPty
    | with_reducible apply grow_addRequest | with_reducible apply grow_addConn | split

theorem grow_resumeTask {s x y : State} (task : Task) (o : Outcome) (env : SyncEnv)
    (h : Grow s x) (hy : resumeTask x task o env = some y) : Grow s y := by
  unfold resumeTask at hy
  split at hy <;> first
    | (injection hy with hy; subst hy
       first
         | exact grow_connectAfterStatus _ _ _ _ h
         | exact grow_connectAfterReadiness _ _ _ _ h
         | exact grow_connectAfterCreate _ _ _ _ h
         | exact grow_send _ _ h
         | exact grow_execAfterStatus _ _ _ _ _ _ _ h
         | exact grow_execAfterCopyCargo _ _ _ _ h
         | exact grow_execAfterCopyMain _ _ _ _ h
         | exact grow_updateAfterStatus _ _ _ _ _ _ h
         | exact grow_updateAfterCopyMain _ _ _ _ _ _ h
         | exact grow_updateAfterCopyCargo _ _ _ _ _ h
         | exact grow_cleanupAfterStop _ _ _ _ h
         | exact grow_oneShotAfterStatus _ _ _ _ h)
    | exact absurd hy (by simp)

theorem grow_step {s x : State} (e : Event) (h : Grow s x) : Grow s (step x e) := by
  cases e with
  | connection => exact grow_addConn _ h
  | message ws data env =>
    simp only [step]
    split
    · split
      · exact grow_onMessage _ _ _ h
      · exact h
    · exact h
  | wsDrop ws => exact grow_updConn _ _ h
  | close ws =>
    simp only [step]
    split
    · split
      · exact h
      · exact grow_onClose _ (grow_updConn _ _ h)
    · exact h
  | resume t o env =>
    simp only [step]
    split
    · rename_i task _
      cases hr : resumeTask (takeTask x t) task o env with
      | none => simpa using h
      | some y => simpa using grow_resumeTask task o env (grow_takeTask t h) hr
    · exact h
  | timerFire t =>
    simp only [step]
    split
    · exact grow_onTimer _ (grow_dropTimer _ h)
    · exact h
  | procStdout pid chunk => exact grow_onProcStdout _ _ h
  | procStderr pid chunk => exact grow_onProcStderr _ _ h
  | procClose pid code => exact grow_onProcClose _ _ h
  | ptyData pty data => exact grow_onPtyData _ _ h
  | request clientId command => exact grow_onRequest _ _ h

theorem grow_run {s x : State} (es : List Event) (h : Grow s x) : Grow s (run x es) := by
  induction es generalizing x with
  | nil => exact h
  | cons e es ih => exact ih (grow_step e h)

theorem Fresh.init : Fresh init := by
  refine ⟨?_, ?_, ?_⟩ <;> intro p hp <;> simp [TerminalServer.init] at hp

theorem Fresh.grow {s s' : State} (hs : Fresh s) (h : Grow s s') : Fresh s' := by
  refine ⟨?_, ?_, ?_⟩
  · intro p hp
    rcases h.2.2.1 p hp with h' | h'
    · exact lt_of_lt_of_le (hs.1 p h') h.1
    · exact h'.2
  · intro p hp
    rcases h.2.2.2.1 p hp with h' | h'
    · exact lt_of_lt_of_le (hs.2.1 p h') h.2.1
    · exact h'.2
  · intro p hp
    rcases h.2.2.2.2.1 p hp with h' | h'
    · exact lt_of_lt_of_le (hs.2.2 p h') h.1
    · exact h'.2

theorem Reachable.fresh {s : State} (h : Reachable s) : Fresh s := by
  obtain ⟨es, rfl⟩ := h
  exact Fresh.init.grow (grow_run es (Grow.refl _))

theorem Reachable.step {s : State} (h : Reachable s) (e : Event) : Reachable (step s e) := by
  obtain ⟨es, rfl⟩ := h
  exact ⟨es ++ [e], by simp [run, List.foldl_append]⟩

theorem Reachable.run {s : State} (h : Reachable s) (es : List Event) :
    Reachable (run s es) := by
  obtain ⟨es₀, rfl⟩ := h
  exact ⟨es₀ ++ es, by simp [TerminalServer.run, List.foldl_append]⟩

/-! ## The paths in use are the ones derived from the tenant id -/

theorem pathsOk_frame {x y : State} (hc : y.conns = x.conns) (hcl : y.clients = x.clients)
    (hh : y.heap = x.heap) (ht : y.timers = x.timers) (hk : y.tasks = x.tasks)
    (h : PathsOk x) : PathsOk y := by
  unfold PathsOk
  rw [hc, hcl, hh, ht, hk]
  exact h

theorem pathsOk_dropTimer {x : State} (t : TimerId) (h : PathsOk x) : PathsOk (dropTimer x t) :=
  ⟨h.1, h.2.1, h.2.2.1, fun p hp => h.2.2.2.1 p (mem_of_mem_mapDelete hp).1, h.2.2.2.2⟩

theorem pathsOk_takeTask {x : State} (t : TaskId) (h : PathsOk x) : PathsOk (takeTask x t) :=
  ⟨h.1, h.2.1, h.2.2.1, h.2.2.2.1, fun p hp => h.2.2.2.2 p (mem_of_mem_mapDelete hp).1⟩

theorem mapGet_mapDelete_some {κ ν : Type} [DecidableEq κ] {m : List (κ × ν)} {k k' : κ} {v : ν}
    (h : mapGet (mapDelete m k) k' = some v) : mapGet m k' = some v := by
  by_cases hk : k' = k
  · subst hk
    rw [mapGet_mapDelete_self] at h
    cases h
  · rwa [mapGet_mapDelete_ne _ hk] at h

theorem pathsOk_delClient {x : State} (k : Option ClientId) (h : PathsOk x) :
    PathsOk (delClient x k) :=
  ⟨h.1, fun id r hr => h.2.1 id r (mapGet_mapDelete_some hr),
    fun k' r hr => h.2.2.1 k' r (mapGet_mapDelete_some hr), h.2.2.2.1, h.2.2.2.2⟩

theorem pathsOk_updClient {x : State} (r : Ref) (f : Client → Client)
    (hf : ∀ c, (f c).workspace = c.workspace ∧ (f c).containerName = c.containerName)
    (h : PathsOk x) : PathsOk (updClient x r f) := by
  refine ⟨h.1, fun id r' hr => ?_, fun k r' hr => ?_, h.2.2.2.1, h.2.2.2.2⟩
  · obtain ⟨cl, hcl, hw, hn⟩ := h.2.1 id r' hr
    simp only [updClient_heap]
    split
    · rename_i c hc
      by_cases hrr : r = r'
      · subst hrr
        have hlt : r < x.heap.length := (List.getElem?_eq_some_iff.mp hcl).1
        rw [hcl] at hc
        injection hc with hc
        subst hc
        exact ⟨f cl, by simp [List.getElem?_set, hlt], (hf cl).1.trans hw, (hf cl).2.trans hn⟩
      · exact ⟨cl, by simp [List.getElem?_set, hrr, hcl], hw, hn⟩
    · exact ⟨cl, hcl, hw, hn⟩
  · have := h.2.2.1 k r' hr
    simp only [updClient_heap]
    split <;> simpa using this

theorem pathsOk_updConn {x : State} (ws : Ws) (f : Conn → Conn)
    (hf : ∀ c, x.conns[ws]? = some c →
      ∀ id, (f c).clientId = some id →
        (f c).clientWorkspace = some (workspaceOf id) ∧
        (f c).containerName = some (containerNameOf id))
    (h : PathsOk x) : PathsOk (updConn x ws f) := by
  refine ⟨fun ws' c hc id hid => ?_, h.2.1, h.2.2.1, h.2.2.2.1, h.2.2.2.2⟩
  simp only [updConn_conns] at hc
  split at hc
  · rename_i c₀ hc₀
    by_cases hw : ws = ws'
    · subst hw
      have hlt : ws < x.conns.length := (List.getElem?_eq_some_iff.mp hc₀).1
      simp [List.getElem?_set, hlt] at hc
      subst hc
      exact hf c₀ hc₀ id hid
    · simp [List.getElem?_set, hw] at hc
      exact h.1 ws' c hc id hid
  · exact h.1 ws' c hc id hid

/-- An assignment that leaves the tenant, the workspace path and the container
name of the connection as they are. -/
theorem pathsOk_updConn_same {x : State} (ws : Ws) (f : Conn → Conn)
    (hf : ∀ c, (f c).clientId = c.clientId ∧ (f c).clientWorkspace = c.clientWorkspace ∧
      (f c).containerName = c.containerName)
    (h : PathsOk x) : PathsOk (updConn x ws f) := by
  refine pathsOk_updConn ws f (fun c hc id hid => ?_) h
  rw [(hf c).1] at hid
  rw [(hf c).2.1, (hf c).2.2]
  exact h.1 ws c hc id hid

theorem pathsOk_addConn {x : State} (h : PathsOk x) : PathsOk (addConn x newConn) := by
  refine ⟨fun ws c hc id hid => ?_, h.2.1, h.2.2.1, h.2.2.2.1, h.2.2.2.2⟩
  simp only [addConn_conns] at hc
  by_cases hlt : ws < x.conns.length
  · rw [List.getElem?_append_left hlt] at hc
    exact h.1 ws c hc id hid
  · rw [List.getElem?_append_right (not_lt.mp hlt)] at hc
    have : c = newConn := by
      cases hi : ws - x.conns.length with
      | zero => simp [hi] at hc; exact hc.symm
      | succ n => simp [hi] at hc
    subst this
    simp [newConn] at hid

theorem pathsOk_suspend {x : State} (t : Task)
    (ht : ∀ id w, t = Task.cleanupStop id w → w = some (workspaceOf id))
    (h : PathsOk x) : PathsOk (suspend x t) := by
  refine ⟨h.1, h.2.1, h.2.2.1, h.2.2.2.1, fun p hp id w hpw => ?_⟩
  simp only [suspend_tasks, List.mem_append, List.mem_singleton] at hp
  rcases hp with hp | hp
  · exact h.2.2.2.2 p hp id w hpw
  · subst hp
    exact ht id w hpw

theorem pathsOk_setTimeout {x : State} (a : TimerAction) (d : Nat)
    (ha : ∀ id w, a = TimerAction.cleanup id w → w = some (workspaceOf id))
    (h : PathsOk x) : PathsOk (setTimeout x a d) := by
  refine ⟨h.1, h.2.1, h.2.2.1, fun p hp id w hpw => ?_, h.2.2.2.2⟩
  simp only [setTimeout_timers, List.mem_append, List.mem_singleton] at hp
  rcases hp with hp | hp
  · exact h.2.2.2.1 p hp id w hpw
  · subst hp
    exact ha id w hpw

theorem pathsOk_registerClient {x : State} (k : Option ClientId) (cl : Client)
    (hk : ∀ id, k = some id →
      cl.workspace = workspaceOf id ∧ cl.containerName = containerNameOf id)
    (h : PathsOk x) : PathsOk (registerClient x k cl) := by
  refine ⟨h.1, fun id r hr => ?_, fun k' r hr => ?_, h.2.2.2.1, h.2.2.2.2⟩
  · simp only [registerClient_clients, registerClient_heap] at hr ⊢
    by_cases hid : some id = k
    · subst hid
      rw [mapGet_mapSet_self] at hr
      injection hr with hr
      subst hr
      exact ⟨cl, by simp, hk id rfl⟩
    · rw [mapGet_mapSet_ne _ _ hid] at hr
      obtain ⟨c, hc, hw⟩ := h.2.1 id r hr
      have hlt : r < x.heap.length := (List.getElem?_eq_some_iff.mp hc).1
      exact ⟨c, by rw [List.getElem?_append_left hlt]; exact hc, hw⟩
  · simp only [registerClient_clients, registerClient_heap, List.length_append,
      List.length_singleton] at hr ⊢
    by_cases hid : k' = k
    · subst hid
      rw [mapGet_mapSet_self] at hr
      injection hr with hr
      subst hr
      exact Nat.lt_succ_self _
    · rw [mapGet_mapSet_ne _ _ hid] at hr
      exact Nat.lt_succ_of_lt (h.2.2.1 k' r hr)

theorem pathsOk_emit {x : State} (e : Effect) (h : PathsOk x) : PathsOk (emit x e) :=
  pathsOk_frame rfl rfl rfl rfl rfl h

theorem pathsOk_emits {x : State} (es : List Effect) (h : PathsOk x) : PathsOk (emits x es) :=
  pathsOk_frame rfl rfl rfl rfl rfl h

theorem pathsOk_send {x : State} (w : Ws) (m : Msg) (h : PathsOk x) : PathsOk (send x w m) :=
  pathsOk_frame rfl rfl rfl rfl rfl h

theorem pathsOk_broadcast {x : State} (r : Ref) (m : Msg) (h : PathsOk x) : PathsOk (broadcast x r m) :=
  pathsOk_frame rfl rfl rfl rfl rfl h

theorem pathsOk_updProc {x : State} (pid : Pid) (f : Proc → Proc) (h : PathsOk x) : PathsOk (updProc x pid f) :=
  pathsOk_frame rfl rfl rfl rfl rfl h

theorem pathsOk_markSignalled {x : State} (pid : Pid) (h : PathsOk x) : PathsOk (markSignalled x pid) :=
  pathsOk_frame rfl rfl rfl rfl rfl h

theorem pathsOk_markExited {x : State} (pid : Pid) (h : PathsOk x) : PathsOk (markExited x pid) :=
  pathsOk_frame rfl rfl rfl rfl rfl h

theorem pathsOk_updRequest {x : State} (q : ReqId) (f : Request → Request) (h : PathsOk x) : PathsOk (updRequest x q f) :=
  pathsOk_frame rfl rfl rfl rfl rfl h

theorem pathsOk_delPending {x : State} (c : ClientId) (h : PathsOk x) : PathsOk (delPending x c) :=
  pathsOk_frame rfl rfl rfl rfl rfl h

theorem pathsOk_setPending {x : State} (c : ClientId) (t : TimerId) (h : PathsOk x) : PathsOk (setPending x c t) :=
  pathsOk_frame rfl rfl rfl rfl rfl h

theorem pathsOk_setTerminal {x : State} (w : Ws) (t : Terminal) (h : PathsOk x) : PathsOk (setTerminal x w t) :=
  pathsOk_frame rfl rfl rfl rfl rfl h

theorem pathsOk_delTerminal {x : State} (w : Ws) (h : PathsOk x) : PathsOk (delTerminal x w) :=
  pathsOk_frame rfl rfl rfl rfl rfl h

theorem pathsOk_addProc {x : State} (p : Proc) (h : PathsOk x) : PathsOk (addProc x p) :=
  pathsOk_frame rfl rfl rfl rfl rfl h

theorem pathsOk_addPty {x : State} (w : Ws) (h : PathsOk x) : PathsOk (addPty x w) :=
  pathsOk_frame rfl rfl rfl rfl rfl h

theorem pathsOk_addRequest {x : State} (q : Request) (h : PathsOk x) : PathsOk (addRequest x q) :=
  pathsOk_frame rfl rfl rfl rfl rfl h

theorem pathsOk_clearTimeout {x : State} (t : TimerId) (h : PathsOk x) :
    PathsOk (clearTimeout x t) := pathsOk_emit _ (pathsOk_dropTimer t h)

theorem pathsOk_cancelCleanup {x : State} (c : ClientId) (h : PathsOk x) :
    PathsOk (cancelCleanup x c) := by
  unfold cancelCleanup
  split
  · exact pathsOk_delPending _ (pathsOk_clearTimeout _ h)
  · exact h

theorem pathsOk_scheduleCleanup {x : State} (c : ClientId) (w : Option String)
    (hw : w = some (workspaceOf c)) (h : PathsOk x) : PathsOk (scheduleCleanup x c w) := by
  unfold scheduleCleanup
  refine pathsOk_setPending _ _ (pathsOk_setTimeout _ _ (fun id w' he => ?_)
    (pathsOk_cancelCleanup c h))
  injection he with h1 h2
  subst h1; subst h2
  exact hw

theorem pathsOk_killProcess {x : State} (r : Ref) (h : PathsOk x) : PathsOk (killProcess x r) := by
  unfold killProcess
  split
  · exact pathsOk_updClient _ _ (fun _ => ⟨rfl, rfl⟩) (pathsOk_markSignalled _ (pathsOk_emit _ h))
  · exact h

theorem pathsOk_writeFileSync {x : State} (path : String) (c : Option String) (h : PathsOk x) :
    PathsOk (writeFileSync x path c) := by
  unfold writeFileSync
  split
  · exact h
  · exact pathsOk_emit _ h

theorem getConn_paths {x : State} (h : PathsOk x) (ws : Ws) (id : ClientId)
    (hid : (getConn x ws).clientId = some id) :
    (getConn x ws).clientWorkspace = some (workspaceOf id) ∧
    (getConn x ws).containerName = some (containerNameOf id) := by
  cases hc : x.conns[ws]? with
  | none => simp [getConn, hc, nullConn] at hid
  | some c =>
    simp only [getConn, hc, Option.getD_some] at hid ⊢
    exact h.1 ws c hc id hid

theorem pathsOk_attach {x : State} (ws : Ws) (cols rows : Option Nat) (b : Bool) (h : PathsOk x) :
    PathsOk (attach x ws cols rows b) := by
  unfold attach
  try dsimp only
  repeat' first
    | with_reducible exact h | with_reducible apply pathsOk_cancelCleanup
    | with_reducible apply pathsOk_killProcess | with_reducible apply pathsOk_clearTimeout
    | with_reducible apply pathsOk_writeFileSync | with_reducible apply pathsOk_setTimeout
    | with_reducible apply pathsOk_suspend | with_reducible apply pathsOk_takeTask
    | with_reducible apply pathsOk_dropTimer | with_reducible apply pathsOk_broadcast
    | with_reducible apply pathsOk_send | with_reducible apply pathsOk_emits
    | with_reducible apply pathsOk_emit | with_reducible apply pathsOk_updConn_same
    | with_reducible apply pathsOk_updClient | with_reducible apply pathsOk_markSignalled
    | with_reducible apply pathsOk_markExited | with_reducible apply pathsOk_updRequest
    | with_reducible apply pathsOk_delPending | with_reducible apply pathsOk_delClient
    | with_reducible apply pathsOk_setTerminal | with_reducible apply pathsOk_delTerminal
    | with_reducible apply pathsOk_addProc | with_reducible apply pathsOk_addPty
    | with_reducible apply pathsOk_addRequest
    | (intro _; exact ⟨rfl, rfl⟩) | (intro _; exact ⟨rfl, rfl, rfl⟩) | split

theorem pathsOk_connectAfterStatus {x : State} (ws : Ws) (cols rows : Option Nat) (b : Bool) (h : PathsOk x) :
    PathsOk (connectAfterStatus x ws cols rows b) := by
  unfold connectAfterStatus
  try dsimp only
  repeat' first
    | with_reducible exact h | with_reducible apply pathsOk_attach
    | with_reducible apply pathsOk_cancelCleanup | with_reducible apply pathsOk_killProcess
    | with_reducible apply pathsOk_clearTimeout | with_reducible apply pathsOk_writeFileSync
    | with_reducible apply pathsOk_setTimeout | with_reducible apply pathsOk_suspend
    | with_reducible apply pathsOk_takeTask | with_reducible apply pathsOk_dropTimer
    | with_reducible apply pathsOk_broadcast | with_reducible apply pathsOk_send
    | with_reducible apply pathsOk_emits | with_reducible apply pathsOk_emit
    | with_reducible apply pathsOk_updConn_same | with_reducible apply pathsOk_updClient
    | with_reducible apply pathsOk_markSignalled | with_reducible apply pathsOk_markExited
    | with_reducible apply pathsOk_updRequest | with_reducible apply pathsOk_delPending
    | with_reducible apply pathsOk_delClient | with_reducible apply pathsOk_setTerminal
    | with_reducible apply pathsOk_delTerminal | with_reducible apply pathsOk_addProc
    | with_reducible apply pathsOk_addPty | with_reducible apply pathsOk_addRequest
    | (intro _ _ he; cases he)
    | split

theorem pathsOk_connectAfterReadiness {x : State} (ws : Ws) (cols rows : Option Nat) (err : Option String) (h : PathsOk x) :
    PathsOk (connectAfterReadiness x ws cols rows err) := by
  unfold connectAfterReadiness
  try dsimp only
  repeat' first
    | with_reducible exact h | with_reducible apply pathsOk_attach
    | with_reducible apply pathsOk_cancelCleanup | with_reducible apply pathsOk_killProcess
    | with_reducible apply pathsOk_clearTimeout | with_reducible apply pathsOk_writeFileSync
    | with_reducible apply pathsOk_setTimeout | with_reducible apply pathsOk_suspend
    | with_reducible apply pathsOk_takeTask | with_reducible apply pathsOk_dropTimer
    | with_reducible apply pathsOk_broadcast | with_reducible apply pathsOk_send
    | with_reducible apply pathsOk_emits | with_reducible apply pathsOk_emit
    | with_reducible apply pathsOk_updConn_same | with_reducible apply pathsOk_updClient
    | with_reducible apply pathsOk_markSignalled | with_reducible apply pathsOk_markExited
    | with_reducible apply pathsOk_updRequest | with_reducible apply pathsOk_delPending
    | with_reducible apply pathsOk_delClient | with_reducible apply pathsOk_setTerminal
    | with_reducible apply pathsOk_delTerminal | with_reducible apply pathsOk_addProc
    | with_reducible apply pathsOk_addPty | with_reducible apply pathsOk_addRequest
    | split

theorem pathsOk_onInput {x : State} (ws : Ws) (d : String) (h : PathsOk x) :
    PathsOk (onInput x ws d) := by
  unfold onInput
  try dsimp only
  repeat' first
    | with_reducible exact h | with_reducible apply pathsOk_cancelCleanup
    | with_reducible apply pathsOk_killProcess | with_reducible apply pathsOk_clearTimeout
    | with_reducible apply pathsOk_writeFileSync | with_reducible apply pathsOk_setTimeout
    | with_reducible apply pathsOk_suspend | with_reducible apply pathsOk_takeTask
    | with_reducible apply pathsOk_dropTimer | with_reducible apply pathsOk_broadcast
    | with_reducible apply pathsOk_send | with_reducible apply pathsOk_emits
    | with_reducible apply pathsOk_emit | with_reducible apply pathsOk_updConn_same
    | with_reducible apply pathsOk_updClient | with_reducible apply pathsOk_markSignalled
    | with_reducible apply pathsOk_markExited | with_reducible apply pathsOk_updRequest
    | with_reducible apply pathsOk_delPending | with_reducible apply pathsOk_delClient
    | with_reducible apply pathsOk_setTerminal | with_reducible apply pathsOk_delTerminal
    | with_reducible apply pathsOk_addProc | with_reducible apply pathsOk_addPty
    | with_reducible apply pathsOk_addRequest
    | split

theorem pathsOk_onResize {x : State} (ws : Ws) (c r : Nat) (h : PathsOk x) :
    PathsOk (onResize x ws c r) := by
  unfold onResize
  try dsimp only
  repeat' first
    | with_reducible exact h | with_reducible apply pathsOk_cancelCleanup
    | with_reducible apply pathsOk_killProcess | with_reducible apply pathsOk_clearTimeout
    | with_reducible apply pathsOk_writeFileSync | with_reducible apply pathsOk_setTimeout
    | with_reducible apply pathsOk_suspend | with_reducible apply pathsOk_takeTask
    | with_reducible apply pathsOk_dropTimer | with_reducible apply pathsOk_broadcast
    | with_reducible apply pathsOk_send | with_reducible apply pathsOk_emits
    | with_reducible apply pathsOk_emit | with_reducible apply pathsOk_updConn_same
    | with_reducible apply pathsOk_updClient | with_reducible apply pathsOk_markSignalled
    | with_reducible apply pathsOk_markExited | with_reducible apply pathsOk_updRequest
    | with_reducible apply pathsOk_delPending | with_reducible apply pathsOk_delClient
    | with_reducible apply pathsOk_setTerminal | with_reducible apply pathsOk_delTerminal
    | with_reducible apply pathsOk_addProc | with_reducible apply pathsOk_addPty
    | with_reducible apply pathsOk_addRequest
    | split

theorem pathsOk_checkStatusStart {x : State} (ws : Ws) (h : PathsOk x) :
    PathsOk (checkStatusStart x ws) := by
  unfold checkStatusStart
  try dsimp only
  repeat' first
    | with_reducible exact h | with_reducible apply pathsOk_cancelCleanup
    | with_reducible apply pathsOk_killProcess | with_reducible apply pathsOk_clearTimeout
    | with_reducible apply pathsOk_writeFileSync | with_reducible apply pathsOk_setTimeout
    | with_reducible apply pathsOk_suspend | with_reducible apply pathsOk_takeTask
    | with_reducible apply pathsOk_dropTimer | with_reducible apply pathsOk_broadcast
    | with_reducible apply pathsOk_send | with_reducible apply pathsOk_emits
    | with_reducible apply pathsOk_emit | with_reducible apply pathsOk_updConn_same
    | with_reducible apply pathsOk_updClient | with_reducible apply pathsOk_markSignalled
    | with_reducible apply pathsOk_markExited | with_reducible apply pathsOk_updRequest
    | with_reducible apply pathsOk_delPending | with_reducible apply pathsOk_delClient
    | with_reducible apply pathsOk_setTerminal | with_reducible apply pathsOk_delTerminal
    | with_reducible apply pathsOk_addProc | with_reducible apply pathsOk_addPty
    | with_reducible apply pathsOk_addRequest | (intro _ _ he; cases he)
    | split

theorem pathsOk_execStart {x : State} (ws : Ws) (a b c : Option String) (h : PathsOk x) :
    PathsOk (execStart x ws a b c) := by
  unfold execStart
  try dsimp only
  repeat' first
    | with_reducible exact h | with_reducible apply pathsOk_cancelCleanup
    | with_reducible apply pathsOk_killProcess | with_reducible apply pathsOk_clearTimeout
    | with_reducible apply pathsOk_writeFileSync | with_reducible apply pathsOk_setTimeout
    | with_reducible apply pathsOk_suspend | with_reducible apply pathsOk_takeTask
    | with_reducible apply pathsOk_dropTimer | with_reducible apply pathsOk_broadcast
    | with_reducible apply pathsOk_send | with_reducible apply pathsOk_emits
    | with_reducible apply pathsOk_emit | with_reducible apply pathsOk_updConn_same
    | with_reducible apply pathsOk_updClient | with_reducible apply pathsOk_markSignalled
    | with_reducible apply pathsOk_markExited | with_reducible apply pathsOk_updRequest
    | with_reducible apply pathsOk_delPending | with_reducible apply pathsOk_delClient
    | with_reducible apply pathsOk_setTerminal | with_reducible apply pathsOk_delTerminal
    | with_reducible apply pathsOk_addProc | with_reducible apply pathsOk_addPty
    | with_reducible apply pathsOk_addRequest | (intro _ _ he; cases he)
    | split

theorem pathsOk_execAfterStatus {x : State} (ws : Ws) (r : Ref) (a b c : Option String) (ready : Bool) (env : SyncEnv) (h : PathsOk x) :
    PathsOk (execAfterStatus x ws r a b c ready env) := by
  unfold execAfterStatus
  try dsimp only
  repeat' first
    | with_reducible exact h | with_reducible apply pathsOk_cancelCleanup
    | with_reducible apply pathsOk_killProcess | with_reducible apply pathsOk_clearTimeout
    | with_reducible apply pathsOk_writeFileSync | with_reducible apply pathsOk_setTimeout
    | with_reducible apply pathsOk_suspend | with_reducible apply pathsOk_takeTask
    | with_reducible apply pathsOk_dropTimer | with_reducible apply pathsOk_broadcast
    | with_reducible apply pathsOk_send | with_reducible apply pathsOk_emits
    | with_reducible apply pathsOk_emit | with_reducible apply pathsOk_updConn_same
    | with_reducible apply pathsOk_updClient | with_reducible apply pathsOk_markSignalled
    | with_reducible apply pathsOk_markExited | with_reducible apply pathsOk_updRequest
    | with_reducible apply pathsOk_delPending | with_reducible apply pathsOk_delClient
    | with_reducible apply pathsOk_setTerminal | with_reducible apply pathsOk_delTerminal
    | with_reducible apply pathsOk_addProc | with_reducible apply pathsOk_addPty
    | with_reducible apply pathsOk_addRequest | (intro _ _ he; cases he)
    | split

theorem pathsOk_execAfterCopyCargo {x : State} (ws : Ws) (r : Ref) (c err : Option String) (h : PathsOk x) :
    PathsOk (execAfterCopyCargo x ws r c err) := by
  unfold execAfterCopyCargo
  try dsimp only
  repeat' first
    | with_reducible exact h | with_reducible apply pathsOk_cancelCleanup
    | with_reducible apply pathsOk_killProcess | with_reducible apply pathsOk_clearTimeout
    | with_reducible apply pathsOk_writeFileSync | with_reducible apply pathsOk_setTimeout
    | with_reducible apply pathsOk_suspend | with_reducible apply pathsOk_takeTask
    | with_reducible apply pathsOk_dropTimer | with_reducible apply pathsOk_broadcast
    | with_reducible apply pathsOk_send | with_reducible apply pathsOk_emits
    | with_reducible apply pathsOk_emit | with_reducible apply pathsOk_updConn_same
    | with_reducible apply pathsOk_updClient | with_reducible apply pathsOk_markSignalled
    | with_reducible apply pathsOk_markExited | with_reducible apply pathsOk_updRequest
    | with_reducible apply pathsOk_delPending | with_reducible apply pathsOk_delClient
    | with_reducible apply pathsOk_setTerminal | with_reducible apply pathsOk_delTerminal
    | with_reducible apply pathsOk_addProc | with_reducible apply pathsOk_addPty
    | with_reducible apply pathsOk_addRequest | (intro _ _ he; cases he)
    | split

theorem pathsOk_execDispatch {x : State} (ws : Ws) (r : Ref) (c : Option String) (h : PathsOk x) :
    PathsOk (execDispatch x ws r c) := by
  unfold execDispatch
  try dsimp only
  repeat' first
    | with_reducible exact h | with_reducible apply pathsOk_cancelCleanup
    | with_reducible apply pathsOk_killProcess | with_reducible apply pathsOk_clearTimeout
    | with_reducible apply pathsOk_writeFileSync | with_reducible apply pathsOk_setTimeout
    | with_reducible apply pathsOk_suspend | with_reducible apply pathsOk_takeTask
    | with_reducible apply pathsOk_dropTimer | with_reducible apply pathsOk_broadcast
    | with_reducible apply pathsOk_send | with_reducible apply pathsOk_emits
    | with_reducible apply pathsOk_emit | with_reducible apply pathsOk_updConn_same
    | with_reducible apply pathsOk_updClient | with_reducible apply pathsOk_markSignalled
    | with_reducible apply pathsOk_markExited | with_reducible apply pathsOk_updRequest
    | with_reducible apply pathsOk_delPending | with_reducible apply pathsOk_delClient
    | with_reducible apply pathsOk_setTerminal | with_reducible apply pathsOk_delTerminal
    | with_reducible apply pathsOk_addProc | with_reducible apply pathsOk_addPty
    | with_reducible apply pathsOk_addRequest | (intro _ _ he; cases he)
    | (intro _; exact ⟨rfl, rfl⟩) | split

theorem pathsOk_execAfterCopyMain {x : State} (ws : Ws) (r : Ref) (c err : Option String) (h : PathsOk x) :
    PathsOk (execAfterCopyMain x ws r c err) := by
  unfold execAfterCopyMain
  try dsimp only
  repeat' first
    | with_reducible exact h | with_reducible apply pathsOk_execDispatch
    | with_reducible apply pathsOk_cancelCleanup | with_reducible apply pathsOk_killProcess
    | with_reducible apply pathsOk_clearTimeout | with_reducible apply pathsOk_writeFileSync
    | with_reducible apply pathsOk_setTimeout | with_reducible apply pathsOk_suspend
    | with_reducible apply pathsOk_takeTask | with_reducible apply pathsOk_dropTimer
    | with_reducible apply pathsOk_broadcast | with_reducible apply pathsOk_send
    | with_reducible apply pathsOk_emits | with_reducible apply pathsOk_emit
    | with_reducible apply pathsOk_updConn_same | with_reducible apply pathsOk_updClient
    | with_reducible apply pathsOk_markSignalled | with_reducible apply pathsOk_markExited
    | with_reducible apply pathsOk_updRequest | with_reducible apply pathsOk_delPending
    | with_reducible apply pathsOk_delClient | with_reducible apply pathsOk_setTerminal
    | with_reducible apply pathsOk_delTerminal | with_reducible apply pathsOk_addProc
    | with_reducible apply pathsOk_addPty | with_reducible apply pathsOk_addRequest
    | split

theorem pathsOk_onStop {x : State} (ws : Ws) (h : PathsOk x) :
    PathsOk (onStop x ws) := by
  unfold onStop
  try dsimp only
  repeat' first
    | with_reducible exact h | with_reducible apply pathsOk_cancelCleanup
    | with_reducible apply pathsOk_killProcess | with_reducible apply pathsOk_clearTimeout
    | with_reducible apply pathsOk_writeFileSync | with_reducible apply pathsOk_setTimeout
    | with_reducible apply pathsOk_suspend | with_reducible apply pathsOk_takeTask
    | with_reducible apply pathsOk_dropTimer | with_reducible apply pathsOk_broadcast
    | with_reducible apply pathsOk_send | with_reducible apply pathsOk_emits
    | with_reducible apply pathsOk_emit | with_reducible apply pathsOk_updConn_same
    | with_reducible apply pathsOk_updClient | with_reducible apply pathsOk_markSignalled
    | with_reducible apply pathsOk_markExited | with_reducible apply pathsOk_updRequest
    | with_reducible apply pathsOk_delPending | with_reducible apply pathsOk_delClient
    | with_reducible apply pathsOk_setTerminal | with_reducible apply pathsOk_delTerminal
    | with_reducible apply pathsOk_addProc | with_reducible apply pathsOk_addPty
    | with_reducible apply pathsOk_addRequest
    | split

theorem pathsOk_updateStart {x : State} (ws : Ws) (a b : Field) (h : PathsOk x) :
    PathsOk (updateStart x ws a b) := by
  unfold updateStart
  try dsimp only
  repeat' first
    | with_reducible exact h | with_reducible apply pathsOk_cancelCleanup
    | with_reducible apply pathsOk_killProcess | with_reducible apply pathsOk_clearTimeout
    | with_reducible apply pathsOk_writeFileSync | with_reducible apply pathsOk_setTimeout
    | with_reducible apply pathsOk_suspend | with_reducible apply pathsOk_takeTask
    | with_reducible apply pathsOk_dropTimer | with_reducible apply pathsOk_broadcast
    | with_reducible apply pathsOk_send | with_reducible apply pathsOk_emits
    | with_reducible apply pathsOk_emit | with_reducible apply pathsOk_updConn_same
    | with_reducible apply pathsOk_updClient | with_reducible apply pathsOk_markSignalled
    | with_reducible apply pathsOk_markExited | with_reducible apply pathsOk_updRequest
    | with_reducible apply pathsOk_delPending | with_reducible apply pathsOk_delClient
    | with_reducible apply pathsOk_setTerminal | with_reducible apply pathsOk_delTerminal
    | with_reducible apply pathsOk_addProc | with_reducible apply pathsOk_addPty
    | with_reducible apply pathsOk_addRequest | (intro _ _ he; cases he)
    | split

theorem pathsOk_updateNotify {x : State} (ws : Ws) (r : Ref) (a b : Field) (h : PathsOk x) :
    PathsOk (updateNotify x ws r a b) := by
  unfold updateNotify
  try dsimp only
  repeat' first
    | with_reducible exact h | with_reducible apply pathsOk_cancelCleanup
    | with_reducible apply pathsOk_killProcess | with_reducible apply pathsOk_clearTimeout
    | with_reducible apply pathsOk_writeFileSync | with_reducible apply pathsOk_setTimeout
    | with_reducible apply pathsOk_suspend | with_reducible apply pathsOk_takeTask
    | with_reducible apply pathsOk_dropTimer | with_reducible apply pathsOk_broadcast
    | with_reducible apply pathsOk_send | with_reducible apply pathsOk_emits
    | with_reducible apply pathsOk_emit | with_reducible apply pathsOk_updConn_same
    | with_reducible apply pathsOk_updClient | with_reducible apply pathsOk_markSignalled
    | with_reducible apply pathsOk_markExited | with_reducible apply pathsOk_updRequest
    | with_reducible apply pathsOk_delPending | with_reducible apply pathsOk_delClient
    | with_reducible apply pathsOk_setTerminal | with_reducible apply pathsOk_delTerminal
    | with_reducible apply pathsOk_addProc | with_reducible apply pathsOk_addPty
    | with_reducible apply pathsOk_addRequest
    | split

theorem pathsOk_updateCargo {x : State} (ws : Ws) (r : Ref) (a b : Field) (env : SyncEnv) (h : PathsOk x) :
    PathsOk (updateCargo x ws r a b env) := by
  unfold updateCargo
  try dsimp only
  repeat' first
    | with_reducible exact h | with_reducible apply pathsOk_updateNotify
    | with_reducible apply pathsOk_cancelCleanup | with_reducible apply pathsOk_killProcess
    | with_reducible apply pathsOk_clearTimeout | with_reducible apply pathsOk_writeFileSync
    | with_reducible apply pathsOk_setTimeout | with_reducible apply pathsOk_suspend
    | with_reducible apply pathsOk_takeTask | with_reducible apply pathsOk_dropTimer
    | with_reducible apply pathsOk_broadcast | with_reducible apply pathsOk_send
    | with_reducible apply pathsOk_emits | with_reducible apply pathsOk_emit
    | with_reducible apply pathsOk_updConn_same | with_reducible apply pathsOk_updClient
    | with_reducible apply pathsOk_markSignalled | with_reducible apply pathsOk_markExited
    | with_reducible apply pathsOk_updRequest | with_reducible apply pathsOk_delPending
    | with_reducible apply pathsOk_delClient | with_reducible apply pathsOk_setTerminal
    | with_reducible apply pathsOk_delTerminal | with_reducible apply pathsOk_addProc
    | with_reducible apply pathsOk_addPty | with_reducible apply pathsOk_addRequest
    | (intro _ _ he; cases he)
    | split

theorem pathsOk_updateAfterStatus {x : State} (ws : Ws) (r : Ref) (a b : Field) (ready : Bool) (env : SyncEnv) (h : PathsOk x) :
    PathsOk (updateAfterStatus x ws r a b ready env) := by
  unfold updateAfterStatus
  try dsimp only
  repeat' first
    | with_reducible exact h | with_reducible apply pathsOk_updateCargo
    | with_reducible apply pathsOk_cancelCleanup | with_reducible apply pathsOk_killProcess
    | with_reducible apply pathsOk_clearTimeout | with_reducible apply pathsOk_writeFileSync
    | with_reducible apply pathsOk_setTimeout | with_reducible apply pathsOk_suspend
    | with_reducible apply pathsOk_takeTask | with_reducible apply pathsOk_dropTimer
    | with_reducible apply pathsOk_broadcast | with_reducible apply pathsOk_send
    | with_reducible apply pathsOk_emits | with_reducible apply pathsOk_emit
    | with_reducible apply pathsOk_updConn_same | with_reducible apply pathsOk_updClient
    | with_reducible apply pathsOk_markSignalled | with_reducible apply pathsOk_markExited
    | with_reducible apply pathsOk_updRequest | with_reducible apply pathsOk_delPending
    | with_reducible apply pathsOk_delClient | with_reducible apply pathsOk_setTerminal
    | with_reducible apply pathsOk_delTerminal | with_reducible apply pathsOk_addProc
    | with_reducible apply pathsOk_addPty | with_reducible apply pathsOk_addRequest
    | (intro _ _ he; cases he)
    | split

theorem pathsOk_updateAfterCopyMain {x : State} (ws : Ws) (r : Ref) (a b : Field) (err : Option String) (env : SyncEnv) (h : PathsOk x) :
    PathsOk (updateAfterCopyMain x ws r a b err env) := by
  unfold updateAfterCopyMain
  try dsimp only
  repeat' first
    | with_reducible exact h | with_reducible apply pathsOk_updateCargo
    | with_reducible apply pathsOk_cancelCleanup | with_reducible apply pathsOk_killProcess
    | with_reducible apply pathsOk_clearTimeout | with_reducible apply pathsOk_writeFileSync
    | with_reducible apply pathsOk_setTimeout | with_reducible apply pathsOk_suspend
    | with_reducible apply pathsOk_takeTask | with_reducible apply pathsOk_dropTimer
    | with_reducible apply pathsOk_broadcast | with_reducible apply pathsOk_send
    | with_reducible apply pathsOk_emits | with_reducible apply pathsOk_emit
    | with_reducible apply pathsOk_updConn_same | with_reducible apply pathsOk_updClient
    | with_reducible apply pathsOk_markSignalled | with_reducible apply pathsOk_markExited
    | with_reducible apply pathsOk_updRequest | with_reducible apply pathsOk_delPending
    | with_reducible apply pathsOk_delClient | with_reducible apply pathsOk_setTerminal
    | with_reducible apply pathsOk_delTerminal | with_reducible apply pathsOk_addProc
    | with_reducible apply pathsOk_addPty | with_reducible apply pathsOk_addRequest
    | split

theorem pathsOk_updateAfterCopyCargo {x : State} (ws : Ws) (r : Ref) (a b : Field) (err : Option String) (h : PathsOk x) :
    PathsOk (updateAfterCopyCargo x ws r a b err) := by
  unfold updateAfterCopyCargo
  try dsimp only
  repeat' first
    | with_reducible exact h | with_reducible apply pathsOk_updateNotify
    | with_reducible apply pathsOk_cancelCleanup | with_reducible apply pathsOk_killProcess
    | with_reducible apply pathsOk_clearTimeout | with_reducible apply pathsOk_writeFileSync
    | with_reducible apply pathsOk_setTimeout | with_reducible apply pathsOk_suspend
    | with_reducible apply pathsOk_takeTask | with_reducible apply pathsOk_dropTimer
    | with_reducible apply pathsOk_broadcast | with_reducible apply pathsOk_send
    | with_reducible apply pathsOk_emits | with_reducible apply pathsOk_emit
    | with_reducible apply pathsOk_updConn_same | with_reducible apply pathsOk_updClient
    | with_reducible apply pathsOk_markSignalled | with_reducible apply pathsOk_markExited
    | with_reducible apply pathsOk_updRequest | with_reducible apply pathsOk_delPending
    | with_reducible apply pathsOk_delClient | with_reducible apply pathsOk_setTerminal
    | with_reducible apply pathsOk_delTerminal | with_reducible apply pathsOk_addProc
    | with_reducible apply pathsOk_addPty | with_reducible apply pathsOk_addRequest
    | split

theorem pathsOk_cleanupAfterStop {x : State} (c : ClientId) (w err : Option String) (env : SyncEnv) (h : PathsOk x) :
    PathsOk (cleanupAfterStop x c w err env) := by
  unfold cleanupAfterStop
  try dsimp only
  repeat' first
    | with_reducible exact h | with_reducible apply pathsOk_cancelCleanup
    | with_reducible apply pathsOk_killProcess | with_reducible apply pathsOk_clearTimeout
    | with_reducible apply pathsOk_writeFileSync | with_reducible apply pathsOk_setTimeout
    | with_reducible apply pathsOk_suspend | with_reducible apply pathsOk_takeTask
    | with_reducible apply pathsOk_dropTimer | with_reducible apply pathsOk_broadcast
    | with_reducible apply pathsOk_send | with_reducible apply pathsOk_emits
    | with_reducible apply pathsOk_emit | with_reducible apply pathsOk_updConn_same
    | with_reducible apply pathsOk_updClient | with_reducible apply pathsOk_markSignalled
    | with_reducible apply pathsOk_markExited | with_reducible apply pathsOk_updRequest
    | with_reducible apply pathsOk_delPending | with_reducible apply pathsOk_delClient
    | with_reducible apply pathsOk_setTerminal | with_reducible apply pathsOk_delTerminal
    | with_reducible apply pathsOk_addProc | with_reducible apply pathsOk_addPty
    | with_reducible apply pathsOk_addRequest
    | split

theorem pathsOk_oneShotTimeout {x : State} (q : ReqId) (pid : Pid) (h : PathsOk x) :
    PathsOk (oneShotTimeout x q pid) := by
  unfold oneShotTimeout
  try dsimp only
  repeat' first
    | with_reducible exact h | with_reducible apply pathsOk_cancelCleanup
    | with_reducible apply pathsOk_killProcess | with_reducible apply pathsOk_clearTimeout
    | with_reducible apply pathsOk_writeFileSync | with_reducible apply pathsOk_setTimeout
    | with_reducible apply pathsOk_suspend | with_reducible apply pathsOk_takeTask
    | with_reducible apply pathsOk_dropTimer | with_reducible apply pathsOk_broadcast
    | with_reducible apply pathsOk_send | with_reducible apply pathsOk_emits
    | with_reducible apply pathsOk_emit | with_reducible apply pathsOk_updConn_same
    | with_reducible apply pathsOk_updClient | with_reducible apply pathsOk_markSignalled
    | with_reducible apply pathsOk_markExited | with_reducible apply pathsOk_updRequest
    | with_reducible apply pathsOk_delPending | with_reducible apply pathsOk_delClient
    | with_reducible apply pathsOk_setTerminal | with_reducible apply pathsOk_delTerminal
    | with_reducible apply pathsOk_addProc | with_reducible apply pathsOk_addPty
    | with_reducible apply pathsOk_addRequest
    | split

theorem pathsOk_onProcStdout {x : State} (pid : Pid) (c : String) (h : PathsOk x) :
    PathsOk (onProcStdout x pid c) := by
  unfold onProcStdout
  try dsimp only
  repeat' first
    | with_reducible exact h | with_reducible apply pathsOk_cancelCleanup
    | with_reducible apply pathsOk_killProcess | with_reducible apply pathsOk_clearTimeout
    | with_reducible apply pathsOk_writeFileSync | with_reducible apply pathsOk_setTimeout
    | with_reducible apply pathsOk_suspend | with_reducible apply pathsOk_takeTask
    | with_reducible apply pathsOk_dropTimer | with_reducible apply pathsOk_broadcast
    | with_reducible apply pathsOk_send | with_reducible apply pathsOk_emits
    | with_reducible apply pathsOk_emit | with_reducible apply pathsOk_updConn_same
    | with_reducible apply pathsOk_updClient | with_reducible apply pathsOk_markSignalled
    | with_reducible apply pathsOk_markExited | with_reducible apply pathsOk_updRequest
    | with_reducible apply pathsOk_delPending | with_reducible apply pathsOk_delClient
    | with_reducible apply pathsOk_setTerminal | with_reducible apply pathsOk_delTerminal
    | with_reducible apply pathsOk_addProc | with_reducible apply pathsOk_addPty
    | with_reducible apply pathsOk_addRequest
    | split

theorem pathsOk_onProcStderr {x : State} (pid : Pid) (c : String) (h : PathsOk x) :
    PathsOk (onProcStderr x pid c) := by
  unfold onProcStderr
  try dsimp only
  repeat' first
    | with_reducible exact h | with_reducible apply pathsOk_cancelCleanup
    | with_reducible apply pathsOk_killProcess | with_reducible apply pathsOk_clearTimeout
    | with_reducible apply pathsOk_writeFileSync | with_reducible apply pathsOk_setTimeout
    | with_reducible apply pathsOk_suspend | with_reducible apply pathsOk_takeTask
    | with_reducible apply pathsOk_dropTimer | with_reducible apply pathsOk_broadcast
    | with_reducible apply pathsOk_send | with_reducible apply pathsOk_emits
    | with_reducible apply pathsOk_emit | with_reducible apply pathsOk_updConn_same
    | with_reducible apply pathsOk_updClient | with_reducible apply pathsOk_markSignalled
    | with_reducible apply pathsOk_markExited | with_reducible apply pathsOk_updRequest
    | with_reducible apply pathsOk_delPending | with_reducible apply pathsOk_delClient
    | with_reducible apply pathsOk_setTerminal | with_reducible apply pathsOk_delTerminal
    | with_reducible apply pathsOk_addProc | with_reducible apply pathsOk_addPty
    | with_reducible apply pathsOk_addRequest
    | split

theorem pathsOk_onProcClose {x : State} (pid : Pid) (c : Option Int) (h : PathsOk x) :
    PathsOk (onProcClose x pid c) := by
  unfold onProcClose
  try dsimp only
  repeat' first
    | with_reducible exact h | with_reducible apply pathsOk_cancelCleanup
    | with_reducible apply pathsOk_killProcess | with_reducible apply pathsOk_clearTimeout
    | with_reducible apply pathsOk_writeFileSync | with_reducible apply pathsOk_setTimeout
    | with_reducible apply pathsOk_suspend | with_reducible apply pathsOk_takeTask
    | with_reducible apply pathsOk_dropTimer | with_reducible apply pathsOk_broadcast
    | with_reducible apply pathsOk_send | with_reducible apply pathsOk_emits
    | with_reducible apply pathsOk_emit | with_reducible apply pathsOk_updConn_same
    | with_reducible apply pathsOk_updClient | with_reducible apply pathsOk_markSignalled
    | with_reducible apply pathsOk_markExited | with_reducible apply pathsOk_updRequest
    | with_reducible apply pathsOk_delPending | with_reducible apply pathsOk_delClient
    | with_reducible apply pathsOk_setTerminal | with_reducible apply pathsOk_delTerminal
    | with_reducible apply pathsOk_addProc | with_reducible apply pathsOk_addPty
    | with_reducible apply pathsOk_addRequest
    | (intro _; exact ⟨rfl, rfl⟩) | split

theorem pathsOk_onPtyData {x : State} (pty : PtyId) (d : String) (h : PathsOk x) :
    PathsOk (onPtyData x pty d) := by
  unfold onPtyData
  try dsimp only
  repeat' first
    | with_reducible exact h | with_reducible apply pathsOk_cancelCleanup
    | with_reducible apply pathsOk_killProcess | with_reducible apply pathsOk_clearTimeout
    | with_reducible apply pathsOk_writeFileSync | with_reducible apply pathsOk_setTimeout
    | with_reducible apply pathsOk_suspend | with_reducible apply pathsOk_takeTask
    | with_reducible apply pathsOk_dropTimer | with_reducible apply pathsOk_broadcast
    | with_reducible apply pathsOk_send | with_reducible apply pathsOk_emits
    | with_reducible apply pathsOk_emit | with_reducible apply pathsOk_updConn_same
    | with_reducible apply pathsOk_updClient | with_reducible apply pathsOk_markSignalled
    | with_reducible apply pathsOk_markExited | with_reducible apply pathsOk_updRequest
    | with_reducible apply pathsOk_delPending | with_reducible apply pathsOk_delClient
    | with_reducible apply pathsOk_setTerminal | with_reducible apply pathsOk_delTerminal
    | with_reducible apply pathsOk_addProc | with_reducible apply pathsOk_addPty
    | with_reducible apply pathsOk_addRequest
    | split

theorem pathsOk_onRequest {x : State} (a b : Option String) (h : PathsOk x) :
    PathsOk (onRequest x a b) := by
  unfold onRequest
  try dsimp only
  repeat' first
    | with_reducible exact h | with_reducible apply pathsOk_cancelCleanup
    | with_reducible apply pathsOk_killProcess | with_reducible apply pathsOk_clearTimeout
    | with_reducible apply pathsOk_writeFileSync | with_reducible apply pathsOk_setTimeout
    | with_reducible apply pathsOk_suspend | with_reducible apply pathsOk_takeTask
    | with_reducible apply pathsOk_dropTimer | with_reducible apply pathsOk_broadcast
    | with_reducible apply pathsOk_send | with_reducible apply pathsOk_emits
    | with_reducible apply pathsOk_emit | with_reducible apply pathsOk_updConn_same
    | with_reducible apply pathsOk_updClient | with_reducible apply pathsOk_markSignalled
    | with_reducible apply pathsOk_markExited | with_reducible apply pathsOk_updRequest
    | with_reducible apply pathsOk_delPending | with_reducible apply pathsOk_delClient
    | with_reducible apply pathsOk_setTerminal | with_reducible apply pathsOk_delTerminal
    | with_reducible apply pathsOk_addProc | with_reducible apply pathsOk_addPty
    | with_reducible apply pathsOk_addRequest | (intro _ _ he; cases he)
    | split

theorem pathsOk_oneShotAfterStatus {x : State} (q : ReqId) (a b : String) (ready : Bool) (h : PathsOk x) :
    PathsOk (oneShotAfterStatus x q a b ready) := by
  unfold oneShotAfterStatus
  try dsimp only
  repeat' first
    | with_reducible exact h | with_reducible apply pathsOk_cancelCleanup
    | with_reducible apply pathsOk_killProcess | with_reducible apply pathsOk_clearTimeout
    | with_reducible apply pathsOk_writeFileSync | with_reducible apply pathsOk_setTimeout
    | with_reducible apply pathsOk_suspend | with_reducible apply pathsOk_takeTask
    | with_reducible apply pathsOk_dropTimer | with_reducible apply pathsOk_broadcast
    | with_reducible apply pathsOk_send | with_reducible apply pathsOk_emits
    | with_reducible apply pathsOk_emit | with_reducible apply pathsOk_updConn_same
    | with_reducible apply pathsOk_updClient | with_reducible apply pathsOk_markSignalled
    | with_reducible apply pathsOk_markExited | with_reducible apply pathsOk_updRequest
    | with_reducible apply pathsOk_delPending | with_reducible apply pathsOk_delClient
    | with_reducible apply pathsOk_setTerminal | with_reducible apply pathsOk_delTerminal
    | with_reducible apply pathsOk_addProc | with_reducible apply pathsOk_addPty
    | with_reducible apply pathsOk_addRequest | (intro _ _ he; cases he)
    | split

theorem conns_updConn_self (x : State) (ws : Ws) (f : Conn → Conn) :
    (updConn x ws f).conns[ws]? = (x.conns[ws]?).map f := by
  simp only [updConn_conns]
  cases hc : x.conns[ws]? with
  | none => simp [hc]
  | some c =>
    have hlt : ws < x.conns.length := (List.getElem?_eq_some_iff.mp hc).1
    simp [List.getElem?_set, hlt]

theorem pathsOk_connectStart {x : State} (ws : Ws) (uuid : Option String)
    (cols rows : Option Nat) (env : SyncEnv) (h : PathsOk x) :
    PathsOk (connectStart x ws uuid cols rows env) := by
  unfold connectStart
  split
  · have h1 : PathsOk (updConn x ws (fun c => { c with
        clientId := some (uuid.getD ""), clientWorkspace := some (workspaceOf (uuid.getD "")),
        containerName := some (containerNameOf (uuid.getD "")) })) := by
      refine pathsOk_updConn ws _ (fun c _ id hid => ?_) h
      simp only [Option.some.injEq] at hid
      subst hid
      exact ⟨rfl, rfl⟩
    have h3 := pathsOk_emits (mkdirEffects env (uuid.getD ""))
      (pathsOk_cancelCleanup (uuid.getD "") h1)
    dsimp only
    split
    · rename_i r existingClient heq
      refine pathsOk_suspend _ (fun _ _ he => by cases he) (pathsOk_emit _ ?_)
      refine pathsOk_updConn ws _ (fun c hc id hid => ?_) h3
      have hc' : (updConn x ws (fun c => { c with
          clientId := some (uuid.getD ""), clientWorkspace := some (workspaceOf (uuid.getD "")),
          containerName := some (containerNameOf (uuid.getD "")) })).conns[ws]? = some c := by
        simpa using hc
      rw [conns_updConn_self] at hc'
      obtain ⟨c₀, -, hc₀⟩ := Option.map_eq_some'.mp hc'
      subst hc₀
      simp only [Option.some.injEq] at hid
      subst hid
      simp only [getClient] at heq
      split at heq
      · rename_i r' hr'
        obtain ⟨cl, hcl, hw, hn⟩ := h3.2.1 (uuid.getD "") r' hr'
        rw [hcl] at heq
        simp only [Option.map_some', Option.some.injEq, Prod.mk.injEq] at heq
        obtain ⟨-, rfl⟩ := heq
        simp [hw, hn]
      · cases heq
    · exact pathsOk_suspend _ (fun _ _ he => by cases he) (pathsOk_emit _ (pathsOk_send _ _ h3))
  · exact pathsOk_send _ _ (pathsOk_updConn ws _ (fun c _ id hid => by simp at hid) h)

theorem pathsOk_connectAfterCreate {x : State} (ws : Ws) (cols rows : Option Nat)
    (err : Option String) (h : PathsOk x) :
    PathsOk (connectAfterCreate x ws cols rows err) := by
  unfold connectAfterCreate
  split
  · exact pathsOk_send _ _ h
  · dsimp only
    refine pathsOk_attach _ _ _ _ (pathsOk_registerClient _ _ (fun id hid => ?_)
      (pathsOk_emit _ (pathsOk_addProc _ (pathsOk_send _ _ h))))
    have hid' : (getConn x ws).clientId = some id := hid
    obtain ⟨hw, hn⟩ := getConn_paths h ws id hid'
    have hw' : (getConn (send x ws (.status "container_ready"
        "Container is ready with all dependencies installed")) ws).clientWorkspace
        = some (workspaceOf id) := hw
    have hn' : (getConn (send x ws (.status "container_ready"
        "Container is ready with all dependencies installed")) ws).containerName
        = some (containerNameOf id) := hn
    simp [hw', hn']

theorem pathsOk_onMessage {x : State} (ws : Ws) (d : Data) (env : SyncEnv) (h : PathsOk x) :
    PathsOk (onMessage x ws d env) := by
  cases d with
  | connect uuid cols rows => exact pathsOk_connectStart _ _ _ _ _ h
  | input text => exact pathsOk_onInput _ _ h
  | resize cols rows => exact pathsOk_onResize _ _ _ h
  | checkContainerStatus => exact pathsOk_checkStatusStart _ h
  | executeCommand a b c => exact pathsOk_execStart _ _ _ _ h
  | stopCommand => exact pathsOk_onStop _ h
  | updateFile a b => exact pathsOk_updateStart _ _ _ h
  | other => exact h
  | malformed e => exact pathsOk_send _ _ h

theorem pathsOk_onClose {x : State} (ws : Ws) (h : PathsOk x) : PathsOk (onClose x ws) := by
  unfold onClose
  dsimp only
  split
  · exact h
  · split
    · exact pathsOk_delTerminal _ (pathsOk_emits _ h)
    · rename_i clientId hid
      split
      · exact pathsOk_delTerminal _ (pathsOk_emits _ h)
      · split
        · exact pathsOk_scheduleCleanup _ _ (getConn_paths h ws clientId hid).1
            (pathsOk_updClient _ _ (fun _ => ⟨rfl, rfl⟩)
              (pathsOk_delTerminal _ (pathsOk_emits _ h)))
        · exact pathsOk_updClient _ _ (fun _ => ⟨rfl, rfl⟩)
            (pathsOk_delTerminal _ (pathsOk_emits _ h))

theorem pathsOk_cleanupFire {x : State} (c : ClientId) (w : Option String)
    (hw : w = some (workspaceOf c)) (h : PathsOk x) : PathsOk (cleanupFire x c w) := by
  unfold cleanupFire
  split
  · refine pathsOk_suspend _ (fun id w' he => ?_) (pathsOk_emit _ (pathsOk_killProcess _ h))
    injection he with h1 h2
    subst h1; subst h2
    exact hw
  · exact pathsOk_delPending _ h

theorem pathsOk_onTimer {x : State} (a : TimerAction)
    (ha : ∀ id w, a = TimerAction.cleanup id w → w = some (workspaceOf id))
    (h : PathsOk x) : PathsOk (onTimer x a) := by
  cases a with
  | cleanup c w => exact pathsOk_cleanupFire c w (ha c w rfl) h
  | commandSent r => exact pathsOk_broadcast _ _ h
  | oneShotTimeout q pid => exact pathsOk_oneShotTimeout _ _ h

theorem pathsOk_resumeTask {x y : State} (task : Task) (o : Outcome) (env : SyncEnv)
    (h : PathsOk x) (hy : resumeTask x task o env = some y) : PathsOk y := by
  unfold resumeTask at hy
  split at hy <;> first
    | (injection hy with hy; subst hy
       first
         | exact pathsOk_connectAfterStatus _ _ _ _ h
         | exact pathsOk_connectAfterReadiness _ _ _ _ h
         | exact pathsOk_connectAfterCreate _ _ _ _ h
         | exact pathsOk_send _ _ h
         | exact pathsOk_execAfterStatus _ _ _ _ _ _ _ h
         | exact pathsOk_execAfterCopyCargo _ _ _ _ h
         | exact pathsOk_execAfterCopyMain _ _ _ _ h
         | exact pathsOk_updateAfterStatus _ _ _ _ _ _ h
         | exact pathsOk_updateAfterCopyMain _ _ _ _ _ _ h
         | exact pathsOk_updateAfterCopyCargo _ _ _ _ _ h
         | exact pathsOk_cleanupAfterStop _ _ _ _ h
         | exact pathsOk_oneShotAfterStatus _ _ _ _ h)
    | exact absurd hy (by simp)

theorem pathsOk_step {x : State} (e : Event) (h : PathsOk x) : PathsOk (step x e) := by
  cases e with
  | connection => exact pathsOk_addConn h
  | message ws data env =>
    simp only [step]
    split
    · split
      · exact pathsOk_onMessage _ _ _ h
      · exact h
    · exact h
  | wsDrop ws => exact pathsOk_updConn_same _ _ (fun _ => ⟨rfl, rfl, rfl⟩) h
  | close ws =>
    simp only [step]
    split
    · split
      · exact h
      · exact pathsOk_onClose _ (pathsOk_updConn_same _ _ (fun _ => ⟨rfl, rfl, rfl⟩) h)
    · exact h
  | resume t o env =>
    simp only [step]
    split
    · rename_i task _
      cases hr : resumeTask (takeTask x t) task o env with
      | none => simpa using h
      | some y => simpa using pathsOk_resumeTask task o env (pathsOk_takeTask t h) hr
    · exact h
  | timerFire t =>
    simp only [step]
    split
    · rename_i a ha
      exact pathsOk_onTimer a (fun id w he => h.2.2.2.1 (t, a) (mem_of_mapGet ha) id w he)
        (pathsOk_dropTimer _ h)
    · exact h
  | procStdout pid chunk => exact pathsOk_onProcStdout _ _ h
  | procStderr pid chunk => exact pathsOk_onProcStderr _ _ h
  | procClose pid code => exact pathsOk_onProcClose _ _ h
  | ptyData pty data => exact pathsOk_onPtyData _ _ h
  | request clientId command => exact pathsOk_onRequest _ _ h

theorem pathsOk_init : PathsOk init := by
  refine ⟨?_, ?_, ?_, ?_, ?_⟩ <;> simp [TerminalServer.init, mapGet]

theorem Reachable.pathsOk {s : State} (h : Reachable s) : PathsOk s := by
  obtain ⟨es, rfl⟩ := h
  suffices H : ∀ (es : List Event) (x : State), PathsOk x → PathsOk (TerminalServer.run x es) from
    H es _ pathsOk_init
  intro es
  induction es with
  | nil => exact fun x hx => hx
  | cons e es ih => exact fun x hx => ih _ (pathsOk_step e hx)
/-! ## Auxiliary facts -/

theorem newEffects_of_trace {s s' : State} {l : List Effect} (h : s'.trace = s.trace ++ l) :
    newEffects s s' = l := by
  simp [newEffects, h]

theorem cancelCleanup_of_pending {s : State} {c : ClientId} {t : TimerId}
    (h : mapGet s.pendingCleanups c = some t) :
    cancelCleanup s c = delPending (clearTimeout s t) c := by
  simp [cancelCleanup, h]

theorem mkdirEffects_not_teardown (env : SyncEnv) (c : ClientId) :
    ∀ e ∈ mkdirEffects env c, isTeardown e = false := by
  unfold mkdirEffects
  split
  · simp
  · split <;> simp [isTeardown]

theorem connectStart_fields (s : State) (ws : Ws) (clientId : ClientId) (cols rows : Option Nat)
    (env : SyncEnv) (hid : truthy (some clientId) = true) (t : TimerId)
    (hpend : mapGet s.pendingCleanups clientId = some t) :
    (connectStart s ws (some clientId) cols rows env).timers = mapDelete s.timers t ∧
    (connectStart s ws (some clientId) cols rows env).nextTimer = s.nextTimer ∧
    (connectStart s ws (some clientId) cols rows env).pendingCleanups
      = mapDelete s.pendingCleanups clientId ∧
    (connectStart s ws (some clientId) cols rows env).clients = s.clients ∧
    (connectStart s ws (some clientId) cols rows env).heap = s.heap ∧
    ∀ e ∈ newEffects s (connectStart s ws (some clientId) cols rows env), isTeardown e = false := by
  have hc : ∀ f, cancelCleanup (updConn s ws f) clientId
      = delPending (clearTimeout (updConn s ws f) t) clientId :=
    fun f => cancelCleanup_of_pending (by simpa using hpend)
  have hm := mkdirEffects_not_teardown env clientId
  simp only [connectStart, hid, if_true, Option.getD_some, hc]
  split <;> simp [newEffects] <;> refine ⟨rfl, ?_⟩
  · rintro a (ha | rfl)
    · exact hm a ha
    · rfl
  · rintro a (ha | rfl | rfl)
    · exact hm a ha
    · rfl
    · rfl

/-- A timer that is not armed and whose identifier has been handed out is
never armed again. -/
theorem not_armed_forever {s : State} {t : TimerId} (hn : mapGet s.timers t = none)
    (hlt : t < s.nextTimer) (es : List Event) : mapGet (run s es).timers t = none := by
  rw [mapGet_eq_none_iff] at hn ⊢
  intro p hp
  rcases (grow_run es (Grow.refl s)).2.2.1 p hp with h | h
  · exact hn p h
  · intro h'
    rw [h'] at h
    exact absurd hlt (not_lt.mpr h.1)

theorem step_timerFire_not_armed {s : State} {t : TimerId} (hn : mapGet s.timers t = none) :
    step s (.timerFire t) = s := by
  simp [step, hn]

theorem step_message {s : State} {ws : Ws} (h : CanReceive s ws) (data : Data) (env : SyncEnv) :
    step s (.message ws data env) = onMessage s ws data env := by
  unfold CanReceive at h
  cases hc : s.conns[ws]? with
  | none => simp [hc] at h
  | some c =>
    simp only [hc, Option.map_some', Option.some.injEq] at h
    simp [step, hc, h]

theorem getConn_of {s : State} {ws : Ws} {c : Conn} (h : s.conns[ws]? = some c) :
    getConn s ws = c := by
  simp [getConn, h]

theorem getConn_updConn_self {s : State} {ws : Ws} {c : Conn} (f : Conn → Conn)
    (h : s.conns[ws]? = some c) : getConn (updConn s ws f) ws = f c := by
  have hlt : ws < s.conns.length := by
    rcases List.getElem?_eq_some_iff.mp h with ⟨hlt, _⟩
    exact hlt
  simp [getConn, h, List.getElem?_set, hlt]

theorem JSSet.not_mem_delete (a : JSSet) (w : Ws) : w ∉ (a.delete w).elems := by
  simp [JSSet.delete]

theorem length_filter_ne_of_mem_nodup {l : List Ws} {w : Ws} (hn : l.Nodup) (hm : w ∈ l) :
    (l.filter (fun x => x ≠ w)).length + 1 = l.length := by
  induction l with
  | nil => simp at hm
  | cons a l ih =>
    have hnd := List.nodup_cons.mp hn
    by_cases ha : a = w
    · subst ha
      have : l.filter (fun x => x ≠ a) = l := by
        rw [List.filter_eq_self]
        intro x hx
        have : x ≠ a := fun h => hnd.1 (h ▸ hx)
        simpa using this
      rw [List.filter_cons_of_neg (by simp), this]
      simp
    · have hm' : w ∈ l := by
        rcases List.mem_cons.mp hm with h | h
        · exact absurd h.symm ha
        · exact h
      rw [List.filter_cons_of_pos (by simpa using ha)]
      simpa using ih hnd.2 hm'

theorem JSSet.size_delete_of_mem (a : JSSet) {w : Ws} (h : w ∈ a.elems) :
    (a.delete w).size + 1 = a.size := by
  simpa [JSSet.size, JSSet.delete] using length_filter_ne_of_mem_nodup a.nodup h

theorem cancelCleanup_of_none {s : State} {c : ClientId}
    (h : mapGet s.pendingCleanups c = none) : cancelCleanup s c = s := by
  simp [cancelCleanup, h]

theorem cancelCleanup_pendingCleanups (s : State) (c : ClientId) :
    (cancelCleanup s c).pendingCleanups = mapDelete s.pendingCleanups c := by
  cases h : mapGet s.pendingCleanups c with
  | none => rw [cancelCleanup_of_none h, mapDelete_of_mapGet_none h]
  | some t => rw [cancelCleanup_of_pending h]; rfl

theorem cancelCleanup_timers_mem {s : State} {c : ClientId} {p : TimerId × TimerAction}
    (h : p ∈ (cancelCleanup s c).timers) : p ∈ s.timers :=
  ((grow_cancelCleanup c (Grow.refl s)).2.2.1 p h).elim id
    (fun h' => absurd h'.2 (by simp [not_lt.mpr h'.1]))

theorem scheduleCleanup_nextTimer (s : State) (c : ClientId) (w : Option String) :
    (scheduleCleanup s c w).nextTimer = s.nextTimer + 1 := by
  simp [scheduleCleanup]

theorem scheduleCleanup_timers (s : State) (c : ClientId) (w : Option String) :
    (scheduleCleanup s c w).timers
      = (cancelCleanup s c).timers ++ [(s.nextTimer, .cleanup c w)] := by
  simp [scheduleCleanup]

theorem scheduleCleanup_pendingCleanups (s : State) (c : ClientId) (w : Option String) :
    (scheduleCleanup s c w).pendingCleanups
      = mapSet (mapDelete s.pendingCleanups c) c s.nextTimer := by
  simp [scheduleCleanup, cancelCleanup_pendingCleanups]

theorem scheduleCleanup_pending_self (s : State) (c : ClientId) (w : Option String) :
    mapGet (scheduleCleanup s c w).pendingCleanups c = some s.nextTimer := by
  rw [scheduleCleanup_pendingCleanups, mapGet_mapSet_self]

theorem scheduleCleanup_pending_other (s : State) (c : ClientId) (w : Option String)
    {c' : ClientId} (h : c' ≠ c) :
    mapGet (scheduleCleanup s c w).pendingCleanups c' = mapGet s.pendingCleanups c' := by
  rw [scheduleCleanup_pendingCleanups, mapGet_mapSet_ne _ _ h, mapGet_mapDelete_ne _ h]

theorem cancelCleanup_timers_get (s : State) (c : ClientId) (t : TimerId) :
    mapGet (cancelCleanup s c).timers t
      = if mapGet s.pendingCleanups c = some t then none else mapGet s.timers t := by
  cases h : mapGet s.pendingCleanups c with
  | none => simp [cancelCleanup_of_none h]
  | some t' =>
    rw [cancelCleanup_of_pending h]
    by_cases ht : t' = t
    · subst ht
      simp [mapGet_mapDelete_self]
    · have : t ≠ t' := fun h' => ht h'.symm
      simp [ht, mapGet_mapDelete_ne _ this]

theorem scheduleCleanup_timers_new {s : State} (hs : ∀ p ∈ s.timers, p.1 < s.nextTimer)
    (c : ClientId) (w : Option String) :
    mapGet (scheduleCleanup s c w).timers s.nextTimer = some (.cleanup c w) := by
  have hnone : mapGet (cancelCleanup s c).timers s.nextTimer = none := by
    rw [mapGet_eq_none_iff]
    intro p hp h
    exact absurd (hs p (cancelCleanup_timers_mem hp)) (by simp [h])
  simp [scheduleCleanup_timers, mapGet_append, hnone, mapGet]

theorem scheduleCleanup_timers_old {s : State} (c : ClientId) (w : Option String)
    {t : TimerId} (ht : t ≠ s.nextTimer) :
    mapGet (scheduleCleanup s c w).timers t
      = if mapGet s.pendingCleanups c = some t then none else mapGet s.timers t := by
  rw [scheduleCleanup_timers, mapGet_append, cancelCleanup_timers_get]
  have : mapGet [(s.nextTimer, TimerAction.cleanup c w)] t = none := by
    simp [mapGet, Ne.symm ht]
  rw [this]
  simp

theorem scheduleCleanup_pending_self' {x : State} {n : TimerId} (c : ClientId)
    (w : Option String) (hn : x.nextTimer = n) :
    mapGet (scheduleCleanup x c w).pendingCleanups c = some n := by
  rw [← hn]; exact scheduleCleanup_pending_self x c w

theorem scheduleCleanup_timers_new' {x : State} {n : TimerId} {l : List (TimerId × TimerAction)}
    (c : ClientId) (w : Option String) (hn : x.nextTimer = n) (ht : x.timers = l)
    (hl : ∀ p ∈ l, p.1 < n) :
    mapGet (scheduleCleanup x c w).timers n = some (.cleanup c w) := by
  subst hn; subst ht; exact scheduleCleanup_timers_new hl c w

theorem mem_armedFor {s : State} {c : ClientId} {t : TimerId} {w : Option String}
    (h : (t, TimerAction.cleanup c w) ∈ s.timers) : t ∈ armedFor s c := by
  simp only [armedFor, List.mem_map, List.mem_filter]
  exact ⟨(t, .cleanup c w), ⟨h, by simp⟩, rfl⟩

theorem armedFor_scheduleCleanup {s : State} (c : ClientId) (w : Option String)
    (h : ∀ t ∈ armedFor s c, mapGet s.pendingCleanups c = some t) :
    armedFor (scheduleCleanup s c w) c = [s.nextTimer] := by
  have hA : ∀ p ∈ (cancelCleanup s c).timers,
      (match p.2 with
        | .cleanup c' _ => decide (c' = c)
        | _ => false) = false := by
    intro p hp
    obtain ⟨t, a⟩ := p
    cases a with
    | cleanup c' w' =>
      by_cases hc : c' = c
      · subst hc
        exfalso
        have hmem : (t, TimerAction.cleanup c' w') ∈ s.timers := cancelCleanup_timers_mem hp
        have hpend := h t (mem_armedFor hmem)
        rw [cancelCleanup_of_pending hpend] at hp
        exact (mem_of_mem_mapDelete hp).2 rfl
      · simp [hc]
    | commandSent r => rfl
    | oneShotTimeout q pid => rfl
  have hfil : (cancelCleanup s c).timers.filter (fun p =>
      match p.2 with
      | .cleanup c' _ => decide (c' = c)
      | _ => false) = [] := by
    rw [List.filter_eq_nil_iff]
    intro p hp
    simp [hA p hp]
  simp [armedFor, scheduleCleanup_timers, List.filter_append, hfil]

theorem killProcess_trace (s : State) (r : Ref) :
    (killProcess s r).trace = s.trace ++
      (match (s.heap[r]?).bind (fun c => c.process) with
        | some pid => [Effect.procKill pid (some "SIGTERM")]
        | none => []) := by
  unfold killProcess
  split <;> rename_i h <;> simp [h]

theorem mapGet_suspend_new {s : State} (hs : ∀ p ∈ s.tasks, p.1 < s.nextTask) (t : Task) :
    mapGet (suspend s t).tasks s.nextTask = some t := by
  have hnone : mapGet s.tasks s.nextTask = none := by
    rw [mapGet_eq_none_iff]
    intro p hp h
    exact absurd (hs p hp) (by simp [h])
  simp [mapGet_append, hnone, mapGet]

theorem mapGet_suspend_new' {x : State} {n : TaskId} {l : List (TaskId × Task)} (t : Task)
    (hn : x.nextTask = n) (ht : x.tasks = l) (hl : ∀ p ∈ l, p.1 < n) :
    mapGet (suspend x t).tasks n = some t := by
  subst hn; subst ht; exact mapGet_suspend_new hl t

theorem killProcess_trace' (s : State) (r : Ref) :
    (killProcess s r).trace = s.trace ++ killEffects s r :=
  killProcess_trace s r

theorem killProcess_procs_length (s : State) (r : Ref) :
    (killProcess s r).procs.length = s.procs.length := by
  unfold killProcess
  split
  · simp only [updClient_procs, markSignalled, updProc_procs, emit_procs]
    split <;> simp
  · rfl

theorem killProcess_heap_get (s : State) (r : Ref) (client : Client)
    (h : s.heap[r]? = some client) :
    (killProcess s r).heap[r]? = some { client with process := none } := by
  have hlt : r < s.heap.length := (List.getElem?_eq_some_iff.mp h).1
  unfold killProcess
  split
  · simp [h, List.getElem?_set, hlt]
  · rename_i hnone
    simp only [h, Option.some_bind] at hnone
    rw [h]
    cases client
    simp_all

theorem cargoCommand_spec :
    cargoCommand none = "run" ∧ cargoCommand (some "") = "run" ∧
    ∀ c : String, c ≠ "" → cargoCommand (some c) = c := by
  refine ⟨by decide, by decide, fun c hc => ?_⟩
  simp [cargoCommand, truthy, hc]

theorem execDispatch_pty (s : State) (ws : Ws) (r : Ref) (client : Client)
    (command : Option String) (pty : PtyId)
    (hobj : s.heap[r]? = some client) (hpty : (getConn s ws).ptyProcess = some pty) :
    newEffects s (execDispatch s ws r command)
      = killEffects s r ++ [Effect.ptyWrite pty ("cargo " ++ cargoCommand command ++ "\r"),
          Effect.setTimeout s.nextTimer 500] ∧
    (execDispatch s ws r command).procs.length = s.procs.length := by
  simp [execDispatch, hobj, hpty, newEffects, killProcess_trace', killProcess_procs_length]

theorem execDispatch_spawn (s : State) (ws : Ws) (r : Ref) (client : Client)
    (command : Option String)
    (hobj : s.heap[r]? = some client) (hpty : (getConn s ws).ptyProcess = none) :
    newEffects s (execDispatch s ws r command)
      = killEffects s r ++ [Effect.spawn s.procs.length client.containerName
          ("cd /usr/src/app && cargo " ++ cargoCommand command)] ∧
    (execDispatch s ws r command).procs[s.procs.length]? = some ⟨.session r, false, false⟩ ∧
    (execDispatch s ws r command).procs.length = s.procs.length + 1 ∧
    processSlot (execDispatch s ws r command) r = some s.procs.length := by
  have hk := killProcess_heap_get s r client hobj
  have hlt : r < (killProcess s r).heap.length := (List.getElem?_eq_some_iff.mp hk).1
  have hl := killProcess_procs_length s r
  refine ⟨?_, ?_, ?_, ?_⟩
  · simp [execDispatch, hobj, hpty, newEffects, killProcess_trace', hl]
  · simp only [execDispatch, hobj, hpty, updClient_procs, emit_procs, addProc_procs]
    rw [← hl]
    simp
  · simp [execDispatch, hobj, hpty, hl]
  · simp [execDispatch, hobj, hpty, processSlot, hk, List.getElem?_set, hlt, hl]

theorem broadcastEffects_congr {s s' : State} (h1 : s'.heap = s.heap) (h2 : s'.conns = s.conns)
    (r : Ref) (m : Msg) : broadcastEffects s' r m = broadcastEffects s r m := by
  have : isOpen s' = isOpen s := by
    funext w
    simp [isOpen, getConn, h2]
  simp [broadcastEffects, h1, this]

theorem procEvents_broadcast (s : State) (pid : Pid) (p : Proc) (r : Ref)
    (hp : s.procs[pid]? = some p) (ho : p.owner = .session r) (he : p.exited = false) :
    (∀ chunk, newEffects s (step s (.procStdout pid chunk))
      = broadcastEffects s r (.runOutput chunk)) ∧
    (∀ chunk, newEffects s (step s (.procStderr pid chunk))
      = broadcastEffects s r (.runError chunk)) ∧
    (∀ code, newEffects s (step s (.procClose pid code))
      = broadcastEffects s r (.runStatus (.exited code))) := by
  refine ⟨fun chunk => ?_, fun chunk => ?_, fun code => ?_⟩
  · simp [step, onProcStdout, hp, he, ho, newEffects]
  · simp [step, onProcStderr, hp, he, ho, newEffects]
  · simp [step, onProcClose, hp, he, ho, newEffects]
    exact broadcastEffects_congr rfl rfl r _

theorem step_resume {s : State} {k : TaskId} {task : Task} (h : mapGet s.tasks k = some task)
    (o : Outcome) (env : SyncEnv) :
    step s (.resume k o env) = (resumeTask (takeTask s k) task o env).getD s := by
  simp [step, h]

theorem takeTask_fresh {s : State} (hs : Fresh s) (k : TaskId) :
    ∀ p ∈ (takeTask s k).tasks, p.1 < s.nextTask :=
  fun p hp => hs.2.1 p (mem_of_mem_mapDelete hp).1

theorem cancelCleanup_trace (s : State) (c : ClientId) :
    (cancelCleanup s c).trace = s.trace ++ cancelEffects s c := by
  unfold cancelCleanup cancelEffects
  split <;> simp

theorem broadcastEffects_killProcess (s : State) (r : Ref) (m : Msg) :
    broadcastEffects (killProcess s r) r m = broadcastEffects s r m := by
  have hopen : isOpen (killProcess s r) = isOpen s := by
    funext w
    simp [isOpen, getConn]
  cases hobj : s.heap[r]? with
  | none =>
    have : (killProcess s r) = s := by simp [killProcess, hobj]
    rw [this]
  | some client =>
    simp [broadcastEffects, killProcess_heap_get s r client hobj, hobj, hopen]

theorem count_broadcastEffects (s : State) (r : Ref) (client : Client) (m : Msg) (w : Ws)
    (hobj : s.heap[r]? = some client) (hw : w ∈ client.connections.elems)
    (ho : isOpen s w = true) :
    (broadcastEffects s r m).count (Effect.send w m) = 1 := by
  simp only [broadcastEffects, hobj]
  apply List.count_eq_one_of_mem
  · refine List.Nodup.map ?_ (client.connections.nodup.filter _)
    intro a b hab
    injection hab
  · exact List.mem_map.mpr ⟨w, List.mem_filter.mpr ⟨hw, ho⟩, rfl⟩

theorem mem_broadcastEffects {s : State} {r : Ref} {client : Client} {m : Msg} {e : Effect}
    (hobj : s.heap[r]? = some client) (he : e ∈ broadcastEffects s r m) :
    ∃ w, w ∈ client.connections.elems ∧ isOpen s w = true ∧ e = Effect.send w m := by
  simp only [broadcastEffects, hobj, List.mem_map, List.mem_filter] at he
  obtain ⟨w, ⟨hw, ho⟩, rfl⟩ := he
  exact ⟨w, hw, ho, rfl⟩

/-! ## C1: a session with connections has no pending cleanup -/

/-- C1 (the code breaks it): a reachable state in which tenant t1 has
connection 1 in its connection set and timer 0 registered in
`pendingCleanups` and armed.  Connect cancels the cleanup before it awaits
the container status and attaches the connection after; the close of the last
other connection in between arms a timer that nothing cancels.  When that
timer fires, the container is stopped, the workspace removed and the session
deleted while connection 1 is open and bound to the tenant. -/
theorem connect_close_race_breaks_NoTimerWhileAttached :
    Reachable (run init raceTrace) ∧
    connectionsOf (run init raceTrace) "t1" = [1] ∧
    mapGet (run init raceTrace).pendingCleanups "t1" = some 0 ∧
    mapGet (run init raceTrace).timers 0
      = some (.cleanup "t1" (some "./docker_workspaces/t1")) ∧
    ¬ NoTimerWhileAttached (run init raceTrace) ∧
    newEffects (run init raceTrace)
        (run (run init raceTrace) [.timerFire 0, .resume 2 (.settled none) ok])
      = [Effect.dockerStop "rust-workspace-t1", Effect.rmSync "./docker_workspaces/t1"] ∧
    mapHas (run (run init raceTrace) [.timerFire 0, .resume 2 (.settled none) ok]).clients
      (some "t1") = false ∧
    isOpen (run (run init raceTrace) [.timerFire 0, .resume 2 (.settled none) ok]) 1 = true := by
  refine ⟨⟨raceTrace, rfl⟩, by decide, by decide, by decide, fun h => ?_, by decide, by decide,
    by decide⟩
  have h1 := h "t1" (by decide)
  revert h1
  decide

/-! ## C2: connect cancels the pending cleanup -/

/-- C2 (the code breaks it): `cancelCleanup` clears the timer that
`pendingCleanups` names, and the callback of a timer deletes the entry of the
tenant after its wait, whichever timer the entry names by then (line 233).
In `doubleTimerState` the timers 1 and 2 of tenant t1 are armed and the map
names timer 2 (timer 1 lost its entry to the callback of timer 0).  A connect
for t1 is handled before either fires: it clears timer 2 and removes the
entry, and timer 1 stays armed.  Connection 3 is attached; timer 1 then
fires: its callback stops the container, deletes the workspace and deletes
the session from `clients`, while connection 3 is open and holds its
terminal. -/
theorem orphan_timer_survives_connect :
    Reachable doubleTimerState ∧
    armedFor doubleTimerState "t1" = [1, 2] ∧
    mapGet doubleTimerState.pendingCleanups "t1" = some 2 ∧
    CanReceive doubleTimerState 3 ∧
    newEffects doubleTimerState
        (step doubleTimerState (.message 3 (.connect (some "t1") none none) ok))
      = [.clearTimeout 2, .dockerExecStatus "rust-workspace-t1"] ∧
    (step doubleTimerState (.message 3 (.connect (some "t1") none none) ok)).pendingCleanups
      = [] ∧
    (step doubleTimerState (.message 3 (.connect (some "t1") none none) ok)).timers
      = [(1, .cleanup "t1" (some "./docker_workspaces/t1"))] ∧
    Reachable orphanFiredState ∧
    connectionsOf orphanAttachedState "t1" = [3] ∧
    mapGet orphanAttachedState.timers 1 = some (.cleanup "t1" (some "./docker_workspaces/t1")) ∧
    newEffects orphanAttachedState orphanFiredState
      = [.dockerStop "rust-workspace-t1", .rmSync "./docker_workspaces/t1"] ∧
    orphanFiredState.clients = [] ∧
    mapHas orphanFiredState.terminals 3 = true ∧
    isOpen orphanFiredState 3 = true := by
  refine ⟨⟨_, rfl⟩, ?_, ?_, ?_, ?_, ?_, ?_,
    Reachable.run (Reachable.run ⟨_, rfl⟩ _) _, ?_, ?_, ?_, ?_, ?_, ?_⟩ <;> decide

/-- The timer that `pendingCleanups` names: when tenant `clientId` has timer
`t` registered in `pendingCleanups` and armed, handling a connect message for
that tenant clears the timer and removes the entry, leaves `clients` and the
session objects as they are and issues no teardown call; and whatever happens
afterwards, timer `t` is never armed again, so that its callback never runs:
the event of its firing cannot occur. -/
theorem connect_cancels_pending_cleanup (s : State) (hs : Reachable s) (ws : Ws)
    (clientId : ClientId) (cols rows : Option Nat) (env : SyncEnv) (t : TimerId)
    (a : TimerAction) (hopen : CanReceive s ws) (hid : truthy (some clientId) = true)
    (hpend : mapGet s.pendingCleanups clientId = some t)
    (harmed : mapGet s.timers t = some a) :
    mapGet (step s (.message ws (.connect (some clientId) cols rows) env)).timers t = none ∧
    mapGet (step s (.message ws (.connect (some clientId) cols rows) env)).pendingCleanups
      clientId = none ∧
    (step s (.message ws (.connect (some clientId) cols rows) env)).clients = s.clients ∧
    (step s (.message ws (.connect (some clientId) cols rows) env)).heap = s.heap ∧
    (∀ e ∈ newEffects s (step s (.message ws (.connect (some clientId) cols rows) env)),
      isTeardown e = false) ∧
    ∀ es : List Event,
      mapGet (run (step s (.message ws (.connect (some clientId) cols rows) env)) es).timers t
        = none ∧
      step (run (step s (.message ws (.connect (some clientId) cols rows) env)) es)
        (.timerFire t)
        = run (step s (.message ws (.connect (some clientId) cols rows) env)) es := by
  have hstep : step s (.message ws (.connect (some clientId) cols rows) env)
      = connectStart s ws (some clientId) cols rows env :=
    step_message hopen _ _
  rw [hstep]
  obtain ⟨h1, h2, h3, h4, h5, h6⟩ := connectStart_fields s ws clientId cols rows env hid t hpend
  have hlt : t < s.nextTimer := hs.fresh.1 _ (mem_of_mapGet harmed)
  have hnone : mapGet (connectStart s ws (some clientId) cols rows env).timers t = none := by
    rw [h1]; exact mapGet_mapDelete_self _ _
  refine ⟨hnone, ?_, h4, h5, h6, fun es => ?_⟩
  · rw [h3]; exact mapGet_mapDelete_self _ _
  · have := not_armed_forever hnone (by rw [h2]; exact hlt) es
    exact ⟨this, step_timerFire_not_armed this⟩

/-- The registered timer at a concrete state: tenant t1 is idle with timer 0
armed and registered when connection 1 connects. -/
theorem connect_cancels_pending_cleanup_witness :
    (CanReceive idleState 1 ∧ mapGet idleState.pendingCleanups "t1" = some 0 ∧
      mapGet idleState.timers 0 = some (.cleanup "t1" (some "./docker_workspaces/t1"))) ∧
    mapGet (step idleState (.message 1 (.connect (some "t1") none none) ok)).timers 0 = none ∧
    mapGet (step idleState (.message 1 (.connect (some "t1") none none) ok)).pendingCleanups "t1"
      = none :=
  have h := connect_cancels_pending_cleanup idleState ⟨_, rfl⟩ 1 "t1" none none ok 0
    (.cleanup "t1" (some "./docker_workspaces/t1")) (by decide) (by decide) (by decide)
    (by decide)
  ⟨⟨by decide, by decide, by decide⟩, h.1, h.2.1⟩

/-! ## C3: close detaches the connection -/

/-- C3 (the claim as stated fails): connection 0 connected as t1 and then as
t2.  It is in the connection set of the registered tenant t1 and in
`terminals`, and its close event leaves it in the connection set of t1: the
handler detaches it from t2, the tenant of its last connect. -/
theorem close_keeps_connection_of_earlier_tenant :
    Reachable (run init doubleTrace) ∧
    mapHas (run init doubleTrace).clients (some "t1") = true ∧
    0 ∈ connectionsOf (run init doubleTrace) "t1" ∧
    mapHas (run init doubleTrace).terminals 0 = true ∧
    0 ∈ connectionsOf (step (run init doubleTrace) (.close 0)) "t1" ∧
    mapGet (step (run init doubleTrace) (.close 0)).pendingCleanups "t1" = none :=
  ⟨⟨doubleTrace, rfl⟩, by decide, by decide, by decide, by decide, by decide⟩

/-- C3 (amended): a connection whose handler is bound to a registered tenant
(the tenant of its last connect message) and which is in the connection set of
that tenant and in `terminals` closes.  The handler removes it from
`terminals` and from the connection set, which loses exactly this one member,
and changes nothing else in the session object nor in `clients`.  If the set
is then empty, a new timer is armed for the tenant with the workspace of the
session and registered in `pendingCleanups`; if not, the armed timers and
`pendingCleanups` are as before. -/
theorem close_detaches_bound_connection (s : State) (hs : Reachable s) (ws : Ws) (c : Conn)
    (clientId : ClientId) (r : Ref) (client : Client)
    (hc : s.conns[ws]? = some c) (hnc : c.closed = false)
    (hbound : c.clientId = some clientId)
    (hreg : mapGet s.clients (some clientId) = some r) (hobj : s.heap[r]? = some client)
    (hmem : ws ∈ client.connections.elems)
    (hterm : mapHas s.terminals ws = true) :
    mapGet (step s (.close ws)).terminals ws = none ∧
    (step s (.close ws)).clients = s.clients ∧
    (step s (.close ws)).heap
      = s.heap.set r { client with connections := client.connections.delete ws } ∧
    ws ∉ (client.connections.delete ws).elems ∧
    (client.connections.delete ws).size + 1 = client.connections.size ∧
    ((client.connections.delete ws).elems = [] →
      mapGet (step s (.close ws)).pendingCleanups clientId = some s.nextTimer ∧
      mapGet (step s (.close ws)).timers s.nextTimer
        = some (.cleanup clientId (some client.workspace))) ∧
    ((client.connections.delete ws).elems ≠ [] →
      (step s (.close ws)).timers = s.timers ∧
      (step s (.close ws)).pendingCleanups = s.pendingCleanups) := by
  have hstep : step s (.close ws)
      = onClose (updConn s ws (fun c => { c with readyOpen := false, closed := true })) ws := by
    simp [step, hc, hnc]
  rw [hstep]
  obtain ⟨terminal, hterminal⟩ := (mapHas_eq_true_iff _ _).mp hterm
  have hg := getConn_updConn_self (fun c => { c with readyOpen := false, closed := true }) hc
  have hsz := JSSet.size_delete_of_mem client.connections hmem
  have hpath : c.clientWorkspace = some client.workspace := by
    obtain ⟨cl, hcl, hw, -⟩ := hs.pathsOk.2.1 clientId r hreg
    rw [hobj] at hcl
    injection hcl with hcl
    subst hcl
    rw [hw]
    exact (hs.pathsOk.1 ws c hc clientId hbound).1
  by_cases hempty : (client.connections.delete ws).elems = []
  · have hsize : (client.connections.delete ws).size = 0 := by simp [JSSet.size, hempty]
    simp [onClose, getClient, hg, hterminal, hbound, hreg, hobj, hsize, hempty,
      mapGet_mapDelete_self]
    refine ⟨by simpa [hsize] using hsz, ?_⟩
    rw [← hpath]
    exact ⟨scheduleCleanup_pending_self' _ _ (by simp),
      scheduleCleanup_timers_new' _ _ (by simp) (by simp) hs.fresh.1⟩
  · have hsize : ¬ (client.connections.delete ws).size = 0 := by
      simpa [JSSet.size] using hempty
    simp [onClose, getClient, hg, hterminal, hbound, hreg, hobj, hsize, hempty,
      mapGet_mapDelete_self, JSSet.not_mem_delete]
    exact hsz

/-- Witness of C3: connection 0, the only connection of tenant t1, closes. -/
theorem close_detaches_bound_connection_witness :
    (attachedState.conns[0]? = some attachedConn ∧
      mapGet attachedState.clients (some "t1") = some 0 ∧
      attachedState.heap[0]? = some attachedClient ∧
      mapHas attachedState.terminals 0 = true) ∧
    mapGet (step attachedState (.close 0)).terminals 0 = none ∧
    (step attachedState (.close 0)).clients = attachedState.clients :=
  have h := close_detaches_bound_connection attachedState ⟨_, rfl⟩ 0 attachedConn "t1" 0
    attachedClient (by decide) (by decide) (by decide) (by decide) (by decide) (by decide)
    (by decide)
  ⟨⟨by decide, by decide, by decide, by decide⟩, h.1, h.2.1⟩

/-! ## C4: the cleanup timer tears the sandbox down -/

/-- C4: when the cleanup timer of a registered tenant fires, its callback
sends SIGTERM to the process in the session's slot, if any, and asks once for
the container `rust-workspace-<lowercased id>` to be stopped, then waits;
when the stop has succeeded, whatever ran in between, it removes the
workspace tree, and if that succeeds the tenant is in neither `clients` nor
`pendingCleanups`.  The path removed is the workspace of the session and the
container stopped is the container of the session. -/
theorem cleanup_timer_tears_down (s : State) (hs : Reachable s) (t : TimerId)
    (clientId : ClientId) (path : String) (r : Ref) (client : Client)
    (harmed : mapGet s.timers t = some (.cleanup clientId (some path)))
    (hreg : mapGet s.clients (some clientId) = some r) (hobj : s.heap[r]? = some client) :
    (path = client.workspace ∧
      "rust-workspace-" ++ toLowerCase clientId = client.containerName) ∧
    newEffects s (step s (.timerFire t))
      = (match client.process with
          | some pid => [Effect.procKill pid (some "SIGTERM")]
          | none => []) ++ [Effect.dockerStop ("rust-workspace-" ++ toLowerCase clientId)] ∧
    mapGet (step s (.timerFire t)).tasks s.nextTask = some (.cleanupStop clientId (some path)) ∧
    ∀ (s₂ : State) (k : TaskId) (env : SyncEnv),
      mapGet s₂.tasks k = some (.cleanupStop clientId (some path)) → env.rmErr = none →
      newEffects s₂ (step s₂ (.resume k (.settled none) env)) = [Effect.rmSync path] ∧
      mapGet (step s₂ (.resume k (.settled none) env)).clients (some clientId) = none ∧
      mapGet (step s₂ (.resume k (.settled none) env)).pendingCleanups clientId = none := by
  refine ⟨?_, ?_, ?_, ?_⟩
  · obtain ⟨cl, hcl, hw, hn⟩ := hs.pathsOk.2.1 clientId r hreg
    rw [hobj] at hcl
    injection hcl with hcl
    subst hcl
    have hp := hs.pathsOk.2.2.2.1 _ (mem_of_mapGet harmed) clientId (some path) rfl
    injection hp with hp
    exact ⟨hp.trans hw.symm, hn.symm⟩
  · simp [step, harmed, onTimer, cleanupFire, hreg, newEffects, killProcess_trace, hobj,
      containerNameOf]
  · simp only [step, harmed, onTimer, cleanupFire, dropTimer_clients, hreg]
    exact mapGet_suspend_new' _ (by simp) (by simp) hs.fresh.2.1
  · intro s₂ k env hk hrm
    simp [step, hk, resumeTask, cleanupAfterStop, hrm, newEffects, mapGet_mapDelete_self]

/-- Witness of C4: tenant t1 is idle when its timer 0 fires. -/
theorem cleanup_timer_tears_down_witness :
    (mapGet idleState.timers 0 = some (.cleanup "t1" (some "./docker_workspaces/t1")) ∧
      mapGet idleState.clients (some "t1") = some 0) ∧
    newEffects idleState (step idleState (.timerFire 0))
      = [Effect.dockerStop "rust-workspace-t1"] :=
  ⟨⟨by decide, by decide⟩,
    (cleanup_timer_tears_down idleState ⟨_, rfl⟩ 0 "t1" "./docker_workspaces/t1" 0
      { containerName := "rust-workspace-t1", workspace := "./docker_workspaces/t1",
        connections := JSSet.empty, process := none }
      (by decide) (by decide) (by decide)).2.1⟩

/-! ## C5: a failed teardown -/

/-- C5 (the code breaks it): the cleanup timer of tenant t1 fires and
`removeContainer` is rejected (the stop command cannot be run), or the stop
succeeds and the workspace removal fails.  The error is caught, the
`pendingCleanups` entry is removed, and the session stays in `clients`, with
no connection and no timer left to reclaim it. -/
theorem failed_cleanup_leaves_session_registered :
    (mapHas (run init stopFailTrace).clients (some "t1") = true ∧
      connectionsOf (run init stopFailTrace) "t1" = [] ∧
      (run init stopFailTrace).pendingCleanups = [] ∧
      (run init stopFailTrace).timers = [] ∧ (run init stopFailTrace).tasks = []) ∧
    (mapHas (run init rmFailTrace).clients (some "t1") = true ∧
      connectionsOf (run init rmFailTrace) "t1" = [] ∧
      (run init rmFailTrace).pendingCleanups = [] ∧
      (run init rmFailTrace).timers = [] ∧ (run init rmFailTrace).tasks = []) :=
  ⟨⟨by decide, by decide, by decide, by decide, by decide⟩,
    ⟨by decide, by decide, by decide, by decide, by decide⟩⟩

/-! ## C6: one timer per tenant -/

/-- C6 (the code breaks it): the callback that `scheduleCleanup` arms ends
with `pendingCleanups.delete(clientId)` (line 233), after its wait and
whichever timer the entry names by then.  In `orphanTrace` the callback of
timer 0 awaits the stop of the container while timer 1 is armed and
registered for tenant t1; when it resumes it deletes the entry of timer 1,
which stays armed.  `scheduleCleanup` then finds no entry, clears nothing and
leaves two armed timers for the tenant, and so does the close of the tenant's
last connection. -/
theorem scheduleCleanup_leaves_two_armed_timers :
    Reachable (run init orphanTrace) ∧
    mapGet (run init (orphanTrace.take 9)).pendingCleanups "t1" = some 1 ∧
    mapGet (run init (orphanTrace.take 9)).tasks 1
      = some (.cleanupStop "t1" (some "./docker_workspaces/t1")) ∧
    mapGet (run init (orphanTrace.take 10)).pendingCleanups "t1" = none ∧
    armedFor (run init (orphanTrace.take 10)) "t1" = [1] ∧
    armedFor (run init orphanTrace) "t1" = [1] ∧
    mapGet (run init orphanTrace).pendingCleanups "t1" = none ∧
    armedFor (scheduleCleanup (run init orphanTrace) "t1" (some "./docker_workspaces/t1")) "t1"
      = [1, 2] ∧
    armedFor (step (run init orphanTrace) (.close 2)) "t1" = [1, 2] :=
  ⟨⟨orphanTrace, rfl⟩, by decide, by decide, by decide, by decide, by decide, by decide,
    by decide, by decide⟩

/-- The timer that `pendingCleanups` names: from a reachable state,
`scheduleCleanup` registers in `pendingCleanups` one timer for the tenant, a new one, armed with the tenant
and the workspace path; the timer registered before, if any, is cleared and
is never armed again; every other timer and the entries of other tenants are
as before; and when every armed cleanup timer of the tenant was the
registered one, exactly one cleanup timer of the tenant is armed afterwards.
`cancelCleanup` clears the registered timer and removes the entry, leaving
other timers and entries as they are, and returns the state unchanged when
no timer is registered for the tenant. -/
theorem scheduleCleanup_cancelCleanup_spec (s : State) (hs : Reachable s) (c : ClientId)
    (w : Option String) :
    (mapGet (scheduleCleanup s c w).pendingCleanups c = some s.nextTimer ∧
      mapGet (scheduleCleanup s c w).timers s.nextTimer = some (.cleanup c w) ∧
      mapGet s.timers s.nextTimer = none ∧
      (∀ t, mapGet s.pendingCleanups c = some t →
        ∀ es : List Event, mapGet (run (scheduleCleanup s c w) es).timers t = none) ∧
      (∀ t, t ≠ s.nextTimer → mapGet s.pendingCleanups c ≠ some t →
        mapGet (scheduleCleanup s c w).timers t = mapGet s.timers t) ∧
      (∀ c', c' ≠ c →
        mapGet (scheduleCleanup s c w).pendingCleanups c' = mapGet s.pendingCleanups c') ∧
      ((∀ t ∈ armedFor s c, mapGet s.pendingCleanups c = some t) →
        armedFor (scheduleCleanup s c w) c = [s.nextTimer])) ∧
    (∀ t, mapGet s.pendingCleanups c = some t →
      mapGet (cancelCleanup s c).timers t = none ∧
      mapGet (cancelCleanup s c).pendingCleanups c = none ∧
      (∀ t', t' ≠ t → mapGet (cancelCleanup s c).timers t' = mapGet s.timers t') ∧
      (∀ c', c' ≠ c →
        mapGet (cancelCleanup s c).pendingCleanups c' = mapGet s.pendingCleanups c')) ∧
    (mapGet s.pendingCleanups c = none → cancelCleanup s c = s) := by
  have hf := hs.fresh
  refine ⟨⟨scheduleCleanup_pending_self s c w, scheduleCleanup_timers_new hf.1 c w, ?_, ?_, ?_,
    fun c' hc' => scheduleCleanup_pending_other s c w hc', armedFor_scheduleCleanup c w⟩, ?_,
    cancelCleanup_of_none⟩
  · rw [mapGet_eq_none_iff]
    intro p hp h
    exact absurd (hf.1 p hp) (by simp [h])
  · intro t ht es
    have hlt : t < s.nextTimer := hf.2.2 _ (mem_of_mapGet ht)
    refine not_armed_forever ?_ ?_ es
    · rw [scheduleCleanup_timers_old c w (ne_of_lt hlt)]
      simp [ht]
    · rw [scheduleCleanup_nextTimer]
      exact Nat.lt_succ_of_lt hlt
  · intro t ht hne
    rw [scheduleCleanup_timers_old c w ht]
    simp [hne]
  · intro t ht
    refine ⟨?_, ?_, ?_, ?_⟩
    · rw [cancelCleanup_timers_get]; simp [ht]
    · rw [cancelCleanup_pendingCleanups]; exact mapGet_mapDelete_self _ _
    · intro t' ht'
      rw [cancelCleanup_timers_get]
      simp [ht, Ne.symm ht']
    · intro c' hc'
      rw [cancelCleanup_pendingCleanups]; exact mapGet_mapDelete_ne _ hc'

/-- The registered timer at a concrete state: tenant t1 is idle with timer 0
registered and armed. -/
theorem scheduleCleanup_cancelCleanup_spec_witness :
    mapGet (scheduleCleanup idleState "t1" none).pendingCleanups "t1" = some idleState.nextTimer ∧
    mapGet (scheduleCleanup idleState "t1" none).timers idleState.nextTimer
      = some (.cleanup "t1" none) :=
  have h := scheduleCleanup_cancelCleanup_spec idleState ⟨_, rfl⟩ "t1" none
  ⟨h.1.1, h.1.2.1⟩

/-! ## C7: one running process per tenant -/

/-- C7 (the code breaks it): after `clobberTrace` process 2 of tenant t1 is
running, neither signalled nor exited, and the slot `client.process` is
empty: the close handler of process 1 cleared the slot that already held
process 2.  The next executeCommand therefore signals nothing and spawns
process 3: two processes of the tenant run at once. -/
theorem close_of_old_process_clears_slot_of_new :
    Reachable (run init clobberTrace) ∧
    liveProcs (run init clobberTrace) 0 = [2] ∧
    processSlot (run init clobberTrace) 0 = none ∧
    Reachable (run init clobberTrace2) ∧
    liveProcs (run init clobberTrace2) 0 = [2, 3] ∧
    processSlot (run init clobberTrace2) 0 = some 3 :=
  ⟨⟨clobberTrace, rfl⟩, by decide, by decide, ⟨clobberTrace2, rfl⟩, by decide, by decide⟩

/-! ## C8: executeCommand dispatches to the shell or to a process -/

/-- C8 (the code breaks it): the handler takes the session object with
`clients.get(clientId)` before its waits (line 475) and works on that object
after them, and the listeners of the process it spawns (lines 528-553)
capture the same object.  In `staleAwaitTrace` the executeCommand of connection 2, which owns
no shell, holds session object 0 while a concurrent connect replaces the
entry of tenant t1 by session object 1, to which connection 1 is attached.
The handler then spawns process 2 and stores it in object 0: the slot of the
registered session of t1 stays empty, and every stdout, stderr and close
event of process 2 is sent to connection 0, a member of object 0, and not to
connection 1, the open connection in the connection set of the tenant. -/
theorem stale_session_gets_process_output :
    Reachable staleExecState ∧
    (getConn (run init staleAwaitTrace) 2).clientId = some "t1" ∧
    (getConn (run init staleAwaitTrace) 2).ptyProcess = none ∧
    mapGet (run init staleAwaitTrace).tasks 6 = some (.execCopyMain 2 0 none) ∧
    mapGet (run init staleAwaitTrace).clients (some "t1") = some 1 ∧
    newEffects (run init staleAwaitTrace) staleExecState
      = [.spawn 2 "rust-workspace-t1" "cd /usr/src/app && cargo run"] ∧
    staleExecState.procs[2]? = some ⟨.session 0, false, false⟩ ∧
    mapGet staleExecState.clients (some "t1") = some 1 ∧
    processSlot staleExecState 1 = none ∧
    processSlot staleExecState 0 = some 2 ∧
    connectionsOf staleExecState "t1" = [1] ∧
    isOpen staleExecState 1 = true ∧
    newEffects staleExecState (step staleExecState (.procStdout 2 "Hello"))
      = [.send 0 (.runOutput "Hello")] ∧
    newEffects staleExecState (step staleExecState (.procStderr 2 "warning: unused"))
      = [.send 0 (.runError "warning: unused")] ∧
    newEffects staleExecState (step staleExecState (.procClose 2 (some 0)))
      = [.send 0 (.runStatus (.exited (some 0)))] := by
  refine ⟨⟨_, rfl⟩, ?_, ?_, ?_, ?_, ?_, ?_, ?_, ?_, ?_, ?_, ?_, ?_, ?_, ?_⟩ <;> decide

/-- The session object the handler holds: executeCommand for a registered
tenant whose container is ready and whose file writes and copies succeed passes its three waits and dispatches.
If the handling connection then owns an interactive shell, the handler writes
`cargo <command>` and a carriage return to that shell, arms the 500 ms
notice and spawns no process.  Otherwise it spawns one process, stores it in
the slot of the session object it holds, and from then on every stdout,
stderr and close event of that process is sent as runOutput, runError and
runStatus to every open connection in the connection set of that object
(`broadcastEffects`, whose members `count_broadcastEffects` and
`mem_broadcastEffects` give).  Before either, the
process in the slot, if any, is sent SIGTERM.  The command is `run` when it
is absent or empty. -/
theorem executeCommand_dispatch (ws : Ws) (r : Ref) (client : Client)
    (command : Option String) :
    (cargoCommand none = "run" ∧ cargoCommand (some "") = "run" ∧
      ∀ c : String, c ≠ "" → cargoCommand (some c) = c) ∧
    (∀ (s : State) (clientId : ClientId) (a b : Option String) (env : SyncEnv),
      Reachable s → CanReceive s ws → (getConn s ws).clientId = some clientId →
      mapGet s.clients (some clientId) = some r → s.heap[r]? = some client →
      mapGet (step s (.message ws (.executeCommand a b command) env)).tasks s.nextTask
        = some (.execStatus ws r a b command)) ∧
    (∀ (s : State) (k : TaskId) (a b d : String) (env : SyncEnv),
      Reachable s → s.heap[r]? = some client →
      mapGet s.tasks k = some (.execStatus ws r (some a) (some b) command) →
      env.writeCargoErr = none → env.writeMainErr = none →
      mapGet (step s (.resume k (.status true d) env)).tasks s.nextTask
        = some (.execCopyCargo ws r command)) ∧
    (∀ (s : State) (k : TaskId) (env : SyncEnv),
      Reachable s → s.heap[r]? = some client →
      mapGet s.tasks k = some (.execCopyCargo ws r command) →
      mapGet (step s (.resume k (.settled none) env)).tasks s.nextTask
        = some (.execCopyMain ws r command)) ∧
    (∀ (s : State) (k : TaskId) (env : SyncEnv),
      s.heap[r]? = some client → mapGet s.tasks k = some (.execCopyMain ws r command) →
      (∀ pty, (getConn s ws).ptyProcess = some pty →
        newEffects s (step s (.resume k (.settled none) env))
          = killEffects s r ++ [Effect.ptyWrite pty ("cargo " ++ cargoCommand command ++ "\r"),
              Effect.setTimeout s.nextTimer 500] ∧
        (step s (.resume k (.settled none) env)).procs.length = s.procs.length) ∧
      ((getConn s ws).ptyProcess = none →
        newEffects s (step s (.resume k (.settled none) env))
          = killEffects s r ++ [Effect.spawn s.procs.length client.containerName
              ("cd /usr/src/app && cargo " ++ cargoCommand command)] ∧
        (step s (.resume k (.settled none) env)).procs.length = s.procs.length + 1 ∧
        processSlot (step s (.resume k (.settled none) env)) r = some s.procs.length ∧
        ∀ (es : List Event) (p : Proc),
          (run (step s (.resume k (.settled none) env)) es).procs[s.procs.length]? = some p →
          p.exited = false →
          (∀ chunk, newEffects (run (step s (.resume k (.settled none) env)) es)
              (step (run (step s (.resume k (.settled none) env)) es)
                (.procStdout s.procs.length chunk))
            = broadcastEffects (run (step s (.resume k (.settled none) env)) es) r
                (.runOutput chunk)) ∧
          (∀ chunk, newEffects (run (step s (.resume k (.settled none) env)) es)
              (step (run (step s (.resume k (.settled none) env)) es)
                (.procStderr s.procs.length chunk))
            = broadcastEffects (run (step s (.resume k (.settled none) env)) es) r
                (.runError chunk)) ∧
          (∀ code, newEffects (run (step s (.resume k (.settled none) env)) es)
              (step (run (step s (.resume k (.settled none) env)) es)
                (.procClose s.procs.length code))
            = broadcastEffects (run (step s (.resume k (.settled none) env)) es) r
                (.runStatus (.exited code))))) := by
  refine ⟨cargoCommand_spec, ?_, ?_, ?_, ?_⟩
  · intro s clientId a b env hs hopen hbound hreg hobj
    rw [step_message hopen]
    simp only [onMessage, execStart, hbound, Option.isSome_some, Bool.true_and, mapHas,
      cancelCleanup_clients, hreg, getClient, cancelCleanup_heap, hobj, Option.map_some',
      if_true]
    exact mapGet_suspend_new' _ (by simp) (by simp) hs.fresh.2.1
  · intro s k a b d env hs hobj hk hw1 hw2
    rw [step_resume hk]
    simp only [resumeTask, Option.getD_some, execAfterStatus, takeTask_heap, hobj, if_true,
      writeFileError, hw1, hw2, writeFileSync]
    exact mapGet_suspend_new' _ (by simp) rfl (takeTask_fresh hs.fresh k)
  · intro s k env hs hobj hk
    rw [step_resume hk]
    simp only [resumeTask, Option.getD_some, execAfterCopyCargo, takeTask_heap, hobj]
    exact mapGet_suspend_new' _ (by simp) rfl (takeTask_fresh hs.fresh k)
  · intro s k env hobj hk
    have hstep : step s (.resume k (.settled none) env)
        = execDispatch (takeTask s k) ws r command := by
      rw [step_resume hk]; rfl
    rw [hstep]
    have hobj' : (takeTask s k).heap[r]? = some client := hobj
    refine ⟨fun pty hpty => ?_, fun hpty => ?_⟩
    · exact execDispatch_pty (takeTask s k) ws r client command pty hobj' hpty
    · obtain ⟨h1, h2, h3, h4⟩ := execDispatch_spawn (takeTask s k) ws r client command hobj' hpty
      refine ⟨h1, h3, h4, fun es p hp he => ?_⟩
      obtain ⟨p', hp', ho⟩ := (grow_run es (Grow.refl _)).2.2.2.2.2 _ _ h2
      have hp2 : (run (execDispatch (takeTask s k) ws r command) es).procs[s.procs.length]?
          = some p' := hp'
      rw [hp] at hp2
      injection hp2 with hp2
      subst hp2
      exact procEvents_broadcast _ _ p r hp ho he

/-- The dispatch at a concrete state: in `preDispatchState` the second copy
succeeds; connection 1 owns no shell, so process 1 is spawned and stored in
the slot. -/
theorem executeCommand_dispatch_witness :
    (preDispatchState.heap[0]? = some attachedClient ∧
      mapGet preDispatchState.tasks 5 = some (.execCopyMain 1 0 none) ∧
      (getConn preDispatchState 1).ptyProcess = none) ∧
    newEffects preDispatchState (step preDispatchState (.resume 5 (.settled none) ok))
      = killEffects preDispatchState 0 ++ [Effect.spawn preDispatchState.procs.length
          attachedClient.containerName ("cd /usr/src/app && cargo " ++ cargoCommand none)] ∧
    processSlot (step preDispatchState (.resume 5 (.settled none) ok)) 0
      = some preDispatchState.procs.length :=
  have h := ((executeCommand_dispatch 1 0 attachedClient none).2.2.2.2 preDispatchState 5 ok
    (by decide) (by decide)).2 (by decide)
  ⟨⟨by decide, by decide, by decide⟩, h.1, h.2.2.1⟩

/-! ## C9: executeCommand when a write or a copy fails -/

/-- C9: executeCommand for a registered tenant whose container is ready, when
a file write or a copy fails.  Up to the failure the handler issues only the
`clearTimeout` of `cancelCleanup`, the status probe, the file writes and the
copies; at the failure it sends one error message to the originating
connection and ends.  It writes to no shell, spawns and signals no process,
and leaves the session objects, so the slot of the tenant's process, and the
processes as they were. -/
theorem executeCommand_file_failure (ws : Ws) (r : Ref) (client : Client)
    (command : Option String) :
    (∀ (s : State) (clientId : ClientId) (a b : Option String) (env : SyncEnv),
      CanReceive s ws → (getConn s ws).clientId = some clientId →
      mapGet s.clients (some clientId) = some r → s.heap[r]? = some client →
      newEffects s (step s (.message ws (.executeCommand a b command) env))
          = cancelEffects s clientId ++ [Effect.dockerExecStatus client.containerName] ∧
        (step s (.message ws (.executeCommand a b command) env)).heap = s.heap ∧
        (step s (.message ws (.executeCommand a b command) env)).procs = s.procs) ∧
    (∀ (s : State) (k : TaskId) (a b : Option String) (d : String) (env : SyncEnv),
      s.heap[r]? = some client → mapGet s.tasks k = some (.execStatus ws r a b command) →
      (step s (.resume k (.status true d) env)).heap = s.heap ∧
      (step s (.resume k (.status true d) env)).procs = s.procs ∧
      (∀ e, writeFileError a env.writeCargoErr = some e →
        newEffects s (step s (.resume k (.status true d) env))
            = writeEffects (client.workspace ++ "/Cargo.toml") a
              ++ [Effect.send ws (processingError e)] ∧
          (step s (.resume k (.status true d) env)).tasks = mapDelete s.tasks k) ∧
      (∀ e, writeFileError a env.writeCargoErr = none →
        writeFileError b env.writeMainErr = some e →
        newEffects s (step s (.resume k (.status true d) env))
            = writeEffects (client.workspace ++ "/Cargo.toml") a
              ++ writeEffects (client.workspace ++ "/src/main.rs") b
              ++ [Effect.send ws (processingError e)] ∧
          (step s (.resume k (.status true d) env)).tasks = mapDelete s.tasks k) ∧
      (writeFileError a env.writeCargoErr = none → writeFileError b env.writeMainErr = none →
        newEffects s (step s (.resume k (.status true d) env))
            = writeEffects (client.workspace ++ "/Cargo.toml") a
              ++ writeEffects (client.workspace ++ "/src/main.rs") b
              ++ [Effect.dockerCp client.containerName (client.workspace ++ "/Cargo.toml")
                    "/usr/src/app/Cargo.toml"])) ∧
    (∀ (s : State) (k : TaskId) (env : SyncEnv),
      s.heap[r]? = some client → mapGet s.tasks k = some (.execCopyCargo ws r command) →
      (∀ e, newEffects s (step s (.resume k (.settled (some e)) env))
            = [Effect.send ws (processingError e)] ∧
          (step s (.resume k (.settled (some e)) env)).heap = s.heap ∧
          (step s (.resume k (.settled (some e)) env)).procs = s.procs ∧
          (step s (.resume k (.settled (some e)) env)).tasks = mapDelete s.tasks k) ∧
      newEffects s (step s (.resume k (.settled none) env))
          = [Effect.dockerCp client.containerName (client.workspace ++ "/src/main.rs")
              "/usr/src/app/src/main.rs"] ∧
        (step s (.resume k (.settled none) env)).heap = s.heap ∧
        (step s (.resume k (.settled none) env)).procs = s.procs) ∧
    (∀ (s : State) (k : TaskId) (env : SyncEnv) (e : String),
      s.heap[r]? = some client → mapGet s.tasks k = some (.execCopyMain ws r command) →
      newEffects s (step s (.resume k (.settled (some e)) env))
          = [Effect.send ws (processingError e)] ∧
        (step s (.resume k (.settled (some e)) env)).heap = s.heap ∧
        (step s (.resume k (.settled (some e)) env)).procs = s.procs ∧
        (step s (.resume k (.settled (some e)) env)).tasks = mapDelete s.tasks k) := by
  refine ⟨?_, ?_, ?_, ?_⟩
  · intro s clientId a b env hopen hbound hreg hobj
    rw [step_message hopen]
    simp [onMessage, execStart, hbound, mapHas, hreg, getClient, hobj, newEffects,
      cancelCleanup_trace]
  · intro s k a b d env hobj hk
    rw [step_resume hk]
    cases a <;> cases b <;> cases h1 : env.writeCargoErr <;> cases h2 : env.writeMainErr <;>
      simp [resumeTask, execAfterStatus, hobj, writeFileError, writeFileSync, writeEffects,
        newEffects, h1, h2]
  · intro s k env hobj hk
    refine ⟨fun e => ?_, ?_⟩
    · rw [step_resume hk]
      simp [resumeTask, execAfterCopyCargo, hobj, newEffects]
    · rw [step_resume hk]
      simp [resumeTask, execAfterCopyCargo, hobj, newEffects]
  · intro s k env e hobj hk
    rw [step_resume hk]
    simp [resumeTask, execAfterCopyMain, newEffects]

/-- Witness of C9: in `preDispatchState` the second copy fails. -/
theorem executeCommand_file_failure_witness :
    (preDispatchState.heap[0]? = some attachedClient ∧
      mapGet preDispatchState.tasks 5 = some (.execCopyMain 1 0 none)) ∧
    newEffects preDispatchState
        (step preDispatchState (.resume 5 (.settled (some "No such container")) ok))
      = [Effect.send 1 (processingError "No such container")] ∧
    (step preDispatchState (.resume 5 (.settled (some "No such container")) ok)).heap
      = preDispatchState.heap :=
  have h := (executeCommand_file_failure 1 0 attachedClient none).2.2.2 preDispatchState 5 ok
    "No such container" (by decide) (by decide)
  ⟨⟨by decide, by decide⟩, h.1, h.2.1⟩

/-! ## C10: stopCommand -/

/-- C10 (the code breaks it): the handler tests whether the requesting
connection owns a shell (`if (ptyProcess)`, line 560), not whether the
command runs in it, although its comments read 'If running in the terminal,
send CTRL+C' and 'Otherwise kill the separate process' (lines 559, 569).  In
`spawnedState` process 1 is in the slot of tenant t1, and connection 0, bound
to t1, owns an interactive shell in which no command runs.  Its stopCommand
writes the interrupt character to that shell and announces 'Process stopped';
process 1 is not signalled, stays in the slot and keeps running. -/
theorem stopCommand_from_shell_owner_keeps_process :
    Reachable spawnedState ∧
    (getConn spawnedState 0).clientId = some "t1" ∧
    mapGet spawnedState.clients (some "t1") = some 0 ∧
    processSlot spawnedState 0 = some 1 ∧
    newEffects spawnedState (step spawnedState (.message 0 .stopCommand ok))
      = [Effect.ptyWrite 0 "\x03", Effect.send 0 (.runStatus .stopped)] ∧
    processSlot (step spawnedState (.message 0 .stopCommand ok)) 0 = some 1 ∧
    liveProcs (step spawnedState (.message 0 .stopCommand ok)) 0 = [1] :=
  ⟨⟨spawnedTrace, rfl⟩, by decide, by decide, by decide, by decide, by decide, by decide⟩

/-- The two branches of stopCommand, from a connection bound to a registered
tenant whose session has a spawned process in its slot.  If the connection owns no
interactive shell, the handler sends SIGTERM to that process and clears the
slot; if it owns one, the handler writes the interrupt character to that
shell and leaves the process and the slot as they are.  In both cases it then
sends runStatus 'Process stopped' once to every open connection in the
connection set of the session, and to no other. -/
theorem stopCommand_spec (s : State) (ws : Ws) (clientId : ClientId) (r : Ref)
    (client : Client) (pid : Pid) (env : SyncEnv)
    (hopen : CanReceive s ws) (hbound : (getConn s ws).clientId = some clientId)
    (hreg : mapGet s.clients (some clientId) = some r) (hobj : s.heap[r]? = some client)
    (hslot : client.process = some pid) :
    ((getConn s ws).ptyProcess = none →
      newEffects s (step s (.message ws .stopCommand env))
          = [Effect.procKill pid (some "SIGTERM")]
            ++ broadcastEffects s r (.runStatus .stopped) ∧
        processSlot (step s (.message ws .stopCommand env)) r = none) ∧
    (∀ pty, (getConn s ws).ptyProcess = some pty →
      newEffects s (step s (.message ws .stopCommand env))
          = [Effect.ptyWrite pty "\x03"] ++ broadcastEffects s r (.runStatus .stopped) ∧
        (step s (.message ws .stopCommand env)).heap = s.heap ∧
        (step s (.message ws .stopCommand env)).procs = s.procs) ∧
    (∀ w, w ∈ client.connections.elems → isOpen s w = true →
      (broadcastEffects s r (.runStatus .stopped)).count
        (Effect.send w (.runStatus .stopped)) = 1) ∧
    (∀ e ∈ broadcastEffects s r (.runStatus .stopped),
      ∃ w, w ∈ client.connections.elems ∧ isOpen s w = true ∧
        e = Effect.send w (.runStatus .stopped)) := by
  have hslot' : (s.heap[r]?).bind (fun c => c.process) = some pid := by simp [hobj, hslot]
  refine ⟨fun hpty => ?_, fun pty hpty => ?_,
    fun w hw ho => count_broadcastEffects s r client _ w hobj hw ho,
    fun e he => mem_broadcastEffects hobj he⟩
  · rw [step_message hopen]
    have hk := killProcess_heap_get s r client hobj
    constructor
    · simp [onMessage, onStop, hbound, mapHas, hreg, getClient, hobj, hpty, hslot, newEffects,
        killProcess_trace, broadcastEffects_killProcess]
    · simp [onMessage, onStop, hbound, mapHas, hreg, getClient, hobj, hpty, hslot, processSlot,
        hk]
  · rw [step_message hopen]
    simp [onMessage, onStop, hbound, mapHas, hreg, getClient, hobj, hpty, newEffects]
    exact broadcastEffects_congr rfl rfl r _

/-- The branch without a shell at a concrete state: connection 1 of
`spawnedState`, which owns no shell, stops process 1. -/
theorem stopCommand_spec_witness :
    (CanReceive spawnedState 1 ∧ (getConn spawnedState 1).clientId = some "t1" ∧
      mapGet spawnedState.clients (some "t1") = some 0 ∧
      spawnedState.heap[0]? = some spawnedClient) ∧
    newEffects spawnedState (step spawnedState (.message 1 .stopCommand ok))
      = [Effect.procKill 1 (some "SIGTERM")]
        ++ broadcastEffects spawnedState 0 (.runStatus .stopped) ∧
    processSlot (step spawnedState (.message 1 .stopCommand ok)) 0 = none :=
  have h := stopCommand_spec spawnedState 1 "t1" 0 spawnedClient 1 ok (by decide) (by decide)
    (by decide) (by decide) rfl
  ⟨⟨by decide, by decide, by decide, by decide⟩, h.1 (by decide)⟩

/-! ## C11: updateFile with only `mainRs` -/

theorem flatten_map_singleton {α β : Type} (f : α → β) (l : List α) :
    (l.map (fun a => [f a])).flatten = l.map f := by
  induction l with
  | nil => rfl
  | cons a l ih => simp [ih]

theorem mem_mainChangedEffects {s : State} {ws : Ws} {client : Client} {text : String}
    {e : Effect} (h : e ∈ mainChangedEffects s ws client text) :
    ∃ w, e = .send w (.fileChanged "src/main.rs" (some text)) ∧ w ≠ ws ∧
      w ∈ client.connections.elems ∧ isOpen s w = true := by
  simp only [mainChangedEffects, List.mem_map, List.mem_filter] at h
  obtain ⟨w, ⟨hm, hc⟩, rfl⟩ := h
  simp only [Bool.and_eq_true, decide_eq_true_eq] at hc
  exact ⟨w, rfl, hc.1, hm, hc.2⟩

theorem count_mainChangedEffects (s : State) (ws : Ws) (client : Client) (text : String)
    (w : Ws) (hne : w ≠ ws) (hm : w ∈ client.connections.elems) (ho : isOpen s w = true) :
    (mainChangedEffects s ws client text).count (.send w (.fileChanged "src/main.rs" (some text)))
      = 1 := by
  have hinj : Function.Injective (fun w => Effect.send w (.fileChanged "src/main.rs" (some text))) := by
    intro a b hab
    injection hab
  rw [mainChangedEffects, List.count_map_of_injective _ _ hinj]
  apply List.count_eq_one_of_mem (client.connections.nodup.filter _)
  simp [List.mem_filter, hm, hne, ho]

/-- C11 (the code breaks it): the handler takes the session object with
`clients.get(clientId)` before its waits (line 593) and notifies the
connections of that object after them (line 628).  In `staleUpdateTrace` the
updateFile of connection 0, with only `mainRs`, holds session object 0 while
a concurrent connect replaces the entry of tenant t1 by session object 1, to
which connection 1 is attached.  The file is then written and copied once,
connection 0 receives `fileUpdated`, and the `fileChanged` goes to connection
2, a member of object 0; connection 1, the open connection in the connection
set of the tenant, receives nothing. -/
theorem stale_session_gets_file_notification :
    Reachable staleUpdateState ∧
    mapGet (run init staleUpdateTrace).tasks 3
      = some (.updateStatus 0 0 (.text "fn main() {}") .absent) ∧
    mapGet (run init staleUpdateTrace).clients (some "t1") = some 1 ∧
    connectionsOf (run init staleUpdateTrace) "t1" = [1] ∧
    newEffects (run init staleUpdateTrace) staleUpdateState
      = [.writeFile "./docker_workspaces/t1/src/main.rs" (some "fn main() {}"),
         .dockerCp "rust-workspace-t1" "./docker_workspaces/t1/src/main.rs"
           "/usr/src/app/src/main.rs",
         .send 0 (.fileUpdated "src/main.rs"),
         .send 2 (.fileChanged "src/main.rs" (some "fn main() {}"))] ∧
    staleUpdateState.tasks = [] ∧
    connectionsOf staleUpdateState "t1" = [1] ∧
    isOpen staleUpdateState 1 = true ∧
    received 1 (newEffects (run init staleUpdateTrace) staleUpdateState) = [] := by
  refine ⟨Reachable.run ⟨_, rfl⟩ _, ?_, ?_, ?_, ?_, ?_, ?_, ?_, ?_⟩ <;> decide

/-- The session object the handler holds: updateFile with `mainRs` a string
and `cargoToml` absent, on a connection bound to a registered tenant, when the write and the copy succeed.
Up to its first wait the handler issues only the `clearTimeout` of
`cancelCleanup` and the status probe.  When the status arrives it writes
src/main.rs of the workspace once and copies it into the container once
(after the `queued` notice when the container is not ready).  When the copy has
succeeded it sends one `fileUpdated` for src/main.rs to the originating
connection and one `fileChanged` for src/main.rs with the new content to
every other open connection of the session, and ends.  So Cargo.toml is
neither written nor copied, the originating connection gets no
`fileChanged`, and the other connections get nothing else. -/
theorem updateFile_mainRs_only (ws : Ws) (r : Ref) (text : String) :
    (∀ (s : State) (clientId : ClientId) (client : Client) (env : SyncEnv),
      Reachable s → CanReceive s ws → (getConn s ws).clientId = some clientId →
      mapGet s.clients (some clientId) = some r → s.heap[r]? = some client →
      newEffects s (step s (.message ws (.updateFile (.text text) .absent) env))
          = cancelEffects s clientId ++ [Effect.dockerExecStatus client.containerName] ∧
        mapGet (step s (.message ws (.updateFile (.text text) .absent) env)).tasks s.nextTask
          = some (.updateStatus ws r (.text text) .absent)) ∧
    (∀ (s : State) (k : TaskId) (client : Client) (ready : Bool) (d : String) (env : SyncEnv),
      Reachable s → s.heap[r]? = some client →
      mapGet s.tasks k = some (.updateStatus ws r (.text text) .absent) →
      env.writeMainErr = none →
      newEffects s (step s (.resume k (.status ready d) env))
          = queuedEffects ws ready ++
            [Effect.writeFile (client.workspace ++ "/src/main.rs") (some text),
             Effect.dockerCp client.containerName (client.workspace ++ "/src/main.rs")
               "/usr/src/app/src/main.rs"] ∧
        mapGet (step s (.resume k (.status ready d) env)).tasks s.nextTask
          = some (.updateCopyMain ws r (.text text) .absent)) ∧
    (∀ (s : State) (k : TaskId) (client : Client) (env : SyncEnv),
      s.heap[r]? = some client →
      mapGet s.tasks k = some (.updateCopyMain ws r (.text text) .absent) →
      newEffects s (step s (.resume k (.settled none) env))
          = Effect.send ws (.fileUpdated "src/main.rs") :: mainChangedEffects s ws client text ∧
        (step s (.resume k (.settled none) env)).tasks = mapDelete s.tasks k ∧
        (newEffects s (step s (.resume k (.settled none) env))).count
            (Effect.send ws (.fileUpdated "src/main.rs")) = 1 ∧
        (∀ file content, Effect.send ws (.fileChanged file content)
            ∉ newEffects s (step s (.resume k (.settled none) env))) ∧
        (∀ w, w ≠ ws → w ∈ client.connections.elems → isOpen s w = true →
          (newEffects s (step s (.resume k (.settled none) env))).count
              (Effect.send w (.fileChanged "src/main.rs" (some text))) = 1 ∧
          ∀ m, Effect.send w m ∈ newEffects s (step s (.resume k (.settled none) env)) →
            m = .fileChanged "src/main.rs" (some text))) := by
  refine ⟨?_, ?_, ?_⟩
  · intro s clientId client env hs hopen hbound hreg hobj
    rw [step_message hopen]
    refine ⟨?_, ?_⟩
    · simp [onMessage, updateStart, hbound, mapHas, hreg, getClient, hobj, newEffects,
        cancelCleanup_trace]
    · simp only [onMessage, updateStart, hbound, Option.isSome_some, Bool.true_and, mapHas,
        cancelCleanup_clients, hreg, getClient, cancelCleanup_heap, hobj, Option.map_some',
        if_true]
      exact mapGet_suspend_new' _ (by simp) (by simp) hs.fresh.2.1
  · intro s k client ready d env hs hobj hk hw
    rw [step_resume hk]
    refine ⟨?_, ?_⟩
    · cases ready <;>
        simp [resumeTask, updateAfterStatus, hobj, hw, newEffects, queuedEffects, send]
    · cases ready <;>
        simp only [resumeTask, Option.getD_some, updateAfterStatus, takeTask_heap, hobj, hw,
          if_true, Bool.false_eq_true, if_false] <;>
        exact mapGet_suspend_new' _ (by simp) (by simp) (takeTask_fresh hs.fresh k)
  · intro s k client env hobj hk
    have hstep : step s (.resume k (.settled none) env)
        = updateNotify (send (takeTask s k) ws (.fileUpdated "src/main.rs")) ws r
            (.text text) .absent := by
      rw [step_resume hk]
      simp [resumeTask, updateAfterCopyMain, updateCargo, hobj, send]
    have heff : newEffects s (step s (.resume k (.settled none) env))
        = Effect.send ws (.fileUpdated "src/main.rs") :: mainChangedEffects s ws client text := by
      rw [hstep]
      simp [updateNotify, hobj, send, newEffects, mainChangedEffects, isOpen, getConn,
        List.flatMap, flatten_map_singleton]
    refine ⟨heff, ?_, ?_, ?_, ?_⟩
    · rw [hstep]
      simp [updateNotify, hobj, send]
    · rw [heff, List.count_cons_self]
      have : (mainChangedEffects s ws client text).count
          (Effect.send ws (.fileUpdated "src/main.rs")) = 0 := by
        rw [List.count_eq_zero]
        intro hm
        obtain ⟨w, he, -⟩ := mem_mainChangedEffects hm
        injection he with _ he
        cases he
      omega
    · intro file content hm
      rw [heff, List.mem_cons] at hm
      rcases hm with hm | hm
      · injection hm with _ hm
        cases hm
      · obtain ⟨w, he, hne, -⟩ := mem_mainChangedEffects hm
        injection he with he _
        exact hne he.symm
    · intro w hne hm ho
      rw [heff]
      refine ⟨?_, ?_⟩
      · rw [List.count_cons_of_ne, count_mainChangedEffects s ws client text w hne hm ho]
        intro he
        injection he with he _
        exact hne he
      · intro m hmem
        rw [List.mem_cons] at hmem
        rcases hmem with he | he
        · injection he with he _
          exact absurd he hne
        · obtain ⟨w', he', -⟩ := mem_mainChangedEffects he
          exact (Effect.send.inj he').2

/-- The notification at a concrete state: in `updatingState` the copy of
src/main.rs succeeds: connection 0 gets the acknowledgement and connection 1
the new content. -/
theorem updateFile_mainRs_only_witness :
    (updatingState.heap[0]? = some updatingClient ∧
      mapGet updatingState.tasks 3 = some (.updateCopyMain 0 0 (.text "fn main()") .absent)) ∧
    newEffects updatingState (step updatingState (.resume 3 (.settled none) ok))
      = [Effect.send 0 (.fileUpdated "src/main.rs"),
         Effect.send 1 (.fileChanged "src/main.rs" (some "fn main()"))] :=
  have h := (updateFile_mainRs_only 0 0 "fn main()").2.2 updatingState 3 updatingClient ok
    (by decide) (by decide)
  ⟨⟨by decide, by decide⟩, h.1.trans (by decide)⟩

/-! ## Auxiliary facts on container acquisition -/

theorem checkReady_fail {rt : Runtime} {n : String} {r : Nat} (hp : (rt.probe r).isSome)
    (hr : r < MAX_RETRIES) :
    checkReady rt n r = (Call.probe n :: Call.retryTimer RETRY_INTERVAL ::
      (checkReady rt n (r + 1)).1, (checkReady rt n (r + 1)).2) := by
  obtain ⟨e, he⟩ := Option.isSome_iff_exists.mp hp
  rw [checkReady]
  simp [he, hr]

theorem checkReady_spent {rt : Runtime} {n : String} {r : Nat} (hp : (rt.probe r).isSome)
    (hr : ¬ r < MAX_RETRIES) :
    checkReady rt n r = ([Call.probe n], .rejected setupTimedOut) := by
  obtain ⟨e, he⟩ := Option.isSome_iff_exists.mp hp
  rw [checkReady]
  simp [he, hr]

theorem checkReady_ready {rt : Runtime} {n : String} {r : Nat} (hp : rt.probe r = none) :
    checkReady rt n r = ([Call.probe n, Call.listProcesses n], .resolved ()) := by
  rw [checkReady]
  simp [hp]

theorem failedProbes_succ (n : String) (j : Nat) :
    failedProbes n (j + 1)
      = Call.probe n :: Call.retryTimer RETRY_INTERVAL :: failedProbes n j := by
  simp [failedProbes, List.replicate_succ]

theorem count_probe_failedProbes (n : String) (j : Nat) :
    (failedProbes n j).count (Call.probe n) = j := by
  induction j with
  | zero => simp [failedProbes]
  | succ j ih => rw [failedProbes_succ]; simp [ih]

theorem count_retryTimer_failedProbes (n : String) (j : Nat) :
    (failedProbes n j).count (Call.retryTimer RETRY_INTERVAL) = j := by
  induction j with
  | zero => simp [failedProbes]
  | succ j ih => rw [failedProbes_succ]; simp [ih]

/-- From counter `r`, when the next `j` probes fail and the one after them
succeeds within the budget. -/
theorem checkReady_first_success (rt : Runtime) (n : String) (j : Nat) :
    ∀ r : Nat, r + j ≤ MAX_RETRIES → (∀ i, r ≤ i → i < r + j → (rt.probe i).isSome) →
      rt.probe (r + j) = none →
      checkReady rt n r
        = (failedProbes n j ++ [Call.probe n, Call.listProcesses n], .resolved ()) := by
  induction j with
  | zero =>
    intro r _ _ hok
    rw [checkReady_ready (by simpa using hok)]
    simp [failedProbes]
  | succ j ih =>
    intro r hr hfail hok
    have h1 : (rt.probe r).isSome := hfail r (le_refl r) (by omega)
    rw [checkReady_fail h1 (by omega), ih (r + 1) (by omega)
      (fun i hi hi' => hfail i (by omega) (by omega)) (by rw [← hok]; congr 1; omega),
      failedProbes_succ]
    rfl

/-- From counter `r`, when every probe of the remaining budget fails. -/
theorem checkReady_all_fail (rt : Runtime) (n : String) (j : Nat) :
    ∀ r : Nat, r + j = MAX_RETRIES → (∀ i, r ≤ i → i ≤ MAX_RETRIES → (rt.probe i).isSome) →
      checkReady rt n r = (failedProbes n j ++ [Call.probe n], .rejected setupTimedOut) := by
  induction j with
  | zero =>
    intro r hr hfail
    rw [checkReady_spent (hfail r (le_refl r) (by omega)) (by omega)]
    simp [failedProbes]
  | succ j ih =>
    intro r hr hfail
    rw [checkReady_fail (hfail r (le_refl r) (by omega)) (by omega),
      ih (r + 1) (by omega) (fun i hi hi' => hfail i (by omega) hi'), failedProbes_succ]
    rfl

theorem mem_checkReady (rt : Runtime) (n : String) (j : Nat) :
    ∀ r : Nat, MAX_RETRIES - r = j → ∀ c ∈ (checkReady rt n r).1,
      c = Call.probe n ∨ c = Call.listProcesses n ∨ c = Call.retryTimer RETRY_INTERVAL := by
  induction j with
  | zero =>
    intro r hr c hc
    cases hp : rt.probe r with
    | none =>
      rw [checkReady_ready hp] at hc
      simp at hc
      tauto
    | some e =>
      rw [checkReady_spent (by simp [hp]) (by omega)] at hc
      simp at hc
      tauto
  | succ j ih =>
    intro r hr c hc
    cases hp : rt.probe r with
    | none =>
      rw [checkReady_ready hp] at hc
      simp at hc
      tauto
    | some e =>
      rw [checkReady_fail (by simp [hp]) (by omega)] at hc
      simp only [List.mem_cons] at hc
      rcases hc with hc | hc | hc
      · exact Or.inl hc
      · exact Or.inr (Or.inr hc)
      · exact ih (r + 1) (by omega) c hc

theorem checkReady_not_thrown (rt : Runtime) (n : String) (j : Nat) :
    ∀ r : Nat, MAX_RETRIES - r = j → ∀ e, (checkReady rt n r).2 ≠ .thrown e := by
  induction j with
  | zero =>
    intro r hr e
    cases hp : rt.probe r with
    | none => rw [checkReady_ready hp]; simp
    | some e' => rw [checkReady_spent (by simp [hp]) (by omega)]; simp
  | succ j ih =>
    intro r hr e
    cases hp : rt.probe r with
    | none => rw [checkReady_ready hp]; simp
    | some e' =>
      rw [checkReady_fail (by simp [hp]) (by omega)]
      exact ih (r + 1) (by omega) e

theorem checkReady_processes (rt : Runtime) (n : String) (p : Option String) (j : Nat) :
    ∀ r : Nat, MAX_RETRIES - r = j →
      checkReady { rt with processes := p } n r = checkReady rt n r := by
  induction j with
  | zero =>
    intro r hr
    cases hp : rt.probe r with
    | none => rw [checkReady_ready hp, checkReady_ready (by simpa using hp)]
    | some e' =>
      rw [checkReady_spent (by simp [hp]) (by omega),
        checkReady_spent (by simp [hp]) (by omega)]
  | succ j ih =>
    intro r hr
    cases hp : rt.probe r with
    | none => rw [checkReady_ready hp, checkReady_ready (by simpa using hp)]
    | some e' =>
      have h1 : checkReady { rt with processes := p } n r
          = (Call.probe n :: Call.retryTimer RETRY_INTERVAL ::
              (checkReady { rt with processes := p } n (r + 1)).1,
            (checkReady { rt with processes := p } n (r + 1)).2) :=
        checkReady_fail (by simp [hp]) (by omega)
      have h2 : checkReady rt n r
          = (Call.probe n :: Call.retryTimer RETRY_INTERVAL :: (checkReady rt n (r + 1)).1,
            (checkReady rt n (r + 1)).2) :=
        checkReady_fail (by simp [hp]) (by omega)
      rw [h1, h2, ih (r + 1) (by omega)]

theorem thenReadiness_spec (rt : Runtime) (n : String) (calls : List Call) :
    (thenReadiness rt n calls).1 = calls ++ (checkContainerReadiness rt n).1 ∧
    ((checkContainerReadiness rt n).2 = .resolved () →
      (thenReadiness rt n calls).2 = .resolved n) ∧
    (∀ e, (checkContainerReadiness rt n).2 = .rejected e →
      (thenReadiness rt n calls).2 = .rejected e) ∧
    (∀ v, (thenReadiness rt n calls).2 = .resolved v →
      v = n ∧ (checkContainerReadiness rt n).2 = .resolved ()) := by
  refine ⟨rfl, fun h => ?_, fun e h => ?_, fun v h => ?_⟩
  · simp [thenReadiness, h]
  · simp [thenReadiness, h]
  · simp only [thenReadiness] at h
    cases hc : (checkContainerReadiness rt n).2 with
    | resolved u =>
      rw [hc] at h
      injection h with h
      exact ⟨h.symm, rfl⟩
    | rejected e => rw [hc] at h; cases h
    | thrown e => rw [hc] at h; cases h

theorem createContainer_cases (rt : Runtime) (clientId workspacePath : String) :
    (∃ calls, createContainer rt clientId workspacePath
      = thenReadiness rt (containerNameOf clientId) calls) ∨
    (∀ v, (createContainer rt clientId workspacePath).2 ≠ .resolved v) := by
  have hname : "rust-workspace-" ++ toLowerCase clientId = containerNameOf clientId := rfl
  simp only [createContainer, hname]
  repeat' split
  all_goals first
    | exact Or.inl ⟨_, rfl⟩
    | exact Or.inr (fun v h => by cases h)

/-! ## C12: the three paths of createContainer -/

/-- C12: `createContainer` for tenant `clientId`, with `containerNameOf clientId`
the derived name.  If the listing fails the promise is rejected after that
one call.  If the trimmed listing is not the derived name, the image
definition is written and build+run is issued; a failed build+run rejects.
If the trimmed listing is the derived name, the container is inspected; a
failed inspection rejects; when it reports `true` neither start nor
build+run is issued; otherwise exactly one start is issued, and a failed
start rejects.  Every path that has not rejected continues with the
readiness check, whose calls are probes, the process listing and retry
timers only; the promise is resolved, with the derived name, only when the
readiness check has resolved, after the calls of that check, and is rejected
when the readiness check is rejected. -/
theorem createContainer_paths (rt : Runtime) (clientId workspacePath : String) :
    (∀ e, rt.listing = .error e →
      createContainer rt clientId workspacePath
        = ([.listContainers (containerNameOf clientId)], .rejected e)) ∧
    (∀ out, rt.listing = .ok out → jsTrim out ≠ containerNameOf clientId →
      rt.imageDefinition = none →
      (∀ e, rt.buildRun = some e →
        createContainer rt clientId workspacePath
          = ([.listContainers (containerNameOf clientId), .writeImageDefinition workspacePath,
              .buildAndRun (containerNameOf clientId) workspacePath], .rejected e)) ∧
      (rt.buildRun = none →
        createContainer rt clientId workspacePath
          = thenReadiness rt (containerNameOf clientId)
              [.listContainers (containerNameOf clientId), .writeImageDefinition workspacePath,
                .buildAndRun (containerNameOf clientId) workspacePath])) ∧
    (∀ out, rt.listing = .ok out → jsTrim out = containerNameOf clientId →
      (∀ e, rt.inspect = .error e →
        createContainer rt clientId workspacePath
          = ([.listContainers (containerNameOf clientId),
              .inspectRunning (containerNameOf clientId)], .rejected e)) ∧
      (∀ running, rt.inspect = .ok running → jsTrim running = "true" →
        createContainer rt clientId workspacePath
          = thenReadiness rt (containerNameOf clientId)
              [.listContainers (containerNameOf clientId),
                .inspectRunning (containerNameOf clientId)]) ∧
      (∀ running, rt.inspect = .ok running → jsTrim running ≠ "true" →
        (∀ e, rt.start = some e →
          createContainer rt clientId workspacePath
            = ([.listContainers (containerNameOf clientId),
                .inspectRunning (containerNameOf clientId),
                .start (containerNameOf clientId)], .rejected e)) ∧
        (rt.start = none →
          createContainer rt clientId workspacePath
            = thenReadiness rt (containerNameOf clientId)
                [.listContainers (containerNameOf clientId),
                  .inspectRunning (containerNameOf clientId),
                  .start (containerNameOf clientId)]))) ∧
    (∀ calls : List Call,
      (thenReadiness rt (containerNameOf clientId) calls).1
          = calls ++ (checkContainerReadiness rt (containerNameOf clientId)).1 ∧
        (∀ e, (checkContainerReadiness rt (containerNameOf clientId)).2 = .rejected e →
          (thenReadiness rt (containerNameOf clientId) calls).2 = .rejected e) ∧
        ((checkContainerReadiness rt (containerNameOf clientId)).2 = .resolved () →
          (thenReadiness rt (containerNameOf clientId) calls).2
            = .resolved (containerNameOf clientId))) ∧
    (∀ c ∈ (checkContainerReadiness rt (containerNameOf clientId)).1,
      c = Call.probe (containerNameOf clientId) ∨
      c = Call.listProcesses (containerNameOf clientId) ∨
      c = Call.retryTimer RETRY_INTERVAL) ∧
    (∀ v, (createContainer rt clientId workspacePath).2 = .resolved v →
      v = containerNameOf clientId ∧
      (checkContainerReadiness rt (containerNameOf clientId)).2 = .resolved () ∧
      ∃ calls, (createContainer rt clientId workspacePath).1
        = calls ++ (checkContainerReadiness rt (containerNameOf clientId)).1) := by
  have hname : "rust-workspace-" ++ toLowerCase clientId = containerNameOf clientId := rfl
  refine ⟨?_, ?_, ?_, ?_, ?_, ?_⟩
  · intro e h
    simp [createContainer, h, hname]
  · intro out h hne hw
    refine ⟨fun e hb => ?_, fun hb => ?_⟩
    · simp [createContainer, h, hname, hne, hw, hb]
    · simp [createContainer, h, hname, hne, hw, hb]
  · intro out h heq
    refine ⟨fun e hi => ?_, fun running hi hr => ?_, fun running hi hr => ⟨fun e hs => ?_, fun hs => ?_⟩⟩
    · simp [createContainer, h, hname, heq, hi]
    · simp [createContainer, h, hname, heq, hi, hr]
    · simp [createContainer, h, hname, heq, hi, hr, hs]
    · simp [createContainer, h, hname, heq, hi, hr, hs]
  · intro calls
    have h := thenReadiness_spec rt (containerNameOf clientId) calls
    exact ⟨h.1, h.2.2.1, h.2.1⟩
  · exact mem_checkReady rt _ _ 0 rfl
  · intro v hv
    have key : ∀ calls, (thenReadiness rt (containerNameOf clientId) calls).2 = .resolved v →
        v = containerNameOf clientId ∧
        (checkContainerReadiness rt (containerNameOf clientId)).2 = .resolved () ∧
        ∃ pre, (thenReadiness rt (containerNameOf clientId) calls).1
          = pre ++ (checkContainerReadiness rt (containerNameOf clientId)).1 := by
      intro calls h
      have h' := (thenReadiness_spec rt (containerNameOf clientId) calls).2.2.2 v h
      exact ⟨h'.1, h'.2, calls, rfl⟩
    rcases createContainer_cases rt clientId workspacePath with ⟨calls, hc⟩ | hc
    · rw [hc] at hv ⊢
      exact key calls hv
    · exact absurd hv (hc v)

/-- Witness of C12: the container of tenant t1 is listed and reported as not
running, and `docker start` succeeds: the readiness check follows the start. -/
theorem createContainer_paths_witness :
    (stuckRuntime.listing = .ok "rust-workspace-t1\n" ∧
      jsTrim "rust-workspace-t1\n" = containerNameOf "t1" ∧
      stuckRuntime.inspect = .ok "false\n" ∧ jsTrim "false\n" ≠ "true" ∧
      stuckRuntime.start = none) ∧
    createContainer stuckRuntime "t1" "./docker_workspaces/t1"
      = thenReadiness stuckRuntime (containerNameOf "t1")
          [.listContainers (containerNameOf "t1"), .inspectRunning (containerNameOf "t1"),
            .start (containerNameOf "t1")] :=
  ⟨⟨rfl, by decide, rfl, by decide, rfl⟩,
    (((createContainer_paths stuckRuntime "t1" "./docker_workspaces/t1").2.2.1
      "rust-workspace-t1\n" rfl (by decide)).2.2 "false\n" rfl (by decide)).2 rfl⟩

/-! ## C13: the readiness check stops at the first successful probe -/

/-- C13: when the first successful readiness probe is probe number `k`
(counted from 1) and `k` is at most 31, `checkContainerReadiness` issues the
`k - 1` failed probes, each followed by the arming of a 2000 ms retry timer,
then the successful probe and the process listing, and resolves.  So exactly
`k` probes are issued, the successful one is the last, and the answer of the
process listing does not matter. -/
theorem checkContainerReadiness_first_success (rt : Runtime) (containerName : String) (k : Nat)
    (hk : 1 ≤ k) (hbudget : k ≤ 31)
    (hfail : ∀ i, i + 1 < k → (rt.probe i).isSome) (hok : rt.probe (k - 1) = none) :
    checkContainerReadiness rt containerName
      = (failedProbes containerName (k - 1)
          ++ [Call.probe containerName, Call.listProcesses containerName], .resolved ()) ∧
    (checkContainerReadiness rt containerName).1.count (Call.probe containerName) = k ∧
    ∀ p, checkContainerReadiness { rt with processes := p } containerName
      = checkContainerReadiness rt containerName := by
  have h : checkContainerReadiness rt containerName
      = (failedProbes containerName (k - 1)
          ++ [Call.probe containerName, Call.listProcesses containerName], .resolved ()) :=
    checkReady_first_success rt containerName (k - 1) 0 (by simp [MAX_RETRIES]; omega)
      (fun i _ hi => hfail i (by omega)) (by simpa using hok)
  refine ⟨h, ?_, fun p => checkReady_processes rt containerName p _ 0 rfl⟩
  rw [h, List.count_append, count_probe_failedProbes]
  simp
  omega

/-- Witness of C13: the third probe is the first to succeed. -/
theorem checkContainerReadiness_first_success_witness :
    ((∀ i, i + 1 < 3 → (freshRuntime.probe i).isSome) ∧ freshRuntime.probe (3 - 1) = none) ∧
    checkContainerReadiness freshRuntime "rust-workspace-t1"
      = ([.probe "rust-workspace-t1", .retryTimer 2000,
          .probe "rust-workspace-t1", .retryTimer 2000,
          .probe "rust-workspace-t1", .listProcesses "rust-workspace-t1"], .resolved ()) :=
  have hf : ∀ i, i + 1 < 3 → (freshRuntime.probe i).isSome := by
    intro i hi
    have : i < 2 := by omega
    simp [freshRuntime, readyAt, this]
  ⟨⟨hf, rfl⟩, (checkContainerReadiness_first_success freshRuntime "rust-workspace-t1" 3
    (by decide) (by decide) hf rfl).1⟩

/-! ## C14: the readiness check gives up after its retry budget -/

/-- C14: when every readiness probe fails, `checkContainerReadiness` ends: it
issues 30 failed probes, each followed by the arming of a 2000 ms retry
timer, then one more probe, and rejects with the setup-timed-out error. So
31 probes and MAX_RETRIES = 30 retry timers are issued, and the last call is
the probe that spends the budget. -/
theorem checkContainerReadiness_times_out (rt : Runtime) (containerName : String)
    (hfail : ∀ i, (rt.probe i).isSome) :
    checkContainerReadiness rt containerName
      = (failedProbes containerName 30 ++ [Call.probe containerName],
          .rejected "Container setup timed out. Dependencies not installed properly.") ∧
    MAX_RETRIES = 30 ∧
    (checkContainerReadiness rt containerName).1.count (Call.probe containerName) = 31 ∧
    (checkContainerReadiness rt containerName).1.count (Call.retryTimer 2000) = 30 ∧
    (checkContainerReadiness rt containerName).1.length = 61 := by
  have h : checkContainerReadiness rt containerName
      = (failedProbes containerName 30 ++ [Call.probe containerName],
          .rejected setupTimedOut) :=
    checkReady_all_fail rt containerName 30 0 rfl (fun i _ _ => hfail i)
  refine ⟨h, rfl, ?_, ?_, ?_⟩
  · rw [h, List.count_append, count_probe_failedProbes]
    simp
  · rw [h, List.count_append]
    have := count_retryTimer_failedProbes containerName 30
    simp only [RETRY_INTERVAL] at this
    rw [this]
    simp
  · rw [h]
    simp [failedProbes]

/-- Witness of C14: the container of tenant t1 never becomes ready. -/
theorem checkContainerReadiness_times_out_witness :
    (∀ i, (stuckRuntime.probe i).isSome) ∧
    (checkContainerReadiness stuckRuntime "rust-workspace-t1").2
      = .rejected "Container setup timed out. Dependencies not installed properly." ∧
    (checkContainerReadiness stuckRuntime "rust-workspace-t1").1.count
      (Call.probe "rust-workspace-t1") = 31 :=
  have h := checkContainerReadiness_times_out stuckRuntime "rust-workspace-t1" (fun _ => rfl)
  ⟨fun _ => rfl, by rw [h.1], h.2.2.1⟩

/-! ## What belongs to a one-shot request is touched by its own events only -/

theorem track_frame {τ : Tracked} {x y : State} (hr : y.requests = x.requests)
    (hk : y.tasks = x.tasks) (ht : y.timers = x.timers) (hp : y.procs = x.procs)
    (h : Track τ x) : Track τ y := by
  unfold Track
  rw [hr, hk, ht, hp]
  exact h

theorem track_emit {τ : Tracked} {x : State} (e : Effect) (h : Track τ x) : Track τ (emit x e) :=
  track_frame rfl rfl rfl rfl h

theorem track_emits {τ : Tracked} {x : State} (es : List Effect) (h : Track τ x) :
    Track τ (emits x es) :=
  track_frame rfl rfl rfl rfl h

theorem track_send {τ : Tracked} {x : State} (w : Ws) (m : Msg) (h : Track τ x) :
    Track τ (send x w m) :=
  track_frame rfl rfl rfl rfl h

theorem track_broadcast {τ : Tracked} {x : State} (r : Ref) (m : Msg) (h : Track τ x) :
    Track τ (broadcast x r m) :=
  track_frame rfl rfl rfl rfl h

theorem track_updConn {τ : Tracked} {x : State} (ws : Ws) (f : Conn → Conn) (h : Track τ x) :
    Track τ (updConn x ws f) :=
  track_frame rfl rfl rfl rfl h

theorem track_updClient {τ : Tracked} {x : State} (r : Ref) (f : Client → Client)
    (h : Track τ x) : Track τ (updClient x r f) :=
  track_frame rfl rfl rfl rfl h

theorem track_delPending {τ : Tracked} {x : State} (c : ClientId) (h : Track τ x) :
    Track τ (delPending x c) :=
  track_frame rfl rfl rfl rfl h

theorem track_setPending {τ : Tracked} {x : State} (c : ClientId) (t : TimerId)
    (h : Track τ x) : Track τ (setPending x c t) :=
  track_frame rfl rfl rfl rfl h

theorem track_delClient {τ : Tracked} {x : State} (c : Option ClientId) (h : Track τ x) :
    Track τ (delClient x c) :=
  track_frame rfl rfl rfl rfl h

theorem track_registerClient {τ : Tracked} {x : State} (c : Option ClientId) (cl : Client)
    (h : Track τ x) : Track τ (registerClient x c cl) :=
  track_frame rfl rfl rfl rfl h

theorem track_setTerminal {τ : Tracked} {x : State} (w : Ws) (t : Terminal) (h : Track τ x) :
    Track τ (setTerminal x w t) :=
  track_frame rfl rfl rfl rfl h

theorem track_delTerminal {τ : Tracked} {x : State} (w : Ws) (h : Track τ x) :
    Track τ (delTerminal x w) :=
  track_frame rfl rfl rfl rfl h

theorem track_addPty {τ : Tracked} {x : State} (w : Ws) (h : Track τ x) :
    Track τ (addPty x w) :=
  track_frame rfl rfl rfl rfl h

theorem track_addConn {τ : Tracked} {x : State} (c : Conn) (h : Track τ x) :
    Track τ (addConn x c) :=
  track_frame rfl rfl rfl rfl h

theorem track_dropTimer {τ : Tracked} {x : State} (t : TimerId) (h : Track τ x) :
    Track τ (dropTimer x t) :=
  ⟨h.1, h.2.1, fun p hp => h.2.2.1 p (mem_of_mem_mapDelete hp).1, h.2.2.2.1, h.2.2.2.2.1,
    h.2.2.2.2.2⟩

theorem track_takeTask {τ : Tracked} {x : State} (k : TaskId)
    (hk : ∀ kt : TaskId × Task, τ.task = some kt → kt.1 ≠ k) (h : Track τ x) :
    Track τ (takeTask x k) := by
  refine ⟨h.1, fun p hp => h.2.1 p (mem_of_mem_mapDelete hp).1, h.2.2.1, h.2.2.2.1,
    fun kt hkt => ?_, h.2.2.2.2.2⟩
  simp only [takeTask_tasks]
  rw [mapGet_mapDelete_ne _ (hk kt hkt)]
  exact h.2.2.2.2.1 kt hkt

theorem mapGet_append_of_some {κ ν : Type} [DecidableEq κ] {m : List (κ × ν)} {k : κ} {v : ν}
    (h : mapGet m k = some v) (l : List (κ × ν)) : mapGet (m ++ l) k = some v := by
  rw [mapGet_append, h]
  rfl

theorem track_suspend {τ : Tracked} {x : State} (t : Task) (ht : taskReq t ≠ some τ.req)
    (h : Track τ x) : Track τ (suspend x t) := by
  refine ⟨h.1, fun p hp hq => ?_, h.2.2.1, h.2.2.2.1, fun kt hkt => ?_, h.2.2.2.2.2⟩
  · simp only [suspend_tasks, List.mem_append, List.mem_singleton] at hp
    rcases hp with hp | hp
    · exact h.2.1 p hp hq
    · subst hp
      exact absurd hq ht
  · simp only [suspend_tasks]
    exact mapGet_append_of_some (h.2.2.2.2.1 kt hkt) _

theorem track_setTimeout {τ : Tracked} {x : State} (a : TimerAction) (d : Nat)
    (ha : timerReq a ≠ some τ.req) (h : Track τ x) : Track τ (setTimeout x a d) := by
  refine ⟨h.1, h.2.1, fun p hp hq => ?_, h.2.2.2.1, h.2.2.2.2.1, h.2.2.2.2.2⟩
  simp only [setTimeout_timers, List.mem_append, List.mem_singleton] at hp
  rcases hp with hp | hp
  · exact h.2.2.1 p hp hq
  · subst hp
    exact absurd hq ha

theorem updProc_procs_get (s : State) (i j : Pid) (f : Proc → Proc) :
    (updProc s i f).procs[j]? = if i = j then (s.procs[j]?).map f else s.procs[j]? := by
  rw [updProc_procs]
  cases hi : s.procs[i]? with
  | none =>
    by_cases hij : i = j
    · subst hij; simp [hi]
    · simp [hij]
  | some a =>
    have hlt : i < s.procs.length := (List.getElem?_eq_some_iff.mp hi).1
    by_cases hij : i = j
    · subst hij; simp [List.getElem?_set, hlt, hi]
    · simp [List.getElem?_set, hij]

theorem updRequest_requests_get (s : State) (i j : ReqId) (f : Request → Request) :
    (updRequest s i f).requests[j]? = if i = j then (s.requests[j]?).map f else s.requests[j]? := by
  rw [updRequest_requests]
  cases hi : s.requests[i]? with
  | none =>
    by_cases hij : i = j
    · subst hij; simp [hi]
    · simp [hij]
  | some a =>
    have hlt : i < s.requests.length := (List.getElem?_eq_some_iff.mp hi).1
    by_cases hij : i = j
    · subst hij; simp [List.getElem?_set, hlt, hi]
    · simp [List.getElem?_set, hij]

theorem track_addProc {τ : Tracked} {x : State} (p : Proc) (hp : ownerReq p.owner ≠ some τ.req)
    (h : Track τ x) : Track τ (addProc x p) := by
  refine ⟨h.1, h.2.1, h.2.2.1, fun pid p' hp' hq => ?_, h.2.2.2.2.1, fun pid hpid => ?_, h.2.2.2.2.2.2⟩
  · simp only [addProc_procs] at hp'
    by_cases hlt : pid < x.procs.length
    · rw [List.getElem?_append_left hlt] at hp'
      exact h.2.2.2.1 pid p' hp' hq
    · rw [List.getElem?_append_right (not_lt.mp hlt)] at hp'
      have : p' = p := by
        cases hi : pid - x.procs.length with
        | zero => simp [hi] at hp'; exact hp'.symm
        | succ n => simp [hi] at hp'
      subst this
      exact absurd hq hp
  · obtain ⟨p', hp', ho⟩ := h.2.2.2.2.2.1 pid hpid
    have hlt : pid < x.procs.length := (List.getElem?_eq_some_iff.mp hp').1
    exact ⟨p', by simp only [addProc_procs]; rw [List.getElem?_append_left hlt]; exact hp', ho⟩

theorem track_updProc {τ : Tracked} {x : State} (pid : Pid) (f : Proc → Proc)
    (hf : ∀ p, (f p).owner = p.owner ∧ (f p).exited = p.exited)
    (h : Track τ x) : Track τ (updProc x pid f) := by
  refine ⟨h.1, h.2.1, h.2.2.1, fun pid' p' hp' hq => ?_, h.2.2.2.2.1, fun pid' hpid => ?_, h.2.2.2.2.2.2⟩
  · rw [updProc_procs_get] at hp'
    split at hp'
    · obtain ⟨p, hp, rfl⟩ := Option.map_eq_some'.mp hp'
      rw [(hf p).1] at hq
      exact h.2.2.2.1 pid' p hp hq
    · exact h.2.2.2.1 pid' p' hp' hq
  · obtain ⟨p', hp', ho, he⟩ := h.2.2.2.2.2.1 pid' hpid
    rw [updProc_procs_get]
    split
    · rename_i hpp
      subst hpp
      exact ⟨f p', by simp [hp'], (hf p').1.trans ho, (hf p').2.trans he⟩
    · exact ⟨p', hp', ho, he⟩

theorem track_markSignalled {τ : Tracked} {x : State} (pid : Pid) (h : Track τ x) :
    Track τ (markSignalled x pid) :=
  track_updProc pid _ (fun _ => ⟨rfl, rfl⟩) h

theorem track_markExited {τ : Tracked} {x : State} (pid : Pid) (hne : some pid ≠ τ.proc)
    (h : Track τ x) : Track τ (markExited x pid) := by
  refine ⟨h.1, h.2.1, h.2.2.1, fun pid' p' hp' hq => ?_, h.2.2.2.2.1, fun pid' hpid => ?_, h.2.2.2.2.2.2⟩
  · rw [markExited, updProc_procs_get] at hp'
    split at hp'
    · obtain ⟨p, hp, rfl⟩ := Option.map_eq_some'.mp hp'
      exact h.2.2.2.1 pid' p hp hq
    · exact h.2.2.2.1 pid' p' hp' hq
  · obtain ⟨p', hp', ho⟩ := h.2.2.2.2.2.1 pid' hpid
    have hne' : pid ≠ pid' := fun he => hne (by rw [he, hpid])
    exact ⟨p', by rw [markExited, updProc_procs_get, if_neg hne']; exact hp',
      ho⟩

theorem track_updRequest {τ : Tracked} {x : State} (q : ReqId) (f : Request → Request)
    (hq : q ≠ τ.req) (h : Track τ x) : Track τ (updRequest x q f) := by
  refine ⟨?_, h.2.1, h.2.2.1, h.2.2.2.1, h.2.2.2.2.1, h.2.2.2.2.2.1, ?_⟩
  · rw [updRequest_requests_get, if_neg hq]
    exact h.1
  · have := h.2.2.2.2.2.2
    rw [updRequest_requests]
    split <;> simpa using this

theorem track_addRequest {τ : Tracked} {x : State} (q : Request)
    (hq : x.requests.length ≠ τ.req) (h : Track τ x) : Track τ (addRequest x q) := by
  refine ⟨?_, h.2.1, h.2.2.1, h.2.2.2.1, h.2.2.2.2.1, h.2.2.2.2.2.1, ?_⟩
  swap
  · have := h.2.2.2.2.2.2
    simp only [addRequest_requests, List.length_append, List.length_singleton]
    omega
  simp only [addRequest_requests]
  by_cases hlt : τ.req < x.requests.length
  · rw [List.getElem?_append_left hlt]
    exact h.1
  · have h1 := h.1
    have hle : x.requests.length ≤ τ.req := not_lt.mp hlt
    rw [List.getElem?_eq_none hle] at h1
    rw [← h1]
    exact List.getElem?_eq_none
      (by simp only [List.length_append, List.length_singleton]; omega)

theorem track_clearTimeout {τ : Tracked} {x : State} (t : TimerId) (h : Track τ x) :
    Track τ (clearTimeout x t) :=
  track_emit _ (track_dropTimer t h)

theorem track_cancelCleanup {τ : Tracked} {x : State} (c : ClientId) (h : Track τ x) :
    Track τ (cancelCleanup x c) := by
  unfold cancelCleanup
  split
  · exact track_delPending _ (track_clearTimeout _ h)
  · exact h

theorem track_scheduleCleanup {τ : Tracked} {x : State} (c : ClientId) (w : Option String)
    (h : Track τ x) : Track τ (scheduleCleanup x c w) := by
  unfold scheduleCleanup
  exact track_setPending _ _ (track_setTimeout _ _ (fun he => by cases he)
    (track_cancelCleanup c h))

theorem track_killProcess {τ : Tracked} {x : State} (r : Ref) (h : Track τ x) :
    Track τ (killProcess x r) := by
  unfold killProcess
  split
  · exact track_updClient _ _ (track_markSignalled _ (track_emit _ h))
  · exact h

theorem track_writeFileSync {τ : Tracked} {x : State} (path : String) (c : Option String)
    (h : Track τ x) : Track τ (writeFileSync x path c) := by
  unfold writeFileSync
  split
  · exact h
  · exact track_emit _ h
theorem track_attach {τ : Tracked} {x : State} (ws : Ws) (cols rows : Option Nat) (b : Bool)
    (h : Track τ x) : Track τ (attach x ws cols rows b) := by
  unfold attach
  try dsimp only
  repeat' first
    | with_reducible exact h | with_reducible apply track_cancelCleanup
    | with_reducible apply track_scheduleCleanup | with_reducible apply track_killProcess
    | with_reducible apply track_clearTimeout | with_reducible apply track_writeFileSync
    | with_reducible apply track_setTimeout | with_reducible apply track_suspend
    | with_reducible apply track_dropTimer | with_reducible apply track_broadcast
    | with_reducible apply track_send | with_reducible apply track_emits
    | with_reducible apply track_emit | with_reducible apply track_updConn
    | with_reducible apply track_updClient | with_reducible apply track_markSignalled
    | with_reducible apply track_delPending | with_reducible apply track_setPending
    | with_reducible apply track_delClient | with_reducible apply track_registerClient
    | with_reducible apply track_setTerminal | with_reducible apply track_delTerminal
    | with_reducible apply track_addProc | with_reducible apply track_addPty
    | split

theorem track_connectAfterStatus {τ : Tracked} {x : State} (ws : Ws) (cols rows : Option Nat) (b : Bool)
    (h : Track τ x) : Track τ (connectAfterStatus x ws cols rows b) := by
  unfold connectAfterStatus
  try dsimp only
  repeat' first
    | with_reducible exact h | with_reducible apply track_attach
    | with_reducible apply track_cancelCleanup | with_reducible apply track_scheduleCleanup
    | with_reducible apply track_killProcess | with_reducible apply track_clearTimeout
    | with_reducible apply track_writeFileSync | with_reducible apply track_setTimeout
    | with_reducible apply track_suspend | with_reducible apply track_dropTimer
    | with_reducible apply track_broadcast | with_reducible apply track_send
    | with_reducible apply track_emits | with_reducible apply track_emit
    | with_reducible apply track_updConn | with_reducible apply track_updClient
    | with_reducible apply track_markSignalled | with_reducible apply track_delPending
    | with_reducible apply track_setPending | with_reducible apply track_delClient
    | with_reducible apply track_registerClient | with_reducible apply track_setTerminal
    | with_reducible apply track_delTerminal | with_reducible apply track_addProc
    | with_reducible apply track_addPty | (intro he; cases he) | split

theorem track_connectAfterReadiness {τ : Tracked} {x : State} (ws : Ws) (cols rows : Option Nat) (err : Option String)
    (h : Track τ x) : Track τ (connectAfterReadiness x ws cols rows err) := by
  unfold connectAfterReadiness
  try dsimp only
  repeat' first
    | with_reducible exact h | with_reducible apply track_attach
    | with_reducible apply track_cancelCleanup | with_reducible apply track_scheduleCleanup
    | with_reducible apply track_killProcess | with_reducible apply track_clearTimeout
    | with_reducible apply track_writeFileSync | with_reducible apply track_setTimeout
    | with_reducible apply track_suspend | with_reducible apply track_dropTimer
    | with_reducible apply track_broadcast | with_reducible apply track_send
    | with_reducible apply track_emits | with_reducible apply track_emit
    | with_reducible apply track_updConn | with_reducible apply track_updClient
    | with_reducible apply track_markSignalled | with_reducible apply track_delPending
    | with_reducible apply track_setPending | with_reducible apply track_delClient
    | with_reducible apply track_registerClient | with_reducible apply track_setTerminal
    | with_reducible apply track_delTerminal | with_reducible apply track_addProc
    | with_reducible apply track_addPty | split

theorem track_connectAfterCreate {τ : Tracked} {x : State} (ws : Ws) (cols rows : Option Nat) (err : Option String)
    (h : Track τ x) : Track τ (connectAfterCreate x ws cols rows err) := by
  unfold connectAfterCreate
  try dsimp only
  repeat' first
    | with_reducible exact h | with_reducible apply track_attach
    | with_reducible apply track_cancelCleanup | with_reducible apply track_scheduleCleanup
    | with_reducible apply track_killProcess | with_reducible apply track_clearTimeout
    | with_reducible apply track_writeFileSync | with_reducible apply track_setTimeout
    | with_reducible apply track_suspend | with_reducible apply track_dropTimer
    | with_reducible apply track_broadcast | with_reducible apply track_send
    | with_reducible apply track_emits | with_reducible apply track_emit
    | with_reducible apply track_updConn | with_reducible apply track_updClient
    | with_reducible apply track_markSignalled | with_reducible apply track_delPending
    | with_reducible apply track_setPending | with_reducible apply track_delClient
    | with_reducible apply track_registerClient | with_reducible apply track_setTerminal
    | with_reducible apply track_delTerminal | with_reducible apply track_addProc
    | with_reducible apply track_addPty | (intro he; cases he) | split

theorem track_connectStart {τ : Tracked} {x : State} (ws : Ws) (uuid : Option String) (cols rows : Option Nat) (env : SyncEnv)
    (h : Track τ x) : Track τ (connectStart x ws uuid cols rows env) := by
  unfold connectStart
  try dsimp only
  repeat' first
    | with_reducible exact h | with_reducible apply track_cancelCleanup
    | with_reducible apply track_scheduleCleanup | with_reducible apply track_killProcess
    | with_reducible apply track_clearTimeout | with_reducible apply track_writeFileSync
    | with_reducible apply track_setTimeout | with_reducible apply track_suspend
    | with_reducible apply track_dropTimer | with_reducible apply track_broadcast
    | with_reducible apply track_send | with_reducible apply track_emits
    | with_reducible apply track_emit | with_reducible apply track_updConn
    | with_reducible apply track_updClient | with_reducible apply track_markSignalled
    | with_reducible apply track_delPending | with_reducible apply track_setPending
    | with_reducible apply track_delClient | with_reducible apply track_registerClient
    | with_reducible apply track_setTerminal | with_reducible apply track_delTerminal
    | with_reducible apply track_addProc | with_reducible apply track_addPty
    | (intro he; cases he) | split

theorem track_onInput {τ : Tracked} {x : State} (ws : Ws) (d : String)
    (h : Track τ x) : Track τ (onInput x ws d) := by
  unfold onInput
  try dsimp only
  repeat' first
    | with_reducible exact h | with_reducible apply track_cancelCleanup
    | with_reducible apply track_scheduleCleanup | with_reducible apply track_killProcess
    | with_reducible apply track_clearTimeout | with_reducible apply track_writeFileSync
    | with_reducible apply track_setTimeout | with_reducible apply track_suspend
    | with_reducible apply track_dropTimer | with_reducible apply track_broadcast
    | with_reducible apply track_send | with_reducible apply track_emits
    | with_reducible apply track_emit | with_reducible apply track_updConn
    | with_reducible apply track_updClient | with_reducible apply track_markSignalled
    | with_reducible apply track_delPending | with_reducible apply track_setPending
    | with_reducible apply track_delClient | with_reducible apply track_registerClient
    | with_reducible apply track_setTerminal | with_reducible apply track_delTerminal
    | with_reducible apply track_addProc | with_reducible apply track_addPty
    | split

theorem track_onResize {τ : Tracked} {x : State} (ws : Ws) (c r : Nat)
    (h : Track τ x) : Track τ (onResize x ws c r) := by
  unfold onResize
  try dsimp only
  repeat' first
    | with_reducible exact h | with_reducible apply track_cancelCleanup
    | with_reducible apply track_scheduleCleanup | with_reducible apply track_killProcess
    | with_reducible apply track_clearTimeout | with_reducible apply track_writeFileSync
    | with_reducible apply track_setTimeout | with_reducible apply track_suspend
    | with_reducible apply track_dropTimer | with_reducible apply track_broadcast
    | with_reducible apply track_send | with_reducible apply track_emits
    | with_reducible apply track_emit | with_reducible apply track_updConn
    | with_reducible apply track_updClient | with_reducible apply track_markSignalled
    | with_reducible apply track_delPending | with_reducible apply track_setPending
    | with_reducible apply track_delClient | with_reducible apply track_registerClient
    | with_reducible apply track_setTerminal | with_reducible apply track_delTerminal
    | with_reducible apply track_addProc | with_reducible apply track_addPty
    | split

theorem track_checkStatusStart {τ : Tracked} {x : State} (ws : Ws)
    (h : Track τ x) : Track τ (checkStatusStart x ws) := by
  unfold checkStatusStart
  try dsimp only
  repeat' first
    | with_reducible exact h | with_reducible apply track_cancelCleanup
    | with_reducible apply track_scheduleCleanup | with_reducible apply track_killProcess
    | with_reducible apply track_clearTimeout | with_reducible apply track_writeFileSync
    | with_reducible apply track_setTimeout | with_reducible apply track_suspend
    | with_reducible apply track_dropTimer | with_reducible apply track_broadcast
    | with_reducible apply track_send | with_reducible apply track_emits
    | with_reducible apply track_emit | with_reducible apply track_updConn
    | with_reducible apply track_updClient | with_reducible apply track_markSignalled
    | with_reducible apply track_delPending | with_reducible apply track_setPending
    | with_reducible apply track_delClient | with_reducible apply track_registerClient
    | with_reducible apply track_setTerminal | with_reducible apply track_delTerminal
    | with_reducible apply track_addProc | with_reducible apply track_addPty
    | (intro he; cases he) | split

theorem track_execStart {τ : Tracked} {x : State} (ws : Ws) (a b c : Option String)
    (h : Track τ x) : Track τ (execStart x ws a b c) := by
  unfold execStart
  try dsimp only
  repeat' first
    | with_reducible exact h | with_reducible apply track_cancelCleanup
    | with_reducible apply track_scheduleCleanup | with_reducible apply track_killProcess
    | with_reducible apply track_clearTimeout | with_reducible apply track_writeFileSync
    | with_reducible apply track_setTimeout | with_reducible apply track_suspend
    | with_reducible apply track_dropTimer | with_reducible apply track_broadcast
    | with_reducible apply track_send | with_reducible apply track_emits
    | with_reducible apply track_emit | with_reducible apply track_updConn
    | with_reducible apply track_updClient | with_reducible apply track_markSignalled
    | with_reducible apply track_delPending | with_reducible apply track_setPending
    | with_reducible apply track_delClient | with_reducible apply track_registerClient
    | with_reducible apply track_setTerminal | with_reducible apply track_delTerminal
    | with_reducible apply track_addProc | with_reducible apply track_addPty
    | (intro he; cases he) | split

theorem track_execAfterStatus {τ : Tracked} {x : State} (ws : Ws) (r : Ref) (a b c : Option String) (ready : Bool) (env : SyncEnv)
    (h : Track τ x) : Track τ (execAfterStatus x ws r a b c ready env) := by
  unfold execAfterStatus
  try dsimp only
  repeat' first
    | with_reducible exact h | with_reducible apply track_cancelCleanup
    | with_reducible apply track_scheduleCleanup | with_reducible apply track_killProcess
    | with_reducible apply track_clearTimeout | with_reducible apply track_writeFileSync
    | with_reducible apply track_setTimeout | with_reducible apply track_suspend
    | with_reducible apply track_dropTimer | with_reducible apply track_broadcast
    | with_reducible apply track_send | with_reducible apply track_emits
    | with_reducible apply track_emit | with_reducible apply track_updConn
    | with_reducible apply track_updClient | with_reducible apply track_markSignalled
    | with_reducible apply track_delPending | with_reducible apply track_setPending
    | with_reducible apply track_delClient | with_reducible apply track_registerClient
    | with_reducible apply track_setTerminal | with_reducible apply track_delTerminal
    | with_reducible apply track_addProc | with_reducible apply track_addPty
    | (intro he; cases he) | split

theorem track_execAfterCopyCargo {τ : Tracked} {x : State} (ws : Ws) (r : Ref) (c err : Option String)
    (h : Track τ x) : Track τ (execAfterCopyCargo x ws r c err) := by
  unfold execAfterCopyCargo
  try dsimp only
  repeat' first
    | with_reducible exact h | with_reducible apply track_cancelCleanup
    | with_reducible apply track_scheduleCleanup | with_reducible apply track_killProcess
    | with_reducible apply track_clearTimeout | with_reducible apply track_writeFileSync
    | with_reducible apply track_setTimeout | with_reducible apply track_suspend
    | with_reducible apply track_dropTimer | with_reducible apply track_broadcast
    | with_reducible apply track_send | with_reducible apply track_emits
    | with_reducible apply track_emit | with_reducible apply track_updConn
    | with_reducible apply track_updClient | with_reducible apply track_markSignalled
    | with_reducible apply track_delPending | with_reducible apply track_setPending
    | with_reducible apply track_delClient | with_reducible apply track_registerClient
    | with_reducible apply track_setTerminal | with_reducible apply track_delTerminal
    | with_reducible apply track_addProc | with_reducible apply track_addPty
    | (intro he; cases he) | split

theorem track_execDispatch {τ : Tracked} {x : State} (ws : Ws) (r : Ref) (c : Option String)
    (h : Track τ x) : Track τ (execDispatch x ws r c) := by
  unfold execDispatch
  try dsimp only
  repeat' first
    | with_reducible exact h | with_reducible apply track_cancelCleanup
    | with_reducible apply track_scheduleCleanup | with_reducible apply track_killProcess
    | with_reducible apply track_clearTimeout | with_reducible apply track_writeFileSync
    | with_reducible apply track_setTimeout | with_reducible apply track_suspend
    | with_reducible apply track_dropTimer | with_reducible apply track_broadcast
    | with_reducible apply track_send | with_reducible apply track_emits
    | with_reducible apply track_emit | with_reducible apply track_updConn
    | with_reducible apply track_updClient | with_reducible apply track_markSignalled
    | with_reducible apply track_delPending | with_reducible apply track_setPending
    | with_reducible apply track_delClient | with_reducible apply track_registerClient
    | with_reducible apply track_setTerminal | with_reducible apply track_delTerminal
    | with_reducible apply track_addProc | with_reducible apply track_addPty
    | (intro he; cases he) | split

theorem track_execAfterCopyMain {τ : Tracked} {x : State} (ws : Ws) (r : Ref) (c err : Option String)
    (h : Track τ x) : Track τ (execAfterCopyMain x ws r c err) := by
  unfold execAfterCopyMain
  try dsimp only
  repeat' first
    | with_reducible exact h | with_reducible apply track_execDispatch
    | with_reducible apply track_cancelCleanup | with_reducible apply track_scheduleCleanup
    | with_reducible apply track_killProcess | with_reducible apply track_clearTimeout
    | with_reducible apply track_writeFileSync | with_reducible apply track_setTimeout
    | with_reducible apply track_suspend | with_reducible apply track_dropTimer
    | with_reducible apply track_broadcast | with_reducible apply track_send
    | with_reducible apply track_emits | with_reducible apply track_emit
    | with_reducible apply track_updConn | with_reducible apply track_updClient
    | with_reducible apply track_markSignalled | with_reducible apply track_delPending
    | with_reducible apply track_setPending | with_reducible apply track_delClient
    | with_reducible apply track_registerClient | with_reducible apply track_setTerminal
    | with_reducible apply track_delTerminal | with_reducible apply track_addProc
    | with_reducible apply track_addPty | split

theorem track_onStop {τ : Tracked} {x : State} (ws : Ws)
    (h : Track τ x) : Track τ (onStop x ws) := by
  unfold onStop
  try dsimp only
  repeat' first
    | with_reducible exact h | with_reducible apply track_cancelCleanup
    | with_reducible apply track_scheduleCleanup | with_reducible apply track_killProcess
    | with_reducible apply track_clearTimeout | with_reducible apply track_writeFileSync
    | with_reducible apply track_setTimeout | with_reducible apply track_suspend
    | with_reducible apply track_dropTimer | with_reducible apply track_broadcast
    | with_reducible apply track_send | with_reducible apply track_emits
    | with_reducible apply track_emit | with_reducible apply track_updConn
    | with_reducible apply track_updClient | with_reducible apply track_markSignalled
    | with_reducible apply track_delPending | with_reducible apply track_setPending
    | with_reducible apply track_delClient | with_reducible apply track_registerClient
    | with_reducible apply track_setTerminal | with_reducible apply track_delTerminal
    | with_reducible apply track_addProc | with_reducible apply track_addPty
    | split

theorem track_updateStart {τ : Tracked} {x : State} (ws : Ws) (a b : Field)
    (h : Track τ x) : Track τ (updateStart x ws a b) := by
  unfold updateStart
  try dsimp only
  repeat' first
    | with_reducible exact h | with_reducible apply track_cancelCleanup
    | with_reducible apply track_scheduleCleanup | with_reducible apply track_killProcess
    | with_reducible apply track_clearTimeout | with_reducible apply track_writeFileSync
    | with_reducible apply track_setTimeout | with_reducible apply track_suspend
    | with_reducible apply track_dropTimer | with_reducible apply track_broadcast
    | with_reducible apply track_send | with_reducible apply track_emits
    | with_reducible apply track_emit | with_reducible apply track_updConn
    | with_reducible apply track_updClient | with_reducible apply track_markSignalled
    | with_reducible apply track_delPending | with_reducible apply track_setPending
    | with_reducible apply track_delClient | with_reducible apply track_registerClient
    | with_reducible apply track_setTerminal | with_reducible apply track_delTerminal
    | with_reducible apply track_addProc | with_reducible apply track_addPty
    | (intro he; cases he) | split

theorem track_updateNotify {τ : Tracked} {x : State} (ws : Ws) (r : Ref) (a b : Field)
    (h : Track τ x) : Track τ (updateNotify x ws r a b) := by
  unfold updateNotify
  try dsimp only
  repeat' first
    | with_reducible exact h | with_reducible apply track_cancelCleanup
    | with_reducible apply track_scheduleCleanup | with_reducible apply track_killProcess
    | with_reducible apply track_clearTimeout | with_reducible apply track_writeFileSync
    | with_reducible apply track_setTimeout | with_reducible apply track_suspend
    | with_reducible apply track_dropTimer | with_reducible apply track_broadcast
    | with_reducible apply track_send | with_reducible apply track_emits
    | with_reducible apply track_emit | with_reducible apply track_updConn
    | with_reducible apply track_updClient | with_reducible apply track_markSignalled
    | with_reducible apply track_delPending | with_reducible apply track_setPending
    | with_reducible apply track_delClient | with_reducible apply track_registerClient
    | with_reducible apply track_setTerminal | with_reducible apply track_delTerminal
    | with_reducible apply track_addProc | with_reducible apply track_addPty
    | split

theorem track_updateCargo {τ : Tracked} {x : State} (ws : Ws) (r : Ref) (a b : Field) (env : SyncEnv)
    (h : Track τ x) : Track τ (updateCargo x ws r a b env) := by
  unfold updateCargo
  try dsimp only
  repeat' first
    | with_reducible exact h | with_reducible apply track_updateNotify
    | with_reducible apply track_cancelCleanup | with_reducible apply track_scheduleCleanup
    | with_reducible apply track_killProcess | with_reducible apply track_clearTimeout
    | with_reducible apply track_writeFileSync | with_reducible apply track_setTimeout
    | with_reducible apply track_suspend | with_reducible apply track_dropTimer
    | with_reducible apply track_broadcast | with_reducible apply track_send
    | with_reducible apply track_emits | with_reducible apply track_emit
    | with_reducible apply track_updConn | with_reducible apply track_updClient
    | with_reducible apply track_markSignalled | with_reducible apply track_delPending
    | with_reducible apply track_setPending | with_reducible apply track_delClient
    | with_reducible apply track_registerClient | with_reducible apply track_setTerminal
    | with_reducible apply track_delTerminal | with_reducible apply track_addProc
    | with_reducible apply track_addPty | (intro he; cases he) | split

theorem track_updateAfterStatus {τ : Tracked} {x : State} (ws : Ws) (r : Ref) (a b : Field) (ready : Bool) (env : SyncEnv)
    (h : Track τ x) : Track τ (updateAfterStatus x ws r a b ready env) := by
  unfold updateAfterStatus
  try dsimp only
  repeat' first
    | with_reducible exact h | with_reducible apply track_updateCargo
    | with_reducible apply track_cancelCleanup | with_reducible apply track_scheduleCleanup
    | with_reducible apply track_killProcess | with_reducible apply track_clearTimeout
    | with_reducible apply track_writeFileSync | with_reducible apply track_setTimeout
    | with_reducible apply track_suspend | with_reducible apply track_dropTimer
    | with_reducible apply track_broadcast | with_reducible apply track_send
    | with_reducible apply track_emits | with_reducible apply track_emit
    | with_reducible apply track_updConn | with_reducible apply track_updClient
    | with_reducible apply track_markSignalled | with_reducible apply track_delPending
    | with_reducible apply track_setPending | with_reducible apply track_delClient
    | with_reducible apply track_registerClient | with_reducible apply track_setTerminal
    | with_reducible apply track_delTerminal | with_reducible apply track_addProc
    | with_reducible apply track_addPty | (intro he; cases he) | split

theorem track_updateAfterCopyMain {τ : Tracked} {x : State} (ws : Ws) (r : Ref) (a b : Field) (err : Option String) (env : SyncEnv)
    (h : Track τ x) : Track τ (updateAfterCopyMain x ws r a b err env) := by
  unfold updateAfterCopyMain
  try dsimp only
  repeat' first
    | with_reducible exact h | with_reducible apply track_updateCargo
    | with_reducible apply track_cancelCleanup | with_reducible apply track_scheduleCleanup
    | with_reducible apply track_killProcess | with_reducible apply track_clearTimeout
    | with_reducible apply track_writeFileSync | with_reducible apply track_setTimeout
    | with_reducible apply track_suspend | with_reducible apply track_dropTimer
    | with_reducible apply track_broadcast | with_reducible apply track_send
    | with_reducible apply track_emits | with_reducible apply track_emit
    | with_reducible apply track_updConn | with_reducible apply track_updClient
    | with_reducible apply track_markSignalled | with_reducible apply track_delPending
    | with_reducible apply track_setPending | with_reducible apply track_delClient
    | with_reducible apply track_registerClient | with_reducible apply track_setTerminal
    | with_reducible apply track_delTerminal | with_reducible apply track_addProc
    | with_reducible apply track_addPty | split

theorem track_updateAfterCopyCargo {τ : Tracked} {x : State} (ws : Ws) (r : Ref) (a b : Field) (err : Option String)
    (h : Track τ x) : Track τ (updateAfterCopyCargo x ws r a b err) := by
  unfold updateAfterCopyCargo
  try dsimp only
  repeat' first
    | with_reducible exact h | with_reducible apply track_updateNotify
    | with_reducible apply track_cancelCleanup | with_reducible apply track_scheduleCleanup
    | with_reducible apply track_killProcess | with_reducible apply track_clearTimeout
    | with_reducible apply track_writeFileSync | with_reducible apply track_setTimeout
    | with_reducible apply track_suspend | with_reducible apply track_dropTimer
    | with_reducible apply track_broadcast | with_reducible apply track_send
    | with_reducible apply track_emits | with_reducible apply track_emit
    | with_reducible apply track_updConn | with_reducible apply track_updClient
    | with_reducible apply track_markSignalled | with_reducible apply track_delPending
    | with_reducible apply track_setPending | with_reducible apply track_delClient
    | with_reducible apply track_registerClient | with_reducible apply track_setTerminal
    | with_reducible apply track_delTerminal | with_reducible apply track_addProc
    | with_reducible apply track_addPty | split

theorem track_onClose {τ : Tracked} {x : State} (ws : Ws)
    (h : Track τ x) : Track τ (onClose x ws) := by
  unfold onClose
  try dsimp only
  repeat' first
    | with_reducible exact h | with_reducible apply track_cancelCleanup
    | with_reducible apply track_scheduleCleanup | with_reducible apply track_killProcess
    | with_reducible apply track_clearTimeout | with_reducible apply track_writeFileSync
    | with_reducible apply track_setTimeout | with_reducible apply track_suspend
    | with_reducible apply track_dropTimer | with_reducible apply track_broadcast
    | with_reducible apply track_send | with_reducible apply track_emits
    | with_reducible apply track_emit | with_reducible apply track_updConn
    | with_reducible apply track_updClient | with_reducible apply track_markSignalled
    | with_reducible apply track_delPending | with_reducible apply track_setPending
    | with_reducible apply track_delClient | with_reducible apply track_registerClient
    | with_reducible apply track_setTerminal | with_reducible apply track_delTerminal
    | with_reducible apply track_addProc | with_reducible apply track_addPty
    | split

theorem track_cleanupFire {τ : Tracked} {x : State} (c : ClientId) (w : Option String)
    (h : Track τ x) : Track τ (cleanupFire x c w) := by
  unfold cleanupFire
  try dsimp only
  repeat' first
    | with_reducible exact h | with_reducible apply track_cancelCleanup
    | with_reducible apply track_scheduleCleanup | with_reducible apply track_killProcess
    | with_reducible apply track_clearTimeout | with_reducible apply track_writeFileSync
    | with_reducible apply track_setTimeout | with_reducible apply track_suspend
    | with_reducible apply track_dropTimer | with_reducible apply track_broadcast
    | with_reducible apply track_send | with_reducible apply track_emits
    | with_reducible apply track_emit | with_reducible apply track_updConn
    | with_reducible apply track_updClient | with_reducible apply track_markSignalled
    | with_reducible apply track_delPending | with_reducible apply track_setPending
    | with_reducible apply track_delClient | with_reducible apply track_registerClient
    | with_reducible apply track_setTerminal | with_reducible apply track_delTerminal
    | with_reducible apply track_addProc | with_reducible apply track_addPty
    | (intro he; cases he) | split

theorem track_cleanupAfterStop {τ : Tracked} {x : State} (c : ClientId) (w err : Option String) (env : SyncEnv)
    (h : Track τ x) : Track τ (cleanupAfterStop x c w err env) := by
  unfold cleanupAfterStop
  try dsimp only
  repeat' first
    | with_reducible exact h | with_reducible apply track_cancelCleanup
    | with_reducible apply track_scheduleCleanup | with_reducible apply track_killProcess
    | with_reducible apply track_clearTimeout | with_reducible apply track_writeFileSync
    | with_reducible apply track_setTimeout | with_reducible apply track_suspend
    | with_reducible apply track_dropTimer | with_reducible apply track_broadcast
    | with_reducible apply track_send | with_reducible apply track_emits
    | with_reducible apply track_emit | with_reducible apply track_updConn
    | with_reducible apply track_updClient | with_reducible apply track_markSignalled
    | with_reducible apply track_delPending | with_reducible apply track_setPending
    | with_reducible apply track_delClient | with_reducible apply track_registerClient
    | with_reducible apply track_setTerminal | with_reducible apply track_delTerminal
    | with_reducible apply track_addProc | with_reducible apply track_addPty
    | split

theorem track_onPtyData {τ : Tracked} {x : State} (pty : PtyId) (d : String)
    (h : Track τ x) : Track τ (onPtyData x pty d) := by
  unfold onPtyData
  try dsimp only
  repeat' first
    | with_reducible exact h | with_reducible apply track_cancelCleanup
    | with_reducible apply track_scheduleCleanup | with_reducible apply track_killProcess
    | with_reducible apply track_clearTimeout | with_reducible apply track_writeFileSync
    | with_reducible apply track_setTimeout | with_reducible apply track_suspend
    | with_reducible apply track_dropTimer | with_reducible apply track_broadcast
    | with_reducible apply track_send | with_reducible apply track_emits
    | with_reducible apply track_emit | with_reducible apply track_updConn
    | with_reducible apply track_updClient | with_reducible apply track_markSignalled
    | with_reducible apply track_delPending | with_reducible apply track_setPending
    | with_reducible apply track_delClient | with_reducible apply track_registerClient
    | with_reducible apply track_setTerminal | with_reducible apply track_delTerminal
    | with_reducible apply track_addProc | with_reducible apply track_addPty
    | split

theorem track_onRequest {τ : Tracked} {x : State} (a b : Option String)
    (hq : x.requests.length ≠ τ.req) (h : Track τ x) : Track τ (onRequest x a b) := by
  unfold onRequest
  dsimp only
  have h0 : Track τ (addRequest x ⟨"", "", false⟩) := track_addRequest _ hq h
  split
  · exact track_updRequest _ _ hq (track_emit _ h0)
  · split
    · exact track_updRequest _ _ hq (track_emit _ h0)
    · split
      · exact track_updRequest _ _ hq (track_emit _ (track_cancelCleanup _ h0))
      · refine track_suspend _ (fun he => ?_) (track_emit _ (track_cancelCleanup _ h0))
        injection he with he
        exact hq he

theorem track_oneShotAfterStatus {τ : Tracked} {x : State} (q : ReqId) (a b : String)
    (ready : Bool) (hq : q ≠ τ.req) (h : Track τ x) :
    Track τ (oneShotAfterStatus x q a b ready) := by
  unfold oneShotAfterStatus
  split
  · dsimp only
    refine track_setTimeout _ _ (fun he => ?_) (track_emit _ (track_addProc _ (fun he => ?_) h))
    · injection he with he
      exact hq he
    · injection he with he
      exact hq he
  · exact track_updRequest _ _ hq (track_emit _ h)

theorem track_oneShotTimeout {τ : Tracked} {x : State} (q : ReqId) (pid : Pid)
    (hq : q ≠ τ.req) (h : Track τ x) : Track τ (oneShotTimeout x q pid) := by
  unfold oneShotTimeout
  split
  · exact h
  · split
    · exact h
    · exact track_updRequest _ _ hq (track_emit _ (track_markSignalled _ (track_emit _ h)))

theorem track_foreign_proc {τ : Tracked} {x : State} {pid : Pid} {p : Proc} {q : ReqId}
    (h : Track τ x) (hp : x.procs[pid]? = some p) (ho : p.owner = .oneShot q)
    (hne : some pid ≠ τ.proc) : q ≠ τ.req := by
  intro hq
  exact hne (h.2.2.2.1 pid p hp (by rw [ho, ← hq]; rfl))

theorem track_onProcStdout {τ : Tracked} {x : State} (pid : Pid) (chunk : String)
    (hne : some pid ≠ τ.proc) (h : Track τ x) : Track τ (onProcStdout x pid chunk) := by
  unfold onProcStdout
  split
  · exact h
  · rename_i p hp
    split
    · exact h
    · split
      · exact track_broadcast _ _ h
      · rename_i q ho
        exact track_updRequest _ _ (track_foreign_proc h hp ho hne) h
      · exact h

theorem track_onProcStderr {τ : Tracked} {x : State} (pid : Pid) (chunk : String)
    (hne : some pid ≠ τ.proc) (h : Track τ x) : Track τ (onProcStderr x pid chunk) := by
  unfold onProcStderr
  split
  · exact h
  · rename_i p hp
    split
    · exact h
    · split
      · exact track_broadcast _ _ h
      · rename_i q ho
        exact track_updRequest _ _ (track_foreign_proc h hp ho hne) h
      · exact h

theorem track_onProcClose {τ : Tracked} {x : State} (pid : Pid) (code : Option Int)
    (hne : some pid ≠ τ.proc) (h : Track τ x) : Track τ (onProcClose x pid code) := by
  unfold onProcClose
  split
  · exact h
  · rename_i p hp
    split
    · exact h
    · dsimp only
      have h1 : Track τ (markExited x pid) := track_markExited _ hne h
      split
      · exact track_updClient _ _ (track_broadcast _ _ h1)
      · rename_i q ho
        have hq := track_foreign_proc h hp ho hne
        split
        · exact h1
        · split
          · exact track_emit _ h1
          · exact track_updRequest _ _ hq (track_emit _ h1)
      · exact h1

theorem track_onMessage {τ : Tracked} {x : State} (ws : Ws) (d : Data) (env : SyncEnv)
    (h : Track τ x) : Track τ (onMessage x ws d env) := by
  cases d with
  | connect uuid cols rows => exact track_connectStart _ _ _ _ _ h
  | input text => exact track_onInput _ _ h
  | resize cols rows => exact track_onResize _ _ _ h
  | checkContainerStatus => exact track_checkStatusStart _ h
  | executeCommand a b c => exact track_execStart _ _ _ _ h
  | stopCommand => exact track_onStop _ h
  | updateFile a b => exact track_updateStart _ _ _ h
  | other => exact h
  | malformed e => exact track_send _ _ h

theorem track_onTimer {τ : Tracked} {x : State} (a : TimerAction)
    (ha : timerReq a ≠ some τ.req) (h : Track τ x) : Track τ (onTimer x a) := by
  cases a with
  | cleanup c w => exact track_cleanupFire c w h
  | commandSent r => exact track_broadcast _ _ h
  | oneShotTimeout q pid => exact track_oneShotTimeout _ _ (fun he => ha (by rw [he]; rfl)) h

theorem track_resumeTask {τ : Tracked} {x y : State} (task : Task) (o : Outcome) (env : SyncEnv)
    (ht : taskReq task ≠ some τ.req) (h : Track τ x)
    (hy : resumeTask x task o env = some y) : Track τ y := by
  unfold resumeTask at hy
  split at hy <;> first
    | (injection hy with hy; subst hy
       first
         | with_reducible exact track_connectAfterStatus _ _ _ _ h
         | with_reducible exact track_connectAfterReadiness _ _ _ _ h
         | with_reducible exact track_connectAfterCreate _ _ _ _ h
         | with_reducible exact track_send _ _ h
         | with_reducible exact track_execAfterStatus _ _ _ _ _ _ _ h
         | with_reducible exact track_execAfterCopyCargo _ _ _ _ h
         | with_reducible exact track_execAfterCopyMain _ _ _ _ h
         | with_reducible exact track_updateAfterStatus _ _ _ _ _ _ h
         | with_reducible exact track_updateAfterCopyMain _ _ _ _ _ _ h
         | with_reducible exact track_updateAfterCopyCargo _ _ _ _ _ h
         | with_reducible exact track_cleanupAfterStop _ _ _ _ h
         | exact track_oneShotAfterStatus _ _ _ _ (fun he => ht (congrArg some he)) h)
    | exact absurd hy (by simp)

/-- An event that is not one of the request's own leaves what belongs to the
request as it is. -/
theorem track_step {τ : Tracked} {x : State} (e : Event) (h : Track τ x)
    (hreq : ∀ a b, e = .request a b → x.requests.length ≠ τ.req)
    (ht : touches τ e = false) : Track τ (step x e) := by
  cases e with
  | connection => exact track_addConn _ h
  | message ws data env =>
    simp only [step]
    split
    · split
      · exact track_onMessage _ _ _ h
      · exact h
    · exact h
  | wsDrop ws => exact track_updConn _ _ h
  | close ws =>
    simp only [step]
    split
    · split
      · exact h
      · exact track_onClose _ (track_updConn _ _ h)
    · exact h
  | resume t o env =>
    simp only [step]
    split
    · rename_i task htask
      have hk : ∀ kt : TaskId × Task, τ.task = some kt → kt.1 ≠ t := by
        intro kt hkt he
        simp [touches, hkt, he] at ht
      have htr : taskReq task ≠ some τ.req := by
        intro he
        have := h.2.1 (t, task) (mem_of_mapGet htask) he
        exact hk (t, task) this.symm rfl
      cases hr : resumeTask (takeTask x t) task o env with
      | none => simpa using h
      | some y => simpa using track_resumeTask task o env htr (track_takeTask t hk h) hr
    · exact h
  | timerFire t =>
    simp only [step]
    split
    · rename_i a ha
      refine track_onTimer a (fun he => ?_) (track_dropTimer _ h)
      have := h.2.2.1 (t, a) (mem_of_mapGet ha) he
      simp [touches, ← this] at ht
    · exact h
  | procStdout pid chunk =>
    exact track_onProcStdout _ _ (fun he => by simp [touches, ← he] at ht) h
  | procStderr pid chunk =>
    exact track_onProcStderr _ _ (fun he => by simp [touches, ← he] at ht) h
  | procClose pid code =>
    exact track_onProcClose _ _ (fun he => by simp [touches, ← he] at ht) h
  | ptyData pty data => exact track_onPtyData _ _ h
  | request clientId command => exact track_onRequest _ _ (hreq _ _ rfl) h

theorem track_floor {τ : Tracked} {x : State} (n : Nat) (hn : n ≤ x.requests.length)
    (h : Track τ x) : Track { τ with floor := n } x :=
  ⟨h.1, h.2.1, h.2.2.1, h.2.2.2.1, h.2.2.2.2.1, h.2.2.2.2.2.1, hn⟩

theorem touches_unborn (req : ReqId) (n : Nat) (e : Event) : touches (unborn req n) e = false := by
  cases e <;> simp [touches, unborn]

theorem onRequest_requests_length (x : State) (a b : Option String) :
    (onRequest x a b).requests.length = x.requests.length + 1 := by
  unfold onRequest
  dsimp only
  repeat' split
  all_goals simp [updRequest_requests]

theorem track_unborn_init (req : ReqId) : Track (unborn req 0) init := by
  refine ⟨?_, ?_, ?_, ?_, ?_, ?_, ?_⟩ <;> simp [TerminalServer.init, unborn]

/-- In a reachable state nothing refers to a request that has not arrived. -/
theorem Reachable.track_unborn {s : State} (hs : Reachable s) (req n : Nat)
    (hreq : s.requests.length ≤ req) (hn : n ≤ s.requests.length) : Track (unborn req n) s := by
  obtain ⟨es, rfl⟩ := hs
  suffices H : ∀ (es : List Event) (x : State),
      (∀ req n, x.requests.length ≤ req → n ≤ x.requests.length → Track (unborn req n) x) →
      ∀ req n, (TerminalServer.run x es).requests.length ≤ req →
        n ≤ (TerminalServer.run x es).requests.length →
        Track (unborn req n) (TerminalServer.run x es) from
    H es init (fun req n _ hn => by
      have : n = 0 := by simpa [TerminalServer.init] using hn
      subst this
      exact track_unborn_init req) req n hreq hn
  intro es
  induction es with
  | nil => exact fun x hx => hx
  | cons e es ih =>
    intro x hx
    refine ih (TerminalServer.step x e) (fun req n hreq hn => ?_)
    have hmono : x.requests.length ≤ (TerminalServer.step x e).requests.length := by
      have h1 := hx (max req x.requests.length + 1) x.requests.length (by omega) (le_refl _)
      exact (track_step e h1 (fun _ _ _ => by simp [unborn]; omega)
        (touches_unborn _ _ e)).2.2.2.2.2.2
    have h2 := hx req x.requests.length (by omega) (le_refl _)
    have h3 : Track (unborn req x.requests.length) (TerminalServer.step x e) := by
      refine track_step e h2 (fun a b he => ?_) (touches_unborn _ _ e)
      subst he
      intro hl
      have : (TerminalServer.step x (.request a b)).requests.length = x.requests.length + 1 :=
        onRequest_requests_length x a b
      simp only [unborn] at hl
      omega
    exact track_floor n hn h3

theorem track_addRequest_born {x : State} {n : Nat} (q : Request)
    (h : Track (unborn x.requests.length n) x) :
    Track { unborn x.requests.length n with record := some q } (addRequest x q) := by
  refine ⟨?_, h.2.1, h.2.2.1, h.2.2.2.1, h.2.2.2.2.1, h.2.2.2.2.2.1, ?_⟩
  · simp [unborn]
  · have := h.2.2.2.2.2.2
    simp only [addRequest_requests, List.length_append, List.length_singleton]
    exact Nat.le_succ_of_le this

theorem track_suspend_own {τ : Tracked} {x : State} (t : Task) (hnone : τ.task = none)
    (hfresh : ∀ p ∈ x.tasks, p.1 < x.nextTask) (h : Track τ x) :
    Track { τ with task := some (x.nextTask, t) } (suspend x t) := by
  refine ⟨h.1, fun p hp hq => ?_, h.2.2.1, h.2.2.2.1, fun kt hkt => ?_, h.2.2.2.2.2⟩
  · simp only [suspend_tasks, List.mem_append, List.mem_singleton] at hp
    rcases hp with hp | hp
    · have := h.2.1 p hp hq
      rw [hnone] at this
      cases this
    · rw [hp]
  · injection hkt with hkt
    subst hkt
    exact mapGet_suspend_new' t rfl rfl hfresh

theorem track_takeTask_own {τ : Tracked} {x : State} (k : TaskId) (task : Task)
    (hown : τ.task = some (k, task)) (h : Track τ x) :
    Track { τ with task := none } (takeTask x k) := by
  refine ⟨h.1, fun p hp hq => ?_, h.2.2.1, h.2.2.2.1, fun _ hkt => absurd hkt (by simp),
    h.2.2.2.2.2⟩
  have hm := mem_of_mem_mapDelete hp
  have := h.2.1 p hm.1 hq
  rw [hown] at this
  injection this with this
  exact absurd (by rw [this]) hm.2

theorem track_addProc_own {τ : Tracked} {x : State} (p : Proc) (hnone : τ.proc = none)
    (ho : p.owner = .oneShot τ.req) (he : p.exited = false) (h : Track τ x) :
    Track { τ with proc := some x.procs.length } (addProc x p) := by
  refine ⟨h.1, h.2.1, h.2.2.1, fun pid p' hp' hq => ?_, h.2.2.2.2.1, fun pid hpid => ?_,
    h.2.2.2.2.2.2⟩
  · simp only [addProc_procs] at hp'
    by_cases hlt : pid < x.procs.length
    · rw [List.getElem?_append_left hlt] at hp'
      have := h.2.2.2.1 pid p' hp' hq
      rw [hnone] at this
      cases this
    · have hlt' := (List.getElem?_eq_some_iff.mp hp').1
      simp only [List.length_append, List.length_singleton] at hlt'
      have hge : x.procs.length ≤ pid := not_lt.mp hlt
      have : pid = x.procs.length := Nat.le_antisymm (Nat.lt_succ_iff.mp hlt') hge
      rw [this]
  · injection hpid with hpid
    subst hpid
    exact ⟨p, by simp, ho, he⟩

theorem track_setTimeout_own {τ : Tracked} {x : State} (a : TimerAction) (d : Nat)
    (hnone : τ.timer = none) (h : Track τ x) :
    Track { τ with timer := some x.nextTimer } (setTimeout x a d) := by
  refine ⟨h.1, h.2.1, fun p hp hq => ?_, h.2.2.2.1, h.2.2.2.2.1, h.2.2.2.2.2⟩
  simp only [setTimeout_timers, List.mem_append, List.mem_singleton] at hp
  rcases hp with hp | hp
  · have := h.2.2.1 p hp hq
    rw [hnone] at this
    cases this
  · rw [hp]

theorem track_updRequest_own {τ : Tracked} {x : State} (q : Request) (f : Request → Request)
    (hq : τ.record = some q) (h : Track τ x) :
    Track { τ with record := some (f q) } (updRequest x τ.req f) := by
  refine ⟨?_, h.2.1, h.2.2.1, h.2.2.2.1, h.2.2.2.2.1, h.2.2.2.2.2.1, ?_⟩
  · have h1 := h.1
    rw [hq] at h1
    rw [updRequest_requests_get, if_pos rfl, h1]
    rfl
  · have := h.2.2.2.2.2.2
    rw [updRequest_requests]
    split <;> simpa using this

theorem track_lt {τ : Tracked} {x : State} {q : Request} (h : Track τ x)
    (hq : τ.record = some q) : τ.req < x.requests.length := by
  have h1 := h.1
  rw [hq] at h1
  exact (List.getElem?_eq_some_iff.mp h1).1

/-- Events that are not the request's own leave what belongs to it as it is. -/
theorem track_run {τ : Tracked} {q : Request} (hq : τ.record = some q) (es : List Event) :
    ∀ x : State, Track τ x → (∀ e ∈ es, touches τ e = false) → Track τ (run x es) := by
  induction es with
  | nil => exact fun x hx _ => hx
  | cons e es ih =>
    intro x hx hes
    refine ih (step x e) (track_step e hx (fun _ _ _ => ?_) (hes e (List.mem_cons_self _ _)))
      (fun e' he' => hes e' (List.mem_cons_of_mem _ he'))
    exact Nat.ne_of_gt (track_lt hx hq)

theorem onRequest_registered (s : State) (clientId command : Option String) (r : Ref)
    (client : Client) (h1 : truthy clientId = true) (h2 : truthy command = true)
    (hreg : mapGet s.clients clientId = some r) (hobj : s.heap[r]? = some client) :
    step s (.request clientId command)
      = suspend (emit (cancelCleanup (addRequest s ⟨"", "", false⟩) (clientId.getD ""))
          (.dockerExecStatus client.containerName))
          (.oneShotStatus s.requests.length client.containerName (command.getD "")) := by
  simp [step, onRequest, h1, h2, getClient, hreg, hobj]

theorem track_request {s : State} (hs : Reachable s) (clientId command : Option String)
    (r : Ref) (client : Client) (h1 : truthy clientId = true) (h2 : truthy command = true)
    (hreg : mapGet s.clients clientId = some r) (hobj : s.heap[r]? = some client) :
    Track (pendingRequest s.requests.length s.nextTask client.containerName (command.getD ""))
      (step s (.request clientId command)) := by
  rw [onRequest_registered s clientId command r client h1 h2 hreg hobj]
  have h0 := hs.track_unborn s.requests.length 0 (le_refl _) (Nat.zero_le _)
  have h3 := track_emit (Effect.dockerExecStatus client.containerName)
    (track_cancelCleanup (clientId.getD "") (track_addRequest_born ⟨"", "", false⟩ h0))
  have hf : ∀ p ∈ (emit (cancelCleanup (addRequest s ⟨"", "", false⟩) (clientId.getD ""))
      (Effect.dockerExecStatus client.containerName)).tasks,
      p.1 < (emit (cancelCleanup (addRequest s ⟨"", "", false⟩) (clientId.getD ""))
        (Effect.dockerExecStatus client.containerName)).nextTask := by
    simpa using hs.fresh.2.1
  have h4 := track_suspend_own
    (.oneShotStatus s.requests.length client.containerName (command.getD "")) rfl hf h3
  have hn : (emit (cancelCleanup (addRequest s ⟨"", "", false⟩) (clientId.getD ""))
      (Effect.dockerExecStatus client.containerName)).nextTask = s.nextTask := by
    simp
  rw [hn] at h4
  exact h4

theorem touches_pendingRequest (req : ReqId) (k : TaskId) (cn cmd : String) (e : Event) :
    touches (pendingRequest req k cn cmd) e = isResumeOf k e := by
  cases e <;> simp [touches, pendingRequest, isResumeOf, eq_comm]

theorem oneShot_resume {x : State} {req : ReqId} {k : TaskId} {cn cmd : String}
    (h : Track (pendingRequest req k cn cmd) x) (ready : Bool) (d : String) (env : SyncEnv) :
    step x (.resume k (.status ready d) env)
      = oneShotAfterStatus (takeTask x k) req cn cmd ready := by
  have hk : mapGet x.tasks k = some (.oneShotStatus req cn cmd) := h.2.2.2.2.1 _ rfl
  rw [step_resume hk]
  rfl

theorem track_spawned {x : State} {req : ReqId} {k : TaskId} {cn cmd : String}
    (h : Track (pendingRequest req k cn cmd) x) :
    Track (runningRequest req ⟨"", "", false⟩ x.nextTimer x.procs.length)
      (oneShotAfterStatus (takeTask x k) req cn cmd true) := by
  have h1 := track_takeTask_own k _ rfl h
  have h2 := track_emit (Effect.spawn x.procs.length cn ("cd /usr/src/app && " ++ cmd))
    (track_addProc_own ⟨.oneShot req, false, false⟩ rfl rfl rfl h1)
  exact track_setTimeout_own (.oneShotTimeout req x.procs.length) 30000 rfl h2

theorem track_stdout_own {x : State} {req : ReqId} {q : Request} {t : TimerId} {pid : Pid}
    (chunk : String) (h : Track (runningRequest req q t pid) x) :
    Track (runningRequest req { q with stdout := q.stdout ++ chunk } t pid)
      (step x (.procStdout pid chunk)) := by
  obtain ⟨p, hp, ho, he⟩ := h.2.2.2.2.2.1 pid rfl
  have ho : p.owner = .oneShot req := ho
  have hstep : step x (.procStdout pid chunk)
      = updRequest x req (fun q => { q with stdout := q.stdout ++ chunk }) := by
    simp [step, onProcStdout, hp, he, ho]
  rw [hstep]
  exact track_updRequest_own q _ rfl h

theorem track_stderr_own {x : State} {req : ReqId} {q : Request} {t : TimerId} {pid : Pid}
    (chunk : String) (h : Track (runningRequest req q t pid) x) :
    Track (runningRequest req { q with stderr := q.stderr ++ chunk } t pid)
      (step x (.procStderr pid chunk)) := by
  obtain ⟨p, hp, ho, he⟩ := h.2.2.2.2.2.1 pid rfl
  have ho : p.owner = .oneShot req := ho
  have hstep : step x (.procStderr pid chunk)
      = updRequest x req (fun q => { q with stderr := q.stderr ++ chunk }) := by
    simp [step, onProcStderr, hp, he, ho]
  rw [hstep]
  exact track_updRequest_own q _ rfl h

/-- While the process of a request runs and its timeout has not fired, the
record of the request accumulates the chunks of the process, in order. -/
theorem track_running_run (req : ReqId) (t : TimerId) (pid : Pid) (es : List Event) :
    ∀ (x : State) (q : Request), Track (runningRequest req q t pid) x →
      (∀ e ∈ es, isCloseOrTimeout t pid e = false) →
      Track (runningRequest req
        ⟨q.stdout ++ concatChunks (stdoutChunks pid es),
          q.stderr ++ concatChunks (stderrChunks pid es), q.headersSent⟩ t pid) (run x es) := by
  induction es with
  | nil =>
    intro x q hx _
    simpa [stdoutChunks, stderrChunks, concatChunks] using hx
  | cons e es ih =>
    intro x q hx hes
    have he := hes e (List.mem_cons_self _ _)
    have hes' : ∀ e' ∈ es, isCloseOrTimeout t pid e' = false :=
      fun e' he' => hes e' (List.mem_cons_of_mem _ he')
    have hlt : ∀ a b, e = Event.request a b → x.requests.length ≠ req :=
      fun _ _ _ => Nat.ne_of_gt (track_lt hx rfl)
    have foreign : touches (runningRequest req q t pid) e = false →
        stdoutChunks pid (e :: es) = stdoutChunks pid es →
        stderrChunks pid (e :: es) = stderrChunks pid es →
        Track (runningRequest req
          ⟨q.stdout ++ concatChunks (stdoutChunks pid (e :: es)),
            q.stderr ++ concatChunks (stderrChunks pid (e :: es)), q.headersSent⟩ t pid)
          (run x (e :: es)) := by
      intro ht h1 h2
      rw [h1, h2]
      exact ih (step x e) q (track_step e hx hlt ht) hes'
    cases e with
    | procStdout p chunk =>
      by_cases hp : p = pid
      · subst hp
        have := ih _ _ (track_stdout_own chunk hx) hes'
        simpa [stdoutChunks, stderrChunks, concatChunks, String.append_assoc, run] using this
      · exact foreign (by simp [touches, runningRequest, Ne.symm hp])
          (by simp [stdoutChunks, hp]) rfl
    | procStderr p chunk =>
      by_cases hp : p = pid
      · subst hp
        have := ih _ _ (track_stderr_own chunk hx) hes'
        simpa [stdoutChunks, stderrChunks, concatChunks, String.append_assoc, run] using this
      · exact foreign (by simp [touches, runningRequest, Ne.symm hp]) rfl
          (by simp [stderrChunks, hp])
    | procClose p code =>
      have hp : p ≠ pid := by simpa [isCloseOrTimeout] using he
      exact foreign (by simp [touches, runningRequest, Ne.symm hp]) rfl rfl
    | timerFire t' =>
      have hp : t' ≠ t := by simpa [isCloseOrTimeout] using he
      exact foreign (by simp [touches, runningRequest, Ne.symm hp]) rfl rfl
    | connection => exact foreign (by simp [touches]) rfl rfl
    | message ws data env => exact foreign (by simp [touches]) rfl rfl
    | wsDrop ws => exact foreign (by simp [touches]) rfl rfl
    | close ws => exact foreign (by simp [touches]) rfl rfl
    | resume k o env => exact foreign (by simp [touches, runningRequest]) rfl rfl
    | ptyData pty data => exact foreign (by simp [touches]) rfl rfl
    | request a b => exact foreign (by simp [touches]) rfl rfl

/-! ## C15: the one-shot endpoint -/

/-- C15: a request to /api/run-command in a reachable state; its number is
`s.requests.length`.  A missing client id is answered with 400, otherwise a
missing command with 400, otherwise a client id that is not registered with
404; none of these spawns a process.  Otherwise the handler probes the
container and waits.  Whatever happens meanwhile, when the status arrives:
if the container is not ready the answer is 503 and no process is spawned;
if it is ready one process is spawned and the 30000 ms timeout is armed.
Then, whatever happens before the timeout fires and the process closes, when
the process closes with exit code `code` the answer is the result with that
exit code, `success` true exactly when the code is 0, and `stdout` and
`stderr` the concatenation, in order of arrival, of the chunks received on
each stream of the process. -/
theorem oneShot_request (s : State) (hs : Reachable s) (clientId command : Option String) :
    (truthy clientId = false →
      newEffects s (step s (.request clientId command))
          = [.respond s.requests.length 400 (.error "Client ID is required")] ∧
        (step s (.request clientId command)).procs = s.procs) ∧
    (truthy clientId = true → truthy command = false →
      newEffects s (step s (.request clientId command))
          = [.respond s.requests.length 400 (.error "Command is required")] ∧
        (step s (.request clientId command)).procs = s.procs) ∧
    (truthy clientId = true → truthy command = true → mapGet s.clients clientId = none →
      newEffects s (step s (.request clientId command))
          = cancelEffects s (clientId.getD "")
            ++ [.respond s.requests.length 404 (.error "Client workspace not found")] ∧
        (step s (.request clientId command)).procs = s.procs) ∧
    (∀ r, truthy clientId = true → truthy command = true →
      mapGet s.clients clientId = some r →
      ∃ client, s.heap[r]? = some client ∧
        newEffects s (step s (.request clientId command))
          = cancelEffects s (clientId.getD "") ++ [.dockerExecStatus client.containerName] ∧
        (step s (.request clientId command)).procs = s.procs ∧
        ∀ (es₁ : List Event) (s₁ : State), (∀ e ∈ es₁, isResumeOf s.nextTask e = false) →
          s₁ = run (step s (.request clientId command)) es₁ →
          ∀ (d : String) (env : SyncEnv),
            (newEffects s₁ (step s₁ (.resume s.nextTask (.status false d) env))
                = [.respond s.requests.length 503 (.error "Container is still initializing")] ∧
              (step s₁ (.resume s.nextTask (.status false d) env)).procs = s₁.procs) ∧
            (newEffects s₁ (step s₁ (.resume s.nextTask (.status true d) env))
                = [.spawn s₁.procs.length client.containerName
                    ("cd /usr/src/app && " ++ command.getD ""),
                   .setTimeout s₁.nextTimer 30000] ∧
              ∀ (es₂ : List Event) (s₂ : State),
                (∀ e ∈ es₂, isCloseOrTimeout s₁.nextTimer s₁.procs.length e = false) →
                s₂ = run (step s₁ (.resume s.nextTask (.status true d) env)) es₂ →
                ∀ code : Option Int,
                  newEffects s₂ (step s₂ (.procClose s₁.procs.length code))
                    = [.respond s.requests.length 200
                        (.result (decide (code = some 0))
                          (concatChunks (stdoutChunks s₁.procs.length es₂))
                          (concatChunks (stderrChunks s₁.procs.length es₂)) code)])) := by
  refine ⟨fun h1 => ?_, fun h1 h2 => ?_, fun h1 h2 hreg => ?_, fun r h1 h2 hreg => ?_⟩
  · simp [step, onRequest, h1, newEffects, emit, updRequest, addRequest]
  · simp [step, onRequest, h1, h2, newEffects, emit, updRequest, addRequest]
  · simp [step, onRequest, h1, h2, getClient, hreg, newEffects, cancelCleanup_trace,
      cancelEffects, emit]
  · obtain ⟨client, hobj, -⟩ : ∃ client, s.heap[r]? = some client ∧ True := by
      have hlt := hs.pathsOk.2.2.1 clientId r hreg
      exact ⟨s.heap[r], by simp [hlt], trivial⟩
    have hstep := onRequest_registered s clientId command r client h1 h2 hreg hobj
    refine ⟨client, hobj, ?_, ?_, ?_⟩
    · rw [hstep]
      simp [newEffects, cancelCleanup_trace, cancelEffects, emit]
    · rw [hstep]
      simp
    · intro es₁ s₁ hes₁ hs₁ d env
      have hA : Track (pendingRequest s.requests.length s.nextTask client.containerName
          (command.getD "")) s₁ := by
        rw [hs₁]
        refine track_run rfl es₁ _ (track_request hs clientId command r client h1 h2 hreg hobj)
          (fun e he => ?_)
        rw [touches_pendingRequest]
        exact hes₁ e he
      refine ⟨?_, ?_⟩
      · rw [oneShot_resume hA false d env]
        simp [oneShotAfterStatus, newEffects, emit]
      · rw [oneShot_resume hA true d env]
        refine ⟨by simp [oneShotAfterStatus, newEffects, emit, setTimeout], ?_⟩
        intro es₂ s₂ hes₂ hs₂ code
        have hB := track_running_run s.requests.length s₁.nextTimer s₁.procs.length es₂ _ _
          (track_spawned hA) hes₂
        rw [← hs₂] at hB
        obtain ⟨p, hp, ho, he⟩ := hB.2.2.2.2.2.1 s₁.procs.length rfl
        have ho : p.owner = .oneShot s.requests.length := ho
        have hq := hB.1
        simp only [runningRequest] at hq
        simp [step, onProcClose, hp, he, ho, hq, newEffects, emit, markExited]

/-- Witness of C15: the one-shot request of `oneShotTrace`; its process
closes with exit code 0. -/
theorem oneShot_request_witness :
    (truthy (some "t1") = true ∧ truthy (some "ls") = true ∧
      mapGet attachedState.clients (some "t1") = some 0) ∧
    newEffects (run attachedState oneShotTrace)
        (step (run attachedState oneShotTrace) (.procClose 1 (some 0)))
      = [.respond 0 200 (.result true "ab" "e" (some 0))] := by
  obtain ⟨client, -, -, -, hrun⟩ :=
    (oneShot_request attachedState ⟨_, rfl⟩ (some "t1") (some "ls")).2.2.2 0 rfl rfl
      (by decide)
  have h := (hrun [] _ (by simp) rfl "" ok).2.2
    [.procStdout 1 "a", .procStderr 1 "e", .procStdout 1 "b"] _ (by decide) rfl (some 0)
  exact ⟨⟨rfl, rfl, by decide⟩, h.trans (by decide)⟩

/-! ## C16: the timeout of the one-shot endpoint -/

/-- C16 (the code breaks it): the timeout of a one-shot request fires while
its process runs: the process is killed and 504 is sent.  The killed process
then closes, and its close handler calls `res.json` on the response that was
already sent, which throws inside the event handler: a second write is
attempted.  When the process closes first, 200 is sent and the timeout
does nothing. -/
theorem timeout_then_close_writes_again :
    Reachable (run attachedState timeoutTrace) ∧
    newEffects (run attachedState (timeoutTrace.take 2))
        (run attachedState (timeoutTrace.take 3))
      = [.procKill 1 none, .respond 0 504 (.error "Command execution timed out")] ∧
    newEffects (run attachedState (timeoutTrace.take 3)) (run attachedState timeoutTrace)
      = [.uncaught 0 "Cannot set headers after they are sent to the client"] ∧
    newEffects (run attachedState (closeFirstTrace.take 2))
        (run attachedState (closeFirstTrace.take 3))
      = [.respond 0 200 (.result true "" "" (some 0))] ∧
    newEffects (run attachedState (closeFirstTrace.take 3)) (run attachedState closeFirstTrace)
      = [] :=
  ⟨Reachable.run ⟨_, rfl⟩ timeoutTrace, by decide, by decide, by decide, by decide⟩

/-! ## C17: two concurrent connects of a fresh tenant -/

theorem createContainer_builds (rt : Runtime) (clientId workspacePath out : String)
    (hl : rt.listing = .ok out) (hne : jsTrim out ≠ containerNameOf clientId)
    (hw : rt.imageDefinition = none) :
    Call.buildAndRun (containerNameOf clientId) workspacePath
      ∈ (createContainer rt clientId workspacePath).1 := by
  have hname : "rust-workspace-" ++ toLowerCase clientId = containerNameOf clientId := rfl
  cases hb : rt.buildRun with
  | some e => simp [createContainer, hl, hname, hne, hw, hb]
  | none => simp [createContainer, hl, hname, hne, hw, hb, thenReadiness]

/-- C17 (the code breaks it): connections 0 and 1 send connect for the fresh
tenant t1, the second while the first awaits `createContainer`.  Both
handlers find no session and call `createContainer`; a call that finds no
container in the runtime issues build+run, so two are issued.  When both
acquisitions succeed, each handler registers its own session object: the
second replaces the first in `clients`, and connection 0 is not in the
connection set of the registered session.  When the second acquisition fails
on the name conflict, connection 1 gets an error and is attached to nothing. -/
theorem concurrent_connect_builds_twice :
    Reachable (run init concurrentTrace) ∧
    (newEffects init (run init (concurrentTrace.take 4))).count
        (.createContainer "t1" "./docker_workspaces/t1") = 2 ∧
    mapGet (run init (concurrentTrace.take 4)).clients (some "t1") = none ∧
    Call.buildAndRun "rust-workspace-t1" "./docker_workspaces/t1"
      ∈ (createContainer freshRuntime "t1" "./docker_workspaces/t1").1 ∧
    connectionsOf (run init concurrentTrace) "t1" = [1] ∧
    ((run init concurrentTrace).heap.map (fun c => c.connections.elems)) = [[0], [1]] ∧
    Reachable (run init conflictTrace) ∧
    connectionsOf (run init conflictTrace) "t1" = [0] ∧
    newEffects (run init (conflictTrace.take 5)) (run init conflictTrace)
      = [.send 1 (.error "Failed to create or connect to workspace"
          (some "Conflict. The container name is already in use"))] :=
  ⟨⟨concurrentTrace, rfl⟩, by decide, by decide,
    createContainer_builds freshRuntime "t1" "./docker_workspaces/t1" "" rfl (by decide) rfl,
    by decide, by decide, ⟨conflictTrace, rfl⟩, by decide, by decide⟩

/-! ## C19: a connection in the connection sets of two tenants -/

/-- C19 (the code breaks it): connection 0 sends connect for tenant t1 and,
once attached, connect for tenant t2.  It is then a member of the connection
sets of both sessions.  When it closes, it is removed from the set of t2
only: the session of t1 keeps it and no cleanup timer is armed for t1. -/
theorem connection_in_two_sessions :
    Reachable (run init doubleTrace) ∧
    0 ∈ connectionsOf (run init doubleTrace) "t1" ∧
    0 ∈ connectionsOf (run init doubleTrace) "t2" ∧
    connectionsOf (run init (doubleTrace ++ [.close 0])) "t1" = [0] ∧
    connectionsOf (run init (doubleTrace ++ [.close 0])) "t2" = [] ∧
    armedFor (run init (doubleTrace ++ [.close 0])) "t1" = [] ∧
    armedFor (run init (doubleTrace ++ [.close 0])) "t2" = [0] :=
  ⟨⟨doubleTrace, rfl⟩, by decide, by decide, by decide, by decide, by decide, by decide⟩

/-! ## C21: one session per sandbox -/

/-- C21 (the code breaks it): the container name is derived from the
lower-cased tenant id, while `clients` is keyed by the id as received and the
workspace path keeps its case.  After connects for the tenants T1 and t1 the
map holds two entries with the container name rust-workspace-t1 (and distinct
workspace paths): the property fails.  When the connection of T1 closes and
its cleanup timer fires, that container is stopped while connection 1 is
attached to the session of t1.  Apart from letter case: a session registered
under the key `null` by a handler whose connection sent a second connect
during the creation carries the container name and the workspace path of
tenant t1, like the session registered under t1 afterwards. -/
theorem case_differing_tenants_share_sandbox :
    Reachable (run init caseTrace) ∧
    getClient (run init caseTrace) (some "T1")
      = some (0, ⟨"rust-workspace-t1", "./docker_workspaces/T1", JSSet.empty.add 0, none⟩) ∧
    getClient (run init caseTrace) (some "t1")
      = some (1, ⟨"rust-workspace-t1", "./docker_workspaces/t1", JSSet.empty.add 1, none⟩) ∧
    toLowerCase "T1" = toLowerCase "t1" ∧
    ¬ OneOwner (run init caseTrace) ∧
    Effect.dockerStop "rust-workspace-t1" ∈ (run init caseReclaimTrace).trace ∧
    connectionsOf (run init caseReclaimTrace) "t1" = [1] ∧
    Reachable (run init nullKeyTrace) ∧
    getClient (run init nullKeyTrace) none
      = some (0, ⟨"rust-workspace-t1", "./docker_workspaces/t1", JSSet.empty.add 0, none⟩) ∧
    getClient (run init nullKeyTrace) (some "t1")
      = some (1, ⟨"rust-workspace-t1", "./docker_workspaces/t1", JSSet.empty.add 1, none⟩) ∧
    ¬ OneOwner (run init nullKeyTrace) := by
  have hT : getClient (run init caseTrace) (some "T1")
      = some (0, ⟨"rust-workspace-t1", "./docker_workspaces/T1", JSSet.empty.add 0, none⟩) := by
    decide
  have ht : getClient (run init caseTrace) (some "t1")
      = some (1, ⟨"rust-workspace-t1", "./docker_workspaces/t1", JSSet.empty.add 1, none⟩) := by
    decide
  have hn : getClient (run init nullKeyTrace) none
      = some (0, ⟨"rust-workspace-t1", "./docker_workspaces/t1", JSSet.empty.add 0, none⟩) := by
    decide
  have hn1 : getClient (run init nullKeyTrace) (some "t1")
      = some (1, ⟨"rust-workspace-t1", "./docker_workspaces/t1", JSSet.empty.add 1, none⟩) := by
    decide
  refine ⟨⟨caseTrace, rfl⟩, hT, ht, by decide, ?_, by decide, by decide,
    ⟨nullKeyTrace, rfl⟩, hn, hn1, ?_⟩
  · intro h
    exact (h (some "T1") (some "t1") 0 1 _ _ hT ht (by decide)).1 rfl
  · intro h
    exact (h none (some "t1") 0 1 _ _ hn hn1 (by decide)).2 rfl

/-! ## C22: a listed container is not built again -/

/-- C22 (the code breaks it): the listing is compared as a whole, after
`trim`, with the derived name.  The containers of tenants t1 and t10 exist,
so the listing filtered by the name of t1 has the two lines
rust-workspace-t1 and rust-workspace-t10; the derived name of t1 is one of
its lines, the comparison fails, and createContainer writes the image
definition and issues build+run for rust-workspace-t1, which the runtime
refuses. -/
theorem createContainer_rebuilds_listed_container :
    sharedPrefixRuntime.listing = .ok "rust-workspace-t1\nrust-workspace-t10\n" ∧
    containerNameOf "t1" ∈ listingLines "rust-workspace-t1\nrust-workspace-t10\n" ∧
    jsTrim "rust-workspace-t1\nrust-workspace-t10\n" ≠ containerNameOf "t1" ∧
    createContainer sharedPrefixRuntime "t1" "./docker_workspaces/t1"
      = ([.listContainers "rust-workspace-t1", .writeImageDefinition "./docker_workspaces/t1",
          .buildAndRun "rust-workspace-t1" "./docker_workspaces/t1"], .rejected nameConflict) := by
  refine ⟨rfl, ?_, ?_, ?_⟩ <;> decide

/-! ## C23: an idle session has a cleanup timer -/

/-- C23 (the code breaks it): `cancelCleanup` is called by the one-shot
endpoint and at the start of connect, and neither arms the timer again.
(1) Tenant t1 is idle with its timer armed; a one-shot request for t1 clears
the timer: t1 is registered, its connection set is empty, `pendingCleanups`
is empty and no timer is armed.  (2) Tenant t1 is idle with its timer armed;
connection 1 connects as t1, which clears the timer, and the readiness check
fails, so the handler returns without attaching the connection; after
connection 1 has closed, t1 is registered with an empty connection set, no
timer is armed, no handler is suspended and no connection is open. -/
theorem idle_session_without_cleanup_timer :
    idleRequestTrace.all isSessionEvent = true ∧
    mapHas (run init idleRequestTrace).clients (some "t1") = true ∧
    connectionsOf (run init idleRequestTrace) "t1" = [] ∧
    (run init idleRequestTrace).pendingCleanups = [] ∧
    (run init idleRequestTrace).timers = [] ∧
    ¬ IdleReclaimable (run init idleRequestTrace) ∧
    failedReconnectTrace.all isSessionEvent = true ∧
    mapHas (run init failedReconnectTrace).clients (some "t1") = true ∧
    connectionsOf (run init failedReconnectTrace) "t1" = [] ∧
    (run init failedReconnectTrace).pendingCleanups = [] ∧
    (run init failedReconnectTrace).timers = [] ∧
    (run init failedReconnectTrace).tasks = [] ∧
    (run init failedReconnectTrace).conns.all (fun c => c.closed) = true ∧
    ¬ IdleReclaimable (run init failedReconnectTrace) := by
  have h1 : mapHas (run init idleRequestTrace).clients (some "t1") = true := by decide
  have h2 : connectionsOf (run init idleRequestTrace) "t1" = [] := by decide
  have h3 : mapHas (run init idleRequestTrace).pendingCleanups "t1" ≠ true := by decide
  have k1 : mapHas (run init failedReconnectTrace).clients (some "t1") = true := by decide
  have k2 : connectionsOf (run init failedReconnectTrace) "t1" = [] := by decide
  have k3 : mapHas (run init failedReconnectTrace).pendingCleanups "t1" ≠ true := by decide
  exact ⟨by decide, h1, h2, by decide, by decide, fun h => h3 (h "t1" h1 h2),
    by decide, k1, k2, by decide, by decide, by decide, by decide, fun h => k3 (h "t1" k1 k2)⟩

/-! ## C24: acknowledged updates are announced -/

/-- C24 (the code breaks it): the loop under the comment 'Notify all
connected clients about file updates' (line 627) stands after both files,
inside the `try` block that a failure of the second file leaves, while each
file is acknowledged right after its copy.  Connections 0 and 1 of tenant t1
are attached and open; connection 0 sends updateFile with both files.  After
the copy of src/main.rs connection 0 receives `fileUpdated` for src/main.rs; then the
write of Cargo.toml throws (or its copy is rejected): connection 0 receives
the error, the handler ends, and connection 1 receives nothing, so no
`fileChanged` for src/main.rs. -/
theorem failed_second_file_skips_notification :
    Reachable bothFilesState ∧
    connectionsOf bothFilesState "t1" = [0, 1] ∧ isOpen bothFilesState 1 = true ∧
    bothFilesState.tasks
      = [(3, .updateCopyMain 0 0 (.text "fn main() {}") (.text "[package]"))] ∧
    newEffects bothFilesState
        (step bothFilesState (.resume 3 (.settled none) cargoWriteFails))
      = [.send 0 (.fileUpdated "src/main.rs"),
         .writeFile "./docker_workspaces/t1/Cargo.toml" (some "[package]"),
         .send 0 (updateError "ENOSPC: no space left on device")] ∧
    (step bothFilesState (.resume 3 (.settled none) cargoWriteFails)).tasks = [] ∧
    received 1 (newEffects bothFilesState
        (step bothFilesState (.resume 3 (.settled none) cargoWriteFails))) = [] ∧
    newEffects bothFilesState
        (run bothFilesState [.resume 3 (.settled none) ok,
          .resume 4 (.settled (some "Error: No such container")) ok])
      = [.send 0 (.fileUpdated "src/main.rs"),
         .writeFile "./docker_workspaces/t1/Cargo.toml" (some "[package]"),
         .dockerCp "rust-workspace-t1" "./docker_workspaces/t1/Cargo.toml"
           "/usr/src/app/Cargo.toml",
         .send 0 (updateError "Error: No such container")] ∧
    (run bothFilesState [.resume 3 (.settled none) ok,
      .resume 4 (.settled (some "Error: No such container")) ok]).tasks = [] := by
  refine ⟨⟨_, rfl⟩, ?_, ?_, ?_, ?_, ?_, ?_, ?_, ?_⟩ <;> decide

/-- The resumptions of updateFile with both files given as strings, from the
wait for the copy of src/main.rs on.  When that copy is rejected the originating
connection receives the error only.  When it succeeds the originating
connection receives `fileUpdated` for src/main.rs and Cargo.toml is written;
if the write throws, or if the copy of Cargo.toml is rejected, the
originating connection receives the error, the handler ends and nothing else
is sent: no connection receives a `fileChanged`.  Only when the copy of
Cargo.toml has succeeded does the originating connection receive
`fileUpdated` for Cargo.toml and every other open connection of the session a
`fileChanged` for src/main.rs and one for Cargo.toml, with the new contents. -/
theorem updateFile_both_files (ws : Ws) (r : Ref) (mainRs cargoToml : String) :
    (∀ (s : State) (k : TaskId) (e : String) (env : SyncEnv),
      mapGet s.tasks k = some (.updateCopyMain ws r (.text mainRs) (.text cargoToml)) →
      newEffects s (step s (.resume k (.settled (some e)) env))
          = [Effect.send ws (updateError e)] ∧
        (step s (.resume k (.settled (some e)) env)).tasks = mapDelete s.tasks k) ∧
    (∀ (s : State) (k : TaskId) (client : Client) (e : String) (env : SyncEnv),
      s.heap[r]? = some client →
      mapGet s.tasks k = some (.updateCopyMain ws r (.text mainRs) (.text cargoToml)) →
      env.writeCargoErr = some e →
      newEffects s (step s (.resume k (.settled none) env))
          = [Effect.send ws (.fileUpdated "src/main.rs"),
             Effect.writeFile (client.workspace ++ "/Cargo.toml") (some cargoToml),
             Effect.send ws (updateError e)] ∧
        (step s (.resume k (.settled none) env)).tasks = mapDelete s.tasks k) ∧
    (∀ (s : State) (k : TaskId) (client : Client) (env : SyncEnv),
      Reachable s → s.heap[r]? = some client →
      mapGet s.tasks k = some (.updateCopyMain ws r (.text mainRs) (.text cargoToml)) →
      env.writeCargoErr = none →
      newEffects s (step s (.resume k (.settled none) env))
          = [Effect.send ws (.fileUpdated "src/main.rs"),
             Effect.writeFile (client.workspace ++ "/Cargo.toml") (some cargoToml),
             Effect.dockerCp client.containerName (client.workspace ++ "/Cargo.toml")
               "/usr/src/app/Cargo.toml"] ∧
        mapGet (step s (.resume k (.settled none) env)).tasks s.nextTask
          = some (.updateCopyCargo ws r (.text mainRs) (.text cargoToml))) ∧
    (∀ (s : State) (k : TaskId) (e : String) (env : SyncEnv),
      mapGet s.tasks k = some (.updateCopyCargo ws r (.text mainRs) (.text cargoToml)) →
      newEffects s (step s (.resume k (.settled (some e)) env))
          = [Effect.send ws (updateError e)] ∧
        (step s (.resume k (.settled (some e)) env)).tasks = mapDelete s.tasks k) ∧
    (∀ (s : State) (k : TaskId) (client : Client) (env : SyncEnv),
      s.heap[r]? = some client →
      mapGet s.tasks k = some (.updateCopyCargo ws r (.text mainRs) (.text cargoToml)) →
      newEffects s (step s (.resume k (.settled none) env))
          = Effect.send ws (.fileUpdated "Cargo.toml")
              :: bothChangedEffects s ws client mainRs cargoToml ∧
        (step s (.resume k (.settled none) env)).tasks = mapDelete s.tasks k ∧
        (∀ w, w ≠ ws → w ∈ client.connections.elems → isOpen s w = true →
          Effect.send w (.fileChanged "src/main.rs" (some mainRs))
            ∈ newEffects s (step s (.resume k (.settled none) env)) ∧
          Effect.send w (.fileChanged "Cargo.toml" (some cargoToml))
            ∈ newEffects s (step s (.resume k (.settled none) env)))) := by
  refine ⟨?_, ?_, ?_, ?_, ?_⟩
  · intro s k e env hk
    rw [step_resume hk]
    exact ⟨by simp [resumeTask, updateAfterCopyMain, send, newEffects],
      by simp [resumeTask, updateAfterCopyMain, send, emit, takeTask]⟩
  · intro s k client e env hobj hk hw
    rw [step_resume hk]
    exact ⟨by simp [resumeTask, updateAfterCopyMain, updateCargo, hobj, hw, send, newEffects],
      by simp [resumeTask, updateAfterCopyMain, updateCargo, hobj, hw, send, emit, takeTask]⟩
  · intro s k client env hs hobj hk hw
    rw [step_resume hk]
    refine ⟨by simp [resumeTask, updateAfterCopyMain, updateCargo, hobj, hw, send, newEffects],
      ?_⟩
    simp only [resumeTask, Option.getD_some, updateAfterCopyMain, updateCargo, send, emit_heap,
      takeTask_heap, hobj, hw]
    exact mapGet_suspend_new' _ (by simp) (by simp) (takeTask_fresh hs.fresh k)
  · intro s k e env hk
    rw [step_resume hk]
    exact ⟨by simp [resumeTask, updateAfterCopyCargo, send, newEffects],
      by simp [resumeTask, updateAfterCopyCargo, send, emit, takeTask]⟩
  · intro s k client env hobj hk
    have hstep : step s (.resume k (.settled none) env)
        = updateNotify (send (takeTask s k) ws (.fileUpdated "Cargo.toml")) ws r
            (.text mainRs) (.text cargoToml) := by
      rw [step_resume hk]
      simp [resumeTask, updateAfterCopyCargo]
    have heff : newEffects s (step s (.resume k (.settled none) env))
        = Effect.send ws (.fileUpdated "Cargo.toml")
            :: bothChangedEffects s ws client mainRs cargoToml := by
      rw [hstep]
      simp [updateNotify, hobj, send, newEffects, bothChangedEffects, isOpen, getConn,
        List.flatMap]
    refine ⟨heff, ?_, ?_⟩
    · rw [hstep]
      simp [updateNotify, hobj, send]
    · intro w hne hm ho
      rw [heff]
      have hmem : w ∈ client.connections.elems.filter (fun w => w ≠ ws && isOpen s w) := by
        simp [List.mem_filter, hm, hne, ho]
      constructor
      · exact List.mem_cons_of_mem _ (List.mem_flatMap.2 ⟨w, hmem, by simp⟩)
      · exact List.mem_cons_of_mem _ (List.mem_flatMap.2 ⟨w, hmem, by simp⟩)

/-- The failing write at a concrete state: in `bothFilesState` the copy of
src/main.rs succeeds and the write of Cargo.toml throws: connection 0 gets the
acknowledgment of src/main.rs and the error, connection 1 nothing. -/
theorem updateFile_both_files_witness :
    (bothFilesState.heap[0]? = some bothFilesClient ∧
      mapGet bothFilesState.tasks 3
        = some (.updateCopyMain 0 0 (.text "fn main() {}") (.text "[package]")) ∧
      cargoWriteFails.writeCargoErr = some "ENOSPC: no space left on device") ∧
    newEffects bothFilesState (step bothFilesState (.resume 3 (.settled none) cargoWriteFails))
      = [Effect.send 0 (.fileUpdated "src/main.rs"),
         Effect.writeFile "./docker_workspaces/t1/Cargo.toml" (some "[package]"),
         Effect.send 0 (updateError "ENOSPC: no space left on device")] :=
  have h := (updateFile_both_files 0 0 "fn main() {}" "[package]").2.1 bothFilesState 3
    bothFilesClient "ENOSPC: no space left on device" cargoWriteFails
    (by decide) (by decide) rfl
  ⟨⟨by decide, by decide, rfl⟩, h.1.trans (by decide)⟩
end TerminalServer

namespace CodeRunner

open TerminalServer (mapGet mapSet mapDelete truthy SyncEnv writeFileError)

/-! ## Lemmas on maps -/

theorem mapDelete_eq_filter {κ ν : Type} [DecidableEq κ] (m : List (κ × ν)) (k : κ) :
    mapDelete m k = m.filter (fun p => decide (p.1 ≠ k)) := by
  induction m with
  | nil => rfl
  | cons p m ih =>
    obtain ⟨k', v⟩ := p
    by_cases h : k' = k
    · simp [mapDelete, h, ih]
    · simp [mapDelete, h, ih]

theorem keys_mapSet {κ ν : Type} [DecidableEq κ] (m : List (κ × ν)) (k : κ) (v : ν) :
    (mapSet m k v).map Prod.fst
      = if k ∈ m.map Prod.fst then m.map Prod.fst else m.map Prod.fst ++ [k] := by
  induction m with
  | nil => simp [mapSet]
  | cons p m ih =>
    obtain ⟨k', v'⟩ := p
    by_cases h : k' = k
    · subst h
      simp [mapSet]
    · have h' : ¬ k = k' := fun e => h e.symm
      by_cases hm : k ∈ m.map Prod.fst
      · rw [if_pos hm] at ih
        simp only [mapSet, if_neg h, List.map_cons, ih]
        rw [if_pos (List.mem_cons_of_mem _ hm)]
      · rw [if_neg hm] at ih
        simp only [mapSet, if_neg h, List.map_cons, ih]
        rw [if_neg (by simp only [List.mem_cons, not_or]; exact ⟨h', hm⟩)]
        rfl

theorem nodup_keys_mapSet {κ ν : Type} [DecidableEq κ] {m : List (κ × ν)} (k : κ) (v : ν)
    (h : (m.map Prod.fst).Nodup) : ((mapSet m k v).map Prod.fst).Nodup := by
  rw [keys_mapSet]
  split
  · exact h
  · rename_i hk
    exact List.Nodup.append h (List.nodup_singleton k) (by
      intro a ha hb
      simp only [List.mem_singleton] at hb
      subst hb
      exact hk ha)

theorem nodup_keys_mapDelete {κ ν : Type} [DecidableEq κ] {m : List (κ × ν)} (k : κ)
    (h : (m.map Prod.fst).Nodup) : ((mapDelete m k).map Prod.fst).Nodup := by
  rw [mapDelete_eq_filter]
  exact h.sublist ((List.filter_sublist m).map Prod.fst)

/-! ## Reachable states are well formed -/

theorem wf_frame {x y : State} (hc : y.clients = x.clients) (ht : y.tasks = x.tasks)
    (hn : y.nextTask = x.nextTask) (h : WellFormed x) : WellFormed y := by
  unfold WellFormed
  rw [hc, ht, hn]
  exact h

theorem wf_emit {x : State} (e : Effect) (h : WellFormed x) : WellFormed (emit x e) :=
  wf_frame rfl rfl rfl h

theorem wf_emits {x : State} (es : List Effect) (h : WellFormed x) : WellFormed (emits x es) :=
  wf_frame rfl rfl rfl h

theorem wf_send {x : State} (w : Ws) (m : Msg) (h : WellFormed x) : WellFormed (send x w m) :=
  wf_frame rfl rfl rfl h

theorem wf_addConn {x : State} (c : Conn) (h : WellFormed x) : WellFormed (addConn x c) :=
  wf_frame rfl rfl rfl h

theorem wf_updConn {x : State} (w : Ws) (f : Conn → Conn) (h : WellFormed x) :
    WellFormed (updConn x w f) :=
  wf_frame rfl rfl rfl h

theorem wf_updClient {x : State} (r : Ref) (f : Client → Client) (h : WellFormed x) :
    WellFormed (updClient x r f) :=
  wf_frame rfl rfl rfl h

theorem wf_addProc {x : State} (p : Proc) (h : WellFormed x) : WellFormed (addProc x p) :=
  wf_frame rfl rfl rfl h

theorem wf_markExited {x : State} (pid : Pid) (h : WellFormed x) :
    WellFormed (markExited x pid) :=
  wf_frame rfl rfl rfl h

theorem wf_suspend {x : State} (t : Task) (h : WellFormed x) : WellFormed (suspend x t) := by
  refine ⟨h.1, fun p hp => ?_⟩
  simp only [suspend, List.mem_append, List.mem_singleton] at hp ⊢
  rcases hp with hp | hp
  · exact Nat.lt_succ_of_lt (h.2 p hp)
  · subst hp
    exact Nat.lt_succ_self _

theorem wf_takeTask {x : State} (k : TaskId) (h : WellFormed x) : WellFormed (takeTask x k) :=
  ⟨h.1, fun p hp => h.2 p (TerminalServer.mem_of_mem_mapDelete hp).1⟩

theorem wf_registerClient {x : State} (id : ClientId) (c : Client) (h : WellFormed x) :
    WellFormed (registerClient x id c) :=
  ⟨nodup_keys_mapSet id _ h.1, h.2⟩

theorem wf_delClient {x : State} (id : ClientId) (h : WellFormed x) :
    WellFormed (delClient x id) :=
  ⟨nodup_keys_mapDelete id h.1, h.2⟩

theorem wf_createFailed {x : State} (ws : Ws) (e : String) (h : WellFormed x) :
    WellFormed (createFailed x ws e) :=
  wf_updConn _ _ (wf_emit _ (wf_send _ _ h))

theorem wf_onConnection {x : State} (uuid : String) (env : SyncEnv) (d : Option String)
    (h : WellFormed x) : WellFormed (onConnection x uuid env d) := by
  unfold onConnection
  dsimp only
  split
  · exact wf_createFailed _ _ (wf_emit _ (wf_emits _ (wf_addConn _ h)))
  · exact wf_suspend _ (wf_emit _ (wf_emit _ (wf_emits _ (wf_addConn _ h))))

theorem wf_createAfter {x : State} (ws : Ws) (err : Option String) (h : WellFormed x) :
    WellFormed (createAfter x ws err) := by
  unfold createAfter
  split
  · exact h
  · split
    · exact wf_createFailed _ _ h
    · exact wf_updConn _ _ (wf_send _ _ (wf_registerClient _ _ h))

theorem wf_onMessage {x : State} (ws : Ws) (id : ClientId) (d : Data) (env : SyncEnv)
    (h : WellFormed x) : WellFormed (onMessage x ws id d env) := by
  unfold onMessage
  try dsimp only
  repeat' first
    | with_reducible exact h | with_reducible apply wf_send | with_reducible apply wf_emit
    | with_reducible apply wf_updClient | with_reducible apply wf_addProc | split

theorem wf_onProcExit {x : State} (pid : Pid) (h : WellFormed x) :
    WellFormed (onProcExit x pid) := by
  unfold onProcExit
  try dsimp only
  repeat' first
    | with_reducible exact h | with_reducible apply wf_suspend | with_reducible apply wf_emit
    | with_reducible apply wf_markExited | split

theorem wf_copyCargoAfter {x : State} (r : Ref) (a : String) (err : Option String)
    (h : WellFormed x) : WellFormed (copyCargoAfter x r a err) := by
  unfold copyCargoAfter
  try dsimp only
  repeat' first
    | with_reducible exact h | with_reducible apply wf_suspend | with_reducible apply wf_emit
    | split

theorem wf_copyMainAfter {x : State} (r : Ref) (a : String) (err : Option String)
    (h : WellFormed x) : WellFormed (copyMainAfter x r a err) := by
  unfold copyMainAfter
  try dsimp only
  repeat' first
    | with_reducible exact h | with_reducible apply wf_updClient | with_reducible apply wf_emit
    | with_reducible apply wf_addProc | with_reducible apply wf_emits | split

theorem wf_sendToOwner {x : State} (r : Ref) (m : Msg) (h : WellFormed x) :
    WellFormed (sendToOwner x r m) := by
  unfold sendToOwner
  repeat' first
    | with_reducible exact h | with_reducible apply wf_send | split

theorem wf_onProcStdout {x : State} (pid : Pid) (c : String) (h : WellFormed x) :
    WellFormed (onProcStdout x pid c) := by
  unfold onProcStdout
  repeat' first
    | with_reducible exact h | with_reducible apply wf_sendToOwner | split

theorem wf_onProcStderr {x : State} (pid : Pid) (c : String) (h : WellFormed x) :
    WellFormed (onProcStderr x pid c) := by
  unfold onProcStderr
  repeat' first
    | with_reducible exact h | with_reducible apply wf_sendToOwner | split

theorem wf_onProcClose {x : State} (pid : Pid) (c : Option Int) (h : WellFormed x) :
    WellFormed (onProcClose x pid c) := by
  unfold onProcClose
  try dsimp only
  repeat' first
    | with_reducible exact h | with_reducible apply wf_updClient
    | with_reducible apply wf_sendToOwner | with_reducible apply wf_markExited | split

theorem wf_onClose {x : State} (ws : Ws) (id : ClientId) (h : WellFormed x) :
    WellFormed (onClose x ws id) := by
  unfold onClose
  try dsimp only
  repeat' first
    | with_reducible exact h | with_reducible apply wf_suspend | with_reducible apply wf_emit
    | with_reducible apply wf_emits | split

theorem wf_afterStop {x : State} (id : ClientId) (r : Ref) (err : Option String)
    (h : WellFormed x) : WellFormed (afterStop x id r err) := by
  unfold afterStop
  try dsimp only
  repeat' first
    | with_reducible exact h | with_reducible apply wf_delClient | with_reducible apply wf_emit
    | split

theorem wf_sweepVisit {x : State} (id : ClientId) (r : Ref) (h : WellFormed x) :
    WellFormed (sweepVisit x id r) := by
  unfold sweepVisit
  try dsimp only
  repeat' first
    | with_reducible exact h | with_reducible apply wf_suspend | with_reducible apply wf_emit
    | with_reducible apply wf_emits | split

theorem wf_foldl_sweepVisit (l : List (ClientId × Ref)) :
    ∀ x : State, WellFormed x → WellFormed (l.foldl (fun x p => sweepVisit x p.1 p.2) x) := by
  induction l with
  | nil => exact fun x h => h
  | cons p l ih => exact fun x h => ih _ (wf_sweepVisit _ _ h)

theorem wf_resumeTask {x : State} (task : Task) (err : Option String) (h : WellFormed x) :
    WellFormed (resumeTask x task err) := by
  cases task with
  | create ws => exact wf_createAfter _ _ h
  | copyCargo r a => exact wf_copyCargoAfter _ _ _ h
  | copyMain r a => exact wf_copyMainAfter _ _ _ h
  | closeStop ws r =>
    simp only [resumeTask]
    split
    · exact wf_afterStop _ _ _ h
    · exact h
  | sweepStop id r => exact wf_afterStop _ _ _ h

theorem wf_step {x : State} (e : Event) (h : WellFormed x) : WellFormed (step x e) := by
  cases e with
  | connection uuid env d => exact wf_onConnection _ _ _ h
  | message ws data env =>
    simp only [step]
    split
    · split
      · exact wf_onMessage _ _ _ _ h
      · exact h
    · exact h
  | wsDrop ws => exact wf_updConn _ _ h
  | close ws =>
    simp only [step]
    split
    · split
      · exact h
      · split
        · exact wf_onClose _ _ (wf_updConn _ _ h)
        · exact wf_updConn _ _ h
    · exact h
  | resume k err =>
    simp only [step]
    split
    · exact wf_resumeTask _ _ (wf_takeTask _ h)
    · exact h
  | procExit pid => exact wf_onProcExit _ h
  | procStdout pid chunk => exact wf_onProcStdout _ _ h
  | procStderr pid chunk => exact wf_onProcStderr _ _ h
  | procClose pid code => exact wf_onProcClose _ _ h
  | sweepTick => exact wf_foldl_sweepVisit _ _ h

theorem Reachable.wellFormed {s : State} (h : Reachable s) : WellFormed s := by
  obtain ⟨es, rfl⟩ := h
  suffices H : ∀ (es : List Event) (x : State), WellFormed x → WellFormed (CodeRunner.run x es)
    from H es _ ⟨by simp [CodeRunner.init], by simp [CodeRunner.init]⟩
  intro es
  induction es with
  | nil => exact fun x hx => hx
  | cons e es ih => exact fun x hx => ih _ (wf_step e hx)

theorem reachable_run {s : State} (h : Reachable s) (es : List Event) :
    Reachable (CodeRunner.run s es) := by
  obtain ⟨es₀, rfl⟩ := h
  exact ⟨es₀ ++ es, by simp [CodeRunner.run, List.foldl_append]⟩

/-! ## The sweep -/

theorem mapGet_of_mem_nodup {κ ν : Type} [DecidableEq κ] {m : List (κ × ν)} {k : κ} {v : ν}
    (hm : (k, v) ∈ m) (hn : (m.map Prod.fst).Nodup) : mapGet m k = some v := by
  induction m with
  | nil => cases hm
  | cons q m ih =>
    obtain ⟨k', v'⟩ := q
    simp only [List.map_cons, List.nodup_cons] at hn
    rcases List.mem_cons.mp hm with h | h
    · injection h with h1 h2
      subst h1; subst h2
      simp [mapGet]
    · have hne : k' ≠ k := by
        intro e
        subst e
        exact hn.1 (List.mem_map_of_mem Prod.fst h)
      simp only [mapGet, if_neg hne]
      exact ih h hn.2

theorem isStale_congr {s x : State} (hh : x.heap = s.heap) (hc : x.conns = s.conns) (r : Ref) :
    isStale x r = isStale s r := by
  simp only [isStale, isOpen, hh, hc]

/-- One callback of the sweep, in a state with the records and sockets of `s`. -/
theorem sweepVisit_spec {s x : State} (hh : x.heap = s.heap) (hc : x.conns = s.conns)
    (id : ClientId) (r : Ref) :
    (sweepVisit x id r).heap = s.heap ∧ (sweepVisit x id r).conns = s.conns ∧
    (sweepVisit x id r).clients = x.clients ∧ (sweepVisit x id r).procs = x.procs ∧
    (sweepVisit x id r).trace = x.trace ++ visitEffects s r ∧
    (sweepVisit x id r).tasks = x.tasks ++ sweepTasksFrom s x.nextTask [(id, r)] ∧
    (sweepVisit x id r).nextTask = x.nextTask + (sweepTasksFrom s x.nextTask [(id, r)]).length := by
  cases hr : s.heap[r]? with
  | none =>
    simp [sweepVisit, visitEffects, sweepTasksFrom, isStale, hh, hc, hr]
  | some client =>
    by_cases ho : isOpen s client.ws = true
    · have ho' : isOpen x client.ws = true := by simpa [isOpen, hc] using ho
      simp [sweepVisit, visitEffects, sweepTasksFrom, isStale, hh, hc, hr, ho, ho']
    · have ho' : ¬ isOpen x client.ws = true := by simpa [isOpen, hc] using ho
      simp [sweepVisit, visitEffects, sweepTasksFrom, isStale, hh, hc, hr, ho, ho', suspend,
        emit, emits]

theorem sweepTasksFrom_cons (s : State) (n : TaskId) (p : ClientId × Ref)
    (l : List (ClientId × Ref)) :
    sweepTasksFrom s n (p :: l)
      = sweepTasksFrom s n [p]
        ++ sweepTasksFrom s (n + (sweepTasksFrom s n [p]).length) l := by
  by_cases h : isStale s p.2 = true
  · simp [sweepTasksFrom, h]
  · simp [sweepTasksFrom, h]

/-- The scan of the sweep over the entries `l`. -/
theorem foldl_sweepVisit_spec (s : State) (l : List (ClientId × Ref)) :
    ∀ x : State, x.heap = s.heap → x.conns = s.conns →
      (l.foldl (fun x p => sweepVisit x p.1 p.2) x).heap = s.heap ∧
      (l.foldl (fun x p => sweepVisit x p.1 p.2) x).conns = s.conns ∧
      (l.foldl (fun x p => sweepVisit x p.1 p.2) x).clients = x.clients ∧
      (l.foldl (fun x p => sweepVisit x p.1 p.2) x).procs = x.procs ∧
      (l.foldl (fun x p => sweepVisit x p.1 p.2) x).trace
        = x.trace ++ l.flatMap (fun p => visitEffects s p.2) ∧
      (l.foldl (fun x p => sweepVisit x p.1 p.2) x).tasks
        = x.tasks ++ sweepTasksFrom s x.nextTask l := by
  induction l with
  | nil =>
    intro x hh hc
    simp [hh, hc, sweepTasksFrom]
  | cons p l ih =>
    intro x hh hc
    obtain ⟨h1, h2, h3, h4, h5, h6, h7⟩ := sweepVisit_spec hh hc p.1 p.2
    obtain ⟨g1, g2, g3, g4, g5, g6⟩ := ih (sweepVisit x p.1 p.2) h1 h2
    refine ⟨g1, g2, g3.trans h3, g4.trans h4, ?_, ?_⟩
    · rw [List.foldl_cons, g5, h5]
      simp [List.flatMap_cons]
    · rw [List.foldl_cons, g6, h6, h7, sweepTasksFrom_cons s x.nextTask p l]
      simp

theorem afterStop_fields (x : State) (id : ClientId) (r : Ref) (err : Option String) :
    (afterStop x id r err).clients = mapDelete x.clients id ∧
    (afterStop x id r err).heap = x.heap ∧ (afterStop x id r err).tasks = x.tasks ∧
    (afterStop x id r err).conns = x.conns := by
  unfold afterStop
  dsimp only
  split <;> exact ⟨rfl, rfl, rfl, rfl⟩

/-- Suspended callbacks of the sweep, resumed in the order of `l`. -/
theorem resumeAll_sweep (l : List (TaskId × Task × Option String)) :
    ∀ x : State, (l.map (fun j => j.1)).Nodup →
      (∀ j ∈ l, mapGet x.tasks j.1 = some j.2.1 ∧ (sweepIdOf j.2.1).isSome = true) →
      (run x (resumeAll l)).clients
        = x.clients.filter (fun p => decide (some p.1 ∉ l.map (fun j => sweepIdOf j.2.1))) ∧
      (run x (resumeAll l)).heap = x.heap := by
  induction l with
  | nil =>
    intro x _ _
    simp [resumeAll, run]
  | cons j l ih =>
    intro x hn hl
    obtain ⟨k, task, err⟩ := j
    simp only [List.map_cons, List.nodup_cons] at hn
    obtain ⟨hk, hs⟩ := hl (k, task, err) (List.mem_cons_self _ _)
    cases task with
    | sweepStop id r =>
      have hstep : step x (.resume k err) = afterStop (takeTask x k) id r err := by
        have hk' : mapGet x.tasks k = some (Task.sweepStop id r) := hk
        simp [step, hk', resumeTask]
      obtain ⟨f1, f2, f3, -⟩ := afterStop_fields (takeTask x k) id r err
      have hl' : ∀ j ∈ l, mapGet (step x (.resume k err)).tasks j.1 = some j.2.1 ∧
          (sweepIdOf j.2.1).isSome = true := by
        intro j hj
        have hne : j.1 ≠ k := by
          intro e
          exact hn.1 (e ▸ List.mem_map_of_mem (fun j => j.1) hj)
        rw [hstep, f3]
        simp only [takeTask]
        rw [TerminalServer.mapGet_mapDelete_ne _ hne]
        exact hl j (List.mem_cons_of_mem _ hj)
      obtain ⟨g1, g2⟩ := ih (step x (.resume k err)) hn.2 hl'
      have hrun : run x (resumeAll ((k, Task.sweepStop id r, err) :: l))
          = run (step x (.resume k err)) (resumeAll l) := rfl
      rw [hrun, g1, g2, hstep, f1, f2]
      refine ⟨?_, rfl⟩
      simp only [takeTask, mapDelete_eq_filter, List.filter_filter]
      apply List.filter_congr
      intro p _
      have e : sweepIdOf (Task.sweepStop id r) = some id := rfl
      by_cases h1 : p.1 = id <;>
        by_cases h2 : some p.1 ∈ List.map (fun j => sweepIdOf j.2.1) l <;>
        simp [h1, h2, e]
    | create ws => simp [sweepIdOf] at hs
    | copyCargo r a => simp [sweepIdOf] at hs
    | copyMain r a => simp [sweepIdOf] at hs
    | closeStop ws r => simp [sweepIdOf] at hs

theorem mem_sweepTasksFrom {s : State} {l : List (ClientId × Ref)} :
    ∀ {n : TaskId} {q : TaskId × Task}, q ∈ sweepTasksFrom s n l →
      n ≤ q.1 ∧ ∃ p ∈ l, isStale s p.2 = true ∧ q.2 = .sweepStop p.1 p.2 := by
  induction l with
  | nil =>
    intro n q hq
    simp [sweepTasksFrom] at hq
  | cons p l ih =>
    intro n q hq
    by_cases hp : isStale s p.2 = true
    · simp only [sweepTasksFrom, hp, if_true, List.mem_cons] at hq
      rcases hq with hq | hq
      · subst hq
        exact ⟨le_refl _, p, List.mem_cons_self _ _, hp, rfl⟩
      · obtain ⟨h1, p', hp', h2⟩ := ih hq
        exact ⟨Nat.le_of_succ_le h1, p', List.mem_cons_of_mem _ hp', h2⟩
    · simp only [sweepTasksFrom, hp] at hq
      obtain ⟨h1, p', hp', h2⟩ := ih hq
      exact ⟨h1, p', List.mem_cons_of_mem _ hp', h2⟩

theorem sweepTasksFrom_of_mem {s : State} {l : List (ClientId × Ref)} :
    ∀ (n : TaskId) {p : ClientId × Ref}, p ∈ l → isStale s p.2 = true →
      ∃ k, (k, Task.sweepStop p.1 p.2) ∈ sweepTasksFrom s n l := by
  induction l with
  | nil =>
    intro n p hp
    cases hp
  | cons p' l ih =>
    intro n p hp hs
    by_cases hp' : isStale s p'.2 = true
    · rcases List.mem_cons.mp hp with h | h
      · subst h
        exact ⟨n, by simp [sweepTasksFrom, hp']⟩
      · obtain ⟨k, hk⟩ := ih (n + 1) h hs
        exact ⟨k, by simp only [sweepTasksFrom, hp', if_true]; exact List.mem_cons_of_mem _ hk⟩
    · rcases List.mem_cons.mp hp with h | h
      · subst h
        exact absurd hs hp'
      · obtain ⟨k, hk⟩ := ih n h hs
        exact ⟨k, by simp only [sweepTasksFrom, hp']; exact hk⟩

theorem nodup_keys_sweepTasksFrom (s : State) (l : List (ClientId × Ref)) :
    ∀ n : TaskId, ((sweepTasksFrom s n l).map Prod.fst).Nodup := by
  induction l with
  | nil =>
    intro n
    simp [sweepTasksFrom]
  | cons p l ih =>
    intro n
    by_cases hp : isStale s p.2 = true
    · simp only [sweepTasksFrom, hp, if_true, List.map_cons, List.nodup_cons]
      refine ⟨fun hm => ?_, ih (n + 1)⟩
      obtain ⟨q, hq, hqn⟩ := List.mem_map.mp hm
      have h1 : n + 1 ≤ q.1 := (mem_sweepTasksFrom hq).1
      rw [hqn] at h1
      exact Nat.not_succ_le_self n h1
    · simp only [sweepTasksFrom, hp]
      exact ih n

theorem sweep_fields (s : State) :
    (sweep s).heap = s.heap ∧ (sweep s).conns = s.conns ∧ (sweep s).clients = s.clients ∧
    (sweep s).procs = s.procs ∧
    (sweep s).trace = s.trace ++ s.clients.flatMap (fun p => visitEffects s p.2) ∧
    (sweep s).tasks = s.tasks ++ sweepTasks s :=
  foldl_sweepVisit_spec s s.clients s rfl rfl

theorem value_unique_of_nodup_keys {κ ν : Type} [DecidableEq κ] {m : List (κ × ν)} {k : κ}
    {v w : ν} (hn : (m.map Prod.fst).Nodup) (hv : (k, v) ∈ m) (hw : (k, w) ∈ m) : v = w := by
  have h1 := mapGet_of_mem_nodup hv hn
  have h2 := mapGet_of_mem_nodup hw hn
  rw [h1] at h2
  exact Option.some.inj h2

/-- After the scan and the resumption of the callbacks it suspended, in any
order and with any outcomes, `clients` holds the entries whose connection
was open at the scan, and the records are as they were. -/
theorem sweep_completed {s : State} (hs : WellFormed s)
    (J : List (TaskId × Task × Option String))
    (hJ : (J.map (fun j => (j.1, j.2.1))).Perm (sweepTasks s)) :
    (run (sweep s) (resumeAll J)).clients = s.clients.filter (fun p => !isStale s p.2) ∧
    (run (sweep s) (resumeAll J)).heap = s.heap := by
  obtain ⟨g1, -, g3, -, -, g6⟩ := sweep_fields s
  have hkeysT : ((sweepTasks s).map Prod.fst).Nodup := nodup_keys_sweepTasksFrom s _ _
  have hkeys : (J.map (fun j => j.1)).Nodup := by
    have h1 := (hJ.map Prod.fst).nodup_iff.mpr hkeysT
    simpa [List.map_map, Function.comp] using h1
  have hl : ∀ j ∈ J, mapGet (sweep s).tasks j.1 = some j.2.1 ∧
      (sweepIdOf j.2.1).isSome = true := by
    intro j hj
    have hmem : (j.1, j.2.1) ∈ sweepTasks s :=
      hJ.mem_iff.mp (List.mem_map_of_mem (fun j => (j.1, j.2.1)) hj)
    obtain ⟨hge, p, -, -, ht⟩ := mem_sweepTasksFrom hmem
    have hnone : mapGet s.tasks j.1 = none := by
      rw [TerminalServer.mapGet_eq_none_iff]
      intro q hq he
      have h1 : q.1 < s.nextTask := hs.2 q hq
      rw [he] at h1
      exact Nat.lt_irrefl _ (Nat.lt_of_lt_of_le h1 hge)
    refine ⟨?_, ?_⟩
    · rw [g6, TerminalServer.mapGet_append, hnone, mapGet_of_mem_nodup hmem hkeysT]
      rfl
    · have ht' : j.2.1 = Task.sweepStop p.1 p.2 := ht
      rw [ht']
      rfl
  obtain ⟨h1, h2⟩ := resumeAll_sweep J (sweep s) hkeys hl
  refine ⟨?_, h2.trans g1⟩
  rw [h1, g3]
  apply List.filter_congr
  intro p hp
  have hperm : (J.map (fun j => sweepIdOf j.2.1)).Perm
      ((sweepTasks s).map (fun q => sweepIdOf q.2)) := by
    have := hJ.map (fun q : TaskId × Task => sweepIdOf q.2)
    simpa [List.map_map, Function.comp] using this
  by_cases hst : isStale s p.2 = true
  · obtain ⟨k, hk⟩ := sweepTasksFrom_of_mem s.nextTask hp hst
    have : some p.1 ∈ J.map (fun j => sweepIdOf j.2.1) :=
      hperm.mem_iff.mpr (List.mem_map.mpr ⟨(k, Task.sweepStop p.1 p.2), hk, rfl⟩)
    simp [this, hst]
  · have : some p.1 ∉ J.map (fun j => sweepIdOf j.2.1) := by
      intro hm
      obtain ⟨q, hq, hqid⟩ := List.mem_map.mp (hperm.mem_iff.mp hm)
      obtain ⟨-, p', hp', hst', ht⟩ := mem_sweepTasksFrom hq
      rw [ht] at hqid
      have hid : p'.1 = p.1 := Option.some.inj hqid
      have hp'' : (p.1, p'.2) ∈ s.clients := by
        rw [← hid]
        exact hp'
      have := value_unique_of_nodup_keys hs.1 hp'' hp
      rw [this] at hst'
      exact hst hst'
    simp [this, hst]

/-! ## C18: the periodic sweep -/

/-- The sweep in terms of the promise of `removeContainer`: the scan leaves
`clients` and the records as they are; for every entry whose connection is
not open, in the order of `clients`, it signals the process in the slot, if
any, requests the stop of the container and suspends one callback; for the
other entries it does nothing.  When a suspended callback resumes, it
attempts to delete the workspace if the promise was resolved and not if it
was rejected, and in both cases deletes the entry from `clients`.  Once the
callbacks of the scan have resumed, in any order and with any outcomes, and
no other event in between, `clients` holds exactly the entries whose
connection was open at the scan, and every record is as it was. -/
theorem sweep_pass_outcomes (s : State) (hs : Reachable s) :
    (newEffects s (step s .sweepTick) = s.clients.flatMap (fun p => visitEffects s p.2) ∧
      (step s .sweepTick).clients = s.clients ∧ (step s .sweepTick).heap = s.heap ∧
      (step s .sweepTick).tasks = s.tasks ++ sweepTasks s) ∧
    (∀ (r : Ref) (client : Client), s.heap[r]? = some client →
      (isOpen s client.ws = true → isStale s r = false ∧ visitEffects s r = []) ∧
      (isOpen s client.ws = false → isStale s r = true ∧
        visitEffects s r = killEffects client ++ [.dockerStop client.containerName])) ∧
    (∀ (x : State) (k : TaskId) (id : ClientId) (r : Ref) (client : Client),
      mapGet x.tasks k = some (.sweepStop id r) → x.heap[r]? = some client →
      newEffects x (step x (.resume k none)) = [.rmSync client.workspace] ∧
      (∀ e, newEffects x (step x (.resume k (some e))) = []) ∧
      ∀ err, (step x (.resume k err)).clients = mapDelete x.clients id ∧
        (step x (.resume k err)).heap = x.heap) ∧
    (∀ J : List (TaskId × Task × Option String),
      (J.map (fun j => (j.1, j.2.1))).Perm (sweepTasks s) →
      (run (step s .sweepTick) (resumeAll J)).clients
          = s.clients.filter (fun p => !isStale s p.2) ∧
        (run (step s .sweepTick) (resumeAll J)).heap = s.heap) := by
  obtain ⟨g1, -, g3, -, g5, g6⟩ := sweep_fields s
  refine ⟨⟨?_, g3, g1, g6⟩, ?_, ?_, ?_⟩
  · show (sweep s).trace.drop s.trace.length = _
    rw [g5]
    simp
  · intro r client hr
    refine ⟨fun ho => ?_, fun ho => ?_⟩
    · simp [isStale, visitEffects, hr, ho]
    · simp [isStale, visitEffects, hr, ho]
  · intro x k id r client hk hr
    refine ⟨?_, fun e => ?_, fun err => ?_⟩
    · simp [step, hk, resumeTask, afterStop, takeTask, hr, newEffects, emit, delClient]
    · simp [step, hk, resumeTask, afterStop, takeTask, newEffects, delClient]
    · have hstep : step x (.resume k err) = afterStop (takeTask x k) id r err := by
        simp [step, hk, resumeTask]
      rw [hstep]
      exact ⟨(afterStop_fields _ _ _ _).1, (afterStop_fields _ _ _ _).2.1⟩
  · intro J hJ
    exact sweep_completed hs.wellFormed J hJ

theorem settleStops_tasks (J : List (TaskId × Task × StopRun)) :
    (settleStops J).map (fun j => (j.1, j.2.1)) = J.map (fun j => (j.1, j.2.1)) := by
  simp [settleStops, List.map_map, Function.comp_def]

/-- C18 (the claim as stated fails): client `a` is registered and its socket
is no longer open.  The sweep requests the stop of its container with
`exec`, which cannot run the command: the promise of `removeContainer` is
rejected, and the callback removes the client from `clients` without
attempting to delete its workspace.  (When the command runs and
`docker stop` fails, the promise is resolved and the deletion is attempted,
as the claim says.) -/
theorem sweep_skips_workspace_when_exec_fails :
    Reachable (run init staleTrace) ∧
    (run init (staleTrace.take 3)).clients = [("a", 0)] ∧
    isStale (run init (staleTrace.take 3)) 0 = true ∧
    newEffects (run init (staleTrace.take 3)) (run init staleTrace)
      = [.dockerStop "rust-workspace-a"] ∧
    mapGet (run init staleTrace).tasks 1 = some (.sweepStop "a" 0) ∧
    newEffects (run init staleTrace)
      (step (run init staleTrace)
        (.resume 1 (removeContainer (.execFailed "spawn /bin/sh EAGAIN")))) = [] ∧
    (step (run init staleTrace)
      (.resume 1 (removeContainer (.execFailed "spawn /bin/sh EAGAIN")))).clients = [] ∧
    newEffects (run init staleTrace)
      (step (run init staleTrace)
        (.resume 1 (removeContainer (.stopFailed "Error response from daemon: No such container"))))
      = [.rmSync "./docker_workspaces/a"] :=
  ⟨⟨staleTrace, rfl⟩, by decide, by decide, by decide, by decide, by decide, by decide,
    by decide⟩

/-- C18 (amended): a sweep in a reachable state.  The scan leaves `clients`
and the records as they are; for every entry whose connection is not open,
in the order of `clients`, it signals the process in the slot, if any,
requests the stop of the container and suspends one callback; for the other
entries it does nothing.  When a suspended callback resumes, it attempts to
delete the workspace if the stop command was run, whether `docker stop`
succeeded or failed, and not if `exec` could not run the command; in every
case it deletes the entry from `clients`.  Once the callbacks of the scan
have resumed, in any order and however their stop commands ended, and no
other event in between, `clients` holds exactly the entries whose connection
was open at the scan, and every record is as it was. -/
theorem sweep_pass (s : State) (hs : Reachable s) :
    (newEffects s (step s .sweepTick) = s.clients.flatMap (fun p => visitEffects s p.2) ∧
      (step s .sweepTick).clients = s.clients ∧ (step s .sweepTick).heap = s.heap ∧
      (step s .sweepTick).tasks = s.tasks ++ sweepTasks s) ∧
    (∀ (r : Ref) (client : Client), s.heap[r]? = some client →
      (isOpen s client.ws = true → isStale s r = false ∧ visitEffects s r = []) ∧
      (isOpen s client.ws = false → isStale s r = true ∧
        visitEffects s r = killEffects client ++ [.dockerStop client.containerName])) ∧
    (∀ (x : State) (k : TaskId) (id : ClientId) (r : Ref) (client : Client),
      mapGet x.tasks k = some (.sweepStop id r) → x.heap[r]? = some client →
      newEffects x (step x (.resume k (removeContainer .stopped)))
        = [.rmSync client.workspace] ∧
      (∀ e, newEffects x (step x (.resume k (removeContainer (.stopFailed e))))
        = [.rmSync client.workspace]) ∧
      (∀ e, newEffects x (step x (.resume k (removeContainer (.execFailed e)))) = []) ∧
      ∀ o : StopRun, (step x (.resume k (removeContainer o))).clients = mapDelete x.clients id ∧
        (step x (.resume k (removeContainer o))).heap = x.heap) ∧
    (∀ J : List (TaskId × Task × StopRun),
      (J.map (fun j => (j.1, j.2.1))).Perm (sweepTasks s) →
      (run (step s .sweepTick) (resumeAll (settleStops J))).clients
          = s.clients.filter (fun p => !isStale s p.2) ∧
        (run (step s .sweepTick) (resumeAll (settleStops J))).heap = s.heap) := by
  obtain ⟨h1, h2, h3, h4⟩ := sweep_pass_outcomes s hs
  refine ⟨h1, h2, ?_, ?_⟩
  · intro x k id r client hk hr
    obtain ⟨g1, g2, g3⟩ := h3 x k id r client hk hr
    exact ⟨g1, fun _ => g1, fun e => g2 e, fun o => g3 _⟩
  · intro J hJ
    exact h4 (settleStops J) (by rw [settleStops_tasks]; exact hJ)

/-- Witness of C18: in `twoClientsDropped` the socket of `a` is not open and
that of `b` is.  The sweep suspends callback 4 for `a`; after it, with a
`docker stop` that failed, `clients` holds `b` only. -/
theorem sweep_pass_witness :
    ([(4, Task.sweepStop "a" 0, StopRun.stopFailed "No such container")].map
        (fun j => (j.1, j.2.1))).Perm (sweepTasks twoClientsDropped) ∧
    (run (step twoClientsDropped .sweepTick)
        (resumeAll (settleStops
          [(4, Task.sweepStop "a" 0, StopRun.stopFailed "No such container")]))).clients
      = [("b", 1)] :=
  have hp : ([(4, Task.sweepStop "a" 0, StopRun.stopFailed "No such container")].map
      (fun j => (j.1, j.2.1))).Perm (sweepTasks twoClientsDropped) :=
    List.Perm.of_eq (by decide)
  ⟨hp, ((sweep_pass twoClientsDropped
    (reachable_run ⟨twoClientsTrace, rfl⟩ [.wsDrop 0])).2.2.2 _ hp).1.trans (by decide)⟩

/-! ## C20: the message handler acts on the client the message names -/

theorem step_message_listening {s : State} {ws : Ws} {c : Conn} (hc : s.conns[ws]? = some c)
    (hl : c.listening = true) (hcl : c.closed = false) (data : Data) (env : SyncEnv) :
    step s (.message ws data env) = onMessage s ws c.clientId data env := by
  simp [step, hc, hl, hcl]

theorem updClient_heap_get (s : State) (r r' : Ref) (f : Client → Client) :
    (updClient s r f).heap[r']? = if r = r' then (s.heap[r']?).map f else s.heap[r']? := by
  simp only [updClient]
  cases hi : s.heap[r]? with
  | none =>
    by_cases hij : r = r'
    · subst hij; simp [hi]
    · simp [hij]
  | some a =>
    have hlt : r < s.heap.length := (List.getElem?_eq_some_iff.mp hi).1
    by_cases hij : r = r'
    · subst hij; simp [List.getElem?_set, hlt, hi]
    · simp [List.getElem?_set, hij]

theorem getClient_some {s : State} {id : ClientId} {r : Ref} {client : Client}
    (h : getClient s id = some (r, client)) : s.heap[r]? = some client := by
  simp only [getClient] at h
  split at h
  · rename_i r' _
    cases hr : s.heap[r']? with
    | none => simp [hr] at h
    | some c =>
      simp only [hr, Option.map_some', Option.some.injEq, Prod.mk.injEq] at h
      obtain ⟨rfl, rfl⟩ := h
      exact hr
  · cases h

/-- The message handler, for a message that names a registered client. -/
theorem onMessage_frame (s : State) (ws : Ws) (clientId : ClientId)
    (cargoToml mainRs action rid : Option String) (env : SyncEnv) (r : Ref) (client : Client)
    (hg : getClient s (activeClientIdOf rid clientId) = some (r, client)) :
    (∀ e ∈ newEffects s (onMessage s ws clientId (.fields cargoToml mainRs action rid) env),
      actsOn ws client e = true) ∧
    (∀ r', r' ≠ r →
      (onMessage s ws clientId (.fields cargoToml mainRs action rid) env).heap[r']?
        = s.heap[r']?) ∧
    (∃ slot, (onMessage s ws clientId (.fields cargoToml mainRs action rid) env).heap[r]?
      = some { client with process := slot }) := by
  have hr := getClient_some hg
  have hg' : getClient s (if truthy rid = true then rid.getD "" else clientId)
      = some (r, client) := hg
  by_cases ha : action = some "stop"
  · cases hp : client.process with
    | none =>
      refine ⟨?_, ?_, ⟨client.process, ?_⟩⟩
      · simp [onMessage, hg', ha, hp, newEffects, send, emit, actsOn]
      · intro r' _
        simp [onMessage, hg', ha, hp, send, emit]
      · simp only [onMessage, hg', ha, hp, send, emit, hr, if_true]
        rw [← hp]
    | some pid =>
      refine ⟨?_, ?_, ⟨none, ?_⟩⟩
      · simp [onMessage, hg', ha, hp, newEffects, send, emit, actsOn, updClient]
      · intro r' hne
        simp [onMessage, hg', ha, hp, send, emit, updClient_heap_get, Ne.symm hne]
      · simp [onMessage, hg', ha, hp, send, emit, updClient_heap_get, hr]
  · refine ⟨?_, ?_, ⟨client.process, ?_⟩⟩
    · cases cargoToml <;> cases mainRs <;> cases h1 : env.writeCargoErr <;>
        cases h2 : env.writeMainErr <;>
        simp [onMessage, hg', ha, newEffects, send, emit, actsOn, addProc, writeFileError,
          h1, h2, processingError]
    · intro r' _
      cases cargoToml <;> cases mainRs <;> cases h1 : env.writeCargoErr <;>
        cases h2 : env.writeMainErr <;>
        simp [onMessage, hg', ha, send, emit, addProc, writeFileError, h1, h2]
    · cases cargoToml <;> cases mainRs <;> cases h1 : env.writeCargoErr <;>
        cases h2 : env.writeMainErr <;>
        simp [onMessage, hg', ha, send, emit, addProc, writeFileError, h1, h2, hr]

/-- C20 (the claim as stated fails): connection 0 was created for client `a`;
client `b` is registered and runs process 1.  A message on connection 0 that
carries `clientId: "b"` and `action: "stop"` signals the process of `b` and
clears the slot of `b`; one that carries `clientId: "b"` and the two files
writes them into the workspace of `b` and spawns a process in the container
of `b`. -/
theorem message_reaches_other_client :
    Reachable twoClients ∧
    (twoClients.conns[0]?).map (fun c => c.clientId) = some "a" ∧
    twoClients.clients = [("a", 0), ("b", 1)] ∧
    twoClients.heap[1]? = some clientB ∧
    newEffects twoClients
        (step twoClients (.message 0 (.fields none none (some "stop") (some "b")) fine))
      = [.procKill 1 "SIGTERM", .send 0 (.status "Rust process stopped" "b")] ∧
    (step twoClients (.message 0 (.fields none none (some "stop") (some "b")) fine)).heap[1]?
      = some { clientB with process := none } ∧
    newEffects twoClients
        (step twoClients
          (.message 0 (.fields (some "[package]") (some "fn main()") none (some "b")) fine))
      = [.writeFile "./docker_workspaces/b/Cargo.toml" "[package]",
         .writeFile "./docker_workspaces/b/src/main.rs" "fn main()",
         .spawn 2 "rust-workspace-b" "mkdir -p /usr/src/app/src"] :=
  ⟨⟨twoClientsTrace, rfl⟩, by decide, by decide, by decide, by decide, by decide, by decide⟩

/-- C20 (amended): a message on a connection whose handlers are registered
acts on the client named by `receivedClientId || clientId`: the `clientId`
field of the message when it is a non-empty string, the client the connection
was created for otherwise.  When no such client is registered, the handler
only reports it.  Otherwise every call of the handler names only the
connection, and the workspace files Cargo.toml and src/main.rs, the
container and the process slot of that client; the record of that client
changes in its process slot only, and every other record is as it was.
`stop` signals the process in the slot and clears the slot; a run writes the
two files and spawns `mkdir -p`.  The callbacks that follow (the exit of
`mkdir`, the two copies, the start of `cargo run`) copy the two files of that
client into its container, signal the process in its slot and store the new
process there; they leave every other record as it was. -/
theorem message_acts_on_named_client (s : State) (ws : Ws) (c : Conn)
    (cargoToml mainRs action rid : Option String) (env : SyncEnv)
    (hc : s.conns[ws]? = some c) (hl : c.listening = true) (hcl : c.closed = false) :
    (activeClientIdOf none c.clientId = c.clientId ∧
      activeClientIdOf (some "") c.clientId = c.clientId ∧
      ∀ id, id ≠ "" → activeClientIdOf (some id) c.clientId = id) ∧
    (getClient s (activeClientIdOf rid c.clientId) = none →
      newEffects s (step s (.message ws (.fields cargoToml mainRs action rid) env))
          = [.send ws (.failure "Invalid client ID or session expired" none none)] ∧
        (step s (.message ws (.fields cargoToml mainRs action rid) env)).heap = s.heap) ∧
    (∀ (r : Ref) (client : Client),
      getClient s (activeClientIdOf rid c.clientId) = some (r, client) →
      (∀ e ∈ newEffects s (step s (.message ws (.fields cargoToml mainRs action rid) env)),
        actsOn ws client e = true) ∧
      (∀ r', r' ≠ r →
        (step s (.message ws (.fields cargoToml mainRs action rid) env)).heap[r']?
          = s.heap[r']?) ∧
      (∃ slot, (step s (.message ws (.fields cargoToml mainRs action rid) env)).heap[r]?
        = some { client with process := slot }) ∧
      (action = some "stop" → ∀ pid, client.process = some pid →
        newEffects s (step s (.message ws (.fields cargoToml mainRs action rid) env))
            = [.procKill pid "SIGTERM",
               .send ws (.status "Rust process stopped" (activeClientIdOf rid c.clientId))] ∧
          (step s (.message ws (.fields cargoToml mainRs action rid) env)).heap[r]?
            = some { client with process := none }) ∧
      (action ≠ some "stop" → ∀ cargo main, cargoToml = some cargo → mainRs = some main →
        env.writeCargoErr = none → env.writeMainErr = none →
        newEffects s (step s (.message ws (.fields cargoToml mainRs action rid) env))
            = [.writeFile (client.workspace ++ "/Cargo.toml") cargo,
               .writeFile (client.workspace ++ "/src/main.rs") main,
               .spawn s.procs.length client.containerName "mkdir -p /usr/src/app/src"] ∧
          (step s (.message ws (.fields cargoToml mainRs action rid) env)).procs
            = s.procs ++ [⟨.mkdir r (activeClientIdOf rid c.clientId), false⟩])) ∧
    (∀ (x : State) (pid : Pid) (r : Ref) (active : String) (client : Client),
      x.procs[pid]? = some ⟨.mkdir r active, false⟩ → x.heap[r]? = some client →
      newEffects x (step x (.procExit pid))
          = [.dockerCp client.containerName (client.workspace ++ "/Cargo.toml")
              "/usr/src/app/Cargo.toml"] ∧
        (step x (.procExit pid)).heap = x.heap ∧
        (step x (.procExit pid)).tasks = x.tasks ++ [(x.nextTask, .copyCargo r active)]) ∧
    (∀ (x : State) (k : TaskId) (r : Ref) (active : String) (client : Client),
      mapGet x.tasks k = some (.copyCargo r active) → x.heap[r]? = some client →
      newEffects x (step x (.resume k none))
          = [.dockerCp client.containerName (client.workspace ++ "/src/main.rs")
              "/usr/src/app/src/main.rs"] ∧
        (step x (.resume k none)).heap = x.heap ∧
        (step x (.resume k none)).tasks
          = mapDelete x.tasks k ++ [(x.nextTask, .copyMain r active)]) ∧
    (∀ (x : State) (k : TaskId) (r : Ref) (active : String) (client : Client),
      mapGet x.tasks k = some (.copyMain r active) → x.heap[r]? = some client →
      newEffects x (step x (.resume k none))
          = killEffects client
            ++ [.spawn x.procs.length client.containerName "cd /usr/src/app && cargo run"] ∧
        (∀ r', r' ≠ r → (step x (.resume k none)).heap[r']? = x.heap[r']?) ∧
        (step x (.resume k none)).heap[r]?
          = some { client with process := some x.procs.length }) := by
  refine ⟨⟨?_, ?_, ?_⟩, ?_, ?_, ?_, ?_, ?_⟩
  · simp [activeClientIdOf, truthy]
  · simp [activeClientIdOf, truthy]
  · intro id hid
    simp [activeClientIdOf, truthy, hid]
  · intro hg
    have hg' : getClient s (if truthy rid = true then rid.getD "" else c.clientId) = none := hg
    rw [step_message_listening hc hl hcl]
    simp [onMessage, hg', newEffects, send, emit]
  · intro r client hg
    rw [step_message_listening hc hl hcl]
    obtain ⟨h1, h2, h3⟩ :=
      onMessage_frame s ws c.clientId cargoToml mainRs action rid env r client hg
    have hr := getClient_some hg
    have hg' : getClient s (if truthy rid = true then rid.getD "" else c.clientId)
        = some (r, client) := hg
    refine ⟨h1, h2, h3, ?_, ?_⟩
    · intro ha pid hp
      refine ⟨?_, ?_⟩
      · simp [onMessage, hg', ha, hp, newEffects, send, emit, updClient, activeClientIdOf]
      · simp [onMessage, hg', ha, hp, send, emit, updClient_heap_get, hr]
    · intro ha cargo main hcargo hmain hw1 hw2
      subst hcargo; subst hmain
      refine ⟨?_, ?_⟩
      · simp [onMessage, hg', ha, newEffects, send, emit, addProc, writeFileError, hw1, hw2]
      · simp [onMessage, hg', ha, send, emit, addProc, writeFileError, hw1, hw2,
          activeClientIdOf]
  · intro x pid r active client hp hr
    simp [step, onProcExit, hp, markExited, hr, newEffects, emit, suspend]
  · intro x k r active client hk hr
    simp [step, hk, resumeTask, copyCargoAfter, takeTask, hr, newEffects, emit, suspend]
  · intro x k r active client hk hr
    refine ⟨?_, ?_, ?_⟩
    · simp [step, hk, resumeTask, copyMainAfter, takeTask, hr, newEffects, emit, emits,
        addProc, updClient]
    · intro r' hne
      simp [step, hk, resumeTask, copyMainAfter, takeTask, hr, emit, emits, addProc,
        updClient_heap_get, Ne.symm hne]
    · simp [step, hk, resumeTask, copyMainAfter, takeTask, hr, emit, emits, addProc,
        updClient_heap_get]

/-- Witness of C20: in `twoClients` a message on connection 0 names client
`b`; the record of `a` is as it was. -/
theorem message_acts_on_named_client_witness :
    (twoClients.conns[0]? = some ⟨"a", true, false, true⟩ ∧
      getClient twoClients (activeClientIdOf (some "b") "a") = some (1, clientB)) ∧
    (step twoClients (.message 0 (.fields none none (some "stop") (some "b")) fine)).heap[0]?
      = twoClients.heap[0]? :=
  ⟨⟨by decide, by decide⟩,
    ((message_acts_on_named_client twoClients 0 ⟨"a", true, false, true⟩ none none
      (some "stop") (some "b") fine (by decide) rfl rfl).2.2.1 1 clientB (by decide)).2.1 0
      (by decide)⟩
end CodeRunner

namespace TaskStore

open TerminalServer (truthy)

/-! ## C25: the next task -/

theorem orZero_eq (x : Option Int) : orZero x = x.getD 0 := by
  cases x with
  | none => rfl
  | some n =>
    by_cases h : n = 0
    · simp [orZero, h]
    · simp [orZero, h]

theorem isNext_iff (data : TasksData) (t : Task) :
    isNext data t = true ↔
      t.task_id > data.last_completed_task_id.getD 0 ∧ t.completed = false := by
  simp [isNext, orZero_eq]

/-- Counterexample of C25: task 2 of a file with the uncompleted tasks 1 and
2 is marked as complete; `next_task` then finds no task with an id above 2
and answers 'All tasks are completed', while task 1 is not completed. -/
theorem next_task_all_completed_with_open_task :
    complete (some "u1") twoTasks (some 2) true
      = (secondDone, .marked ⟨2, true, "shoot"⟩) ∧
    next_task (some "u1") secondDone = .allCompleted ∧
    (⟨1, false, "move the ship"⟩ : Task) ∈ secondDone.tasks := by
  refine ⟨?_, ?_, ?_⟩ <;> decide

/-- C25 (amended): for a request with a uuid, every task list and every value
of last_completed_task_id, `next_task` returns a task exactly when it is the
first task in list order whose id is greater than last_completed_task_id (0
when unset) and that is not completed; it answers 'All tasks are completed'
exactly when every task whose id is greater than last_completed_task_id is
completed, so in particular when every task of the list is completed. -/
theorem next_task_spec (uuid : Option String) (data : TasksData) (hu : truthy uuid = true) :
    (∀ t, next_task uuid data = .task t ↔
      ∃ before after, data.tasks = before ++ t :: after ∧
        (t.task_id > data.last_completed_task_id.getD 0 ∧ t.completed = false) ∧
        ∀ u ∈ before,
          ¬ (u.task_id > data.last_completed_task_id.getD 0 ∧ u.completed = false)) ∧
    (next_task uuid data = .allCompleted ↔
      ∀ t ∈ data.tasks, t.task_id > data.last_completed_task_id.getD 0 → t.completed = true) ∧
    ((∀ t ∈ data.tasks, t.completed = true) → next_task uuid data = .allCompleted) := by
  have hall : next_task uuid data = .allCompleted ↔
      ∀ t ∈ data.tasks, t.task_id > data.last_completed_task_id.getD 0 →
        t.completed = true := by
    unfold next_task
    simp only [hu, Bool.not_true, Bool.false_eq_true, if_false]
    cases hf : data.tasks.find? (isNext data) with
    | none =>
      simp only [true_iff]
      intro t ht hgt
      have := List.find?_eq_none.1 hf t ht
      rw [isNext_iff] at this
      cases hc : t.completed with
      | true => rfl
      | false => exact absurd ⟨hgt, hc⟩ this
    | some t =>
      refine ⟨fun h => (by cases h), fun h => ?_⟩
      have hp := List.find?_some hf
      have hm := List.mem_of_find?_eq_some hf
      rw [isNext_iff] at hp
      have := h t hm hp.1
      rw [hp.2] at this
      cases this
  refine ⟨?_, hall, ?_⟩
  · intro t
    unfold next_task
    simp only [hu, Bool.not_true, Bool.false_eq_true, if_false]
    constructor
    · intro h
      cases hf : data.tasks.find? (isNext data) with
      | none => rw [hf] at h; cases h
      | some t' =>
        rw [hf] at h
        cases h
        obtain ⟨hp, before, after, hl, hb⟩ := List.find?_eq_some.1 hf
        refine ⟨before, after, hl, (isNext_iff data t).1 hp, ?_⟩
        intro u hu' hc
        have := hb u hu'
        rw [(isNext_iff data u).2 hc] at this
        cases this
    · rintro ⟨before, after, hl, hp, hb⟩
      have hf : data.tasks.find? (isNext data) = some t := by
        apply List.find?_eq_some.2
        refine ⟨(isNext_iff data t).2 hp, before, after, hl, ?_⟩
        intro u hu'
        have := hb u hu'
        rw [← isNext_iff] at this
        simpa using this
      simp only [hf]
  · intro h
    exact hall.2 (fun t ht _ => h t ht)

/-- Witness of C25 (amended): in the file `twoTasks` nothing is completed and
task 1 is the first task with an id above 0. -/
theorem next_task_spec_witness :
    truthy (some "u1") = true ∧
    (next_task (some "u1") twoTasks = .task ⟨1, false, "move the ship"⟩ ↔
      ∃ before after, twoTasks.tasks = before ++ ⟨1, false, "move the ship"⟩ :: after ∧
        (((⟨1, false, "move the ship"⟩ : Task).task_id
            > twoTasks.last_completed_task_id.getD 0 ∧
          (⟨1, false, "move the ship"⟩ : Task).completed = false)) ∧
        ∀ u ∈ before,
          ¬ (u.task_id > twoTasks.last_completed_task_id.getD 0 ∧ u.completed = false)) ∧
    next_task (some "u1") twoTasks = .task ⟨1, false, "move the ship"⟩ :=
  ⟨by decide, (next_task_spec (some "u1") twoTasks (by decide)).1 _, by decide⟩
end TaskStore
